import Mathlib

/-!
# IKEv2 task manager with selective fragment retransmission

A shallow embedding of `src/libcharon/sa/ikev2/task_manager_v2.c`: the fragment
tracker, the FRAGMENT_ACK record and its byte representation, the packet sender
path, the retransmission controller and the two exchange state machines of the
initiator and the responder.  Machine integers are natural numbers
reduced modulo `2^16` or `2^32` at the places where the C code stores them into
a `uint16_t` or `uint32_t`.  Pointers that the C code only tests against NULL
become `Option`.  Collaborators that live outside this file of the daemon (the
scheduler, the sender, the bus, the MOBIKE task, the settings) are represented
by the calls made on them, collected in an effect record, and by the values they
hand back, collected in an environment record.
-/

namespace TaskManagerV2

/-! ## Machine words and byte order -/

/-- Byte order of a host. -/
inductive Endian where
  | little
  | big
deriving DecidableEq, Repr

/-- Truncation to `uint16_t`. -/
def u16 (x : Nat) : Nat := x % 65536

/-- Truncation to `uint32_t`. -/
def u32 (x : Nat) : Nat := x % 4294967296

/-- Swap of the two bytes of a 16 bit word. -/
def bswap_16 (x : Nat) : Nat := ((x >>> 8) &&& 255) ||| ((x &&& 255) <<< 8)

/-- The libc function `htons`: identity on a big endian host, byte swap on a
little endian one.  The argument is converted to `uint16_t` first. -/
def htons (e : Endian) (x : Nat) : Nat :=
  match e with
  | Endian.big => u16 x
  | Endian.little => bswap_16 (u16 x)

/-- The libc function `ntohs`, the same operation as `htons`. -/
def ntohs (e : Endian) (x : Nat) : Nat := htons e x

/-- The two bytes a host keeps in memory for a 16 bit word. -/
def store_16 (e : Endian) (x : Nat) : List Nat :=
  match e with
  | Endian.little => [x &&& 255, (x >>> 8) &&& 255]
  | Endian.big => [(x >>> 8) &&& 255, x &&& 255]

/-- The 16 bit word a host reads from two consecutive bytes of memory. -/
def load_16 (e : Endian) (b0 b1 : Nat) : Nat :=
  match e with
  | Endian.little => b0 ||| (b1 <<< 8)
  | Endian.big => (b0 <<< 8) ||| b1

/-! ## Data model (lines 60-98) -/

/-- A UDP packet: the bytes of the datagram and its two addresses. -/
structure packet_t where
  data : List Nat := []
  source : Option Nat := none
  destination : Option Nat := none
deriving DecidableEq, Repr

/-- The length of the data of a packet, `packet->get_data(packet).len`. -/
def packet_t.len (p : packet_t) : Nat := p.data.length

/-- Fragment state tracking for selective retransmission (`fragment_state_t`). -/
structure fragment_state_t where
  fragment_id : Nat := 0
  packet : packet_t := {}
  acknowledged : Bool := false
  last_sent : Nat := 0
  retransmit_count : Nat := 0
  data_size : Nat := 0
  total_transmitted : Nat := 0
deriving DecidableEq, Repr

/-- Fragment tracker for a message (`fragment_tracker_t`). -/
structure fragment_tracker_t where
  message_id : Nat := 0
  fragments : List fragment_state_t := []
  total_fragments : Nat := 0
  acked_fragments : Nat := 0
  last_ack_time : Nat := 0
  selective_retransmission_supported : Bool := false
  total_original_size : Nat := 0
  total_transmitted_size : Nat := 0
  retransmission_count : Nat := 0
deriving DecidableEq, Repr

/-- Fragment acknowledgment data format (`fragment_ack_data_t`), a packed record
of eleven 16 bit words.  The fields hold the words as the host reads them from
memory; `ack_bitmap` is the array of eight words. -/
structure fragment_ack_data_t where
  message_id : Nat := 0
  total_fragments : Nat := 0
  received_count : Nat := 0
  ack_bitmap : List Nat := [0, 0, 0, 0, 0, 0, 0, 0]
deriving DecidableEq, Repr

/-- The value of `sizeof(fragment_ack_data_t)`. -/
def sizeof_fragment_ack_data_t : Nat := 22

/-- The bytes of a record in the memory of a host, as taken by
`chunk_create((uint8_t*)&ack, sizeof(fragment_ack_data_t))` (line 4141). -/
def chunk_of_ack (e : Endian) (a : fragment_ack_data_t) : List Nat :=
  store_16 e a.message_id ++ store_16 e a.total_fragments ++ store_16 e a.received_count
    ++ (a.ack_bitmap.map (store_16 e)).flatten

/-- The 16 bit word number `i` of a chunk, as the host reads it. -/
def word_at (e : Endian) (c : List Nat) (i : Nat) : Nat :=
  load_16 e (c.getD (2 * i) 0) (c.getD (2 * i + 1) 0)

/-- The record a host sees behind `(fragment_ack_data_t*)ack_data.ptr`
(line 3913). -/
def ack_of_chunk (e : Endian) (c : List Nat) : fragment_ack_data_t :=
  { message_id := word_at e c 0
    total_fragments := word_at e c 1
    received_count := word_at e c 2
    ack_bitmap := (List.range 8).map (fun i => word_at e c (3 + i)) }

/-! ## Fragment tracker (lines 3480-3636) -/

/-- Create fragment tracker for a message (lines 3483-3501); `now` is the value
of `time_monotonic(NULL)`. -/
def create_fragment_tracker (now message_id total_fragments : Nat) : fragment_tracker_t :=
  { message_id := message_id
    fragments := []
    total_fragments := total_fragments
    acked_fragments := 0
    last_ack_time := now
    selective_retransmission_supported := false
    total_original_size := 0
    total_transmitted_size := 0
    retransmission_count := 0 }

/-- Add fragment to tracker (lines 3506-3535).  Only the original size is
accumulated here. -/
def add_fragment_to_tracker (now : Nat) (tracker : fragment_tracker_t) (fragment_id : Nat)
    (packet : packet_t) : fragment_tracker_t :=
  let data_size := u32 packet.len
  let fragment : fragment_state_t :=
    { fragment_id := fragment_id
      packet := packet
      acknowledged := false
      last_sent := now
      retransmit_count := 0
      data_size := data_size
      total_transmitted := 0 }
  { tracker with
    fragments := tracker.fragments ++ [fragment]
    total_original_size := u32 (tracker.total_original_size + data_size) }

/-- Find fragment in tracker (lines 3540-3562). -/
def find_fragment_in_tracker (tracker : fragment_tracker_t) (fragment_id : Nat) :
    Option fragment_state_t :=
  tracker.fragments.find? (fun f => f.fragment_id == fragment_id)

/-- The test of lines 3596-3609: is the fragment number acknowledged in the bitmap
of the record. -/
def is_acked_in_current (e : Endian) (ack_data : fragment_ack_data_t) (fragment_id : Nat) :
    Bool :=
  if 0 < fragment_id ∧ fragment_id ≤ 64 then
    let bitmap_index := (fragment_id - 1) / 16
    let bit_position := (fragment_id - 1) % 16
    let bitmap_value := ntohs e (ack_data.ack_bitmap.getD bitmap_index 0)
    (bitmap_value &&& (1 <<< bit_position)) != 0
  else
    false

/-- The enumeration of lines 3592-3620 over the fragment array; the second
component is the running value of `tracker->acked_fragments`, a `uint16_t`. -/
def ack_loop (e : Endian) (ack_data : fragment_ack_data_t) :
    List fragment_state_t → Nat → List fragment_state_t × Nat
  | [], acked => ([], acked)
  | fragment :: rest, acked =>
    if is_acked_in_current e ack_data fragment.fragment_id && !fragment.acknowledged then
      let r := ack_loop e ack_data rest (u16 (acked + 1))
      ({ fragment with acknowledged := true } :: r.1, r.2)
    else
      let r := ack_loop e ack_data rest acked
      (fragment :: r.1, r.2)

/-- Update fragment acknowledgment status from a received record
(lines 3567-3636).  The loops that only write to the log are left out; the one
of lines 3624-3630 counts a `uint16_t` up to and including `total_fragments`
and does not end when that is 65535. -/
def update_fragment_ack_status (e : Endian) (now : Nat) (tracker : fragment_tracker_t)
    (ack_data : fragment_ack_data_t) : fragment_tracker_t :=
  let r := ack_loop e ack_data tracker.fragments tracker.acked_fragments
  { tracker with fragments := r.1, acked_fragments := r.2, last_ack_time := now }

/-! ## Messages and the acknowledgment record on the sending side (lines 4004-4218) -/

/-- Status codes of the daemon (`status_t`). -/
inductive status_t where
  | SUCCESS
  | FAILED
  | OUT_OF_RES
  | ALREADY_DONE
  | NOT_SUPPORTED
  | INVALID_ARG
  | NOT_FOUND
  | PARSE_ERROR
  | VERIFY_ERROR
  | INVALID_STATE
  | DESTROY_ME
  | NEED_MORE
deriving DecidableEq, Repr

/-- Exchange types (`exchange_type_t`). -/
inductive exchange_type_t where
  | EXCHANGE_TYPE_UNDEFINED
  | IKE_SA_INIT
  | IKE_AUTH
  | CREATE_CHILD_SA
  | INFORMATIONAL
  | IKE_INTERMEDIATE
  | OTHER_EXCHANGE (n : Nat)
deriving DecidableEq, Repr

/-- Notify types; the two private numbers of the extension are kept symbolic. -/
inductive notify_type_t where
  | FRAGMENT_ACK
  | SELECTIVE_FRAGMENT_RETRANSMISSION_SUPPORTED
  | OTHER_NOTIFY (n : Nat)
  | INVALID_SYNTAX
  | UNSUPPORTED_CRITICAL_PAYLOAD
  | NO_PROPOSAL_CHOSEN
  | AUTHENTICATION_FAILED
  | REKEY_SA
  | ADDITIONAL_IP4_ADDRESS
  | ADDITIONAL_IP6_ADDRESS
  | NO_ADDITIONAL_ADDRESSES
  | UPDATE_SA_ADDRESSES
  | NO_NATS_ALLOWED
  | UNACCEPTABLE_ADDRESSES
  | UNEXPECTED_NAT_DETECTED
  | COOKIE2
  | NAT_DETECTION_SOURCE_IP
  | NAT_DETECTION_DESTINATION_IP
  | AUTH_LIFETIME
  | REDIRECT
  | IKEV2_MESSAGE_ID_SYNC
  | IPSEC_REPLAY_COUNTER_SYNC
deriving DecidableEq, Repr

/-- Protocol identifiers (`protocol_id_t`), by their numbers on the wire. -/
def PROTO_NONE : Nat := 0

/-- The protocol number of IKE. -/
def PROTO_IKE : Nat := 1

/-- The protocol number of AH. -/
def PROTO_AH : Nat := 2

/-- The protocol number of ESP. -/
def PROTO_ESP : Nat := 3

/-- A notify payload: its type, protocol and notification data. -/
structure notify_payload_t where
  notify_type : notify_type_t := notify_type_t.OTHER_NOTIFY 0
  protocol_id : Nat := 0
  notification_data : List Nat := []
deriving DecidableEq, Repr

/-- Payloads of a message, as far as this file looks into them: notify, delete,
traffic selector, encrypted fragment and unknown payloads, and any other one. -/
inductive payload_t where
  | PLV2_NOTIFY (n : notify_payload_t)
  | PLV2_OTHER (payload_type : Nat)
  | PLV2_DELETE (protocol_id : Nat)
  | PLV2_TS_INITIATOR
  | PLV2_TS_RESPONDER
  | PLV2_FRAGMENT (fragment_number : Nat)
  | PL_UNKNOWN (payload_type : Nat) (is_critical : Bool)
deriving DecidableEq, Repr

/-- An IKE message, as far as this file looks into it.  `payloads` is the list
the payload enumerator, `get_payload` and `get_notify` go through once the body
of the message is parsed (before that the list is empty, see `unparsed`),
`packet_data` the bytes of the packet it came in, and `parse_body` the status
its parser answers with when the body is parsed. -/
structure message_t where
  exchange_type : exchange_type_t := exchange_type_t.EXCHANGE_TYPE_UNDEFINED
  request : Bool := false
  message_id : Nat := 0
  source : Option Nat := none
  destination : Option Nat := none
  payloads : List payload_t := []
  packet_data : List Nat := []
  parse_body : status_t := status_t.SUCCESS
deriving DecidableEq, Repr

/-- The method `message->get_notify(message, type)`: the first notify payload of
the given type. -/
def message_t.get_notify (m : message_t) (t : notify_type_t) : Option notify_payload_t :=
  m.payloads.findSome? (fun p =>
    match p with
    | payload_t.PLV2_NOTIFY n => if n.notify_type = t then some n else none
    | _ => none)

/-- The message as `process_message` gets it, before `parse_message` has parsed
its body: the payload list is still empty (the comments at lines 2423 and 2623
say so), so the payload enumerator and `get_notify` find nothing.  The field
`payloads` of a message is what the list holds once the body is parsed. -/
def unparsed (msg : message_t) : message_t :=
  { msg with payloads := [] }

/-- The reassembly helper `defrag` as the acknowledgment code reads it.  A field
is `none` when the method pointer is NULL; the list is the array returned by
`get_received_fragments`, its length the count written through the out pointer.
`reassembled` is the message the helper is once its last fragment was added. -/
structure defrag_t where
  get_total_fragments : Option Nat := none
  get_received_fragments : Option (List Nat) := none
  reassembled : message_t := {}
deriving DecidableEq, Repr

/-- The statement `ack.ack_bitmap[bitmap_index] |= htons(1 << bit_position)` with
its guard `frag_id > 0 && frag_id <= 64` (lines 4086-4093). -/
def set_bitmap_bit (e : Endian) (bitmap : List Nat) (frag_id : Nat) : List Nat :=
  if 0 < frag_id ∧ frag_id ≤ 64 then
    let bitmap_index := (frag_id - 1) / 16
    let bit_position := (frag_id - 1) % 16
    bitmap.set bitmap_index (bitmap.getD bitmap_index 0 ||| htons e (1 <<< bit_position))
  else
    bitmap

/-- What lines 4013-4139 of `send_immediate_fragment_ack` produce. -/
inductive ack_build_t where
  | no_return
  | built (ack : fragment_ack_data_t)
deriving DecidableEq, Repr

/-- The record built by `send_immediate_fragment_ack` (lines 4013-4139) on a host
of byte order `e`.  `malloc_ok` tells whether the `malloc` of lines 4039 and 4056
succeeds.  The loops of lines 4101 and 4117 count a `uint16_t` up to and
including `total_fragments`, which never ends when that is 65535. -/
def build_fragment_ack (e : Endian) (malloc_ok : Bool) (defrag : defrag_t)
    (message_id fragment_number : Nat) : ack_build_t :=
  let total_fragments0 : Nat := u16 (defrag.get_total_fragments.getD 0)
  let received_frags0 : Option (List Nat) := defrag.get_received_fragments
  let received_count0 : Nat := u16 ((defrag.get_received_fragments.getD []).length)
  let complete_array (n : Nat) : Option (List Nat) :=
    if malloc_ok then some ((List.range n).map (fun i => u16 (i + 1))) else none
  let vars : Nat × Nat × Option (List Nat) × Bool :=
    if received_count0 = 0 ∧ total_fragments0 = 0 then
      (u16 fragment_number, u16 fragment_number, complete_array (u16 fragment_number), true)
    else if received_count0 = 0 ∧ 0 < total_fragments0 then
      (total_fragments0, total_fragments0, complete_array total_fragments0, true)
    else
      (total_fragments0, received_count0, received_frags0, false)
  let total_fragments := vars.1
  let received_count := vars.2.1
  let received_frags := vars.2.2.1
  let message_reassembled := vars.2.2.2
  let empty_bitmap : List Nat := [0, 0, 0, 0, 0, 0, 0, 0]
  let header (bitmap : List Nat) : fragment_ack_data_t :=
    { message_id := htons e (u16 message_id)
      total_fragments := htons e total_fragments
      received_count := htons e received_count
      ack_bitmap := bitmap }
  match received_frags with
  | some frags =>
    if 0 < received_count then
      ack_build_t.built (header ((frags.take received_count).foldl (set_bitmap_bit e) empty_bitmap))
    else if (message_reassembled ∧ 0 < total_fragments) ∨ (0 < received_count ∧ 0 < total_fragments) then
      if total_fragments = 65535 then ack_build_t.no_return
      else ack_build_t.built
        (header ((List.range' 1 total_fragments).foldl (set_bitmap_bit e) empty_bitmap))
    else
      ack_build_t.built (header (set_bitmap_bit e empty_bitmap (u16 fragment_number)))
  | none =>
    if (message_reassembled ∧ 0 < total_fragments) ∨ (0 < received_count ∧ 0 < total_fragments) then
      if total_fragments = 65535 then ack_build_t.no_return
      else ack_build_t.built
        (header ((List.range' 1 total_fragments).foldl (set_bitmap_bit e) empty_bitmap))
    else
      ack_build_t.built (header (set_bitmap_bit e empty_bitmap (u16 fragment_number)))

/-- The message that `send_immediate_fragment_ack` hands to the generation
service of the IKE_SA (lines 4141-4199): an INFORMATIONAL request with message
ID 0 whose single payload is the FRAGMENT_ACK notify carrying the record. -/
def fragment_ack_message (e : Endian) (me other : Option Nat) (ack : fragment_ack_data_t) :
    message_t :=
  { exchange_type := exchange_type_t.INFORMATIONAL
    request := true
    message_id := 0
    source := if me.isSome ∧ other.isSome then me else none
    destination := if me.isSome ∧ other.isSome then other else none
    payloads := [payload_t.PLV2_NOTIFY
      { notify_type := notify_type_t.FRAGMENT_ACK
        protocol_id := 0
        notification_data := chunk_of_ack e ack }] }

/-- The function `send_immediate_fragment_ack` (lines 4004-4218) up to the call of
the generation service: `none` when `defrag` is NULL, when nothing is built. -/
def send_immediate_fragment_ack (e : Endian) (malloc_ok : Bool) (me other : Option Nat)
    (defrag : Option defrag_t) (message_id fragment_number : Nat) : Option message_t :=
  match defrag with
  | none => none
  | some d =>
    match build_fragment_ack e malloc_ok d message_id fragment_number with
    | ack_build_t.no_return => none
    | ack_build_t.built ack => some (fragment_ack_message e me other ack)

/-! ## The task manager state (lines 121-276) -/

/-- Task types (`task_type_t`). -/
inductive task_type_t where
  | TASK_IKE_INIT
  | TASK_IKE_NATD
  | TASK_IKE_MOBIKE
  | TASK_IKE_AUTH
  | TASK_IKE_AUTH_LIFETIME
  | TASK_IKE_CERT_PRE
  | TASK_IKE_CERT_POST
  | TASK_IKE_CONFIG
  | TASK_IKE_REKEY
  | TASK_IKE_REAUTH
  | TASK_IKE_REAUTH_COMPLETE
  | TASK_IKE_REDIRECT
  | TASK_IKE_VERIFY_PEER_CERT
  | TASK_IKE_MID_SYNC
  | TASK_IKE_DELETE
  | TASK_IKE_DPD
  | TASK_IKE_VENDOR
  | TASK_IKE_ESTABLISH
  | TASK_CHILD_CREATE
  | TASK_CHILD_DELETE
  | TASK_CHILD_REKEY
deriving DecidableEq, Repr

/-- A task, as far as the manager looks into it: its type and what its methods
answer during the operation that is modelled.  For a MOBIKE task these are the
answer of `is_probing` before a call of `transmit`, that of `transmit`, and that
of `is_probing` after it.  For every task they are the status each of `build`,
`post_build`, `pre_process`, `process` and `post_process` returns, `none` where
the method pointer is NULL; the exchange type `build` sets on the message when
it alters it; the arguments with which `process` has the IKE_SA call `reset` on
the manager when it does; the status of `derive_keys` of an IKE_INIT task; and
the answer of `collide` of a rekey task. -/
structure task_t where
  type : task_type_t := task_type_t.TASK_IKE_DPD
  ident : Nat := 0
  is_probing : Bool := false
  transmit : Bool := true
  is_probing_after_transmit : Bool := false
  build : status_t := status_t.NEED_MORE
  build_exchange_type : Option exchange_type_t := none
  post_build : Option status_t := none
  pre_process : Option status_t := none
  process : status_t := status_t.SUCCESS
  process_reset : Option (Nat × Nat) := none
  post_process : Option status_t := none
  derive_keys : status_t := status_t.SUCCESS
  collide : Bool := false
deriving DecidableEq, Repr

/-- The jobs the manager creates: `retransmit_job_create`,
`delete_ike_sa_job_create` and `initiate_tasks_job_create`. -/
inductive job_kind_t where
  | retransmit_job
  | delete_ike_sa_job
  | initiate_tasks_job
deriving DecidableEq, Repr

/-- A job; for a retransmit job, `retransmit_job_create(message_id, ike_sa_id)`,
the message ID it carries. -/
structure job_t where
  message_id : Nat := 0
  kind : job_kind_t := job_kind_t.retransmit_job
deriving DecidableEq, Repr

/-- Queued tasks (`queued_task_t`): the task and the time before which it is not
to be initiated. -/
structure queued_task_t where
  task : task_t := {}
  time : Nat := 0
deriving DecidableEq, Repr

/-- Private data of the task manager (`private_task_manager_t`).  The members of
the two anonymous records `responding` and `initiating` carry the name of their
record as a first component of their name; the retransmission settings are
represented by their member `tries`; the pointers to the public interface and to
the IKE_SA are left out. -/
structure private_task_manager_t where
  responding_mid : Nat := 0
  responding_defrag : Option defrag_t := none
  responding_hash : List Nat := []
  responding_packets : List packet_t := []
  responding_prev_hash : List Nat := []
  initiating_mid : Nat := 0
  initiating_retransmitted : Nat := 0
  initiating_retransmit_sent : Bool := false
  initiating_packets : List packet_t := []
  initiating_type : exchange_type_t := exchange_type_t.EXCHANGE_TYPE_UNDEFINED
  initiating_deferred : Bool := false
  initiating_defrag : Option defrag_t := none
  queued_tasks : List queued_task_t := []
  active_tasks : List task_t := []
  passive_tasks : List task_t := []
  reset : Bool := false
  retransmit_tries : Nat := 5
  make_before_break : Bool := false
  outgoing_tracker : Option fragment_tracker_t := none
  peer_supports_selective_retransmission : Bool := false
  selective_retransmission_enabled : Bool := true
  current_retransmit_job : Option job_t := none
  start_time : Nat := 0
  request_original_size : Nat := 0
  request_total_transmitted : Nat := 0
  request_retransmission_count : Nat := 0
  response_original_size : Nat := 0
  response_total_transmitted : Nat := 0
  response_retransmission_count : Nat := 0
deriving DecidableEq, Repr

/-- States of an IKE_SA (`ike_sa_state_t`). -/
inductive ike_sa_state_t where
  | IKE_CREATED
  | IKE_CONNECTING
  | IKE_ESTABLISHED
  | IKE_PASSIVE
  | IKE_REKEYING
  | IKE_REKEYED
  | IKE_DELETING
  | IKE_DESTROYING
deriving DecidableEq, Repr

/-- Values handed back by the collaborators of the manager during one call: the
clock, the two host addresses of the IKE_SA, the setting
`debug.simulate_first_fragment_loss`, the function `retransmission_timeout` of
the retransmission settings, and the two routability constants; the state of the
IKE_SA, whether its identifier is that of an initiator, whether it supports the
MOBIKE and the message ID synchronisation extensions, whether it has an IKE
configuration and whether the backends find one, whether its two addresses are
wildcards, and the setting `half_open_timeout`; the SHA-1 hasher of the crypto
factory (`none` when none can be created or hashing fails); the two generation
services of the IKE_SA (`none` when they fail); the task constructors; what a
listener on the bus makes of a parsed message; the reassembler
(`message_create_defrag` and `add_fragment`); and whether `malloc` succeeds. -/
structure env_t where
  now : Nat := 0
  my_host : Option Nat := some 1
  other_host : Option Nat := some 2
  simulate_first_fragment_loss : Bool := false
  retransmission_timeout : Nat → Nat := fun _ => 4000
  ROUTABILITY_CHECK_INTERVAL : Nat := 2500
  ROUTABILITY_CHECK_TRIES : Nat := 10
  state : ike_sa_state_t := ike_sa_state_t.IKE_ESTABLISHED
  is_initiator : Bool := false
  supports_EXT_MOBIKE : Bool := false
  supports_EXT_IKE_MESSAGE_ID_SYNC : Bool := false
  has_ike_cfg : Bool := true
  backends_get_ike_cfg : Bool := true
  my_host_is_anyaddr : Bool := false
  other_host_is_anyaddr : Bool := false
  half_open_timeout : Nat := 30
  get_hash : List Nat → Option (List Nat) := fun data => some (data.take 20)
  generate_message_fragmented : message_t → Option (List packet_t) := fun _ => some [{}]
  generate_message : message_t → Option packet_t := fun _ => some {}
  task_create : task_type_t → task_t := fun type => { type := type }
  bus_message : message_t → message_t := fun msg => msg
  message_create_defrag : message_t → Option defrag_t := fun _ => some {}
  add_fragment : defrag_t → message_t → status_t × defrag_t :=
    fun defrag _ => (status_t.NEED_MORE, defrag)
  malloc_ok : Bool := true

/-- Modelled from the spec: the scheduler is not part of this file of the
daemon.  It offers delayed-job scheduling at second granularity through
`schedule_job` (the entry point also used for `half_open_timeout`, a setting in
seconds) and at millisecond granularity through `schedule_job_ms`. -/
inductive sched_call_t where
  | schedule_job (job : job_t) (s : Nat)
  | schedule_job_ms (job : job_t) (ms : Nat)
deriving DecidableEq, Repr

/-- The job of a scheduler call. -/
def sched_call_t.job : sched_call_t → job_t
  | sched_call_t.schedule_job j _ => j
  | sched_call_t.schedule_job_ms j _ => j

/-- Modelled from the spec: the delay in milliseconds after which a scheduled job
fires, given the granularity of the scheduler entry point that was called. -/
def sched_call_t.delay_ms : sched_call_t → Nat
  | sched_call_t.schedule_job _ s => s * 1000
  | sched_call_t.schedule_job_ms _ ms => ms

/-- Alerts raised on the bus. -/
inductive alert_t where
  | ALERT_RETRANSMIT_SEND_TIMEOUT (packet : Option packet_t)
  | ALERT_RETRANSMIT_SEND (packet : Option packet_t) (retransmitted : Nat)
  | ALERT_RETRANSMIT_SEND_CLEARED (packet : Option packet_t)
  | ALERT_RETRANSMIT_RECEIVE (msg : message_t)
  | ALERT_PARSE_ERROR_BODY (msg : message_t) (parse_status : status_t)
deriving DecidableEq, Repr

/-- The methods of a task the manager calls. -/
inductive hook_t where
  | build
  | post_build
  | pre_process
  | process
  | post_process
  | derive_keys
  | collide
  | migrate
  | destroy
deriving DecidableEq, Repr

/-- One call of a method of a task. -/
structure hook_call_t where
  hook : hook_t
  task : task_t
deriving DecidableEq, Repr

/-- Tags of the level 0 log lines of `retransmit` that mark the branch taken. -/
inductive log_t where
  | RETRANSMIT_JOB_EARLY_EXIT
  | RETRANSMIT_DEBUG_ENTERED_IF
  | RETRANSMIT_DEBUG_NO_MOBIKE_PROBING
  | III9_SELECTIVE_RETRANSMIT_COMPLETE
  | III8_SELECTIVE_RETRANSMIT_SHARED_TIMEOUT
  | SELECTIVE_RETRANSMIT_NO_MISSING
  | III1_SELECTIVE_RETRANSMIT_INITIAL
  | III10_SELECTIVE_RETRANSMIT_SHARED_TIMEOUT
  | RETRANSMIT_JOB_CANCELLED_EARLY
  | RETRANSMIT_JOB_CREATING
  | RETRANSMIT_DEBUG_JOB_CREATE_TRADITIONAL
  | RETRANSMIT_OLD_JOB_DETECTED
  | RETRANSMIT_OLD_JOB_TRIGGERING_SELECTIVE
  | RETRANSMIT_OLD_JOB_GRACEFUL_EXIT
  | RETRANSMIT_DEBUG_RETURNING_INVALID_STATE
deriving DecidableEq, Repr

/-- What one call of the manager does to its collaborators: the packets handed
to `charon->sender->send`, the packets handed to `mobike->transmit`, the
scheduler calls, the alerts, whether `COND_STALE` was set, and the branch tags
logged; the calls of methods of tasks, the messages handed to the two
generation services of the IKE_SA, the `ike_updown` events raised on the bus,
and the messages handed to `process_message` of the IKE_SA; each in the order
of the calls.  The calls that only update the IKE_SA (`set_statistic`,
`update_hosts`, `set_my_host`, `set_other_host`, `set_ike_cfg`) are not
recorded. -/
structure effects_t where
  sent : List packet_t := []
  mobike_transmitted : List packet_t := []
  jobs : List sched_call_t := []
  alerts : List alert_t := []
  cond_stale : Bool := false
  log : List log_t := []
  hooks : List hook_call_t := []
  generated : List message_t := []
  ike_updown : List Bool := []
  reinjected : List message_t := []
deriving DecidableEq, Repr

/-- Sequencing of two effect records. -/
def effects_t.append (a b : effects_t) : effects_t :=
  { sent := a.sent ++ b.sent
    mobike_transmitted := a.mobike_transmitted ++ b.mobike_transmitted
    jobs := a.jobs ++ b.jobs
    alerts := a.alerts ++ b.alerts
    cond_stale := a.cond_stale || b.cond_stale
    log := a.log ++ b.log
    hooks := a.hooks ++ b.hooks
    generated := a.generated ++ b.generated
    ike_updown := a.ike_updown ++ b.ike_updown
    reinjected := a.reinjected ++ b.reinjected }

/-! ## Sending packets and generating messages (lines 421-595) -/

/-- The sum of lines 432-436, accumulated in a `uint32_t`. -/
def total_data_size (packets : List packet_t) : Nat :=
  packets.foldl (fun acc p => u32 (acc + u32 p.len)) 0

/-- The clone made at lines 441-449, with the addresses replaced when given. -/
def clone_packet (src dst : Option Nat) (packet : packet_t) : packet_t :=
  { packet with
    source := if src.isSome then src else packet.source
    destination := if dst.isSome then dst else packet.destination }

/-- The test of lines 458-472 for packet number `i` of an array of `count`
packets. -/
def simulate_loss (env : env_t) (this : private_task_manager_t) (count i : Nat)
    (packet : packet_t) : Bool :=
  env.simulate_first_fragment_loss && this.initiating_retransmitted == 0 &&
    decide (1 < count) && i == 0 && decide (50 < packet.len)

/-- The loop of lines 438-488: the clones that reach the sender. -/
def send_loop (env : env_t) (this : private_task_manager_t) (src dst : Option Nat)
    (count : Nat) : Nat → List packet_t → List packet_t
  | _, [] => []
  | i, packet :: rest =>
    if simulate_loss env this count i packet then
      send_loop env this src dst count (i + 1) rest
    else
      clone_packet src dst packet :: send_loop env this src dst count (i + 1) rest

/-- Send packets in the given array (lines 425-517).  Returns the manager, whose
tracker accumulates the transmitted size when it exists and its message ID is
greater than zero, and the packets handed to the sender. -/
def send_packets (env : env_t) (this : private_task_manager_t) (packets : List packet_t)
    (src dst : Option Nat) : private_task_manager_t × List packet_t :=
  let total := total_data_size packets
  let sent := send_loop env this src dst packets.length 0 packets
  match this.outgoing_tracker with
  | some tracker =>
    if 0 < tracker.message_id then
      let tracker1 : fragment_tracker_t :=
        { tracker with total_transmitted_size := u32 (tracker.total_transmitted_size + total) }
      ({ this with outgoing_tracker := some tracker1 }, sent)
    else
      (this, sent)
  | none => (this, sent)

/-- The loop of lines 580-587: the fragments of the packet array are added with
the fragment numbers counted up in a `uint16_t`. -/
def add_fragments (now : Nat) :
    fragment_tracker_t → Nat → List packet_t → fragment_tracker_t
  | tracker, _, [] => tracker
  | tracker, fragment_id, fragment :: rest =>
    add_fragments now (add_fragment_to_tracker now tracker fragment_id fragment)
      (u16 (fragment_id + 1)) rest

/-- Generates the given message and stores the packets in the given array
(lines 522-595).  `generated` is what `generate_message_fragmented` of the
IKE_SA yields, `none` when it fails; `packets` is the array before the call.
Returns the result, the manager and the array after the call. -/
def generate_message (env : env_t) (this : private_task_manager_t) (message_id : Nat)
    (generated : Option (List packet_t)) (packets : List packet_t) :
    Bool × private_task_manager_t × List packet_t :=
  match generated with
  | none => (false, this, packets)
  | some fragments =>
    let packets1 := packets ++ fragments
    let fragment_count := u16 fragments.length
    if 1 < fragment_count ∧ this.selective_retransmission_enabled = true then
      let tracker0 := create_fragment_tracker env.now message_id fragment_count
      let tracker1 := { tracker0 with
        selective_retransmission_supported := this.peer_supports_selective_retransmission
        total_original_size := 0
        total_transmitted_size := 0 }
      let tracker2 := add_fragments env.now tracker1 1 packets1
      (true, { this with outgoing_tracker := some tracker2 }, packets1)
    else
      (true, this, packets1)

/-! ## Selective retransmission and acknowledgment processing (lines 3802-3985) -/

/-- The enumeration of lines 3832-3851 over the fragment array.  The three
accumulators are `missing_packets`, `retransmit_data_size` and `missing_count`,
the last two of type `uint32_t`; the result holds the updated fragment states
and the final accumulators. -/
def missing_loop (current_time : Nat) :
    List fragment_state_t → List packet_t → Nat → Nat →
      List fragment_state_t × List packet_t × Nat × Nat
  | [], missing_packets, retransmit_data_size, missing_count =>
    ([], missing_packets, retransmit_data_size, missing_count)
  | fragment :: rest, missing_packets, retransmit_data_size, missing_count =>
    if fragment.acknowledged then
      let r := missing_loop current_time rest missing_packets retransmit_data_size missing_count
      (fragment :: r.1, r.2)
    else
      let fragment1 : fragment_state_t :=
        { fragment with
          retransmit_count := u32 (fragment.retransmit_count + 1)
          last_sent := current_time
          total_transmitted := u32 (fragment.total_transmitted + fragment.data_size) }
      let r := missing_loop current_time rest (missing_packets ++ [fragment.packet])
        (u32 (retransmit_data_size + fragment.data_size)) (u32 (missing_count + 1))
      (fragment1 :: r.1, r.2)

/-- Result of an operation of the manager: status, manager afterwards, and what
was done to the collaborators. -/
structure result_t where
  status : status_t
  this : private_task_manager_t
  effects : effects_t := {}

/-- Simplified selective retransmission (lines 3806-3880), called on the
outgoing tracker of the manager: retransmit the unacknowledged fragments. -/
def retransmit_missing_fragments_simple (env : env_t) (this : private_task_manager_t) :
    result_t :=
  match this.outgoing_tracker with
  | none => { status := status_t.FAILED, this := this }
  | some tracker =>
    if tracker.acked_fragments = tracker.total_fragments then
      { status := status_t.SUCCESS, this := this }
    else
      let r := missing_loop env.now tracker.fragments [] 0 0
      let missing_packets := r.2.1
      let retransmit_data_size := r.2.2.1
      let missing_count := r.2.2.2
      let tracker1 : fragment_tracker_t := { tracker with fragments := r.1 }
      if 0 < missing_count then
        let tracker2 : fragment_tracker_t :=
          { tracker1 with
            total_transmitted_size := u32 (tracker1.total_transmitted_size + retransmit_data_size)
            retransmission_count := u32 (tracker1.retransmission_count + 1) }
        let s := send_packets env { this with outgoing_tracker := some tracker2 }
          missing_packets env.my_host env.other_host
        { status := status_t.NEED_MORE, this := s.1, effects := { sent := s.2 } }
      else
        { status := status_t.SUCCESS, this := { this with outgoing_tracker := some tracker1 } }

/-- Process fragment acknowledgment (lines 3886-3985) of a message received on a
host of byte order `e`. -/
def process_fragment_ack (e : Endian) (env : env_t) (this : private_task_manager_t)
    (message : message_t) : private_task_manager_t :=
  match message.get_notify notify_type_t.FRAGMENT_ACK with
  | none => this
  | some notify =>
    let ack_data := notify.notification_data
    if ack_data.length < sizeof_fragment_ack_data_t then this
    else
      let ack := ack_of_chunk e ack_data
      let message_id := ntohs e ack.message_id
      match this.outgoing_tracker with
      | none => this
      | some tracker =>
        if tracker.message_id ≠ message_id then this
        else
          let tracker1 := update_fragment_ack_status e env.now
            { tracker with last_ack_time := env.now } ack
          let this1 := { this with outgoing_tracker := some tracker1 }
          if tracker1.acked_fragments = tracker1.total_fragments then
            { this1 with current_retransmit_job := none }
          else
            this1

/-! ## The retransmission controller (lines 597-896) -/

/-- The search of lines 658-672 for a MOBIKE task among the active tasks of an
INFORMATIONAL exchange. -/
def find_mobike (this : private_task_manager_t) : Option task_t :=
  if this.initiating_type = exchange_type_t.INFORMATIONAL then
    this.active_tasks.find? (fun task => task.type == task_type_t.TASK_IKE_MOBIKE)
  else
    none

/-- The count of lines 715-725, kept in a `uint16_t`. -/
def count_missing : List fragment_state_t → Nat → Nat
  | [], missing_count => missing_count
  | frag :: rest, missing_count =>
    if frag.acknowledged then count_missing rest missing_count
    else count_missing rest (u16 (missing_count + 1))

/-- The condition `selective_retransmission_enabled && outgoing_tracker &&
outgoing_tracker->message_id == message_id` (lines 629-631). -/
def is_selective_retransmit (this : private_task_manager_t) (message_id : Nat) : Bool :=
  this.selective_retransmission_enabled &&
    match this.outgoing_tracker with
    | some tracker => tracker.message_id == message_id
    | none => false

/-- The transmission step of the selective branch (lines 708-752): on a
retransmission only the unacknowledged fragments are resent, on the initial
transmission all packets are sent. -/
def selective_step (env : env_t) (this : private_task_manager_t)
    (tracker : fragment_tracker_t) (log0 : List log_t) : private_task_manager_t × effects_t :=
  if 0 < this.initiating_retransmitted then
    let missing_count := count_missing tracker.fragments 0
    if 0 < missing_count then
      let r := retransmit_missing_fragments_simple env this
      (r.this, { sent := r.effects.sent
                 log := log0 ++ [log_t.III8_SELECTIVE_RETRANSMIT_SHARED_TIMEOUT] })
    else
      (this, { log := log0 ++ [log_t.SELECTIVE_RETRANSMIT_NO_MISSING] })
  else
    let s := send_packets env this this.initiating_packets env.my_host env.other_host
    (s.1, { sent := s.2, log := log0 ++ [log_t.III1_SELECTIVE_RETRANSMIT_INITIAL] })

/-- The selective branch of `retransmit` (lines 699-779), entered with the
outgoing tracker `tracker`.  The result is `none` where the C code would read
through a NULL tracker at line 771. -/
def retransmit_selective (env : env_t) (this : private_task_manager_t)
    (tracker : fragment_tracker_t) (log0 : List log_t) : Option result_t :=
  if tracker.acked_fragments = tracker.total_fragments then
    some { status := status_t.SUCCESS, this := this
           effects := { log := log0 ++ [log_t.III9_SELECTIVE_RETRANSMIT_COMPLETE] } }
  else
    let step := selective_step env this tracker log0
    let this1 : private_task_manager_t :=
      { step.1 with initiating_retransmitted := u32 (step.1.initiating_retransmitted + 1) }
    let eff1 : effects_t :=
      step.2.append { log := [log_t.III10_SELECTIVE_RETRANSMIT_SHARED_TIMEOUT] }
    match this1.outgoing_tracker with
    | none => none
    | some tracker1 =>
      if tracker1.total_fragments ≤ tracker1.acked_fragments then
        some { status := status_t.SUCCESS, this := this1
               effects := eff1.append { log := [log_t.RETRANSMIT_JOB_CANCELLED_EARLY] } }
      else
        let job : job_t := { message_id := tracker1.message_id }
        some { status := status_t.SUCCESS
               this := { this1 with current_retransmit_job := some job }
               effects := eff1.append
                 { jobs := [sched_call_t.schedule_job job 1800]
                   log := [log_t.RETRANSMIT_JOB_CREATING] } }

/-- The end of the main block of `retransmit` (lines 854-862): count the
retransmission and schedule the next job in `timeout` milliseconds. -/
def retransmit_reschedule (this0 this : private_task_manager_t) (message_id : Nat)
    (eff : effects_t) (timeout : Nat) : result_t :=
  let this1 : private_task_manager_t :=
    { this with initiating_retransmitted := u32 (this.initiating_retransmitted + 1) }
  let job_message_id :=
    if is_selective_retransmit this0 message_id then message_id else this0.initiating_mid
  let job : job_t := { message_id := job_message_id }
  { status := status_t.SUCCESS
    this := { this1 with current_retransmit_job := some job }
    effects := eff.append
      { jobs := [sched_call_t.schedule_job_ms job timeout]
        log := [log_t.RETRANSMIT_DEBUG_JOB_CREATE_TRADITIONAL] } }

/-- The whole-message branch of `retransmit` (lines 782-823). -/
def retransmit_traditional (env : env_t) (this : private_task_manager_t) (message_id : Nat)
    (mobike : Option task_t) (log0 : List log_t) : result_t :=
  let timeout := u32 (env.retransmission_timeout this.initiating_retransmitted)
  let alerts : List alert_t :=
    if this.initiating_retransmitted ≠ 0 then
      [alert_t.ALERT_RETRANSMIT_SEND this.initiating_packets.getLast?
        this.initiating_retransmitted]
    else []
  let this1 : private_task_manager_t :=
    if this.initiating_retransmitted ≠ 0 then { this with initiating_retransmit_sent := true }
    else this
  match mobike with
  | none =>
    let s := send_packets env this1 this1.initiating_packets env.my_host env.other_host
    retransmit_reschedule this s.1 message_id { sent := s.2, alerts := alerts, log := log0 } timeout
  | some m =>
    let packet := this.initiating_packets.head?
    if m.transmit = false then
      { status := status_t.INVALID_STATE
        this := { this1 with initiating_deferred := true }
        effects := { mobike_transmitted := packet.toList, alerts := alerts
                     cond_stale := true, log := log0 } }
    else
      retransmit_reschedule this this1 message_id
        { mobike_transmitted := packet.toList, alerts := alerts, log := log0 }
        (if m.is_probing_after_transmit then env.ROUTABILITY_CHECK_INTERVAL else timeout)

/-- The routability check branch of `retransmit` (lines 824-852). -/
def retransmit_probing (env : env_t) (this : private_task_manager_t) (message_id : Nat)
    (m : task_t) (log0 : List log_t) : result_t :=
  if this.initiating_retransmitted ≤ env.ROUTABILITY_CHECK_TRIES then
    let packet := this.initiating_packets.head?
    if m.transmit = false then
      { status := status_t.INVALID_STATE
        this := { this with initiating_deferred := true }
        effects := { mobike_transmitted := packet.toList, cond_stale := true, log := log0 } }
    else
      retransmit_reschedule this this message_id
        { mobike_transmitted := packet.toList, log := log0 } env.ROUTABILITY_CHECK_INTERVAL
  else
    { status := status_t.DESTROY_ME, this := this, effects := { log := log0 } }

/-- The main block of `retransmit` (lines 643-863), entered when the message ID
is the one in flight with packets pending, or when a tracker for it exists. -/
def retransmit_main (env : env_t) (this : private_task_manager_t) (message_id : Nat) :
    Option result_t :=
  let packet := this.initiating_packets.head?
  let mobike := find_mobike this
  let log0 := [log_t.RETRANSMIT_DEBUG_ENTERED_IF]
  let probing : Bool :=
    match mobike with
    | some m => m.is_probing
    | none => false
  if probing = false then
    let log1 := log0 ++ [log_t.RETRANSMIT_DEBUG_NO_MOBIKE_PROBING]
    if this.retransmit_tries < this.initiating_retransmitted then
      some { status := status_t.DESTROY_ME, this := this
             effects := { alerts := [alert_t.ALERT_RETRANSMIT_SEND_TIMEOUT packet], log := log1 } }
    else
      match this.outgoing_tracker with
      | some tracker =>
        if mobike.isNone ∧ this.selective_retransmission_enabled = true ∧
            this.peer_supports_selective_retransmission = true ∧
            tracker.message_id = message_id then
          retransmit_selective env this tracker log1
        else
          some (retransmit_traditional env this message_id mobike log1)
      | none => some (retransmit_traditional env this message_id mobike log1)
  else
    match mobike with
    | some m => some (retransmit_probing env this message_id m log0)
    | none => none

/-- The early exit test of lines 605-608: selective retransmission is enabled and
the tracker of this message has all its fragments acknowledged. -/
def is_complete (this : private_task_manager_t) (message_id : Nat) : Bool :=
  match this.outgoing_tracker with
  | some tracker =>
    this.selective_retransmission_enabled && tracker.message_id == message_id &&
      decide (tracker.total_fragments ≤ tracker.acked_fragments)
  | none => false

/-- The test of lines 879-881 in a stale job: a tracker for the message in flight
still has unacknowledged fragments. -/
def has_pending_fragments (this : private_task_manager_t) : Bool :=
  match this.outgoing_tracker with
  | some tracker =>
    this.selective_retransmission_enabled && tracker.message_id == this.initiating_mid &&
      decide (tracker.acked_fragments < tracker.total_fragments)
  | none => false

/-- The method `retransmit` (lines 597-896).  The first argument bounds the depth
of the recursion at line 886; the result is `none` when that bound is used up. -/
def retransmit : Nat → env_t → private_task_manager_t → Nat → Option result_t
  | 0, _, _, _ => none
  | fuel + 1, env, this0, message_id =>
    let this : private_task_manager_t := { this0 with current_retransmit_job := none }
    if is_complete this message_id then
      some { status := status_t.SUCCESS, this := this
             effects := { log := [log_t.RETRANSMIT_JOB_EARLY_EXIT] } }
    else if (message_id = this.initiating_mid ∧ 0 < this.initiating_packets.length) ∨
        is_selective_retransmit this message_id = true then
      retransmit_main env this message_id
    else if message_id < this.initiating_mid then
      if has_pending_fragments this then
        let old_job : effects_t :=
          { log := [log_t.RETRANSMIT_OLD_JOB_DETECTED,
                    log_t.RETRANSMIT_OLD_JOB_TRIGGERING_SELECTIVE] }
        (retransmit fuel env this this.initiating_mid).map (fun r =>
          { r with effects := old_job.append r.effects })
      else
        some { status := status_t.SUCCESS, this := this
               effects := { log := [log_t.RETRANSMIT_OLD_JOB_DETECTED,
                                    log_t.RETRANSMIT_OLD_JOB_GRACEFUL_EXIT] } }
    else
      some { status := status_t.INVALID_STATE, this := this
             effects := { log := [log_t.RETRANSMIT_DEBUG_RETURNING_INVALID_STATE] } }

/-! ## Notions used to state the properties -/

/-- A word stored by a host of byte order `e1` and read from the same two bytes
by a host of byte order `e2`. -/
def wire_word (e1 e2 : Endian) (w : Nat) : Nat :=
  load_16 e2 ((store_16 e1 w).getD 0 0) ((store_16 e1 w).getD 1 0)

/-- A bitmap array has eight entries, each a 16 bit value. -/
def bitmap_ok (bm : List Nat) : Prop := bm.length = 8 ∧ ∀ w ∈ bm, w < 65536

/-- The fragment numbers of the fragments marked acknowledged in a tracker. -/
def acked_ids (t : fragment_tracker_t) : List Nat :=
  (t.fragments.filter (fun f => f.acknowledged)).map (fun f => f.fragment_id)

/-- The fragment numbers held by a tracker. -/
def tracked_ids (t : fragment_tracker_t) : List Nat :=
  t.fragments.map (fun f => f.fragment_id)

/-- The body of the loop of lines 3593-3619 on one fragment state. -/
def mark_acked (e : Endian) (ack_data : fragment_ack_data_t) (f : fragment_state_t) :
    fragment_state_t :=
  if is_acked_in_current e ack_data f.fragment_id && !f.acknowledged then
    { f with acknowledged := true }
  else f

/-- The condition of line 3612: acknowledged by the record and not before. -/
def newly_acked (e : Endian) (ack_data : fragment_ack_data_t) (f : fragment_state_t) : Bool :=
  is_acked_in_current e ack_data f.fragment_id && !f.acknowledged

/-- A tracker holding `n` unacknowledged fragments numbered from 1 for the message
`message_id`, built with the operations of the tracker from `n` empty packets. -/
def fresh_tracker (message_id n : Nat) : fragment_tracker_t :=
  add_fragments 0 (create_fragment_tracker 0 message_id n) 1 (List.replicate n {})

/-- The tracker after a sequence of acknowledgment records, each applied by
`update_fragment_ack_status` at its own time. -/
def apply_acks (e : Endian) (t : fragment_tracker_t)
    (records : List (Nat × fragment_ack_data_t)) : fragment_tracker_t :=
  records.foldl (fun t r => update_fragment_ack_status e r.1 t r.2) t

/-- The bit of a fragment number is set in at least one record of a sequence. -/
def acked_by_any (e : Endian) (records : List (Nat × fragment_ack_data_t)) (id : Nat) : Bool :=
  records.any (fun r => is_acked_in_current e r.2 id)

/-- The manager after a sequence of received acknowledgment messages, each
handled by `process_fragment_ack` in its own environment. -/
def process_acks (e : Endian) (this : private_task_manager_t)
    (messages : List (env_t × message_t)) : private_task_manager_t :=
  messages.foldl (fun th m => process_fragment_ack e m.1 th m.2) this

/-- The representation invariant of a tracker: the counter is the number of
acknowledged fragment states, and the fragment count is the length of the
fragment array and fits a `uint16_t`. -/
def tracker_inv (t : fragment_tracker_t) : Prop :=
  t.acked_fragments = t.fragments.countP (fun f => f.acknowledged) ∧
  t.fragments.length = t.total_fragments ∧
  t.total_fragments < 65536

/-- The state of a fragment after a sequence of records: acknowledged when it was
so before or when its bit is set in at least one record. -/
def mark_any (e : Endian) (records : List (Nat × fragment_ack_data_t)) (f : fragment_state_t) :
    fragment_state_t :=
  if acked_by_any e records f.fragment_id && !f.acknowledged then
    { f with acknowledged := true }
  else f

/-- A fragment that a sequence of records newly acknowledges: not acknowledged
before, and its bit set in at least one record. -/
def newly_by_any (e : Endian) (records : List (Nat × fragment_ack_data_t))
    (f : fragment_state_t) : Bool :=
  !f.acknowledged && acked_by_any e records f.fragment_id

/-- A packet of `n` bytes. -/
def packet_of_size (n : Nat) : packet_t := { data := List.replicate n 0 }

/-- The manager of an initiator whose peer advertised selective retransmission,
after `generate_message` has split the request with message ID `message_id` into
three fragments of 100 bytes, the packets stored in `initiating.packets`. -/
def three_fragments (message_id : Nat) : private_task_manager_t :=
  let g := generate_message {}
    { initiating_mid := message_id
      initiating_type := exchange_type_t.IKE_AUTH
      peer_supports_selective_retransmission := true }
    message_id (some [packet_of_size 100, packet_of_size 100, packet_of_size 100]) []
  { g.2.1 with initiating_packets := g.2.2 }

/-- The acknowledgment message a little endian peer sends for message
`message_id` of three fragments when its reassembler holds the fragments
`received`, or the empty message when none is built. -/
def ack_of_received (message_id : Nat) (received : List Nat) : message_t :=
  (send_immediate_fragment_ack Endian.little true (some 2) (some 1)
    (some { get_total_fragments := some 3, get_received_fragments := some received })
    message_id (received.getLastD 0)).getD {}

/-- The manager of `three_fragments` after its first call of `retransmit`, the
initial transmission. -/
def after_initial_send (message_id : Nat) : private_task_manager_t :=
  match retransmit 1 {} (three_fragments message_id) message_id with
  | some r => r.this
  | none => three_fragments message_id

/-- The body of the loop of lines 3833-3850 on one fragment state at time
`current_time`: an acknowledged fragment is left alone, an unacknowledged one
is counted as retransmitted. -/
def resend_state (current_time : Nat) (f : fragment_state_t) : fragment_state_t :=
  if f.acknowledged then f
  else
    { f with
      retransmit_count := u32 (f.retransmit_count + 1)
      last_sent := current_time
      total_transmitted := u32 (f.total_transmitted + f.data_size) }

/-- The fragment states of a tracker that are not acknowledged. -/
def missing_fragments (t : fragment_tracker_t) : List fragment_state_t :=
  t.fragments.filter (fun f => !f.acknowledged)

/-- The manager of `after_initial_send` after the peer has lost fragment 1: its
two acknowledgments report fragment 2 and then the fragments 2 and 3. -/
def after_first_fragment_loss (message_id : Nat) : private_task_manager_t :=
  process_acks Endian.big (after_initial_send message_id)
    [({ now := 1 }, ack_of_received message_id [2]),
     ({ now := 1 }, ack_of_received message_id [2, 3])]

/-- A manager retransmitting a fragmented MOBIKE update: an INFORMATIONAL exchange
with message ID 1 in flight, whose three fragments are tracked, with a MOBIKE
task that is not probing among the active tasks. -/
def mobike_update : private_task_manager_t :=
  { three_fragments 1 with
    initiating_type := exchange_type_t.INFORMATIONAL
    active_tasks := [{ type := task_type_t.TASK_IKE_MOBIKE }] }

/-- A manager with no exchange in flight: message ID 1 is the next one to use,
no packet is pending and no tracker exists. -/
def idle_manager : private_task_manager_t :=
  { initiating_mid := 1 }

/-! ## Task queues (lines 297-419) -/

/-- Reset retransmission packet list (lines 297-305): every packet is removed
from the array and destroyed. -/
def clear_packets (_array : List packet_t) : List packet_t := []

/-- The task queues (`task_queue_t`); the last value stands for any other number
handed in. -/
inductive task_queue_t where
  | TASK_QUEUE_ACTIVE
  | TASK_QUEUE_QUEUED
  | TASK_QUEUE_PASSIVE
  | TASK_QUEUE_OTHER
deriving DecidableEq, Repr

/-- The calls of `destroy` on the tasks of a list, in the order of the list. -/
def destroy_calls (tasks : List task_t) : List hook_call_t :=
  tasks.map (fun task => { hook := hook_t.destroy, task := task })

/-- The method `flush_queue` (lines 307-337): the tasks of the queue are removed
from its tail and destroyed. -/
def flush_queue (this : private_task_manager_t) (queue : task_queue_t) :
    private_task_manager_t × effects_t :=
  match queue with
  | task_queue_t.TASK_QUEUE_ACTIVE =>
    ({ this with active_tasks := [] }, { hooks := destroy_calls this.active_tasks.reverse })
  | task_queue_t.TASK_QUEUE_PASSIVE =>
    ({ this with passive_tasks := [] }, { hooks := destroy_calls this.passive_tasks.reverse })
  | task_queue_t.TASK_QUEUE_QUEUED =>
    ({ this with queued_tasks := [] },
     { hooks := destroy_calls (this.queued_tasks.reverse.map (fun queued => queued.task)) })
  | task_queue_t.TASK_QUEUE_OTHER => (this, {})

/-- The method `flush` (lines 339-345). -/
def flush (this : private_task_manager_t) : private_task_manager_t × effects_t :=
  let q := flush_queue this task_queue_t.TASK_QUEUE_QUEUED
  let p := flush_queue q.1 task_queue_t.TASK_QUEUE_PASSIVE
  let a := flush_queue p.1 task_queue_t.TASK_QUEUE_ACTIVE
  (a.1, (q.2.append p.2).append a.2)

/-- Check if a given task has been queued already (lines 350-388). -/
def has_queued (this : private_task_manager_t) (queue : task_queue_t) (type : task_type_t) :
    Bool :=
  match queue with
  | task_queue_t.TASK_QUEUE_ACTIVE => this.active_tasks.any (fun task => task.type == type)
  | task_queue_t.TASK_QUEUE_PASSIVE => this.passive_tasks.any (fun task => task.type == type)
  | task_queue_t.TASK_QUEUE_QUEUED => this.queued_tasks.any (fun queued => queued.task.type == type)
  | task_queue_t.TASK_QUEUE_OTHER => false

/-- The enumeration of lines 403-417: the first queued task of the given type
whose time is not after `now` is taken out of the queue. -/
def activate_loop (now : Nat) (type : task_type_t) :
    List queued_task_t → Option (task_t × List queued_task_t)
  | [] => none
  | queued :: rest =>
    if queued.task.type = type ∧ ¬ (now < queued.time) then
      some (queued.task, rest)
    else
      (activate_loop now type rest).map (fun r => (r.1, queued :: r.2))

/-- Move a task of a specific type from the queue to the active list, if it is
not delayed (lines 394-419). -/
def activate_task (env : env_t) (this : private_task_manager_t) (type : task_type_t) :
    Bool × private_task_manager_t :=
  match activate_loop env.now type this.queued_tasks with
  | some r => (true, { this with queued_tasks := r.2, active_tasks := this.active_tasks ++ [r.1] })
  | none => (false, this)

/-! ## Initiating an exchange (lines 898-1206) -/

/-- Derive IKE keys if necessary (lines 901-930): the first IKE_INIT task of the
array is asked; it is removed and destroyed when it answers SUCCESS.  Returns
the result, the array afterwards and the calls made. -/
def derive_keys : List task_t → Bool × List task_t × List hook_call_t
  | [] => (true, [], [])
  | task :: rest =>
    if task.type = task_type_t.TASK_IKE_INIT then
      match task.derive_keys with
      | status_t.SUCCESS =>
        (true, rest, [{ hook := hook_t.derive_keys, task := task },
                      { hook := hook_t.destroy, task := task }])
      | status_t.NEED_MORE => (true, task :: rest, [{ hook := hook_t.derive_keys, task := task }])
      | _ => (false, task :: rest, [{ hook := hook_t.derive_keys, task := task }])
    else
      let r := derive_keys rest
      (r.1, task :: r.2.1, r.2.2)

/-- A chain of `if (activate_task(this, type)) { exchange = ...; break; }`
statements (lines 986-1059): the first type that can be activated sets the
exchange. -/
def activate_first (env : env_t) (this : private_task_manager_t) :
    List (task_type_t × exchange_type_t) → Option exchange_type_t × private_task_manager_t
  | [] => (none, this)
  | (type, exchange) :: rest =>
    let r := activate_task env this type
    if r.1 then (some exchange, r.2) else activate_first env r.2 rest

/-- The statements of lines 986-1059 for the state IKE_ESTABLISHED, which fall
through into those for IKE_REKEYING and IKE_REKEYED. -/
def established_chain : List (task_type_t × exchange_type_t) :=
  [(task_type_t.TASK_IKE_MOBIKE, exchange_type_t.INFORMATIONAL),
   (task_type_t.TASK_IKE_DELETE, exchange_type_t.INFORMATIONAL),
   (task_type_t.TASK_IKE_REDIRECT, exchange_type_t.INFORMATIONAL),
   (task_type_t.TASK_CHILD_DELETE, exchange_type_t.INFORMATIONAL),
   (task_type_t.TASK_IKE_REAUTH, exchange_type_t.INFORMATIONAL),
   (task_type_t.TASK_CHILD_CREATE, exchange_type_t.CREATE_CHILD_SA),
   (task_type_t.TASK_CHILD_REKEY, exchange_type_t.CREATE_CHILD_SA),
   (task_type_t.TASK_IKE_REKEY, exchange_type_t.CREATE_CHILD_SA),
   (task_type_t.TASK_IKE_DPD, exchange_type_t.INFORMATIONAL),
   (task_type_t.TASK_IKE_AUTH_LIFETIME, exchange_type_t.INFORMATIONAL),
   (task_type_t.TASK_IKE_REAUTH_COMPLETE, exchange_type_t.INFORMATIONAL),
   (task_type_t.TASK_IKE_VERIFY_PEER_CERT, exchange_type_t.INFORMATIONAL),
   (task_type_t.TASK_IKE_DELETE, exchange_type_t.INFORMATIONAL)]

/-- The tasks activated at lines 970-982 once an IKE_INIT task was activated (the
mediation extension is not compiled in). -/
def initial_tasks : List task_type_t :=
  [task_type_t.TASK_IKE_NATD, task_type_t.TASK_IKE_CERT_PRE, task_type_t.TASK_IKE_AUTH,
   task_type_t.TASK_IKE_CERT_POST, task_type_t.TASK_IKE_CONFIG,
   task_type_t.TASK_IKE_AUTH_LIFETIME, task_type_t.TASK_IKE_MOBIKE,
   task_type_t.TASK_IKE_ESTABLISH, task_type_t.TASK_CHILD_CREATE]

/-- Activating new tasks (lines 961-1063), depending on the state of the IKE_SA.
Returns the exchange, `none` while the variable `exchange` is 0. -/
def activate_new_tasks (env : env_t) (this : private_task_manager_t) :
    Option exchange_type_t × private_task_manager_t :=
  match env.state with
  | ike_sa_state_t.IKE_CREATED =>
    let vendor := activate_task env this task_type_t.TASK_IKE_VENDOR
    let init := activate_task env vendor.2 task_type_t.TASK_IKE_INIT
    if init.1 then
      let this1 : private_task_manager_t := { init.2 with initiating_mid := 0 }
      (some exchange_type_t.IKE_SA_INIT,
       initial_tasks.foldl (fun th type => (activate_task env th type).2) this1)
    else
      (none, init.2)
  | ike_sa_state_t.IKE_ESTABLISHED => activate_first env this established_chain
  | ike_sa_state_t.IKE_REKEYING =>
    activate_first env this [(task_type_t.TASK_IKE_DELETE, exchange_type_t.INFORMATIONAL)]
  | ike_sa_state_t.IKE_REKEYED =>
    activate_first env this [(task_type_t.TASK_IKE_DELETE, exchange_type_t.INFORMATIONAL)]
  | _ => (none, this)

/-- The enumeration of lines 1073-1098 over the already active tasks: the first
task of a type that stands for an exchange sets it. -/
def exchange_of_tasks : List task_t → Option exchange_type_t
  | [] => none
  | task :: rest =>
    match task.type with
    | task_type_t.TASK_IKE_INIT => some exchange_type_t.IKE_SA_INIT
    | task_type_t.TASK_IKE_AUTH => some exchange_type_t.IKE_AUTH
    | task_type_t.TASK_CHILD_CREATE => some exchange_type_t.CREATE_CHILD_SA
    | task_type_t.TASK_CHILD_REKEY => some exchange_type_t.CREATE_CHILD_SA
    | task_type_t.TASK_IKE_REKEY => some exchange_type_t.CREATE_CHILD_SA
    | task_type_t.TASK_IKE_MOBIKE => some exchange_type_t.INFORMATIONAL
    | _ => exchange_of_tasks rest

/-- What a pass over a task array leaves: the status that made it return early
(`none` when it ran through), the array and the message afterwards, and the
calls made. -/
structure pass_t where
  returned : Option status_t := none
  tasks : List task_t := []
  message : message_t := {}
  hooks : List hook_call_t := []

/-- The message after `build` of a task was called on it. -/
def built_by (task : task_t) (message : message_t) : message_t :=
  match task.build_exchange_type with
  | some type => { message with exchange_type := type }
  | none => message

/-- The build pass of `initiate` (lines 1121-1151). -/
def build_pass : List task_t → message_t → pass_t
  | [], message => { message := message }
  | task :: rest, message =>
    let call : hook_call_t := { hook := hook_t.build, task := task }
    match task.build with
    | status_t.SUCCESS =>
      let r := build_pass rest (built_by task message)
      { r with hooks := [call, { hook := hook_t.destroy, task := task }] ++ r.hooks }
    | status_t.NEED_MORE =>
      let r := build_pass rest (built_by task message)
      { r with tasks := task :: r.tasks, hooks := call :: r.hooks }
    | status =>
      { returned := some status, tasks := task :: rest, message := built_by task message
        hooks := [call] }

/-- The post-build pass of `initiate` and of `build_response` (lines 1165-1186
and 1592-1613).  The first component is the variable `result` afterwards. -/
def post_build_pass : List task_t → Bool × List task_t × List hook_call_t
  | [] => (true, [], [])
  | task :: rest =>
    let r := post_build_pass rest
    match task.post_build with
    | none => (r.1, task :: r.2.1, r.2.2)
    | some status_t.SUCCESS =>
      (r.1, r.2.1, [{ hook := hook_t.post_build, task := task },
                    { hook := hook_t.destroy, task := task }] ++ r.2.2)
    | some status_t.NEED_MORE =>
      (r.1, task :: r.2.1, { hook := hook_t.post_build, task := task } :: r.2.2)
    | some _ => (false, task :: r.2.1, { hook := hook_t.post_build, task := task } :: r.2.2)

/-- The choice of lines 959-1099: new tasks are activated when none is active,
otherwise the keys are derived and the active tasks name the exchange. -/
structure selection_t where
  derived : Bool := true
  exchange : Option exchange_type_t := none
  this : private_task_manager_t
  hooks : List hook_call_t := []

/-- Lines 959-1099 of `initiate`. -/
def select_exchange (env : env_t) (this : private_task_manager_t) : selection_t :=
  if this.active_tasks.length = 0 then
    let r := activate_new_tasks env this
    { exchange := r.1, this := r.2 }
  else
    let d := derive_keys this.active_tasks
    let this1 : private_task_manager_t := { this with active_tasks := d.2.1 }
    if d.1 then
      { exchange := exchange_of_tasks d.2.1, this := this1, hooks := d.2.2 }
    else
      { derived := false, this := this1, hooks := d.2.2 }

/-- The `ike_updown` event of lines 1137-1141 and 1194-1198, raised unless the
IKE_SA is connecting or rekeyed. -/
def updown_unless_connecting (env : env_t) : List Bool :=
  if env.state ≠ ike_sa_state_t.IKE_CONNECTING ∧ env.state ≠ ike_sa_state_t.IKE_REKEYED then
    [false]
  else []

/-- The request `initiate` creates (lines 1111-1115).  A message made by
`message_create` is a request until `set_request` says otherwise. -/
def initiate_message (env : env_t) (this : private_task_manager_t)
    (exchange : exchange_type_t) : message_t :=
  { exchange_type := exchange
    request := true
    message_id := this.initiating_mid
    source := env.my_host
    destination := env.other_host }

/-- A result with the effects of the steps before it put in front. -/
def result_t.after (eff : effects_t) (r : result_t) : result_t :=
  { r with effects := eff.append r.effects }

/-- The method `initiate` (lines 932-1206).  The first argument bounds the depth
of the recursion at line 1158; the result is `none` when that bound is used
up. -/
def initiate : Nat → env_t → private_task_manager_t → Option result_t
  | 0, _, _ => none
  | fuel + 1, env, this0 =>
    let this : private_task_manager_t := { this0 with start_time := env.now }
    if this.initiating_type ≠ exchange_type_t.EXCHANGE_TYPE_UNDEFINED then
      if this.initiating_deferred then
        retransmit (fuel + 2) env
          { this with initiating_deferred := false, initiating_retransmitted := 0 }
          this.initiating_mid
      else
        some { status := status_t.SUCCESS, this := this }
    else
      let sel := select_exchange env this
      if sel.derived = false then
        some { status := status_t.DESTROY_ME, this := sel.this, effects := { hooks := sel.hooks } }
      else
        match sel.exchange with
        | none =>
          some { status := status_t.SUCCESS, this := sel.this, effects := { hooks := sel.hooks } }
        | some exchange =>
          let message := initiate_message env sel.this exchange
          let this1 : private_task_manager_t :=
            { sel.this with
              initiating_type := exchange
              initiating_retransmitted := 0
              initiating_retransmit_sent := false
              initiating_deferred := false }
          let b := build_pass this1.active_tasks message
          let eff1 : effects_t := { hooks := sel.hooks ++ b.hooks }
          match b.returned with
          | some status_t.DESTROY_ME =>
            let f := flush { this1 with active_tasks := b.tasks }
            some { status := status_t.DESTROY_ME, this := f.1, effects := eff1.append f.2 }
          | some _ =>
            let f := flush { this1 with
              active_tasks := b.tasks
              initiating_type := exchange_type_t.EXCHANGE_TYPE_UNDEFINED }
            some { status := status_t.DESTROY_ME, this := f.1
                   effects := (eff1.append { ike_updown := updown_unless_connecting env }).append f.2 }
          | none =>
            let this2 : private_task_manager_t :=
              { this1 with active_tasks := b.tasks, initiating_type := b.message.exchange_type }
            if b.message.exchange_type = exchange_type_t.EXCHANGE_TYPE_UNDEFINED then
              (initiate fuel env this2).map (result_t.after eff1)
            else
              let g := generate_message env this2 b.message.message_id
                (env.generate_message_fragmented b.message) this2.initiating_packets
              let this3 : private_task_manager_t := { g.2.1 with initiating_packets := g.2.2 }
              let eff2 : effects_t := eff1.append { generated := [b.message] }
              if g.1 = false then
                let f := flush this3
                some { status := status_t.DESTROY_ME, this := f.1
                       effects := (eff2.append f.2).append
                         { ike_updown := updown_unless_connecting env } }
              else
                let p := post_build_pass this3.active_tasks
                let this4 : private_task_manager_t := { this3 with active_tasks := p.2.1 }
                let eff3 : effects_t := eff2.append { hooks := p.2.2 }
                if p.1 = false then
                  let f := flush this4
                  some { status := status_t.DESTROY_ME, this := f.1
                         effects := (eff3.append f.2).append
                           { ike_updown := updown_unless_connecting env } }
                else
                  (retransmit (fuel + 2) env this4 this4.initiating_mid).map
                    (result_t.after eff3)

/-! ## Handling a response (lines 1208-1443 and 4220-4380) -/

/-- The statistics stored by `print_intermediate_transmission_stats` (lines
4235-4355). -/
def print_intermediate_transmission_stats (this : private_task_manager_t) :
    private_task_manager_t :=
  match this.outgoing_tracker with
  | some tracker =>
    { this with
      request_original_size := tracker.total_original_size
      request_total_transmitted := tracker.total_transmitted_size
      request_retransmission_count := tracker.retransmission_count }
  | none =>
    let single_transmission_size := total_data_size this.initiating_packets
    { this with
      request_original_size := single_transmission_size
      request_total_transmitted :=
        if this.initiating_retransmitted = 0 then single_transmission_size
        else u32 (single_transmission_size * this.initiating_retransmitted) }

/-- Update response transmission statistics (lines 4360-4380). -/
def update_response_transmission_stats (this : private_task_manager_t)
    (response_size retransmissions : Nat) : private_task_manager_t :=
  { this with
    response_original_size := response_size
    response_total_transmitted := u32 (response_size * u32 (retransmissions + 1))
    response_retransmission_count := retransmissions }

/-- The statistics part of `process_response` (lines 1221-1274). -/
def response_stats (this : private_task_manager_t) (message : message_t) :
    private_task_manager_t :=
  if message.exchange_type = exchange_type_t.IKE_INTERMEDIATE then
    let this1 := print_intermediate_transmission_stats this
    let len := u32 message.packet_data.length
    update_response_transmission_stats this1 (if len = 0 then 4512 else len) 0
  else if message.exchange_type = exchange_type_t.IKE_AUTH then
    update_response_transmission_stats this (u32 message.packet_data.length) 0
  else
    this

/-- The pre-process pass over the active tasks (lines 1320-1344): the status
with which `process_response` returns early, and the calls made. -/
def pre_process_pass : List task_t → Option status_t × List hook_call_t
  | [] => (none, [])
  | task :: rest =>
    match task.pre_process with
    | none => pre_process_pass rest
    | some status_t.SUCCESS =>
      let r := pre_process_pass rest
      (r.1, { hook := hook_t.pre_process, task := task } :: r.2)
    | some status_t.DESTROY_ME =>
      (some status_t.DESTROY_ME, [{ hook := hook_t.pre_process, task := task }])
    | some _ => (some status_t.SUCCESS, [{ hook := hook_t.pre_process, task := task }])

/-- The value `UINT_MAX` of the arguments of `reset`. -/
def UINT_MAX : Nat := 4294967295

/-- The method `reset` (lines 3213-3268). -/
def reset (env : env_t) (this : private_task_manager_t) (initiate respond : Nat) :
    private_task_manager_t × effects_t :=
  let queued : List queued_task_t := this.queued_tasks.map (fun q => { q with time := env.now })
  let requeued : List queued_task_t :=
    this.active_tasks.map (fun task => { task := task, time := env.now })
  ({ this with
     responding_packets := clear_packets this.responding_packets
     initiating_packets := clear_packets this.initiating_packets
     responding_defrag := none
     initiating_defrag := none
     outgoing_tracker := none
     initiating_mid := if initiate ≠ UINT_MAX then initiate else this.initiating_mid
     responding_mid := if respond ≠ UINT_MAX then respond else this.responding_mid
     initiating_type := exchange_type_t.EXCHANGE_TYPE_UNDEFINED
     queued_tasks := requeued ++ queued
     active_tasks := []
     reset := true },
   { hooks :=
       this.queued_tasks.map (fun q => { hook := hook_t.migrate, task := q.task }) ++
       this.active_tasks.reverse.map (fun task => { hook := hook_t.migrate, task := task }) })

/-- How a part of an operation ends: it returns a status, it goes on to the next
statement, or (in `process_response`) it starts all over with `initiate` after a
reset. -/
inductive step_t where
  | returns (status : status_t) (this : private_task_manager_t) (effects : effects_t)
  | goes_on (this : private_task_manager_t) (effects : effects_t)
  | restarts (this : private_task_manager_t) (effects : effects_t)

/-- The process pass over the active tasks (lines 1355-1386).  `this` holds the
tasks that stay in the array in front of the enumerator; `rest` those still to
be enumerated.  A task whose `process` has the manager reset finds the array
emptied under its enumerator. -/
def process_pass (env : env_t) :
    private_task_manager_t → List task_t → effects_t → step_t
  | this, [], eff => step_t.goes_on this eff
  | this, task :: rest, eff =>
    let call : hook_call_t := { hook := hook_t.process, task := task }
    let destroy : hook_call_t := { hook := hook_t.destroy, task := task }
    match task.process_reset with
    | some args =>
      let r := reset env { this with active_tasks := this.active_tasks ++ task :: rest }
        args.1 args.2
      let eff1 := (eff.append { hooks := [call] }).append r.2
      match task.process with
      | status_t.SUCCESS =>
        step_t.restarts { r.1 with reset := false } (eff1.append { hooks := [destroy] })
      | status_t.NEED_MORE => step_t.restarts { r.1 with reset := false } eff1
      | status_t.DESTROY_ME =>
        step_t.returns status_t.DESTROY_ME r.1 (eff1.append { hooks := [destroy] })
      | _ =>
        step_t.returns status_t.DESTROY_ME r.1
          (eff1.append { ike_updown := [false], hooks := [destroy] })
    | none =>
      match task.process with
      | status_t.SUCCESS => process_pass env this rest (eff.append { hooks := [call, destroy] })
      | status_t.NEED_MORE =>
        process_pass env { this with active_tasks := this.active_tasks ++ [task] } rest
          (eff.append { hooks := [call] })
      | status_t.DESTROY_ME =>
        step_t.returns status_t.DESTROY_ME
          { this with active_tasks := this.active_tasks ++ rest }
          (eff.append { hooks := [call, destroy] })
      | _ =>
        step_t.returns status_t.DESTROY_ME
          { this with active_tasks := this.active_tasks ++ rest }
          (eff.append { ike_updown := [false], hooks := [call, destroy] })

/-- The post-process pass over a task array (lines 1388-1411 and 1947-1970): the
array afterwards, whether the pass returned DESTROY_ME, and the calls made. -/
def post_process_pass : List task_t → Bool × List task_t × List hook_call_t
  | [] => (false, [], [])
  | task :: rest =>
    match task.post_process with
    | none =>
      let r := post_process_pass rest
      (r.1, task :: r.2.1, r.2.2)
    | some status_t.SUCCESS =>
      let r := post_process_pass rest
      (r.1, r.2.1, [{ hook := hook_t.post_process, task := task },
                    { hook := hook_t.destroy, task := task }] ++ r.2.2)
    | some status_t.NEED_MORE =>
      let r := post_process_pass rest
      (r.1, task :: r.2.1, { hook := hook_t.post_process, task := task } :: r.2.2)
    | some _ =>
      (true, rest, [{ hook := hook_t.post_process, task := task },
                    { hook := hook_t.destroy, task := task }])

/-- The condition of lines 1283-1301 under which a response is handled: its
exchange type is that of the exchange in flight, or it is an INFORMATIONAL
response while no exchange is in flight. -/
def response_expected (this : private_task_manager_t) (message : message_t) : Bool :=
  message.exchange_type == this.initiating_type ||
    (message.exchange_type == exchange_type_t.INFORMATIONAL &&
      this.initiating_type == exchange_type_t.EXCHANGE_TYPE_UNDEFINED)

/-- The test of lines 1304-1318 for a fatal INVALID_SYNTAX notify. -/
def has_fatal_invalid_syntax (message : message_t) : Bool :=
  (message.exchange_type == exchange_type_t.CREATE_CHILD_SA ||
    message.exchange_type == exchange_type_t.INFORMATIONAL) &&
  (message.get_notify notify_type_t.INVALID_SYNTAX).isSome

/-- The first statements of `process_response` (lines 1221-1281): the statistics
are stored and the support of the peer for selective retransmission is
latched. -/
def response_preamble (this0 : private_task_manager_t) (message : message_t) :
    private_task_manager_t :=
  let this1 := response_stats this0 message
  if (message.get_notify notify_type_t.SELECTIVE_FRAGMENT_RETRANSMISSION_SUPPORTED).isSome then
    { this1 with peer_supports_selective_retransmission := true }
  else this1

/-- The alert of lines 1346-1351, raised when retransmits were sent for the
request. -/
def cleared_alert (this2 : private_task_manager_t) : List alert_t :=
  if this2.initiating_retransmit_sent then
    [alert_t.ALERT_RETRANSMIT_SEND_CLEARED this2.initiating_packets.head?]
  else []

/-- The statements of `process_response` from the check of the exchange type to
the clearing of the packets (lines 1283-1440). -/
def response_passes (env : env_t) (this2 : private_task_manager_t) (message : message_t) :
    step_t :=
  if response_expected this2 message = false then
    step_t.returns status_t.DESTROY_ME this2 { ike_updown := [false] }
  else if has_fatal_invalid_syntax message then
    step_t.returns status_t.DESTROY_ME this2 { ike_updown := [false] }
  else
    let pre := pre_process_pass this2.active_tasks
    match pre.1 with
    | some status => step_t.returns status this2 { hooks := pre.2 }
    | none =>
      let eff1 : effects_t := { hooks := pre.2, alerts := cleared_alert this2 }
      match process_pass env { this2 with reset := false, active_tasks := [] }
          this2.active_tasks eff1 with
      | step_t.returns status this3 eff2 => step_t.returns status this3 eff2
      | step_t.restarts this3 eff2 => step_t.restarts this3 eff2
      | step_t.goes_on this3 eff2 =>
        let post := post_process_pass this3.active_tasks
        let this4 : private_task_manager_t := { this3 with active_tasks := post.2.1 }
        let eff3 := eff2.append { hooks := post.2.2 }
        if post.1 then
          step_t.returns status_t.DESTROY_ME this4 eff3
        else
          step_t.goes_on
            { this4 with
              initiating_mid := u32 (this4.initiating_mid + 1)
              current_retransmit_job := none
              initiating_type := exchange_type_t.EXCHANGE_TYPE_UNDEFINED
              initiating_packets := clear_packets this4.initiating_packets }
            eff3

/-- Everything `process_response` does before it hands over to `initiate`
(lines 1211-1440): it returns, or it goes on to the `return initiate(this)` of
line 1442, or it restarts with the `return initiate(this)` of line 1383. -/
def process_response_steps (env : env_t) (this0 : private_task_manager_t)
    (message : message_t) : step_t :=
  response_passes env (response_preamble this0 message) message

/-- Handle an incoming response message (lines 1211-1443). -/
def process_response (fuel : Nat) (env : env_t) (this : private_task_manager_t)
    (message : message_t) : Option result_t :=
  match process_response_steps env this message with
  | step_t.returns status this1 eff => some { status := status, this := this1, effects := eff }
  | step_t.goes_on this1 eff => (initiate fuel env this1).map (result_t.after eff)
  | step_t.restarts this1 eff => (initiate fuel env this1).map (result_t.after eff)

/-! ## Handling a request (lines 1445-1973) -/

/-- The enumeration of lines 1464-1491 over the active tasks for a passive task
of type `type`: the first active rekey task that is concerned is asked to
`collide`.  Returns its answer and the call made. -/
def collide_loop (type : task_type_t) (task : task_t) : List task_t → Bool × List hook_call_t
  | [] => (false, [])
  | active :: rest =>
    match active.type with
    | task_type_t.TASK_IKE_REKEY =>
      if type = task_type_t.TASK_IKE_REKEY ∨ type = task_type_t.TASK_IKE_DELETE then
        (active.collide, [{ hook := hook_t.collide, task := active }])
      else collide_loop type task rest
    | task_type_t.TASK_CHILD_REKEY =>
      if type = task_type_t.TASK_CHILD_REKEY then
        (active.collide, [{ hook := hook_t.collide, task := active }])
      else collide_loop type task rest
    | _ => collide_loop type task rest

/-- Handle exchange collisions (lines 1449-1494): TRUE if the given passive task
was adopted by an active task. -/
def handle_collisions (this : private_task_manager_t) (task : task_t) :
    Bool × List hook_call_t :=
  if task.type = task_type_t.TASK_IKE_REKEY ∨ task.type = task_type_t.TASK_IKE_DELETE ∨
      task.type = task_type_t.TASK_CHILD_REKEY then
    collide_loop task.type task this.active_tasks
  else
    (false, [])

/-- What the build pass of `build_response` leaves: the variables `delete`, `hook`
and `mid_sync`, the passive tasks and the message afterwards, the calls made. -/
structure response_pass_t where
  delete : Bool := false
  hook : Bool := false
  mid_sync : Bool := false
  tasks : List task_t := []
  message : message_t := {}
  hooks : List hook_call_t := []

/-- The build pass of `build_response` over the passive tasks (lines
1521-1563). -/
def response_build_pass (this : private_task_manager_t) :
    List task_t → message_t → Bool → response_pass_t
  | [], message, mid_sync => { mid_sync := mid_sync, message := message }
  | task :: rest, message, mid_sync0 =>
    let mid_sync := mid_sync0 || task.type == task_type_t.TASK_IKE_MID_SYNC
    let call : hook_call_t := { hook := hook_t.build, task := task }
    let destroy : hook_call_t := { hook := hook_t.destroy, task := task }
    let c := handle_collisions this task
    match task.build with
    | status_t.SUCCESS =>
      let r := response_build_pass this rest (built_by task message) mid_sync
      { r with hooks := [call] ++ c.2 ++ (if c.1 then [] else [destroy]) ++ r.hooks }
    | status_t.NEED_MORE =>
      let r := response_build_pass this rest (built_by task message) mid_sync
      { r with
        tasks := if c.1 then r.tasks else task :: r.tasks
        hooks := [call] ++ c.2 ++ r.hooks }
    | status_t.DESTROY_ME =>
      { delete := true, hook := false, mid_sync := mid_sync
        tasks := if c.1 then rest else task :: rest
        message := built_by task message, hooks := [call] ++ c.2 }
    | _ =>
      { delete := true, hook := true, mid_sync := mid_sync
        tasks := if c.1 then rest else task :: rest
        message := built_by task message, hooks := [call] ++ c.2 }

/-- The response `build_response` creates (lines 1510-1519), sent along the path
the request came in, with the message ID expected of the next request. -/
def response_message (this : private_task_manager_t) (request : message_t) : message_t :=
  { exchange_type := request.exchange_type
    request := false
    message_id := this.responding_mid
    source := request.destination
    destination := request.source }

/-- The notify added at lines 1578-1584. -/
def add_notify (message : message_t) (type : notify_type_t) (data : List Nat) : message_t :=
  { message with
    payloads := message.payloads ++
      [payload_t.PLV2_NOTIFY
        { notify_type := type, protocol_id := PROTO_NONE, notification_data := data }] }

/-- Build a response depending on the passive task list (lines 1499-1649).  The
responder SPI of the identifier of the IKE_SA, zeroed around the generation of
a failing IKE_SA_INIT response, is not part of the model. -/
def build_response (env : env_t) (this : private_task_manager_t) (request : message_t) :
    result_t :=
  let b := response_build_pass this this.passive_tasks (response_message this request) false
  let this1 : private_task_manager_t := { this with passive_tasks := b.tasks }
  let message : message_t :=
    if this.selective_retransmission_enabled = true ∧
        request.exchange_type = exchange_type_t.IKE_SA_INIT then
      add_notify b.message notify_type_t.SELECTIVE_FRAGMENT_RETRANSMISSION_SUPPORTED []
    else b.message
  let g := generate_message env this1 message.message_id
    (env.generate_message_fragmented message) (clear_packets this1.responding_packets)
  let this2 : private_task_manager_t := { g.2.1 with responding_packets := g.2.2 }
  let eff1 : effects_t := { hooks := b.hooks, generated := [message] }
  let p := if g.1 = true ∧ b.delete = false then post_build_pass this2.passive_tasks
    else (g.1, this2.passive_tasks, [])
  let this3 : private_task_manager_t := { this2 with passive_tasks := p.2.1 }
  let eff2 : effects_t := eff1.append { hooks := p.2.2 }
  if p.1 = false then
    { status := status_t.DESTROY_ME, this := this3
      effects := eff2.append { ike_updown := [false] } }
  else
    let s := send_packets env this3 this3.responding_packets none none
    let eff3 : effects_t := eff2.append { sent := s.2 }
    if b.delete then
      { status := status_t.DESTROY_ME, this := s.1
        effects := if b.hook then eff3.append { ike_updown := [false] } else eff3 }
    else if b.mid_sync then
      { status := status_t.NEED_MORE
        this := { s.1 with responding_packets := clear_packets s.1.responding_packets }
        effects := eff3 }
    else
      { status := status_t.SUCCESS, this := s.1, effects := eff3 }

/-- Modelled from the spec: the task constructors (`ike_dpd_create`,
`ike_mobike_create`, ...) are not part of this file of the daemon.  Each yields
a task of the kind its name says. -/
def create_task (env : env_t) (type : task_type_t) : task_t :=
  { env.task_create type with type := type }

/-- The tasks inserted for an IKE_SA_INIT request (lines 1680-1709; the
mediation extension is not compiled in). -/
def init_request_tasks : List task_type_t :=
  [task_type_t.TASK_IKE_VENDOR, task_type_t.TASK_IKE_INIT, task_type_t.TASK_IKE_NATD,
   task_type_t.TASK_IKE_CERT_PRE, task_type_t.TASK_IKE_AUTH, task_type_t.TASK_IKE_CERT_POST,
   task_type_t.TASK_IKE_CONFIG, task_type_t.TASK_IKE_MOBIKE, task_type_t.TASK_IKE_ESTABLISH,
   task_type_t.TASK_IKE_AUTH_LIFETIME, task_type_t.TASK_CHILD_CREATE]

/-- The variable `notify_found` after the enumeration of lines 1724-1750. -/
def rekey_notify_found (payloads : List payload_t) : Bool :=
  payloads.any (fun payload =>
    match payload with
    | payload_t.PLV2_NOTIFY notify =>
      notify.notify_type == notify_type_t.REKEY_SA &&
        (notify.protocol_id == PROTO_AH || notify.protocol_id == PROTO_ESP)
    | _ => false)

/-- The variable `ts_found` after the enumeration of lines 1724-1750. -/
def ts_found (payloads : List payload_t) : Bool :=
  payloads.any (fun payload =>
    match payload with
    | payload_t.PLV2_TS_INITIATOR => true
    | payload_t.PLV2_TS_RESPONDER => true
    | _ => false)

/-- The task created for a CREATE_CHILD_SA request (lines 1752-1768). -/
def child_sa_task (payloads : List payload_t) : task_type_t :=
  if ts_found payloads then
    if rekey_notify_found payloads then task_type_t.TASK_CHILD_REKEY
    else task_type_t.TASK_CHILD_CREATE
  else task_type_t.TASK_IKE_REKEY

/-- The task a notify of an INFORMATIONAL request stands for (lines 1798-1834),
`none` for FRAGMENT_ACK and for the notifies of no concern. -/
def notify_task (type : notify_type_t) : Option task_type_t :=
  match type with
  | notify_type_t.ADDITIONAL_IP4_ADDRESS => some task_type_t.TASK_IKE_MOBIKE
  | notify_type_t.ADDITIONAL_IP6_ADDRESS => some task_type_t.TASK_IKE_MOBIKE
  | notify_type_t.NO_ADDITIONAL_ADDRESSES => some task_type_t.TASK_IKE_MOBIKE
  | notify_type_t.UPDATE_SA_ADDRESSES => some task_type_t.TASK_IKE_MOBIKE
  | notify_type_t.NO_NATS_ALLOWED => some task_type_t.TASK_IKE_MOBIKE
  | notify_type_t.UNACCEPTABLE_ADDRESSES => some task_type_t.TASK_IKE_MOBIKE
  | notify_type_t.UNEXPECTED_NAT_DETECTED => some task_type_t.TASK_IKE_MOBIKE
  | notify_type_t.COOKIE2 => some task_type_t.TASK_IKE_MOBIKE
  | notify_type_t.NAT_DETECTION_SOURCE_IP => some task_type_t.TASK_IKE_MOBIKE
  | notify_type_t.NAT_DETECTION_DESTINATION_IP => some task_type_t.TASK_IKE_MOBIKE
  | notify_type_t.AUTH_LIFETIME => some task_type_t.TASK_IKE_AUTH_LIFETIME
  | notify_type_t.INVALID_SYNTAX => some task_type_t.TASK_IKE_DELETE
  | notify_type_t.AUTHENTICATION_FAILED => some task_type_t.TASK_IKE_DELETE
  | notify_type_t.REDIRECT => some task_type_t.TASK_IKE_REDIRECT
  | notify_type_t.IKEV2_MESSAGE_ID_SYNC => some task_type_t.TASK_IKE_MID_SYNC
  | _ => none

/-- The enumeration of lines 1774-1860 over the payloads of an INFORMATIONAL
request: a FRAGMENT_ACK notify is processed on the spot, the first payload that
stands for a task ends the enumeration.  Returns the variable `task` and the
manager afterwards. -/
def informational_scan (e : Endian) (env : env_t) (message : message_t) :
    private_task_manager_t → List payload_t → Option task_type_t × private_task_manager_t
  | this, [] => (none, this)
  | this, payload :: rest =>
    match payload with
    | payload_t.PLV2_NOTIFY notify =>
      if env.state = ike_sa_state_t.IKE_REKEYED then
        informational_scan e env message this rest
      else if notify.notify_type = notify_type_t.FRAGMENT_ACK then
        informational_scan e env message (process_fragment_ack e env this message) rest
      else
        match notify_task notify.notify_type with
        | some type => (some type, this)
        | none => informational_scan e env message this rest
    | payload_t.PLV2_DELETE protocol_id =>
      if protocol_id = PROTO_IKE then (some task_type_t.TASK_IKE_DELETE, this)
      else (some task_type_t.TASK_CHILD_DELETE, this)
    | _ => informational_scan e env message this rest

/-- The creation of tasks depending on the request type, when none is queued
yet (lines 1673-1879).  The result is `none` where `process_request` returns
FAILED at line 1721. -/
def spawn_tasks (e : Endian) (env : env_t) (this : private_task_manager_t)
    (message : message_t) : Option private_task_manager_t :=
  if this.passive_tasks.length = 0 then
    match message.exchange_type with
    | exchange_type_t.IKE_SA_INIT =>
      some { this with
        passive_tasks := this.passive_tasks ++ init_request_tasks.map (create_task env) }
    | exchange_type_t.CREATE_CHILD_SA =>
      if env.state = ike_sa_state_t.IKE_CREATED ∨ env.state = ike_sa_state_t.IKE_CONNECTING then
        none
      else
        some { this with
          passive_tasks := this.passive_tasks ++ [create_task env (child_sa_task message.payloads)] }
    | exchange_type_t.INFORMATIONAL =>
      let s := informational_scan e env message this message.payloads
      let type := s.1.getD task_type_t.TASK_IKE_DPD
      some { s.2 with passive_tasks := s.2.passive_tasks ++ [create_task env type] }
    | _ => some this
  else
    some this

/-- The manager a step leaves. -/
def step_t.this : step_t → private_task_manager_t
  | step_t.returns _ this _ => this
  | step_t.goes_on this _ => this
  | step_t.restarts this _ => this

/-- The call of `reset` a task has the IKE_SA make while it processes a
message. -/
def process_resets (env : env_t) (this : private_task_manager_t) (task : task_t) :
    private_task_manager_t × effects_t :=
  match task.process_reset with
  | some args => reset env this args.1 args.2
  | none => (this, {})

/-- The process pass over the passive tasks (lines 1920-1945).  `this` holds the
tasks that stay in the array in front of the enumerator; `rest` those still to
be enumerated. -/
def request_process_pass (env : env_t) :
    private_task_manager_t → List task_t → effects_t → step_t
  | this0, [], eff => step_t.goes_on this0 eff
  | this0, task :: rest, eff0 =>
    let call : hook_call_t := { hook := hook_t.process, task := task }
    let destroy : hook_call_t := { hook := hook_t.destroy, task := task }
    let r := process_resets env this0 task
    let this := r.1
    let eff := (eff0.append { hooks := [call] }).append r.2
    match task.process with
    | status_t.SUCCESS => request_process_pass env this rest (eff.append { hooks := [destroy] })
    | status_t.NEED_MORE =>
      request_process_pass env { this with passive_tasks := this.passive_tasks ++ [task] } rest eff
    | status_t.DESTROY_ME =>
      step_t.returns status_t.DESTROY_ME
        { this with passive_tasks := this.passive_tasks ++ rest }
        (eff.append { hooks := [destroy] })
    | _ =>
      step_t.returns status_t.DESTROY_ME
        { this with passive_tasks := this.passive_tasks ++ rest }
        (eff.append { ike_updown := [false], hooks := [destroy] })

/-- The check of lines 1277-1281 and 1667-1671: a message carrying the notify
SELECTIVE_FRAGMENT_RETRANSMISSION_SUPPORTED latches the support of the peer. -/
def latch_peer_support (this : private_task_manager_t) (message : message_t) :
    private_task_manager_t :=
  if (message.get_notify notify_type_t.SELECTIVE_FRAGMENT_RETRANSMISSION_SUPPORTED).isSome then
    { this with peer_supports_selective_retransmission := true }
  else this

/-- The passes of `process_request` over the passive tasks and the building of
the response (lines 1881-1972). -/
def request_passes (env : env_t) (this2 : private_task_manager_t) (message : message_t) :
    result_t :=
  let pre := pre_process_pass this2.passive_tasks
  let eff1 : effects_t := { hooks := pre.2 }
  match pre.1 with
  | some status_t.DESTROY_ME => { status := status_t.DESTROY_ME, this := this2, effects := eff1 }
  | some _ =>
    match message.exchange_type with
    | exchange_type_t.IKE_SA_INIT =>
      { status := status_t.DESTROY_ME, this := this2, effects := eff1 }
    | exchange_type_t.IKE_AUTH =>
      { status := status_t.NEED_MORE, this := this2, effects := eff1 }
    | _ =>
      let f := flush_queue this2 task_queue_t.TASK_QUEUE_PASSIVE
      { status := status_t.NEED_MORE, this := f.1, effects := eff1.append f.2 }
  | none =>
    match request_process_pass env { this2 with passive_tasks := [] } this2.passive_tasks eff1 with
    | step_t.returns status this3 eff2 => { status := status, this := this3, effects := eff2 }
    | step_t.restarts this3 eff2 =>
      { status := status_t.FAILED, this := this3, effects := eff2 }
    | step_t.goes_on this3 eff2 =>
      let post := post_process_pass this3.passive_tasks
      let this4 : private_task_manager_t := { this3 with passive_tasks := post.2.1 }
      let eff3 := eff2.append { hooks := post.2.2 }
      if post.1 then
        { status := status_t.DESTROY_ME, this := this4, effects := eff3 }
      else
        (build_response env this4 message).after eff3

/-- Handle an incoming request message (lines 1654-1973). -/
def process_request (e : Endian) (env : env_t) (this0 : private_task_manager_t)
    (message : message_t) : result_t :=
  match spawn_tasks e env (latch_peer_support this0 message) message with
  | none => { status := status_t.FAILED, this := latch_peer_support this0 message }
  | some this2 => request_passes env this2 message

/-! ## Receiving a message (lines 1975-2760) -/

/-- The method `incr_mid` (lines 1975-1986). -/
def incr_mid (this : private_task_manager_t) (initiate : Bool) : private_task_manager_t :=
  if initiate then { this with initiating_mid := u32 (this.initiating_mid + 1) }
  else { this with responding_mid := u32 (this.responding_mid + 1) }

/-- The method `get_mid` (lines 1988-1992). -/
def get_mid (this : private_task_manager_t) (initiate : Bool) : Nat :=
  if initiate then this.initiating_mid else this.responding_mid

/-- Hash the given message with SHA-1 (lines 1997-2010): the hash, or `none`
when no hasher is available or hashing fails. -/
def hash_message (env : env_t) (msg : message_t) : Option (List Nat) :=
  env.get_hash msg.packet_data

/-- The two reassembly helpers of the manager, `responding.defrag` and
`initiating.defrag`. -/
inductive defrag_slot_t where
  | responding
  | initiating
deriving DecidableEq, Repr

/-- The helper a slot holds. -/
def get_defrag (this : private_task_manager_t) (slot : defrag_slot_t) : Option defrag_t :=
  match slot with
  | defrag_slot_t.responding => this.responding_defrag
  | defrag_slot_t.initiating => this.initiating_defrag

/-- Assignment to the helper of a slot. -/
def set_defrag (this : private_task_manager_t) (slot : defrag_slot_t)
    (defrag : Option defrag_t) : private_task_manager_t :=
  match slot with
  | defrag_slot_t.responding => { this with responding_defrag := defrag }
  | defrag_slot_t.initiating => { this with initiating_defrag := defrag }

/-- The fragment number of the encrypted fragment payload of a message, `none`
when it has none (`get_payload(msg, PLV2_FRAGMENT)`). -/
def get_fragment (msg : message_t) : Option Nat :=
  msg.payloads.findSome? (fun payload =>
    match payload with
    | payload_t.PLV2_FRAGMENT fragment_number => some (u16 fragment_number)
    | _ => none)

/-- The statement `hash_message(msg, this->responding.hash)`: the buffer is
written when hashing succeeds. -/
def store_hash (env : env_t) (this : private_task_manager_t) (msg : message_t) :
    private_task_manager_t :=
  match hash_message env msg with
  | some hash => { this with responding_hash := hash }
  | none => this

/-- Modelled from the spec: the order of the states of an IKE_SA, by which a
state is past IKE_CONNECTING (the declaration of `ike_sa_state_t` is not part of
this file of the daemon). -/
def ike_sa_state_t.toNat : ike_sa_state_t → Nat
  | ike_sa_state_t.IKE_CREATED => 0
  | ike_sa_state_t.IKE_CONNECTING => 1
  | ike_sa_state_t.IKE_ESTABLISHED => 2
  | ike_sa_state_t.IKE_PASSIVE => 3
  | ike_sa_state_t.IKE_REKEYING => 4
  | ike_sa_state_t.IKE_REKEYED => 5
  | ike_sa_state_t.IKE_DELETING => 6
  | ike_sa_state_t.IKE_DESTROYING => 7

/-- The reassembly helper `handle_fragment` works with (lines 2036-2043): the
one of the slot, or a new one made from the fragment; `none` when that fails. -/
def obtain_defrag (env : env_t) (this : private_task_manager_t) (slot : defrag_slot_t)
    (msg : message_t) : Option defrag_t :=
  match get_defrag this slot with
  | some defrag => some defrag
  | none => env.message_create_defrag msg

/-- What `handle_fragment` does with a fragment that was added (lines 2046-2075):
the first fragment is hashed, and with selective retransmission enabled an
acknowledgment is sent at once.  The result is `none` when the acknowledgment
loop does not end. -/
def acknowledge_fragment (e : Endian) (env : env_t) (this1 : private_task_manager_t)
    (defrag : defrag_t) (msg : message_t) (fragment_number : Nat) (status : status_t) :
    Option (private_task_manager_t × effects_t) :=
  if status = status_t.NEED_MORE ∨ status = status_t.SUCCESS then
    let this2 := if fragment_number = 1 then store_hash env this1 msg else this1
    if this2.selective_retransmission_enabled then
      match send_immediate_fragment_ack e env.malloc_ok env.my_host env.other_host
          (some defrag) msg.message_id fragment_number with
      | none => none
      | some ack_msg =>
        some (this2, { generated := [ack_msg], sent := (env.generate_message ack_msg).toList })
    else some (this2, {})
  else some (this1, {})

/-- What `handle_fragment` does once the last fragment was added (lines
2083-2116): the reassembled message is handed to `process_message` of the IKE_SA
unless a message with this ID was processed already, and the helper is
destroyed. -/
def complete_reassembly (reinject : private_task_manager_t → message_t → Option result_t)
    (env : env_t) (this3 : private_task_manager_t) (slot : defrag_slot_t) (defrag : defrag_t)
    (msg : message_t) (eff : effects_t) : Option result_t :=
  let already_processed : Bool :=
    decide (msg.message_id ≤ this3.responding_mid) &&
      decide (ike_sa_state_t.IKE_CONNECTING.toNat < env.state.toNat)
  if already_processed then
    some { status := status_t.NEED_MORE, this := set_defrag this3 slot none, effects := eff }
  else
    match reinject this3 defrag.reassembled with
    | none => none
    | some r =>
      some { status := if r.status = status_t.SUCCESS then status_t.NEED_MORE else r.status
             this := set_defrag r.this slot none
             effects := (eff.append { reinjected := [defrag.reassembled] }).append r.effects }

/-- Handle the given IKE fragment, if it is one (lines 2019-2118).  `slot` is the
helper handed in; `msg_defrag` names the slot whose helper the message itself
is, when it is a reassembled message handed back by the IKE_SA.  `reinject` is
`process_message` of the IKE_SA, which hands the reassembled message to the
manager again.  The result is `none` when the acknowledgment loop does not end
or `reinject` yields none. -/
def handle_fragment (reinject : private_task_manager_t → message_t → Option result_t)
    (e : Endian) (env : env_t) (this : private_task_manager_t) (slot : defrag_slot_t)
    (msg : message_t) (msg_defrag : Option defrag_slot_t) : Option result_t :=
  match get_fragment msg with
  | none =>
    some { status := status_t.SUCCESS
           this := if msg_defrag ≠ some slot then store_hash env this msg else this }
  | some fragment_number =>
    match obtain_defrag env this slot msg with
    | none => some { status := status_t.FAILED, this := this }
    | some defrag0 =>
      let added := env.add_fragment defrag0 msg
      match acknowledge_fragment e env (set_defrag this slot (some added.2)) added.2 msg
          fragment_number added.1 with
      | none => none
      | some acked =>
        if added.1 = status_t.SUCCESS then
          complete_reassembly reinject env acked.1 slot added.2 msg acked.2
        else
          some { status := added.1, this := acked.1, effects := acked.2 }

/-- Send a notify back to the sender (lines 2123-2156): the response handed to
the generation service and the packet sent. -/
def send_notify_response (env : env_t) (request : message_t) (type : notify_type_t)
    (data : List Nat) : effects_t :=
  let response : message_t :=
    add_notify
      { exchange_type := request.exchange_type
        request := false
        message_id := request.message_id
        source := if env.my_host_is_anyaddr then request.destination else env.my_host
        destination := if env.other_host_is_anyaddr then request.source else env.other_host }
      type data
  { generated := [response], sent := (env.generate_message response).toList }

/-- Send an INVALID_SYNTAX notify and destroy the IKE_SA for authenticated
messages (lines 2162-2175). -/
def send_invalid_syntax (env : env_t) (this : private_task_manager_t) (msg : message_t) :
    result_t :=
  { status :=
      if msg.exchange_type = exchange_type_t.IKE_SA_INIT then status_t.FAILED
      else status_t.DESTROY_ME
    this := incr_mid this false
    effects := send_notify_response env msg notify_type_t.INVALID_SYNTAX [] }

/-- Check for unsupported critical payloads (lines 2180-2205): the status and the
type of the first critical unknown payload. -/
def has_unsupported_critical_payload (msg : message_t) : status_t × Nat :=
  match msg.payloads.findSome? (fun payload =>
      match payload with
      | payload_t.PL_UNKNOWN type true => some type
      | _ => none) with
  | some type => (status_t.NOT_SUPPORTED, type % 256)
  | none => (status_t.SUCCESS, 0)

/-- The switch of lines 2236-2270 of `parse_message` on the status of a parsing
that failed; `status` is the variable of that name before the switch and `type`
the type of the critical payload. -/
def parse_failure (env : env_t) (this : private_task_manager_t) (msg : message_t)
    (status parse_status : status_t) (type : Nat) : result_t :=
  match parse_status with
  | status_t.NOT_SUPPORTED =>
    if msg.request then
      { status := status, this := incr_mid this false
        effects := send_notify_response env msg
          notify_type_t.UNSUPPORTED_CRITICAL_PAYLOAD [type] }
    else { status := status, this := this }
  | status_t.PARSE_ERROR =>
    if msg.request then send_invalid_syntax env this msg
    else { status := status, this := this }
  | status_t.VERIFY_ERROR =>
    if msg.request then send_invalid_syntax env this msg
    else { status := status, this := this }
  | _ => { status := status, this := this }

/-- The switch of lines 2279-2295 of `parse_message` on the state of the IKE_SA:
the status returned and the `ike_updown` events raised. -/
def parse_failure_state (env : env_t) (status : status_t) : status_t × List Bool :=
  match env.state with
  | ike_sa_state_t.IKE_CREATED => (status_t.DESTROY_ME, [])
  | ike_sa_state_t.IKE_CONNECTING => (status, [])
  | ike_sa_state_t.IKE_REKEYED => (status, [])
  | _ => (status, if status = status_t.DESTROY_ME then [false] else [])

/-- Parse the given message and verify that it is valid (lines 2210-2298). -/
def parse_message (env : env_t) (this0 : private_task_manager_t) (msg : message_t) : result_t :=
  let d := derive_keys this0.passive_tasks
  let this : private_task_manager_t := { this0 with passive_tasks := d.2.1 }
  let critical := has_unsupported_critical_payload msg
  let parse_status : status_t :=
    if d.1 then
      if msg.parse_body = status_t.SUCCESS then critical.1 else msg.parse_body
    else status_t.INVALID_STATE
  let status0 : status_t := if d.1 then parse_status else status_t.DESTROY_ME
  let eff0 : effects_t := { hooks := d.2.2 }
  if parse_status = status_t.SUCCESS then
    { status := status0, this := this, effects := eff0 }
  else
    let r := parse_failure env this msg status0 parse_status critical.2
    let s := parse_failure_state env r.status
    { status := s.1
      this := r.this
      effects := ((eff0.append r.effects).append
        { alerts := [alert_t.ALERT_PARSE_ERROR_BODY msg parse_status] }).append
        { ike_updown := s.2 } }

/-- Check if message contains FRAGMENT_ACK notify (lines 2303-2315). -/
def has_fragment_ack_notify (msg : message_t) : Bool :=
  (msg.get_notify notify_type_t.FRAGMENT_ACK).isSome

/-- Check whether we should reject the given request message (lines
2320-2381). -/
def reject_request (env : env_t) (this : private_task_manager_t) (msg : message_t) : Bool :=
  let state := env.state
  let type := msg.exchange_type
  let reject0 : Bool :=
    match type with
    | exchange_type_t.IKE_SA_INIT => state != ike_sa_state_t.IKE_CREATED
    | exchange_type_t.IKE_INTERMEDIATE =>
      state != ike_sa_state_t.IKE_CONNECTING ||
        !has_queued this task_queue_t.TASK_QUEUE_PASSIVE task_type_t.TASK_IKE_INIT
    | exchange_type_t.IKE_AUTH => state != ike_sa_state_t.IKE_CONNECTING
    | _ => false
  if reject0 then true
  else
    match state with
    | ike_sa_state_t.IKE_REKEYED => type != exchange_type_t.INFORMATIONAL
    | ike_sa_state_t.IKE_CREATED =>
      if env.is_initiator && type == exchange_type_t.INFORMATIONAL && has_fragment_ack_notify msg
      then false else env.is_initiator
    | ike_sa_state_t.IKE_CONNECTING =>
      if env.is_initiator && type == exchange_type_t.INFORMATIONAL && has_fragment_ack_notify msg
      then false else env.is_initiator
    | _ => false

/-- The enumeration of lines 2396-2415: the variables `found` and `other`. -/
def mid_sync_loop : List payload_t → Bool → Bool × Bool
  | [], found => (found, false)
  | payload :: rest, found =>
    match payload with
    | payload_t.PLV2_NOTIFY notify =>
      if notify.notify_type = notify_type_t.IKEV2_MESSAGE_ID_SYNC ∨
          notify.notify_type = notify_type_t.IPSEC_REPLAY_COUNTER_SYNC then
        mid_sync_loop rest true
      else (found, true)
    | _ => (found, true)

/-- Check if a message with message ID 0 looks like it is used to synchronize
the message IDs (lines 2389-2417). -/
def is_mid_sync (msg : message_t) : Bool :=
  let r := mid_sync_loop msg.payloads false
  r.1 && !r.2

/-- Check if a message with message ID 0 looks like it could potentially be used
to synchronize the message IDs and if we are prepared to process it (lines
2425-2431). -/
def is_potential_mid_sync (env : env_t) (msg : message_t) : Bool :=
  msg.exchange_type == exchange_type_t.INFORMATIONAL &&
    env.state == ike_sa_state_t.IKE_ESTABLISHED && env.supports_EXT_IKE_MESSAGE_ID_SYNC

/-- Check if the given message is a retransmitted request (lines 2436-2479).
The difference `this->responding.mid - 1` is taken in a `uint32_t`. -/
def is_retransmit (env : env_t) (this : private_task_manager_t) (msg : message_t) : status_t :=
  let mid := msg.message_id
  if mid = 0 ∧ has_fragment_ack_notify msg = true then status_t.NEED_MORE
  else if mid = this.responding_mid then status_t.NEED_MORE
  else if mid = u32 (this.responding_mid + 4294967295) ∧ 0 < this.responding_packets.length then
    match hash_message env msg with
    | none => status_t.FAILED
    | some hash =>
      if hash = this.responding_prev_hash then status_t.ALREADY_DONE else status_t.INVALID_ARG
  else status_t.INVALID_ARG

/-- The block of lines 2602-2635, entered when the message ID is not the expected
one: the message is parsed, a FRAGMENT_ACK it carries is processed, and it is
ignored. -/
def message_id_mismatch (e : Endian) (env : env_t) (this : private_task_manager_t)
    (msg : message_t) (is_fragment_ack_request : Bool) (eff : effects_t) : step_t :=
  let p := parse_message env this msg
  if p.status = status_t.SUCCESS ∧
      (is_fragment_ack_request = true ∨ has_fragment_ack_notify msg = true) then
    step_t.returns status_t.SUCCESS (process_fragment_ack e env p.this msg) (eff.append p.effects)
  else
    step_t.returns status_t.SUCCESS p.this (eff.append p.effects)

/-- The end of the first part of `process_message` when no message ID is
expected (lines 2636-2639): a status other than SUCCESS is returned. -/
def after_parse (p : result_t) : step_t :=
  if p.status ≠ status_t.SUCCESS then step_t.returns p.status p.this p.effects
  else step_t.goes_on p.this p.effects

/-- The early detection of lines 2493-2505: an INFORMATIONAL request with message
ID 0 that carries a FRAGMENT_ACK notify.  `process_message` evaluates it on the
message before its body is parsed. -/
def is_fragment_ack_request (msg : message_t) : Bool :=
  msg.request && msg.message_id == 0 && msg.exchange_type == exchange_type_t.INFORMATIONAL &&
    has_fragment_ack_notify msg

/-- The case INVALID_ARG of the switch of `process_message` on the result of
`is_retransmit` (lines 2524-2543), together with what follows it: a request
with message ID 0 that may synchronise the message IDs is parsed to find out,
any other one has an unexpected message ID. -/
def receive_unknown_request (e : Endian) (env : env_t) (this : private_task_manager_t)
    (msg : message_t) : step_t :=
  if msg.message_id = 0 ∧ is_potential_mid_sync env msg = true then
    let p := parse_message env this msg
    if p.status = status_t.SUCCESS ∧ is_mid_sync msg = false then
      message_id_mismatch e env p.this msg (is_fragment_ack_request (unparsed msg)) p.effects
    else after_parse p
  else
    message_id_mismatch e env this msg (is_fragment_ack_request (unparsed msg)) {}

/-- The first part of `process_message` for a request (lines 2509-2548 and
2602-2639).  `is_retransmit` and the early detection of an acknowledgment run
before the body of the message is parsed. -/
def receive_request (e : Endian) (env : env_t) (this : private_task_manager_t)
    (msg : message_t) : step_t :=
  match is_retransmit env this (unparsed msg) with
  | status_t.ALREADY_DONE =>
    let s := send_packets env this this.responding_packets msg.destination msg.source
    step_t.returns status_t.SUCCESS s.1
      { alerts := [alert_t.ALERT_RETRANSMIT_RECEIVE msg], sent := s.2 }
  | status_t.INVALID_ARG => receive_unknown_request e env this msg
  | status_t.NEED_MORE => after_parse (parse_message env this msg)
  | _ => step_t.returns status_t.FAILED this {}

/-- The first part of `process_message` for a response (lines 2549-2639). -/
def receive_response (e : Endian) (env : env_t) (this : private_task_manager_t)
    (msg : message_t) : step_t :=
  if msg.message_id = this.initiating_mid then
    let p := parse_message env this msg
    if p.status = status_t.SUCCESS ∧ has_fragment_ack_notify msg = true then
      after_parse { p with this := process_fragment_ack e env p.this msg }
    else after_parse p
  else if msg.message_id = 0 ∧ has_fragment_ack_notify (unparsed msg) = true then
    let p := parse_message env this msg
    if p.status = status_t.SUCCESS then
      step_t.returns p.status (process_fragment_ack e env p.this msg) p.effects
    else step_t.returns p.status p.this p.effects
  else
    message_id_mismatch e env this msg (is_fragment_ack_request (unparsed msg)) {}

/-- The first part of `process_message` (lines 2489-2639): retransmitted requests
are answered from the cache, messages with an unexpected message ID are ignored,
the others are parsed. -/
def receive_message (e : Endian) (env : env_t) (this : private_task_manager_t)
    (msg : message_t) : step_t :=
  if msg.request then receive_request e env this msg
  else receive_response e env this msg

/-- The job of lines 2747-2758, armed when the IKE_SA got its configuration while
this message was handled. -/
def delete_job (env : env_t) (schedule_delete_job : Bool) : effects_t :=
  if schedule_delete_job then
    { jobs := [sched_call_t.schedule_job { kind := job_kind_t.delete_ike_sa_job }
        env.half_open_timeout] }
  else {}

/-- What `process_message` makes of the status of `process_request` (lines
2693-2707): on SUCCESS the expected message ID is advanced and the hash of the
request kept for the detection of retransmits. -/
def conclude_request (env : env_t) (r : result_t) (schedule_delete_job : Bool) : result_t :=
  match r.status with
  | status_t.SUCCESS =>
    { status := status_t.SUCCESS
      this := { r.this with
        responding_mid := u32 (r.this.responding_mid + 1)
        responding_prev_hash := r.this.responding_hash }
      effects := r.effects.append (delete_job env schedule_delete_job) }
  | status_t.NEED_MORE =>
    { status := status_t.SUCCESS, this := r.this
      effects := r.effects.append (delete_job env schedule_delete_job) }
  | _ =>
    let f := flush r.this
    { status := status_t.DESTROY_ME, this := f.1, effects := r.effects.append f.2 }

/-- The handling of a parsed request in `process_message` (lines 2663-2708). -/
def handle_request (reinject : private_task_manager_t → message_t → Option result_t)
    (e : Endian) (env : env_t) (this : private_task_manager_t) (msg : message_t)
    (msg_defrag : Option defrag_slot_t) (schedule_delete_job : Bool) : Option result_t :=
  if reject_request env this msg then
    some { status := status_t.FAILED, this := this }
  else
    match handle_fragment reinject e env this defrag_slot_t.responding msg msg_defrag with
    | none => none
    | some h =>
      if h.status ≠ status_t.SUCCESS then some h
      else if (env.bus_message msg).exchange_type = exchange_type_t.EXCHANGE_TYPE_UNDEFINED then
        some { status := status_t.SUCCESS, this := h.this, effects := h.effects }
      else
        some ((conclude_request env (process_request e env h.this (env.bus_message msg))
          schedule_delete_job).after h.effects)

/-- What `process_message` makes of the status of `process_response` (lines
2738-2744). -/
def conclude_response (env : env_t) (r : result_t) (schedule_delete_job : Bool) : result_t :=
  if r.status ≠ status_t.SUCCESS then
    let f := flush r.this
    { status := status_t.DESTROY_ME, this := f.1, effects := r.effects.append f.2 }
  else
    { status := status_t.SUCCESS, this := r.this
      effects := r.effects.append (delete_job env schedule_delete_job) }

/-- The handling of a parsed response in `process_message` (lines 2709-2745);
`fuel` bounds the recursion of `initiate`. -/
def handle_response (reinject : private_task_manager_t → message_t → Option result_t)
    (fuel : Nat) (e : Endian) (env : env_t) (this : private_task_manager_t) (msg : message_t)
    (msg_defrag : Option defrag_slot_t) (schedule_delete_job : Bool) : Option result_t :=
  match handle_fragment reinject e env this defrag_slot_t.initiating msg msg_defrag with
  | none => none
  | some h =>
    if h.status ≠ status_t.SUCCESS then some h
    else if (env.bus_message msg).exchange_type = exchange_type_t.EXCHANGE_TYPE_UNDEFINED then
      some { status := status_t.SUCCESS, this := h.this, effects := h.effects }
    else
      match process_response fuel env h.this (env.bus_message msg) with
      | none => none
      | some r => some ((conclude_response env r schedule_delete_job).after h.effects)

/-- The method `process_message` (lines 2481-2760).  `msg_defrag` names the
reassembly helper the message is, when the IKE_SA hands a reassembled message
back; it is `none` for a message coming from the network.  The first argument
bounds the depth of the re-injection of reassembled messages and of the
recursion of `initiate`; the result is `none` when that bound is used up or the
acknowledgment loop does not end. -/
def process_message : Nat → Endian → env_t → private_task_manager_t → message_t →
    Option defrag_slot_t → Option result_t
  | 0, _, _, _, _, _ => none
  | fuel + 1, e, env, this0, msg, msg_defrag =>
    match receive_message e env this0 msg with
    | step_t.returns status this eff => some { status := status, this := this, effects := eff }
    | step_t.restarts this eff => some { status := status_t.FAILED, this := this, effects := eff }
    | step_t.goes_on this eff0 =>
      if env.has_ike_cfg = false ∧ env.backends_get_ike_cfg = false then
        some { status := status_t.DESTROY_ME, this := this
               effects := eff0.append
                 (send_notify_response env msg notify_type_t.NO_PROPOSAL_CHOSEN []) }
      else if msg.request then
        (handle_request (fun th m => process_message fuel e env th m
          (some defrag_slot_t.responding)) e env this msg msg_defrag (!env.has_ike_cfg)).map
          (result_t.after eff0)
      else
        (handle_response (fun th m => process_message fuel e env th m
          (some defrag_slot_t.initiating)) (fuel + 1) e env this msg msg_defrag
          (!env.has_ike_cfg)).map (result_t.after eff0)

/-! ## Queueing tasks and creating the manager (lines 2762-2797, 3207-3211 and 3391-3450) -/

/-- The method `queue_task_delayed` (lines 2762-2791).  Returns the manager and,
for a delayed task, the job handed to `schedule_job_tv` with its time. -/
def queue_task_delayed (env : env_t) (this : private_task_manager_t) (task : task_t)
    (delay : Nat) : private_task_manager_t × Option (job_t × Nat) :=
  let time := if delay ≠ 0 then env.now + delay else env.now
  ({ this with queued_tasks := this.queued_tasks ++ [{ task := task, time := time }] },
   if delay ≠ 0 then some ({ kind := job_kind_t.initiate_tasks_job }, time) else none)

/-- The method `queue_task` (lines 2793-2797). -/
def queue_task (env : env_t) (this : private_task_manager_t) (task : task_t) :
    private_task_manager_t :=
  (queue_task_delayed env this task 0).1

/-- The method `busy` (lines 3207-3211). -/
def busy (this : private_task_manager_t) : Bool :=
  decide (0 < this.active_tasks.length)

/-- The constructor `task_manager_v2_create` (lines 3391-3450), given the two
settings it reads and the number of tries of the retransmission settings. -/
def task_manager_v2_create (make_before_break selective_fragment_retransmission : Bool)
    (tries : Nat) : private_task_manager_t :=
  { responding_hash := List.replicate 20 0
    responding_prev_hash := List.replicate 20 0
    initiating_type := exchange_type_t.EXCHANGE_TYPE_UNDEFINED
    initiating_retransmitted := 0
    initiating_retransmit_sent := false
    initiating_deferred := false
    queued_tasks := []
    active_tasks := []
    passive_tasks := []
    make_before_break := make_before_break
    outgoing_tracker := none
    peer_supports_selective_retransmission := false
    selective_retransmission_enabled := selective_fragment_retransmission
    current_retransmit_job := none
    retransmit_tries := tries }

/-- A manager that has given up: message ID 3 in flight with one packet pending
and six retransmissions counted against five tries. -/
def exhausted_manager : private_task_manager_t :=
  { initiating_mid := 3
    initiating_type := exchange_type_t.CREATE_CHILD_SA
    initiating_packets := [packet_of_size 80]
    initiating_retransmitted := 6
    retransmit_tries := 5
    current_retransmit_job := some { message_id := 3 } }

/-- A manager with message ID 2 in flight, one packet pending, no tracker, and a
retransmit job for message 2 pending in the scheduler. -/
def awaiting_response : private_task_manager_t :=
  { initiating_mid := 2
    initiating_type := exchange_type_t.INFORMATIONAL
    initiating_packets := [packet_of_size 80]
    initiating_retransmitted := 1
    current_retransmit_job := some { message_id := 2 } }

/-- An initiator with the IKE_AUTH request 1 in flight whose only active task
answers NEED_MORE from `pre_process`. -/
def pre_process_defers : private_task_manager_t :=
  { initiating_mid := 1
    initiating_type := exchange_type_t.IKE_AUTH
    initiating_packets := [packet_of_size 80]
    current_retransmit_job := some { message_id := 1 }
    active_tasks := [{ type := task_type_t.TASK_IKE_AUTH
                       pre_process := some status_t.NEED_MORE
                       process := status_t.NEED_MORE }] }

/-- An initiator with the IKE_AUTH request 1 in flight and two active tasks: the
first one completes with this response, the second one needs another
exchange. -/
def auth_in_flight : private_task_manager_t :=
  { initiating_mid := 1
    initiating_type := exchange_type_t.IKE_AUTH
    initiating_packets := [packet_of_size 80]
    current_retransmit_job := some { message_id := 1 }
    active_tasks := [{ type := task_type_t.TASK_IKE_CERT_PRE, process := status_t.SUCCESS },
                     { type := task_type_t.TASK_IKE_AUTH
                       pre_process := some status_t.SUCCESS
                       process := status_t.NEED_MORE
                       post_process := some status_t.NEED_MORE }] }

/-- The IKE_AUTH response with message ID 1. -/
def auth_response : message_t :=
  { exchange_type := exchange_type_t.IKE_AUTH, request := false, message_id := 1 }

/-- An initiator with the CREATE_CHILD_SA request 4 in flight, a task active, a
task queued behind it and a task of the peer being served. -/
def busy_manager : private_task_manager_t :=
  { initiating_mid := 4
    initiating_type := exchange_type_t.CREATE_CHILD_SA
    initiating_packets := [packet_of_size 120]
    initiating_retransmitted := 1
    current_retransmit_job := some { message_id := 4 }
    active_tasks := [{ type := task_type_t.TASK_CHILD_CREATE }]
    queued_tasks := [{ task := { type := task_type_t.TASK_IKE_DPD }, time := 0 }]
    passive_tasks := [{ type := task_type_t.TASK_IKE_MOBIKE }] }

/-! ## Adopting and removing tasks (lines 3186-3205 and 3339-3360) -/

/-- The method `adopt_tasks` (lines 3186-3205): the queued tasks of the other
manager are taken from its tail and put at the head of the queue of this one,
migrated and with their time set to now.  Returns this manager, the other one,
and the calls made. -/
def adopt_tasks (env : env_t) (this other : private_task_manager_t) :
    private_task_manager_t × private_task_manager_t × effects_t :=
  ({ this with
     queued_tasks :=
       other.queued_tasks.map (fun queued => { queued with time := env.now }) ++
         this.queued_tasks },
   { other with queued_tasks := [] },
   { hooks := other.queued_tasks.reverse.map
       (fun queued => { hook := hook_t.migrate, task := queued.task }) })

/-- The method `remove_task` (lines 3339-3360): the task the enumerator of the
given queue points at, the one at position `index`, is removed from the
queue. -/
def remove_task (this : private_task_manager_t) (queue : task_queue_t) (index : Nat) :
    private_task_manager_t :=
  match queue with
  | task_queue_t.TASK_QUEUE_ACTIVE =>
    { this with active_tasks := this.active_tasks.eraseIdx index }
  | task_queue_t.TASK_QUEUE_PASSIVE =>
    { this with passive_tasks := this.passive_tasks.eraseIdx index }
  | task_queue_t.TASK_QUEUE_QUEUED =>
    { this with queued_tasks := this.queued_tasks.eraseIdx index }
  | task_queue_t.TASK_QUEUE_OTHER => this

/-! ## Reachable states -/

/-- The public operations of the manager that change its state. -/
inductive operation_t where
  | queue_task_delayed (task : task_t) (delay : Nat)
  | initiate
  | retransmit (message_id : Nat)
  | process_message (msg : message_t)
  | incr_mid (initiate : Bool)
  | reset (initiate respond : Nat)
  | flush
  | flush_queue (queue : task_queue_t)
  | adopt_tasks (other : private_task_manager_t)
  | remove_task (queue : task_queue_t) (index : Nat)

/-- One public operation on the manager.  The operations of type `void` are given
the status SUCCESS. -/
def perform (fuel : Nat) (e : Endian) (env : env_t) (this : private_task_manager_t) :
    operation_t → Option result_t
  | operation_t.queue_task_delayed task delay =>
    some { status := status_t.SUCCESS, this := (queue_task_delayed env this task delay).1 }
  | operation_t.initiate => initiate fuel env this
  | operation_t.retransmit message_id => retransmit fuel env this message_id
  | operation_t.process_message msg => process_message fuel e env this msg none
  | operation_t.incr_mid initiate =>
    some { status := status_t.SUCCESS, this := incr_mid this initiate }
  | operation_t.reset initiate respond =>
    some { status := status_t.SUCCESS, this := (reset env this initiate respond).1
           effects := (reset env this initiate respond).2 }
  | operation_t.flush =>
    some { status := status_t.SUCCESS, this := (flush this).1, effects := (flush this).2 }
  | operation_t.flush_queue queue =>
    some { status := status_t.SUCCESS, this := (flush_queue this queue).1
           effects := (flush_queue this queue).2 }
  | operation_t.adopt_tasks other =>
    some { status := status_t.SUCCESS, this := (adopt_tasks env this other).1
           effects := (adopt_tasks env this other).2.2 }
  | operation_t.remove_task queue index =>
    some { status := status_t.SUCCESS, this := remove_task this queue index }

/-- The states of a manager reachable from `task_manager_v2_create` through
public operations, each in an environment of its own, none of which told the
caller to destroy the IKE_SA. -/
inductive reachable : private_task_manager_t → Prop where
  | create (make_before_break selective_fragment_retransmission : Bool) (tries : Nat) :
    reachable (task_manager_v2_create make_before_break selective_fragment_retransmission tries)
  | step (fuel : Nat) (e : Endian) (env : env_t) (op : operation_t)
      (this : private_task_manager_t) (r : result_t) :
    reachable this → perform fuel e env this op = some r →
      r.status ≠ status_t.DESTROY_ME → reachable r.this

/-- The task types by which `initiate` names the exchange of tasks that are
already active (lines 1077-1095). -/
def names_exchange (type : task_type_t) : Bool :=
  type == task_type_t.TASK_IKE_INIT || type == task_type_t.TASK_IKE_AUTH ||
    type == task_type_t.TASK_CHILD_CREATE || type == task_type_t.TASK_CHILD_REKEY ||
    type == task_type_t.TASK_IKE_REKEY || type == task_type_t.TASK_IKE_MOBIKE

/-- An active task that names an exchange implies an exchange in flight. -/
def in_flight_inv (this : private_task_manager_t) : Prop :=
  (∃ task ∈ this.active_tasks, names_exchange task.type = true) →
    this.initiating_type ≠ exchange_type_t.EXCHANGE_TYPE_UNDEFINED

/-- An operation keeps the active tasks and the exchange type, or it leaves no
task active. -/
def keeps_exchange (a b : private_task_manager_t) : Prop :=
  (b.active_tasks = a.active_tasks ∧ b.initiating_type = a.initiating_type) ∨
    b.active_tasks = []

/-- A freshly created manager on which a lone IKE_VENDOR task was queued and
`initiate` was called in state IKE_CREATED. -/
def vendor_activated : private_task_manager_t :=
  { task_manager_v2_create true true 5 with
    active_tasks := [{ type := task_type_t.TASK_IKE_VENDOR }] }

/-- An operation keeps the active tasks and the exchange type. -/
def same_exchange (a b : private_task_manager_t) : Prop :=
  b.active_tasks = a.active_tasks ∧ b.initiating_type = a.initiating_type

/-- The status with which a step returns, `none` when it does not return. -/
def step_t.returned : step_t → Option status_t
  | step_t.returns status _ _ => some status
  | step_t.goes_on _ _ => none
  | step_t.restarts _ _ => none

/-- A freshly created manager on which a lone IKE_INIT task was queued. -/
def init_queued : private_task_manager_t :=
  queue_task {} (task_manager_v2_create true true 5) { type := task_type_t.TASK_IKE_INIT }

/-- The manager of `init_queued` after `initiate` in state IKE_CREATED: the
IKE_SA_INIT request is out and the IKE_INIT task waits for the response. -/
def init_sent : private_task_manager_t :=
  { task_manager_v2_create true true 5 with
    active_tasks := [{ type := task_type_t.TASK_IKE_INIT }]
    initiating_type := exchange_type_t.IKE_SA_INIT
    initiating_packets := [{}]
    initiating_retransmitted := 1
    current_retransmit_job := some { message_id := 0 } }

/-- A responder that answered request 4 and expects request 5: the response to
request 4 is cached and the hash of request 4 is kept. -/
def responder_at_5 : private_task_manager_t :=
  { responding_mid := 5
    responding_packets := [packet_of_size 60]
    responding_hash := [4, 4, 4]
    responding_prev_hash := [4, 4, 4] }

/-- An environment in which no SHA-1 hasher is available. -/
def no_hasher : env_t :=
  { get_hash := fun _ => none }

/-- An INFORMATIONAL request with message ID 4 whose packet differs from the one
of the request the responder answered. -/
def request_4 : message_t :=
  { exchange_type := exchange_type_t.INFORMATIONAL
    request := true
    message_id := 4
    source := some 2
    destination := some 1
    packet_data := [7, 7, 7] }

/-- An INFORMATIONAL request with message ID 9 that carries a critical payload of
the unknown type 200. -/
def request_9_critical : message_t :=
  { exchange_type := exchange_type_t.INFORMATIONAL
    request := true
    message_id := 9
    source := some 2
    destination := some 1
    payloads := [payload_t.PL_UNKNOWN 200 true]
    packet_data := [9, 9, 9] }

/-- An INFORMATIONAL request with message ID 0 whose only payload is a
FRAGMENT_ACK notify, as `send_immediate_fragment_ack` builds it. -/
def fragment_ack_only : message_t :=
  { exchange_type := exchange_type_t.INFORMATIONAL
    request := true
    message_id := 0
    source := some 2
    destination := some 1
    payloads := [payload_t.PLV2_NOTIFY
      { notify_type := notify_type_t.FRAGMENT_ACK
        protocol_id := 0
        notification_data := List.replicate 12 0 }]
    packet_data := [10, 11, 12] }

/-- The task `ike_dpd_create(FALSE)` yields in `dpd_responder`. -/
def dpd_task : task_t :=
  { type := task_type_t.TASK_IKE_DPD
    process := status_t.NEED_MORE
    build := status_t.SUCCESS }

/-- An environment whose task constructors yield tasks that answer NEED_MORE to
`process` and SUCCESS to `build`, as the DPD task of a responder does. -/
def dpd_responder : env_t :=
  { task_create := fun type => { dpd_task with type := type } }

/-- The IKE_SA of an initiator that is connecting: the local side sent the
IKE_SA_INIT request and the IKE_SA is not established yet. -/
def connecting_initiator : env_t :=
  { state := ike_sa_state_t.IKE_CONNECTING, is_initiator := true }

/-- An INFORMATIONAL request that carries a FRAGMENT_ACK notify followed by a
payload that deletes the IKE_SA. -/
def fragment_ack_with_delete : message_t :=
  { exchange_type := exchange_type_t.INFORMATIONAL
    request := true
    message_id := 0
    source := some 2
    destination := some 1
    payloads := [payload_t.PLV2_NOTIFY
      { notify_type := notify_type_t.FRAGMENT_ACK
        protocol_id := 0
        notification_data := List.replicate 12 0 },
      payload_t.PLV2_DELETE PROTO_IKE]
    packet_data := [10, 11, 13] }

/-- A CREATE_CHILD_SA request whose only payload is a REKEY_SA notify for ESP. -/
def rekey_without_ts : message_t :=
  { exchange_type := exchange_type_t.CREATE_CHILD_SA
    request := true
    message_id := 5
    payloads := [payload_t.PLV2_NOTIFY
      { notify_type := notify_type_t.REKEY_SA, protocol_id := PROTO_ESP }] }

/-- A CREATE_CHILD_SA request with traffic selectors and a REKEY_SA notify for
ESP. -/
def rekey_with_ts : message_t :=
  { exchange_type := exchange_type_t.CREATE_CHILD_SA
    request := true
    message_id := 5
    payloads := [payload_t.PLV2_NOTIFY
      { notify_type := notify_type_t.REKEY_SA, protocol_id := PROTO_ESP },
      payload_t.PLV2_TS_INITIATOR, payload_t.PLV2_TS_RESPONDER] }

/-- An environment whose reassembly helper is complete with every fragment that
is added; the IKE_SA is in the given state. -/
def last_fragment_env (state : ike_sa_state_t) : env_t :=
  { state := state
    add_fragment := fun defrag _ => (status_t.SUCCESS, defrag) }

/-- A responder without selective retransmission that expects the request with
the given message ID. -/
def plain_responder (mid : Nat) : private_task_manager_t :=
  { responding_mid := mid, selective_retransmission_enabled := false }

/-- The second fragment of the request with the given message ID. -/
def second_fragment (mid : Nat) : message_t :=
  { exchange_type := exchange_type_t.IKE_AUTH
    request := true
    message_id := mid
    payloads := [payload_t.PLV2_FRAGMENT 2] }

/-- An IKE_SA whose `process_message` takes every message with SUCCESS. -/
def reinject_ok (this : private_task_manager_t) (_msg : message_t) : Option result_t :=
  some { status := status_t.SUCCESS, this := this }

/-- A message that the IKE_SA splits into 65 fragments of 100 bytes. -/
def fragments_65 : List packet_t := List.replicate 65 (packet_of_size 100)

/-- The order in which the specification has an established IKE_SA look for a
queued task to activate: mobike, ike-delete, redirect, child-delete, reauth,
child-create, child-rekey, ike-rekey, dpd, auth-lifetime, reauth-complete,
verify-peer-cert. -/
def spec_activation_priority : List task_type_t :=
  [task_type_t.TASK_IKE_MOBIKE, task_type_t.TASK_IKE_DELETE, task_type_t.TASK_IKE_REDIRECT,
   task_type_t.TASK_CHILD_DELETE, task_type_t.TASK_IKE_REAUTH, task_type_t.TASK_CHILD_CREATE,
   task_type_t.TASK_CHILD_REKEY, task_type_t.TASK_IKE_REKEY, task_type_t.TASK_IKE_DPD,
   task_type_t.TASK_IKE_AUTH_LIFETIME, task_type_t.TASK_IKE_REAUTH_COMPLETE,
   task_type_t.TASK_IKE_VERIFY_PEER_CERT]

/-- The exchange the specification gives for the type of the activated task:
CREATE_CHILD_SA for child-create, child-rekey and ike-rekey, INFORMATIONAL for
the others. -/
def spec_activation_exchange (type : task_type_t) : exchange_type_t :=
  if type = task_type_t.TASK_CHILD_CREATE ∨ type = task_type_t.TASK_CHILD_REKEY ∨
      type = task_type_t.TASK_IKE_REKEY then
    exchange_type_t.CREATE_CHILD_SA
  else exchange_type_t.INFORMATIONAL

/-- A queued task is a due task of the given type: its start time is not after
`now`. -/
def is_due (now : Nat) (type : task_type_t) (queued : queued_task_t) : Bool :=
  queued.task.type == type && decide (queued.time ≤ now)

/-- An established manager at time 10 with five queued tasks: a DPD task that is
due, a child-create task for time 100, an ike-rekey task that is due and two
child-rekey tasks that are due. -/
def five_queued : private_task_manager_t :=
  { queued_tasks :=
      [{ task := { type := task_type_t.TASK_IKE_DPD }, time := 0 },
       { task := { type := task_type_t.TASK_CHILD_CREATE }, time := 100 },
       { task := { type := task_type_t.TASK_IKE_REKEY }, time := 10 },
       { task := { type := task_type_t.TASK_CHILD_REKEY, ident := 1 }, time := 3 },
       { task := { type := task_type_t.TASK_CHILD_REKEY, ident := 2 }, time := 2 }] }

/-- The window of the responder is the same in two states of the manager: the
expected message ID and the two hash buffers. -/
def same_window (a b : private_task_manager_t) : Prop :=
  b.responding_mid = a.responding_mid ∧
  b.responding_prev_hash = a.responding_prev_hash ∧
  b.responding_hash = a.responding_hash

/-- The manager `process_request` is called on for a request that passed the
first part of `process_message` and is no fragment: `parse_message` has derived
the keys, and `handle_fragment` has stored the hash of the message unless the
message is the reassembled one. -/
def accepted_state (env : env_t) (this : private_task_manager_t) (msg : message_t)
    (msg_defrag : Option defrag_slot_t) : private_task_manager_t :=
  if msg_defrag ≠ some defrag_slot_t.responding then
    store_hash env { this with passive_tasks := (derive_keys this.passive_tasks).2.1 } msg
  else { this with passive_tasks := (derive_keys this.passive_tasks).2.1 }

/-- An IKE_AUTH request with message ID 5. -/
def auth_request_5 : message_t :=
  { exchange_type := exchange_type_t.IKE_AUTH
    request := true
    message_id := 5
    source := some 2
    destination := some 1
    packet_data := [5, 5, 5] }

/-- An INFORMATIONAL request with message ID 0 whose only payload is an
IKEV2_MESSAGE_ID_SYNC notify. -/
def mid_sync_request : message_t :=
  { exchange_type := exchange_type_t.INFORMATIONAL
    request := true
    message_id := 0
    source := some 2
    destination := some 1
    payloads := [payload_t.PLV2_NOTIFY { notify_type := notify_type_t.IKEV2_MESSAGE_ID_SYNC }]
    packet_data := [0, 1, 2] }

/-- An established IKE_SA that supports the synchronisation of message IDs; its
task constructors yield tasks that answer NEED_MORE to `process` and SUCCESS to
`build`. -/
def mid_sync_env : env_t :=
  { supports_EXT_IKE_MESSAGE_ID_SYNC := true
    task_create := fun type => { dpd_task with type := type } }

/-- A task that synchronises message IDs, as the responder holds it: it answers
NEED_MORE to `process` and SUCCESS to `build`. -/
def mid_sync_task : task_t :=
  { type := task_type_t.TASK_IKE_MID_SYNC
    process := status_t.NEED_MORE
    build := status_t.SUCCESS }

/-- A responder that expects request 5 and has a task to synchronise message IDs
in its passive queue. -/
def mid_sync_passive : private_task_manager_t :=
  { responder_at_5 with passive_tasks := [mid_sync_task] }

/-- An IKE_SA on which no message can be generated. -/
def no_generation : env_t :=
  { generate_message_fragmented := fun _ => none }

/-- The IKE_AUTH response with message ID 1. -/
def response_1 : message_t :=
  { exchange_type := exchange_type_t.IKE_AUTH, request := false, message_id := 1 }

/-- The manager of `after_initial_send 1` (request 1 sent in three fragments, none
acknowledged yet) with a DPD task queued behind the exchange in flight. -/
def dpd_waiting : private_task_manager_t :=
  { after_initial_send 1 with
    queued_tasks := [{ task := { type := task_type_t.TASK_IKE_DPD }, time := 0 }] }

/-- The manager after `process_response` has handled the response to request 1:
the exchange is completed and the DPD request with message ID 2 is in flight. -/
def after_response_1 : private_task_manager_t :=
  match process_response 3 {} dpd_waiting response_1 with
  | some r => r.this
  | none => dpd_waiting

/-- What a claim about the tracker looks at: message ID, the two counters, the
time of the last acknowledgment and the flags of the fragments. -/
def tracker_summary (this : private_task_manager_t) :
    Option (Nat × Nat × Nat × Nat × List Bool) :=
  this.outgoing_tracker.map (fun t =>
    (t.message_id, t.acked_fragments, t.total_fragments, t.last_ack_time,
      t.fragments.map (fun f => f.acknowledged)))

/-- The bit of a fragment number in the bitmap of a record, as a host of byte
order `e` reads it: bit `(fragment_id - 1) % 16` of word `(fragment_id - 1) / 16`. -/
def ack_bit (e : Endian) (ack_data : fragment_ack_data_t) (fragment_id : Nat) : Bool :=
  (ntohs e (ack_data.ack_bitmap.getD ((fragment_id - 1) / 16) 0)).testBit
    ((fragment_id - 1) % 16)

/-- A record that acknowledges the fragments 1 and 3 of message 1. -/
def ack_1_3 : fragment_ack_data_t :=
  { message_id := 1, total_fragments := 3, received_count := 2
    ack_bitmap := [5, 0, 0, 0, 0, 0, 0, 0] }

/-- A record with the same bits for the fragments 1 to 3, other values in the
three header fields, and bits set for the fragment numbers 7, 17, 18 and 19. -/
def ack_1_3_noisy : fragment_ack_data_t :=
  { message_id := 9, total_fragments := 700, received_count := 0
    ack_bitmap := [69, 7, 0, 0, 0, 0, 0, 0] }

/-- The value of the variables `total_fragments` and `received_count` after lines
4025-4065 of `send_immediate_fragment_ack` when the reassembler reports no
received fragment: the total it reports, or the number of the fragment that
arrived when it reports none. -/
def reassembled_total (defrag : defrag_t) (fragment_number : Nat) : Nat :=
  if u16 (defrag.get_total_fragments.getD 0) = 0 then u16 fragment_number
  else u16 (defrag.get_total_fragments.getD 0)

/-- The reassembler of a completed message whose state was reset: it reports
neither a total nor received fragments. -/
def defrag_reset : defrag_t :=
  { get_total_fragments := some 0, get_received_fragments := some [] }

/-- The loop of lines 3196-3204 of `adopt_tasks`: while a task can be removed from
the tail of the queue of the other manager, it is migrated, its time is set to
now and it is inserted at the head of the queue of this manager.  The first
argument bounds the number of iterations. -/
def adopt_tasks_loop (now : Nat) :
    Nat → List queued_task_t → List queued_task_t → List hook_call_t →
      List queued_task_t × List queued_task_t × List hook_call_t
  | 0, mine, theirs, calls => (mine, theirs, calls)
  | n + 1, mine, theirs, calls =>
    match theirs.getLast? with
    | none => (mine, theirs, calls)
    | some queued =>
      adopt_tasks_loop now n ({ queued with time := now } :: mine) theirs.dropLast
        (calls ++ [{ hook := hook_t.migrate, task := queued.task }])

/-- The method `adopt_tasks` (lines 3186-3205) statement by statement; the loop
runs until the queue of the other manager is empty. -/
def adopt_tasks_run (env : env_t) (this other : private_task_manager_t) :
    private_task_manager_t × private_task_manager_t × effects_t :=
  let r := adopt_tasks_loop env.now other.queued_tasks.length this.queued_tasks
    other.queued_tasks []
  ({ this with queued_tasks := r.1 }, { other with queued_tasks := r.2.1 }, { hooks := r.2.2 })

/-- The loop of lines 3246-3251 of `reset` over the queued tasks: the time of each
is set to now and the task is migrated. -/
def reset_queued_loop (now : Nat) : List queued_task_t → List queued_task_t × List hook_call_t
  | [] => ([], [])
  | queued :: rest =>
    let r := reset_queued_loop now rest
    ({ queued with time := now } :: r.1, { hook := hook_t.migrate, task := queued.task } :: r.2)

/-- The loop of lines 3255-3263 of `reset`: while a task can be removed from the
tail of the active tasks, it is migrated and inserted at the head of the queue
with the time now.  The first argument bounds the number of iterations. -/
def reset_active_loop (now : Nat) :
    Nat → List task_t → List queued_task_t → List hook_call_t →
      List task_t × List queued_task_t × List hook_call_t
  | 0, active, queue, calls => (active, queue, calls)
  | n + 1, active, queue, calls =>
    match active.getLast? with
    | none => (active, queue, calls)
    | some task =>
      reset_active_loop now n active.dropLast ({ task := task, time := now } :: queue)
        (calls ++ [{ hook := hook_t.migrate, task := task }])

/-- The method `reset` (lines 3213-3268) statement by statement. -/
def reset_run (env : env_t) (this : private_task_manager_t) (initiate respond : Nat) :
    private_task_manager_t × effects_t :=
  let this1 : private_task_manager_t :=
    { this with
      responding_packets := clear_packets this.responding_packets
      initiating_packets := clear_packets this.initiating_packets
      responding_defrag := none
      initiating_defrag := none }
  let this2 : private_task_manager_t := { this1 with outgoing_tracker := none }
  let this3 : private_task_manager_t :=
    if initiate ≠ UINT_MAX then { this2 with initiating_mid := initiate } else this2
  let this4 : private_task_manager_t :=
    if respond ≠ UINT_MAX then { this3 with responding_mid := respond } else this3
  let this5 : private_task_manager_t :=
    { this4 with initiating_type := exchange_type_t.EXCHANGE_TYPE_UNDEFINED }
  let q := reset_queued_loop env.now this5.queued_tasks
  let a := reset_active_loop env.now this5.active_tasks.length this5.active_tasks q.1 q.2
  ({ this5 with active_tasks := a.1, queued_tasks := a.2.1, reset := true }, { hooks := a.2.2 })

/-- The manager `retransmit` works on: the reference to the job that is
executing is cleared first (line 602). -/
def job_cleared (this : private_task_manager_t) : private_task_manager_t :=
  { this with current_retransmit_job := none }

/-- The condition under which `retransmit(message_id)` reaches its recursive call
at line 886: the tracker of the message is not complete (lines 605-608), the
main block is not entered (lines 633-634), the job is one of an older message
(line 873) and the test of lines 879-881 holds. -/
def retransmit_recurses (this : private_task_manager_t) (message_id : Nat) : Bool :=
  !is_complete (job_cleared this) message_id &&
  !(decide (message_id = this.initiating_mid ∧ 0 < this.initiating_packets.length) ||
    is_selective_retransmit (job_cleared this) message_id) &&
  decide (message_id < this.initiating_mid) &&
  has_pending_fragments (job_cleared this)

/-- A stale job: the job of message 1 fires while message 2, sent in three
fragments of which none is acknowledged, is in flight. -/
def stale_job_state : private_task_manager_t :=
  { three_fragments 2 with initiating_retransmitted := 1 }

/-! ## The reference model of `test_simple.c` -/

/-- The fragment state of the reference model (`test_fragment_state_t`,
test_simple.c lines 20-28); the packet pointer, always NULL there, is left
out. -/
structure test_fragment_state_t where
  fragment_id : Nat := 0
  acknowledged : Bool := false
  last_sent : Nat := 0
  retransmit_count : Nat := 0
  data_size : Nat := 0
  total_transmitted : Nat := 0
deriving DecidableEq, Repr

/-- The tracker of the reference model (`test_fragment_tracker_t`, test_simple.c
lines 31-41).  `fragments` is the array of `total_fragments` pointers; an entry
is `none` while the pointer is NULL. -/
structure test_fragment_tracker_t where
  message_id : Nat := 0
  fragments : List (Option test_fragment_state_t) := []
  total_fragments : Nat := 0
  acked_fragments : Nat := 0
  last_ack_time : Nat := 0
  selective_retransmission_supported : Bool := false
  total_original_size : Nat := 0
  total_transmitted_size : Nat := 0
  retransmission_count : Nat := 0
deriving DecidableEq, Repr

/-- The record of the reference model (`test_fragment_ack_data_t`, test_simple.c
lines 44-49); the words are kept in host byte order. -/
structure test_fragment_ack_data_t where
  message_id : Nat := 0
  total_fragments : Nat := 0
  received_count : Nat := 0
  ack_bitmap : List Nat := [0, 0, 0, 0, 0, 0, 0, 0]
deriving DecidableEq, Repr

/-- The function `create_test_fragment_tracker` (test_simple.c lines 54-90) when
its two allocations succeed; `now` is the value of `time(NULL)`. -/
def create_test_fragment_tracker (now message_id total_fragments : Nat) :
    test_fragment_tracker_t :=
  { message_id := message_id
    total_fragments := total_fragments
    acked_fragments := 0
    last_ack_time := now
    selective_retransmission_supported := true
    total_original_size := 0
    total_transmitted_size := 0
    retransmission_count := 0
    fragments := List.replicate total_fragments none }

/-- The function `add_test_fragment_to_tracker` (test_simple.c lines 117-154)
when its allocation succeeds. -/
def add_test_fragment_to_tracker (now : Nat) (tracker : test_fragment_tracker_t)
    (fragment_id data_size : Nat) : test_fragment_tracker_t :=
  if fragment_id < 1 ∨ tracker.total_fragments < fragment_id then tracker
  else
    let index := fragment_id - 1
    match tracker.fragments.getD index none with
    | some _ => tracker
    | none =>
      let fragment : test_fragment_state_t :=
        { fragment_id := fragment_id
          acknowledged := false
          last_sent := now
          retransmit_count := 0
          data_size := data_size
          total_transmitted := data_size }
      { tracker with
        fragments := tracker.fragments.set index (some fragment)
        total_original_size := u32 (tracker.total_original_size + data_size)
        total_transmitted_size := u32 (tracker.total_transmitted_size + data_size) }

/-- The test `(ack_data->ack_bitmap[word_index] & (1 << bit_index)) != 0` of
test_simple.c line 179 for the array index `i`. -/
def test_is_acked (ack_data : test_fragment_ack_data_t) (i : Nat) : Bool :=
  (ack_data.ack_bitmap.getD (i / 16) 0 &&& (1 <<< (i % 16))) != 0

/-- The loop of test_simple.c lines 174-196 from the index `i` on, over the
entries of the array from that index on; `bound` is the smaller of
`total_fragments` and 64, and the second component is the running value of
`tracker->acked_fragments`, a `uint16_t`. -/
def update_test_loop (ack_data : test_fragment_ack_data_t) (bound : Nat) :
    Nat → List (Option test_fragment_state_t) → Nat →
      List (Option test_fragment_state_t) × Nat
  | _, [], acked => ([], acked)
  | i, entry :: rest, acked =>
    if i < bound then
      if i / 16 < 8 then
        match entry with
        | some fragment =>
          let is_acked := test_is_acked ack_data i
          let r := update_test_loop ack_data bound (i + 1) rest
            (if is_acked then u16 (acked + 1) else acked)
          (some { fragment with acknowledged := is_acked } :: r.1, r.2)
        | none =>
          let r := update_test_loop ack_data bound (i + 1) rest acked
          (none :: r.1, r.2)
      else
        let r := update_test_loop ack_data bound (i + 1) rest acked
        (entry :: r.1, r.2)
    else
      (entry :: rest, acked)

/-- The function `update_test_fragment_ack_status` (test_simple.c lines 159-201):
the count is reset, every fragment takes the value of its bit, and the count is
the number of bits found set. -/
def update_test_fragment_ack_status (now : Nat) (tracker : test_fragment_tracker_t)
    (ack_data : test_fragment_ack_data_t) : test_fragment_tracker_t :=
  let r := update_test_loop ack_data (min tracker.total_fragments 64) 0 tracker.fragments 0
  { tracker with fragments := r.1, acked_fragments := r.2, last_ack_time := now }

/-- The statement `ack_data->ack_bitmap[word_index] |= (1 << bit_index)` of
test_simple.c with its guards (lines 295-304). -/
def test_set_bit (total_fragments : Nat) (bitmap : List Nat) (frag_id : Nat) : List Nat :=
  if 0 < frag_id ∧ frag_id ≤ total_fragments then
    let bit_pos := frag_id - 1
    let word_index := bit_pos / 16
    let bit_index := bit_pos % 16
    if word_index < 8 then
      bitmap.set word_index (u16 (bitmap.getD word_index 0 ||| (1 <<< bit_index)))
    else bitmap
  else bitmap

/-- The function `create_test_fragment_ack` (test_simple.c lines 282-308); the
three numbers are `uint16_t` parameters. -/
def create_test_fragment_ack (message_id total_fragments : Nat) (received_fragments : List Nat)
    (received_count : Nat) : test_fragment_ack_data_t :=
  { message_id := u16 message_id
    total_fragments := u16 total_fragments
    received_count := u16 received_count
    ack_bitmap := (received_fragments.take (u16 received_count)).foldl
      (test_set_bit (u16 total_fragments)) [0, 0, 0, 0, 0, 0, 0, 0] }

/-- The tracker of the reference model after the fragments 1, 2, ... of the given
sizes were added, as in the scenario of test_simple.c lines 352-362. -/
def test_tracker_of (now message_id : Nat) (sizes : List Nat) : test_fragment_tracker_t :=
  (List.range sizes.length).foldl
    (fun tracker i => add_test_fragment_to_tracker now tracker (i + 1) (sizes.getD i 0))
    (create_test_fragment_tracker now message_id sizes.length)

/-- The reference tracker after a sequence of acknowledgments, each given by the
list of received fragments: the record is built by `create_test_fragment_ack` and
applied by `update_test_fragment_ack_status`. -/
def test_apply_acks (now message_id : Nat) (tracker : test_fragment_tracker_t)
    (acks : List (List Nat)) : test_fragment_tracker_t :=
  acks.foldl (fun t received =>
    update_test_fragment_ack_status now t
      (create_test_fragment_ack message_id t.total_fragments received received.length)) tracker

/-- The flags of the fragments of the reference tracker, in the order of the
array. -/
def test_flags (tracker : test_fragment_tracker_t) : List (Option Bool) :=
  tracker.fragments.map (fun entry => entry.map (fun fragment => fragment.acknowledged))

/-- The flags of the fragments of the production tracker, in the order of the
array. -/
def tracker_flags (tracker : fragment_tracker_t) : List (Option Bool) :=
  tracker.fragments.map (fun fragment => some fragment.acknowledged)

/-- The record `send_immediate_fragment_ack` builds on a host of byte order `e`
for a message of `total` fragments of which the reassembler holds `received`. -/
def record_of_received (e : Endian) (message_id total : Nat) (received : List Nat) :
    fragment_ack_data_t :=
  match build_fragment_ack e true
      { get_total_fragments := some total, get_received_fragments := some received }
      message_id (received.getLastD 0) with
  | ack_build_t.built ack => ack
  | ack_build_t.no_return => {}

/-- The three acknowledgments of the scenario of test_simple.c lines 365-389. -/
def scenario_acks : List (List Nat) := [[1, 2, 4, 6], [1, 2, 3, 4, 6], [1, 2, 3, 4, 5, 6]]

/-- The six fragment sizes of the scenario (test_simple.c line 348). -/
def scenario_sizes : List Nat := [1400, 1400, 1400, 1400, 1400, 1192]

/-- The acknowledgments of the scenario with the records a little endian peer
builds for them, as a big endian host reads them from the wire. -/
def scenario_records : List (List Nat × fragment_ack_data_t) :=
  scenario_acks.map (fun received =>
    (received, ack_of_chunk Endian.big (chunk_of_ack Endian.little
      (record_of_received Endian.little 12345 6 received))))

/-- The two trackers stand for the same acknowledgment state of a message of `n`
fragments: in both, the fragments 1..n are present in order, a fragment is
acknowledged exactly when its number is in `received`, and the counter is the
number of acknowledged fragments. -/
def models_agree (n : Nat) (received : List Nat) (test : test_fragment_tracker_t)
    (tracker : fragment_tracker_t) : Prop :=
  test.total_fragments = n ∧ test.fragments.length = n ∧
  (∀ entry ∈ test.fragments, entry.isSome = true) ∧
  test_flags test = (List.range' 1 n).map (fun i => some (decide (i ∈ received))) ∧
  test.acked_fragments = (List.range' 1 n).countP (fun i => decide (i ∈ received)) ∧
  tracked_ids tracker = List.range' 1 n ∧ tracker.total_fragments = n ∧
  tracker.fragments.map (fun f => f.acknowledged) =
    (List.range' 1 n).map (fun i => decide (i ∈ received)) ∧
  tracker.acked_fragments = (List.range' 1 n).countP (fun i => decide (i ∈ received))

/-- An INFORMATIONAL response with message ID 1 and no payload. -/
def informational_response_1 : message_t :=
  { exchange_type := exchange_type_t.INFORMATIONAL, request := false, message_id := 1 }

/-- The bit of a fragment number is set in at least one record of a sequence,
read from the bitmaps themselves: the bitmap covers the fragment numbers 1 to 64,
and the bit of number `id` is bit `(id - 1) % 16` of word `(id - 1) / 16`. -/
def bit_set_in_some_record (e : Endian) (records : List (Nat × fragment_ack_data_t))
    (id : Nat) : Bool :=
  decide (0 < id ∧ id ≤ 64) && records.any (fun r => ack_bit e r.2 id)

/-- The manager of an initiator whose peer advertised selective retransmission,
after `generate_message` has split the request with message ID 7 into 65
fragments of 100 bytes, the packets stored in `initiating.packets`. -/
def sixty_five_fragments : private_task_manager_t :=
  let g := generate_message {}
    { initiating_mid := 7
      initiating_type := exchange_type_t.CREATE_CHILD_SA
      peer_supports_selective_retransmission := true }
    7 (some fragments_65) []
  { g.2.1 with initiating_packets := g.2.2 }

/-- The passive tasks the build pass of `build_response` gets to: those up to and
including the first one whose `build` answers neither SUCCESS nor NEED_MORE, at
which the enumeration stops. -/
def build_visited : List task_t → List task_t
  | [] => []
  | task :: rest =>
    if task.build = status_t.SUCCESS ∨ task.build = status_t.NEED_MORE then
      task :: build_visited rest
    else [task]

/-- A manager whose active ike-rekey task adopts every task it collides with. -/
def rekeying_manager : private_task_manager_t :=
  { active_tasks := [{ type := task_type_t.TASK_IKE_REKEY, ident := 1, collide := true }]
    passive_tasks :=
      [{ type := task_type_t.TASK_IKE_REKEY, ident := 2, build := status_t.NEED_MORE },
       { type := task_type_t.TASK_IKE_DELETE, ident := 3, build := status_t.SUCCESS },
       { type := task_type_t.TASK_IKE_DPD, ident := 4, build := status_t.NEED_MORE },
       { type := task_type_t.TASK_IKE_DPD, ident := 5, build := status_t.SUCCESS }] }

/-- The tasks on which `build` was called, in the order of the calls. -/
def build_calls (eff : effects_t) : List task_t :=
  (eff.hooks.filter (fun c => c.hook == hook_t.build)).map (fun c => c.task)

/-- A task is one of the queued tasks `queue` whose start time is not after
`now`. -/
def due_task (now : Nat) (queue : List queued_task_t) (task : task_t) : Prop :=
  ∃ q ∈ queue, q.task = task ∧ q.time ≤ now

/-- Every active task of the manager is a due task of `queue`, and every queued
task of the manager is in `queue`. -/
def due_inv (now : Nat) (queue : List queued_task_t) (this : private_task_manager_t) : Prop :=
  (∀ task ∈ this.active_tasks, due_task now queue task) ∧ ∀ q ∈ this.queued_tasks, q ∈ queue

/-- Every call of `build` among the given calls is on a due task of `queue`. -/
def builds_due (now : Nat) (queue : List queued_task_t) (hooks : List hook_call_t) : Prop :=
  ∀ c ∈ hooks, c.hook = hook_t.build → due_task now queue c.task

/-- An established manager whose INFORMATIONAL request 4 is in flight while no
task is active any more (the task that built it had finished), with a DPD task
queued and due. -/
def in_flight_no_active : private_task_manager_t :=
  { initiating_mid := 4
    initiating_type := exchange_type_t.INFORMATIONAL
    initiating_packets := [packet_of_size 80]
    queued_tasks := [{ task := { type := task_type_t.TASK_IKE_DPD }, time := 0 }] }

/-- An idle established manager with two due tasks queued: a child-delete task
that finds nothing to delete, so that its `build` sets the exchange type of the
request to EXCHANGE_TYPE_UNDEFINED and answers SUCCESS, and a DPD task. -/
def delete_then_dpd : private_task_manager_t :=
  { queued_tasks :=
      [{ task := { type := task_type_t.TASK_IKE_DPD, ident := 2 }, time := 0 },
       { task := { type := task_type_t.TASK_CHILD_DELETE, ident := 1, build := status_t.SUCCESS
                   build_exchange_type := some exchange_type_t.EXCHANGE_TYPE_UNDEFINED }
         time := 0 }] }

theorem testBit_bswap_16 (x i : Nat) :
    (bswap_16 x).testBit i =
      if i < 8 then x.testBit (i + 8) else if i < 16 then x.testBit (i - 8) else false := by
  unfold bswap_16
  have h255 : (255 : Nat) = 2 ^ 8 - 1 := by norm_num
  rw [h255]
  simp only [Nat.testBit_or, Nat.testBit_and, Nat.testBit_shiftRight, Nat.testBit_shiftLeft,
    Nat.testBit_two_pow_sub_one]
  by_cases h8 : i < 8
  · have : ¬ 8 ≤ i := by omega
    simp [h8, this, Nat.add_comm]
  · by_cases h16 : i < 16
    · have h1 : 8 ≤ i := by omega
      have h2 : i - 8 < 8 := by omega
      simp [h8, h16, h1, h2]
    · have h1 : 8 ≤ i := by omega
      have h2 : ¬ i - 8 < 8 := by omega
      simp [h8, h16, h1, h2]

theorem testBit_u16 (x i : Nat) : (u16 x).testBit i = (decide (i < 16) && x.testBit i) := by
  unfold u16
  have : (65536 : Nat) = 2 ^ 16 := by norm_num
  rw [this, Nat.testBit_mod_two_pow]

theorem testBit_of_lt_u16 {x : Nat} (h : x < 65536) {i : Nat} (hi : 16 ≤ i) :
    x.testBit i = false := by
  apply Nat.testBit_lt_two_pow
  calc x < 65536 := h
    _ = 2 ^ 16 := by norm_num
    _ ≤ 2 ^ i := Nat.pow_le_pow_right (by norm_num) hi

theorem lt_u16_of_testBit {x : Nat} (h : ∀ i, 16 ≤ i → x.testBit i = false) : x < 65536 := by
  have := Nat.lt_pow_two_of_testBit x (n := 16) (fun i hi => h i hi)
  simpa using this

/-- Bits of a word after `ntohs`, read off the word in memory. -/
theorem testBit_htons (e : Endian) (x i : Nat) :
    (htons e x).testBit i =
      match e with
      | Endian.big => (decide (i < 16) && x.testBit i)
      | Endian.little =>
        if i < 8 then x.testBit (i + 8) else if i < 16 then x.testBit (i - 8) else false := by
  cases e
  · simp only [htons, testBit_bswap_16, testBit_u16]
    by_cases h8 : i < 8
    · have : i + 8 < 16 := by omega
      simp [h8, this]
    · by_cases h16 : i < 16
      · have : i - 8 < 16 := by omega
        simp [h8, h16, this]
      · simp [h8, h16]
  · simp only [htons, testBit_u16]

theorem htons_lt (e : Endian) (x : Nat) : htons e x < 65536 := by
  apply lt_u16_of_testBit
  intro i hi
  rw [testBit_htons]
  have h1 : ¬ i < 16 := by omega
  have h2 : ¬ i < 8 := by omega
  cases e <;> simp [h1, h2]

theorem htons_or (e : Endian) (a b : Nat) : htons e (a ||| b) = htons e a ||| htons e b := by
  apply Nat.eq_of_testBit_eq
  intro i
  rw [Nat.testBit_or, testBit_htons, testBit_htons, testBit_htons]
  cases e
  · simp only [Nat.testBit_or]
    split_ifs <;> simp
  · simp only [Nat.testBit_or, Bool.and_or_distrib_left]

theorem htons_htons (e : Endian) {x : Nat} (h : x < 65536) : htons e (htons e x) = x := by
  apply Nat.eq_of_testBit_eq
  intro i
  rw [testBit_htons]
  cases e
  · simp only [testBit_htons]
    by_cases h8 : i < 8
    · have h1 : ¬ i + 8 < 8 := by omega
      have h2 : i + 8 < 16 := by omega
      simp [h8, h1, h2]
    · by_cases h16 : i < 16
      · have h1 : i - 8 < 8 := by omega
        have h2 : i - 8 + 8 = i := by omega
        simp [h8, h16, h1, h2]
      · have : 16 ≤ i := by omega
        simp [h8, h16, testBit_of_lt_u16 h this]
  · simp only [testBit_htons]
    by_cases h16 : i < 16
    · simp [h16]
    · have : 16 ≤ i := by omega
      simp [h16, testBit_of_lt_u16 h this]

theorem ntohs_wire_word (e1 e2 : Endian) {w : Nat} (h : w < 65536) :
    ntohs e2 (wire_word e1 e2 w) = ntohs e1 w := by
  apply Nat.eq_of_testBit_eq
  intro i
  have h255 : (255 : Nat) = 2 ^ 8 - 1 := by norm_num
  unfold ntohs
  rw [testBit_htons, testBit_htons]
  cases e1 <;> cases e2 <;>
    simp only [wire_word, store_16, load_16, List.getD_cons_zero, List.getD_cons_succ, h255,
      Nat.testBit_or, Nat.testBit_and, Nat.testBit_shiftRight, Nat.testBit_shiftLeft,
      Nat.testBit_two_pow_sub_one]
  all_goals
    by_cases h8 : i < 8
    · have h1 : ¬ 8 ≤ i := by omega
      have h2 : ¬ 8 ≤ i + 8 - 8 := by omega
      have h3 : i + 8 - 8 = i := by omega
      have h4 : i < 16 := by omega
      simp [h8, h1, h3, h4, Nat.add_comm]
    · by_cases h16 : i < 16
      · have h1 : 8 ≤ i := by omega
        have h2 : i - 8 < 8 := by omega
        have h3 : 8 + (i - 8) = i := by omega
        simp [h8, h16, h1, h2, h3]
      · have h1 : 8 ≤ i := by omega
        have h2 : ¬ i - 8 < 8 := by omega
        have h5 : 16 ≤ i := by omega
        simp [h8, h16, h1, h2, testBit_of_lt_u16 h h5]

theorem and_one_shiftLeft_ne_zero (v p : Nat) :
    ((v &&& (1 <<< p)) != 0) = v.testBit p := by
  rw [Nat.one_shiftLeft]
  cases h : v.testBit p
  · have : v &&& 2 ^ p = 0 := by
      apply Nat.eq_of_testBit_eq
      intro i
      simp only [Nat.testBit_and, Nat.testBit_two_pow, Nat.zero_testBit]
      by_cases hi : p = i
      · subst hi; simp [h]
      · simp [hi]
    simp [this]
  · have : (v &&& 2 ^ p).testBit p = true := by
      simp [Nat.testBit_and, Nat.testBit_two_pow, h]
    have hne : v &&& 2 ^ p ≠ 0 := by
      intro h0
      rw [h0] at this
      simp at this
    simp [hne]

theorem store_16_length (e : Endian) (w : Nat) : (store_16 e w).length = 2 := by
  cases e <;> rfl

theorem store_16_eq (e : Endian) (w : Nat) :
    store_16 e w = [(store_16 e w).getD 0 0, (store_16 e w).getD 1 0] := by
  cases e <;> rfl

/-- Reading word `3 + i` of the chunk of a record gives bitmap word `i` as sent. -/
theorem ack_of_chunk_bitmap (e1 e2 : Endian) (a : fragment_ack_data_t)
    (hlen : a.ack_bitmap.length = 8) (i : Nat) (hi : i < 8) :
    (ack_of_chunk e2 (chunk_of_ack e1 a)).ack_bitmap.getD i 0 =
      wire_word e1 e2 (a.ack_bitmap.getD i 0) := by
  obtain ⟨mid, tot, rc, bm⟩ := a
  simp only at hlen
  match bm, hlen with
  | [w0, w1, w2, w3, w4, w5, w6, w7], _ =>
    simp only [ack_of_chunk, chunk_of_ack, List.map, List.flatten]
    rw [store_16_eq e1 mid, store_16_eq e1 tot, store_16_eq e1 rc, store_16_eq e1 w0,
      store_16_eq e1 w1, store_16_eq e1 w2, store_16_eq e1 w3, store_16_eq e1 w4,
      store_16_eq e1 w5, store_16_eq e1 w6, store_16_eq e1 w7]
    interval_cases i <;> rfl

theorem getD_lt_of_bitmap_ok {bm : List Nat} (h : bitmap_ok bm) (i : Nat) :
    bm.getD i 0 < 65536 := by
  by_cases hi : i < bm.length
  · rw [List.getD_eq_getElem bm 0 hi]
    exact h.2 _ (List.getElem_mem hi)
  · rw [List.getD_eq_default bm 0 (by omega)]
    norm_num

/-- The receiver sees the same acknowledgment bits as the sender. -/
theorem is_acked_in_current_wire (e1 e2 : Endian) (a : fragment_ack_data_t)
    (hok : bitmap_ok a.ack_bitmap) (id : Nat) :
    is_acked_in_current e2 (ack_of_chunk e2 (chunk_of_ack e1 a)) id =
      is_acked_in_current e1 a id := by
  unfold is_acked_in_current
  by_cases hid : 0 < id ∧ id ≤ 64
  · have hi : (id - 1) / 16 < 8 := by omega
    simp only [hid, and_self, if_true]
    rw [ack_of_chunk_bitmap e1 e2 a hok.1 _ hi,
      ntohs_wire_word e1 e2 (getD_lt_of_bitmap_ok hok _)]
  · simp only [hid, if_false]

theorem set_bitmap_bit_ok (e : Endian) {bm : List Nat} (h : bitmap_ok bm) (f : Nat) :
    bitmap_ok (set_bitmap_bit e bm f) := by
  unfold set_bitmap_bit
  split_ifs with hf
  · refine ⟨by simp [h.1], ?_⟩
    intro w hw
    rcases List.mem_or_eq_of_mem_set hw with hw | hw
    · exact h.2 w hw
    · rw [hw]
      have h1 := getD_lt_of_bitmap_ok h ((f - 1) / 16)
      have h2 := htons_lt e (1 <<< ((f - 1) % 16))
      have := @Nat.or_lt_two_pow _ _ 16 (by simpa using h1) (by simpa using h2)
      simpa using this
  · exact h

/-- Setting the bit of fragment `f` adds exactly that fragment to the set the
bitmap acknowledges. -/
theorem is_acked_set_bitmap_bit (e : Endian) (a : fragment_ack_data_t)
    (hok : bitmap_ok a.ack_bitmap) (f id : Nat) :
    is_acked_in_current e { a with ack_bitmap := set_bitmap_bit e a.ack_bitmap f } id =
      (is_acked_in_current e a id || (decide (id = f) && decide (0 < f ∧ f ≤ 64))) := by
  unfold is_acked_in_current set_bitmap_bit
  by_cases hid : 0 < id ∧ id ≤ 64
  · by_cases hf : 0 < f ∧ f ≤ 64
    · simp only [hid, hf, and_self, if_true, decide_True, Bool.and_true]
      rw [and_one_shiftLeft_ne_zero, and_one_shiftLeft_ne_zero]
      have hlen : (f - 1) / 16 < a.ack_bitmap.length := by rw [hok.1]; omega
      by_cases hidx : (f - 1) / 16 = (id - 1) / 16
      · rw [← hidx, List.getD_eq_getElem?_getD, List.getElem?_set_self hlen]
        simp only [Option.getD_some]
        unfold ntohs
        rw [htons_or, htons_htons e (by
          rw [Nat.one_shiftLeft]
          calc 2 ^ ((f - 1) % 16) ≤ 2 ^ 15 := Nat.pow_le_pow_right (by norm_num) (by omega)
            _ < 65536 := by norm_num)]
        rw [Nat.testBit_or, Nat.one_shiftLeft, Nat.testBit_two_pow]
        congr 1
        by_cases hEq : id = f
        · subst hEq; simp
        · have : ¬ (f - 1) % 16 = (id - 1) % 16 := by omega
          simp [hEq, this]
      · rw [List.getD_eq_getElem?_getD, List.getElem?_set_ne hidx, ← List.getD_eq_getElem?_getD]
        have : ¬ id = f := by
          intro h; subst h; exact hidx rfl
        simp [this]
    · simp only [hid, hf, and_self, if_true, if_false, decide_False, Bool.and_false,
        Bool.or_false]
  · simp only [hid, if_false, Bool.false_or]
    by_cases hf : 0 < f ∧ f ≤ 64
    · have : ¬ id = f := by
        intro h; subst h; exact hid hf
      simp [this]
    · simp [hf]

theorem is_acked_in_current_congr (e : Endian) (a b : fragment_ack_data_t)
    (h : a.ack_bitmap = b.ack_bitmap) (id : Nat) :
    is_acked_in_current e a id = is_acked_in_current e b id := by
  unfold is_acked_in_current
  rw [h]

theorem foldl_set_bitmap_bit_ok (e : Endian) (l : List Nat) :
    ∀ bm : List Nat, bitmap_ok bm → bitmap_ok (l.foldl (set_bitmap_bit e) bm) := by
  induction l with
  | nil => intro bm h; exact h
  | cons x xs ih => intro bm h; exact ih _ (set_bitmap_bit_ok e h x)

theorem is_acked_foldl_set_bitmap_bit (e : Endian) (l : List Nat) (id : Nat) :
    ∀ a : fragment_ack_data_t, bitmap_ok a.ack_bitmap →
      is_acked_in_current e { a with ack_bitmap := l.foldl (set_bitmap_bit e) a.ack_bitmap } id =
        (is_acked_in_current e a id || (decide (id ∈ l) && decide (0 < id ∧ id ≤ 64))) := by
  induction l with
  | nil => intro a _; simp
  | cons x xs ih =>
    intro a hok
    have h1 := ih { a with ack_bitmap := set_bitmap_bit e a.ack_bitmap x }
      (set_bitmap_bit_ok e hok x)
    simp only [List.foldl_cons] at h1 ⊢
    rw [h1, is_acked_set_bitmap_bit e a hok]
    by_cases hx : id = x
    · subst hx
      by_cases hv : 0 < id ∧ id ≤ 64 <;> simp [hv]
    · simp [hx]

theorem bitmap_ok_zero : bitmap_ok [0, 0, 0, 0, 0, 0, 0, 0] := by
  refine ⟨rfl, ?_⟩
  intro w hw
  simp at hw
  omega

theorem is_acked_zero (e : Endian) (a : fragment_ack_data_t)
    (h : a.ack_bitmap = [0, 0, 0, 0, 0, 0, 0, 0]) (id : Nat) :
    is_acked_in_current e a id = false := by
  unfold is_acked_in_current
  split_ifs with hid
  · rw [h, and_one_shiftLeft_ne_zero]
    have hz : ([0, 0, 0, 0, 0, 0, 0, 0] : List Nat).getD ((id - 1) / 16) 0 = 0 := by
      have : (id - 1) / 16 < 4 := by omega
      interval_cases (id - 1) / 16 <;> rfl
    rw [hz]
    have : ntohs e 0 = 0 := by cases e <;> rfl
    rw [this, Nat.zero_testBit]
  · rfl

theorem ack_loop_fst (e : Endian) (a : fragment_ack_data_t) (fs : List fragment_state_t) :
    ∀ c, (ack_loop e a fs c).1 = fs.map (mark_acked e a) := by
  induction fs with
  | nil => intro c; rfl
  | cons f rest ih =>
    intro c
    unfold ack_loop
    by_cases h : (is_acked_in_current e a f.fragment_id && !f.acknowledged) = true
    · simp only [h, if_true, List.map_cons, ih, mark_acked]
    · simp only [h, if_false, List.map_cons, ih, mark_acked]
      simp

theorem ack_loop_snd (e : Endian) (a : fragment_ack_data_t) (fs : List fragment_state_t) :
    ∀ c, c < 65536 → (ack_loop e a fs c).2 = (c + fs.countP (newly_acked e a)) % 65536 := by
  induction fs with
  | nil => intro c hc; simp [ack_loop]; omega
  | cons f rest ih =>
    intro c hc
    unfold ack_loop
    by_cases h : (is_acked_in_current e a f.fragment_id && !f.acknowledged) = true
    · have hn : newly_acked e a f = true := h
      simp only [h, if_true, List.countP_cons, hn]
      rw [ih (u16 (c + 1)) (by unfold u16; omega)]
      unfold u16
      omega
    · have hn : ¬ newly_acked e a f = true := h
      simp only [h, if_false, List.countP_cons, hn]
      rw [ih c hc]
      simp


theorem build_fragment_ack_received (e : Endian) (malloc_ok : Bool) (total : Option Nat)
    (S : List Nat) (message_id fragment_number : Nat) (hne : S ≠ []) (hlen : S.length < 65536) :
    build_fragment_ack e malloc_ok
        { get_total_fragments := total, get_received_fragments := some S }
        message_id fragment_number =
      ack_build_t.built
        { message_id := htons e (u16 message_id)
          total_fragments := htons e (u16 (total.getD 0))
          received_count := htons e S.length
          ack_bitmap := S.foldl (set_bitmap_bit e) [0, 0, 0, 0, 0, 0, 0, 0] } := by
  have hpos : 0 < S.length := List.length_pos.mpr hne
  have hc : u16 S.length = S.length := by unfold u16; omega
  have h0 : ¬ S.length = 0 := by omega
  unfold build_fragment_ack
  simp only [Option.getD_some, hc, List.take_length, h0, false_and, if_false, hpos, if_true]

theorem update_fragments (e : Endian) (now : Nat) (t : fragment_tracker_t)
    (a : fragment_ack_data_t) :
    (update_fragment_ack_status e now t a).fragments = t.fragments.map (mark_acked e a) := by
  simp [update_fragment_ack_status, ack_loop_fst]

theorem update_acked_fragments (e : Endian) (now : Nat) (t : fragment_tracker_t)
    (a : fragment_ack_data_t) (h : t.acked_fragments < 65536) :
    (update_fragment_ack_status e now t a).acked_fragments =
      (t.acked_fragments + t.fragments.countP (newly_acked e a)) % 65536 := by
  simp [update_fragment_ack_status, ack_loop_snd e a t.fragments _ h]

theorem mark_acked_id (e : Endian) (a : fragment_ack_data_t) (f : fragment_state_t) :
    (mark_acked e a f).fragment_id = f.fragment_id := by
  unfold mark_acked; split_ifs <;> rfl

theorem mark_acked_acknowledged (e : Endian) (a : fragment_ack_data_t) (f : fragment_state_t) :
    (mark_acked e a f).acknowledged = (f.acknowledged || is_acked_in_current e a f.fragment_id) := by
  unfold mark_acked
  split_ifs with h <;> simp_all

/-- The record built from a non-empty received-fragment list `S` within 1..64 on
a host of byte order `e1`, taken as bytes and read on a host of byte order `e2`,
makes `update_fragment_ack_status` mark exactly the fragments of `S` in a tracker
holding the unacknowledged fragments 1..64. -/
theorem build_fragment_ack_round_trip (e1 e2 : Endian) (malloc_ok : Bool)
    (now message_id fragment_number : Nat) (total : Option Nat) (S : List Nat)
    (t : fragment_tracker_t)
    (hS : ∀ i ∈ S, 1 ≤ i ∧ i ≤ 64) (hne : S ≠ []) (hlen : S.length < 65536)
    (hids : tracked_ids t = List.range' 1 64)
    (hun : ∀ f ∈ t.fragments, f.acknowledged = false)
    (h0 : t.acked_fragments = 0) :
    ∃ ack, build_fragment_ack e1 malloc_ok
        { get_total_fragments := total, get_received_fragments := some S }
        message_id fragment_number = ack_build_t.built ack ∧
      bitmap_ok ack.ack_bitmap ∧
      (∀ f ∈ (update_fragment_ack_status e2 now t
          (ack_of_chunk e2 (chunk_of_ack e1 ack))).fragments,
        f.acknowledged = true ↔ f.fragment_id ∈ S) ∧
      (∀ i, i ∈ acked_ids (update_fragment_ack_status e2 now t
          (ack_of_chunk e2 (chunk_of_ack e1 ack))) ↔ i ∈ S) ∧
      tracked_ids (update_fragment_ack_status e2 now t
          (ack_of_chunk e2 (chunk_of_ack e1 ack))) = List.range' 1 64 ∧
      (update_fragment_ack_status e2 now t (ack_of_chunk e2 (chunk_of_ack e1 ack))).acked_fragments
        = (acked_ids (update_fragment_ack_status e2 now t
            (ack_of_chunk e2 (chunk_of_ack e1 ack)))).length ∧
      ((∀ i, 1 ≤ i → i ≤ 64 → i ∈ S) →
        (update_fragment_ack_status e2 now t
          (ack_of_chunk e2 (chunk_of_ack e1 ack))).acked_fragments = 64) := by
  refine ⟨_, build_fragment_ack_received e1 malloc_ok total S message_id fragment_number
    hne hlen, ?_⟩
  generalize hack : ({ message_id := htons e1 (u16 message_id)
                       total_fragments := htons e1 (u16 (total.getD 0))
                       received_count := htons e1 S.length
                       ack_bitmap := S.foldl (set_bitmap_bit e1) [0, 0, 0, 0, 0, 0, 0, 0] } :
    fragment_ack_data_t) = ack
  have hbm : ack.ack_bitmap = S.foldl (set_bitmap_bit e1) [0, 0, 0, 0, 0, 0, 0, 0] := by
    rw [← hack]
  have hok : bitmap_ok ack.ack_bitmap := by
    rw [hbm]; exact foldl_set_bitmap_bit_ok e1 S _ bitmap_ok_zero
  -- the bits the receiver sees
  have hbit : ∀ id, is_acked_in_current e2 (ack_of_chunk e2 (chunk_of_ack e1 ack)) id =
      (decide (id ∈ S) && decide (0 < id ∧ id ≤ 64)) := by
    intro id
    rw [is_acked_in_current_wire e1 e2 ack hok]
    have h1 := is_acked_foldl_set_bitmap_bit e1 S id
      { ack with ack_bitmap := [0, 0, 0, 0, 0, 0, 0, 0] } bitmap_ok_zero
    simp only at h1
    rw [is_acked_zero e1 { ack with ack_bitmap := [0, 0, 0, 0, 0, 0, 0, 0] } rfl id,
      Bool.false_or] at h1
    rw [← h1]
    exact is_acked_in_current_congr e1 ack
      { ack with ack_bitmap := S.foldl (set_bitmap_bit e1) [0, 0, 0, 0, 0, 0, 0, 0] } hbm id
  have hbitS : ∀ id, is_acked_in_current e2 (ack_of_chunk e2 (chunk_of_ack e1 ack)) id = true ↔
      id ∈ S := by
    intro id
    rw [hbit]
    constructor
    · intro h; simp at h; exact h.1
    · intro h
      have := hS id h
      simp [h]; omega
  have hlen64 : t.fragments.length = 64 := by
    have := congrArg List.length hids
    simpa [tracked_ids] using this
  have hcount : t.fragments.countP (newly_acked e2 (ack_of_chunk e2 (chunk_of_ack e1 ack))) =
      (acked_ids (update_fragment_ack_status e2 now t
        (ack_of_chunk e2 (chunk_of_ack e1 ack)))).length := by
    unfold acked_ids
    rw [List.length_map, update_fragments, ← List.countP_eq_length_filter, List.countP_map]
    apply List.countP_congr
    intro f hf
    simp only [Function.comp, mark_acked_acknowledged, newly_acked, hun f hf]
    simp
  have hacked := update_acked_fragments e2 now t (ack_of_chunk e2 (chunk_of_ack e1 ack))
    (by rw [h0]; norm_num)
  have hle : t.fragments.countP (newly_acked e2 (ack_of_chunk e2 (chunk_of_ack e1 ack))) ≤ 64 := by
    rw [← hlen64]; exact List.countP_le_length _
  rw [h0, Nat.zero_add, Nat.mod_eq_of_lt (by omega)] at hacked
  have hfrag : ∀ f ∈ (update_fragment_ack_status e2 now t
      (ack_of_chunk e2 (chunk_of_ack e1 ack))).fragments,
      f.acknowledged = true ↔ f.fragment_id ∈ S := by
    intro f hf
    rw [update_fragments] at hf
    obtain ⟨g, hg, rfl⟩ := List.mem_map.mp hf
    rw [mark_acked_acknowledged, mark_acked_id, hun g hg, Bool.false_or]
    exact hbitS _
  have hids1 : tracked_ids (update_fragment_ack_status e2 now t
      (ack_of_chunk e2 (chunk_of_ack e1 ack))) = List.range' 1 64 := by
    rw [← hids]
    unfold tracked_ids
    rw [update_fragments, List.map_map]
    apply List.map_congr_left
    intro f _
    exact mark_acked_id _ _ f
  refine ⟨hok, hfrag, ?_, hids1, ?_, ?_⟩
  · intro i
    unfold acked_ids
    constructor
    · intro hi
      obtain ⟨f, hf, rfl⟩ := List.mem_map.mp hi
      have hf2 := List.mem_filter.mp hf
      exact (hfrag f hf2.1).mp hf2.2
    · intro hi
      have hr : i ∈ tracked_ids (update_fragment_ack_status e2 now t
          (ack_of_chunk e2 (chunk_of_ack e1 ack))) := by
        rw [hids1, List.mem_range']
        have := hS i hi
        exact ⟨i - 1, by omega, by omega⟩
      obtain ⟨f, hf, rfl⟩ := List.mem_map.mp hr
      exact List.mem_map.mpr ⟨f, List.mem_filter.mpr ⟨hf, (hfrag f hf).mpr hi⟩, rfl⟩
  · rw [hacked, hcount]
  · intro hall
    rw [hacked, ← hlen64]
    apply List.countP_eq_length.mpr
    intro f hf
    have hfid : f.fragment_id ∈ tracked_ids t := List.mem_map.mpr ⟨f, hf, rfl⟩
    rw [hids, List.mem_range'] at hfid
    obtain ⟨k, hk, hk2⟩ := hfid
    simp only [newly_acked, hun f hf, Bool.not_false, Bool.and_true]
    exact (hbitS _).mpr (hall _ (by omega) (by omega))

theorem chunk_of_ack_length (e : Endian) (a : fragment_ack_data_t)
    (h : a.ack_bitmap.length = 8) : (chunk_of_ack e a).length = sizeof_fragment_ack_data_t := by
  obtain ⟨mid, tot, rc, bm⟩ := a
  simp only at h
  match bm, h with
  | [w0, w1, w2, w3, w4, w5, w6, w7], _ =>
    simp [chunk_of_ack, store_16_length, sizeof_fragment_ack_data_t]

/-- Claim C1, amended.  For every non-empty list `S` of fragment numbers within 1..64
(the received-fragment list of the reassembler), `send_immediate_fragment_ack` on
a host of byte order `e1` builds an INFORMATIONAL request with message ID 0 whose
FRAGMENT_ACK notify carries the 22 bytes of the record; read on a host of byte
order `e2` and applied by `update_fragment_ack_status` to a tracker holding the
unacknowledged fragments 1..64, the record marks exactly the fragments of `S`;
the counter then equals the number of marked fragments, and it is 64 when `S`
lists all 64 fragments. -/
theorem fragment_ack_round_trip (e1 e2 : Endian) (malloc_ok : Bool) (me other : Option Nat)
    (now message_id fragment_number : Nat) (total : Option Nat) (S : List Nat)
    (t : fragment_tracker_t)
    (hS : ∀ i ∈ S, 1 ≤ i ∧ i ≤ 64) (hne : S ≠ []) (hlen : S.length < 65536)
    (hids : tracked_ids t = List.range' 1 64)
    (hun : ∀ f ∈ t.fragments, f.acknowledged = false)
    (h0 : t.acked_fragments = 0) :
    ∃ msg notify, send_immediate_fragment_ack e1 malloc_ok me other
        (some { get_total_fragments := total, get_received_fragments := some S })
        message_id fragment_number = some msg ∧
      msg.message_id = 0 ∧
      msg.get_notify notify_type_t.FRAGMENT_ACK = some notify ∧
      notify.notification_data.length = sizeof_fragment_ack_data_t ∧
      (∀ f ∈ (update_fragment_ack_status e2 now t
          (ack_of_chunk e2 notify.notification_data)).fragments,
        f.acknowledged = true ↔ f.fragment_id ∈ S) ∧
      (∀ i, i ∈ acked_ids (update_fragment_ack_status e2 now t
          (ack_of_chunk e2 notify.notification_data)) ↔ i ∈ S) ∧
      tracked_ids (update_fragment_ack_status e2 now t
          (ack_of_chunk e2 notify.notification_data)) = List.range' 1 64 ∧
      (update_fragment_ack_status e2 now t
          (ack_of_chunk e2 notify.notification_data)).acked_fragments =
        (acked_ids (update_fragment_ack_status e2 now t
          (ack_of_chunk e2 notify.notification_data))).length ∧
      ((∀ i, 1 ≤ i → i ≤ 64 → i ∈ S) →
        (update_fragment_ack_status e2 now t
          (ack_of_chunk e2 notify.notification_data)).acked_fragments = 64) := by
  obtain ⟨ack, hb, hok, p1, p2, p3, p4, p5⟩ := build_fragment_ack_round_trip e1 e2 malloc_ok now
    message_id fragment_number total S t hS hne hlen hids hun h0
  refine ⟨fragment_ack_message e1 me other ack,
    { notify_type := notify_type_t.FRAGMENT_ACK, protocol_id := 0
      notification_data := chunk_of_ack e1 ack }, ?_, rfl, ?_, ?_, p1, p2, p3, p4, p5⟩
  · simp only [send_immediate_fragment_ack, hb]
  · simp [message_t.get_notify, fragment_ack_message]
  · exact chunk_of_ack_length e1 ack hok.1

set_option maxRecDepth 100000 in
/-- Witness of the round trip: a little endian receiver of the data reports the
fragments 1, 2, 4 and 6 to a big endian sender of the data. -/
theorem fragment_ack_round_trip_witness :
    (∀ i ∈ [1, 2, 4, 6], 1 ≤ i ∧ i ≤ 64) ∧
    tracked_ids (fresh_tracker 1 64) = List.range' 1 64 ∧
    ∃ msg notify, send_immediate_fragment_ack Endian.little true (some 2) (some 1)
        (some { get_total_fragments := some 6, get_received_fragments := some [1, 2, 4, 6] })
        1 6 = some msg ∧
      msg.get_notify notify_type_t.FRAGMENT_ACK = some notify ∧
      ∀ i, i ∈ acked_ids (update_fragment_ack_status Endian.big 0 (fresh_tracker 1 64)
          (ack_of_chunk Endian.big notify.notification_data)) ↔ i ∈ [1, 2, 4, 6] := by
  obtain ⟨msg, notify, h1, _, h2, _, _, h3, _⟩ := fragment_ack_round_trip Endian.little
    Endian.big true (some 2) (some 1) 0 1 6 (some 6) [1, 2, 4, 6] (fresh_tracker 1 64)
    (by decide) (by decide) (by decide) (by decide) (by decide) (by decide)
  exact ⟨by decide, by decide, msg, notify, h1, h2, h3⟩

set_option maxRecDepth 100000 in
/-- Counterexample to claim C1 as stated, at the empty set: from an empty
received-fragment list of a reassembler that reports 64 fragments in total,
`send_immediate_fragment_ack` builds a record with the bits of all 64 fragments
set, and `update_fragment_ack_status` marks all 64 fragments, not none. -/
theorem fragment_ack_round_trip_counterexample :
    (send_immediate_fragment_ack Endian.little true (some 2) (some 1)
        (some { get_total_fragments := some 64, get_received_fragments := some [] })
        1 64).map (fun msg => (msg.get_notify notify_type_t.FRAGMENT_ACK).map
          (fun notify => ack_of_chunk Endian.little notify.notification_data)) =
      some (some
        { message_id := 256, total_fragments := 16384, received_count := 16384
          ack_bitmap := [65535, 65535, 65535, 65535, 0, 0, 0, 0] }) ∧
    acked_ids (update_fragment_ack_status Endian.big 0 (fresh_tracker 1 64)
      (ack_of_chunk Endian.big (chunk_of_ack Endian.little
        { message_id := 256, total_fragments := 16384, received_count := 16384
          ack_bitmap := [65535, 65535, 65535, 65535, 0, 0, 0, 0] }))) = List.range' 1 64 ∧
    (update_fragment_ack_status Endian.big 0 (fresh_tracker 1 64)
      (ack_of_chunk Endian.big (chunk_of_ack Endian.little
        { message_id := 256, total_fragments := 16384, received_count := 16384
          ack_bitmap := [65535, 65535, 65535, 65535, 0, 0, 0, 0] }))).acked_fragments = 64 ∧
    ¬ (∀ i, i ∈ acked_ids (update_fragment_ack_status Endian.big 0 (fresh_tracker 1 64)
      (ack_of_chunk Endian.big (chunk_of_ack Endian.little
        { message_id := 256, total_fragments := 16384, received_count := 16384
          ack_bitmap := [65535, 65535, 65535, 65535, 0, 0, 0, 0] }))) ↔
        i ∈ ([] : List Nat)) := by
  have h2 : acked_ids (update_fragment_ack_status Endian.big 0 (fresh_tracker 1 64)
      (ack_of_chunk Endian.big (chunk_of_ack Endian.little
        { message_id := 256, total_fragments := 16384, received_count := 16384
          ack_bitmap := [65535, 65535, 65535, 65535, 0, 0, 0, 0] }))) = List.range' 1 64 := by
    decide
  refine ⟨by decide, h2, by decide, ?_⟩
  intro h
  have := (h 1).mp (by rw [h2]; decide)
  simp at this

theorem countP_mark_acked (e : Endian) (a : fragment_ack_data_t) (fs : List fragment_state_t) :
    (fs.map (mark_acked e a)).countP (fun f => f.acknowledged) =
      fs.countP (fun f => f.acknowledged) + fs.countP (newly_acked e a) := by
  induction fs with
  | nil => rfl
  | cons f rest ih =>
    simp only [List.map_cons, List.countP_cons, ih, mark_acked_acknowledged, newly_acked]
    by_cases h1 : f.acknowledged = true <;>
      by_cases h2 : is_acked_in_current e a f.fragment_id = true <;>
      simp [h1, h2] <;> omega

theorem countP_newly_le (e : Endian) (a : fragment_ack_data_t) (fs : List fragment_state_t) :
    fs.countP (newly_acked e a) ≤ fs.countP (fun f => !f.acknowledged) := by
  apply List.countP_mono_left
  intro f _ h
  simp only [newly_acked, Bool.and_eq_true] at h
  exact h.2

theorem countP_acked_add_unacked (fs : List fragment_state_t) :
    fs.countP (fun f => f.acknowledged) + fs.countP (fun f => !f.acknowledged) = fs.length := by
  induction fs with
  | nil => rfl
  | cons f rest ih =>
    simp only [List.countP_cons, List.length_cons]
    by_cases h1 : f.acknowledged = true <;> simp [h1] <;> omega

/-- Claim C2.  `update_fragment_ack_status` never un-acknowledges a fragment:
the fragment state at every position keeps its number and, when it was
acknowledged before the call, is acknowledged after it; and `acked_fragments`
does not decrease.  The counter is a `uint16_t`; the hypothesis says that it has
room for the fragments not yet acknowledged, as in every tracker of at most
65535 fragments whose counter counts the acknowledged ones. -/
theorem update_fragment_ack_status_monotonic (e : Endian) (now : Nat) (t : fragment_tracker_t)
    (ack_data : fragment_ack_data_t)
    (hroom : t.acked_fragments + t.fragments.countP (fun f => !f.acknowledged) < 65536) :
    (∀ (i : Nat) (f : fragment_state_t), t.fragments[i]? = some f →
      ∃ g, (update_fragment_ack_status e now t ack_data).fragments[i]? = some g ∧
        g.fragment_id = f.fragment_id ∧ (f.acknowledged = true → g.acknowledged = true)) ∧
    (∀ id, id ∈ acked_ids t → id ∈ acked_ids (update_fragment_ack_status e now t ack_data)) ∧
    t.acked_fragments ≤ (update_fragment_ack_status e now t ack_data).acked_fragments := by
  refine ⟨?_, ?_, ?_⟩
  · intro i f hf
    refine ⟨mark_acked e ack_data f, ?_, mark_acked_id e ack_data f, ?_⟩
    · rw [update_fragments, List.getElem?_map, hf]; rfl
    · intro h
      rw [mark_acked_acknowledged, h]; rfl
  · intro id hid
    unfold acked_ids at hid ⊢
    obtain ⟨f, hf, rfl⟩ := List.mem_map.mp hid
    have hf2 := List.mem_filter.mp hf
    refine List.mem_map.mpr ⟨mark_acked e ack_data f, List.mem_filter.mpr ⟨?_, ?_⟩,
      mark_acked_id e ack_data f⟩
    · rw [update_fragments]; exact List.mem_map_of_mem _ hf2.1
    · rw [mark_acked_acknowledged, hf2.2]; rfl
  · rw [update_acked_fragments e now t ack_data (by omega)]
    have := countP_newly_le e ack_data t.fragments
    rw [Nat.mod_eq_of_lt (by omega)]
    omega

/-- Witness of `update_fragment_ack_status_monotonic`: a tracker of three
fragments with fragment 1 acknowledged receives the bitmap 0x0006. -/
theorem update_fragment_ack_status_monotonic_witness :
    (1 : Nat) + ([({ fragment_id := 1, acknowledged := true } : fragment_state_t),
        { fragment_id := 2 }, { fragment_id := 3 }]).countP (fun f => !f.acknowledged) < 65536 ∧
    (1 : Nat) ≤ (update_fragment_ack_status Endian.big 7
      { message_id := 1, total_fragments := 3, acked_fragments := 1
        fragments := [{ fragment_id := 1, acknowledged := true }, { fragment_id := 2 },
          { fragment_id := 3 }] }
      { ack_bitmap := [6, 0, 0, 0, 0, 0, 0, 0] }).acked_fragments :=
  ⟨by decide, (update_fragment_ack_status_monotonic Endian.big 7
      { message_id := 1, total_fragments := 3, acked_fragments := 1
        fragments := [{ fragment_id := 1, acknowledged := true }, { fragment_id := 2 },
          { fragment_id := 3 }] }
      { ack_bitmap := [6, 0, 0, 0, 0, 0, 0, 0] } (by decide)).2.2⟩

theorem mark_any_nil (e : Endian) (f : fragment_state_t) : mark_any e [] f = f := by
  simp [mark_any, acked_by_any]

theorem mark_any_cons (e : Endian) (r : Nat × fragment_ack_data_t)
    (rest : List (Nat × fragment_ack_data_t)) (f : fragment_state_t) :
    mark_any e rest (mark_acked e r.2 f) = mark_any e (r :: rest) f := by
  unfold mark_any mark_acked acked_by_any
  simp only [List.any_cons]
  by_cases h1 : f.acknowledged = true <;>
    by_cases h2 : is_acked_in_current e r.2 f.fragment_id = true <;>
    by_cases h3 : (rest.any fun r => is_acked_in_current e r.2 f.fragment_id) = true <;>
    simp [h1, h2, h3]

theorem apply_acks_cons (e : Endian) (t : fragment_tracker_t) (r : Nat × fragment_ack_data_t)
    (rest : List (Nat × fragment_ack_data_t)) :
    apply_acks e t (r :: rest) = apply_acks e (update_fragment_ack_status e r.1 t r.2) rest := rfl

theorem apply_acks_fragments (e : Endian) (records : List (Nat × fragment_ack_data_t)) :
    ∀ t : fragment_tracker_t,
      (apply_acks e t records).fragments = t.fragments.map (mark_any e records) := by
  induction records with
  | nil =>
    intro t
    simp only [apply_acks, List.foldl_nil]
    rw [List.map_congr_left (fun f _ => mark_any_nil e f), List.map_id']
  | cons r rest ih =>
    intro t
    rw [apply_acks_cons, ih, update_fragments, List.map_map]
    apply List.map_congr_left
    intro f _
    exact mark_any_cons e r rest f

theorem update_acked_fragments_lt (e : Endian) (now : Nat) (t : fragment_tracker_t)
    (a : fragment_ack_data_t) (h : t.acked_fragments < 65536) :
    (update_fragment_ack_status e now t a).acked_fragments < 65536 := by
  rw [update_acked_fragments e now t a h]
  omega

theorem countP_newly_by_any_cons (e : Endian) (r : Nat × fragment_ack_data_t)
    (rest : List (Nat × fragment_ack_data_t)) (fs : List fragment_state_t) :
    fs.countP (newly_by_any e (r :: rest)) =
      fs.countP (newly_acked e r.2) + (fs.map (mark_acked e r.2)).countP (newly_by_any e rest) := by
  induction fs with
  | nil => rfl
  | cons f tl ih =>
    simp only [List.map_cons, List.countP_cons, ih, newly_by_any, newly_acked, acked_by_any,
      List.any_cons, mark_acked_acknowledged, mark_acked_id]
    by_cases h1 : f.acknowledged = true <;>
      by_cases h2 : is_acked_in_current e r.2 f.fragment_id = true <;>
      by_cases h3 : (rest.any fun r => is_acked_in_current e r.2 f.fragment_id) = true <;>
      simp [h1, h2, h3] <;> omega

theorem apply_acks_acked_fragments (e : Endian) (records : List (Nat × fragment_ack_data_t)) :
    ∀ t : fragment_tracker_t, t.acked_fragments < 65536 →
      (apply_acks e t records).acked_fragments =
        (t.acked_fragments + t.fragments.countP (newly_by_any e records)) % 65536 := by
  induction records with
  | nil =>
    intro t h
    have : t.fragments.countP (newly_by_any e []) = 0 := by
      apply List.countP_eq_zero.mpr
      intro f _
      simp [newly_by_any, acked_by_any]
    simp only [apply_acks, List.foldl_nil, this]
    omega
  | cons r rest ih =>
    intro t h
    rw [apply_acks_cons, ih _ (update_acked_fragments_lt e r.1 t r.2 h),
      update_acked_fragments e r.1 t r.2 h, update_fragments, countP_newly_by_any_cons]
    omega

theorem acked_by_any_congr (e : Endian) (r1 r2 : List (Nat × fragment_ack_data_t))
    (h : ∀ a, a ∈ r1.map Prod.snd ↔ a ∈ r2.map Prod.snd) (id : Nat) :
    acked_by_any e r1 id = acked_by_any e r2 id := by
  unfold acked_by_any
  rw [Bool.eq_iff_iff, List.any_eq_true, List.any_eq_true]
  constructor
  · rintro ⟨x, hx, hb⟩
    obtain ⟨y, hy, hxy⟩ := List.mem_map.mp ((h x.2).mp (List.mem_map_of_mem _ hx))
    exact ⟨y, hy, by rw [hxy]; exact hb⟩
  · rintro ⟨x, hx, hb⟩
    obtain ⟨y, hy, hxy⟩ := List.mem_map.mp ((h x.2).mpr (List.mem_map_of_mem _ hx))
    exact ⟨y, hy, by rw [hxy]; exact hb⟩

/-- Two sequences holding the same records, in any order and with any
repetitions, leave the same fragment states and the same counter. -/
theorem apply_acks_same_records (e : Endian) (t : fragment_tracker_t)
    (r1 r2 : List (Nat × fragment_ack_data_t)) (hc : t.acked_fragments < 65536)
    (h : ∀ a, a ∈ r1.map Prod.snd ↔ a ∈ r2.map Prod.snd) :
    (apply_acks e t r1).fragments = (apply_acks e t r2).fragments ∧
    (apply_acks e t r1).acked_fragments = (apply_acks e t r2).acked_fragments := by
  have hm : mark_any e r1 = mark_any e r2 := by
    funext f
    simp only [mark_any, acked_by_any_congr e r1 r2 h]
  have hn : newly_by_any e r1 = newly_by_any e r2 := by
    funext f
    simp only [newly_by_any, acked_by_any_congr e r1 r2 h]
  rw [apply_acks_fragments, apply_acks_fragments, apply_acks_acked_fragments e r1 t hc,
    apply_acks_acked_fragments e r2 t hc, hm, hn]
  exact ⟨rfl, rfl⟩

theorem mark_any_id (e : Endian) (records : List (Nat × fragment_ack_data_t))
    (f : fragment_state_t) : (mark_any e records f).fragment_id = f.fragment_id := by
  unfold mark_any; split_ifs <;> rfl

theorem mark_any_acknowledged (e : Endian) (records : List (Nat × fragment_ack_data_t))
    (f : fragment_state_t) :
    (mark_any e records f).acknowledged = (f.acknowledged || acked_by_any e records f.fragment_id) := by
  unfold mark_any
  split_ifs with h <;> simp_all

/-- The effect of a sequence of records in terms of the test the update loop
applies to each record: the acknowledged numbers, the counter, and the
independence of order and repetition. -/
theorem apply_acks_accumulates (e : Endian) (t : fragment_tracker_t)
    (records : List (Nat × fragment_ack_data_t)) (hc : t.acked_fragments < 65536) :
    (∀ id, id ∈ acked_ids (apply_acks e t records) ↔
      (id ∈ acked_ids t ∨ (id ∈ tracked_ids t ∧ acked_by_any e records id = true))) ∧
    (apply_acks e t records).acked_fragments =
      (t.acked_fragments + t.fragments.countP (newly_by_any e records)) % 65536 ∧
    (t.acked_fragments + t.fragments.countP (fun f => !f.acknowledged) < 65536 →
      (apply_acks e t records).acked_fragments =
        t.acked_fragments + t.fragments.countP (newly_by_any e records)) ∧
    (∀ records2, List.Perm records2 records →
      (apply_acks e t records2).fragments = (apply_acks e t records).fragments ∧
      (apply_acks e t records2).acked_fragments = (apply_acks e t records).acked_fragments) ∧
    (∀ r, r ∈ records →
      (apply_acks e t (records ++ [r])).fragments = (apply_acks e t records).fragments ∧
      (apply_acks e t (records ++ [r])).acked_fragments =
        (apply_acks e t records).acked_fragments) := by
  refine ⟨?_, apply_acks_acked_fragments e records t hc, ?_, ?_, ?_⟩
  · intro id
    unfold acked_ids tracked_ids
    rw [apply_acks_fragments]
    constructor
    · intro h
      obtain ⟨g, hg, rfl⟩ := List.mem_map.mp h
      obtain ⟨hg1, hg2⟩ := List.mem_filter.mp hg
      obtain ⟨f, hf, rfl⟩ := List.mem_map.mp hg1
      rw [mark_any_acknowledged, Bool.or_eq_true] at hg2
      rw [mark_any_id]
      rcases hg2 with h1 | h1
      · exact Or.inl (List.mem_map.mpr ⟨f, List.mem_filter.mpr ⟨hf, h1⟩, rfl⟩)
      · exact Or.inr ⟨List.mem_map_of_mem _ hf, h1⟩
    · intro h
      rcases h with h | ⟨h1, h2⟩
      · obtain ⟨f, hf, rfl⟩ := List.mem_map.mp h
        obtain ⟨hf1, hf2⟩ := List.mem_filter.mp hf
        refine List.mem_map.mpr ⟨mark_any e records f, List.mem_filter.mpr
          ⟨List.mem_map_of_mem _ hf1, ?_⟩, mark_any_id e records f⟩
        rw [mark_any_acknowledged, hf2]; rfl
      · obtain ⟨f, hf, rfl⟩ := List.mem_map.mp h1
        refine List.mem_map.mpr ⟨mark_any e records f, List.mem_filter.mpr
          ⟨List.mem_map_of_mem _ hf, ?_⟩, mark_any_id e records f⟩
        rw [mark_any_acknowledged, h2, Bool.or_true]
  · intro hroom
    rw [apply_acks_acked_fragments e records t hc]
    have : t.fragments.countP (newly_by_any e records) ≤
        t.fragments.countP (fun f => !f.acknowledged) := by
      apply List.countP_mono_left
      intro f _ h
      simp only [newly_by_any, Bool.and_eq_true] at h
      exact h.1
    rw [Nat.mod_eq_of_lt (by omega)]
  · intro records2 hp
    apply apply_acks_same_records e t records2 records hc
    intro a
    exact (hp.map Prod.snd).mem_iff
  · intro r hr
    apply apply_acks_same_records e t (records ++ [r]) records hc
    intro a
    simp only [List.map_append, List.map_cons, List.map_nil, List.mem_append, List.mem_singleton]
    constructor
    · rintro (h | h)
      · exact h
      · rw [h]; exact List.mem_map_of_mem _ hr
    · intro h; exact Or.inl h

/-- What the loop of `generate_message` leaves in the tracker: the counters of
acknowledgment are untouched, the new fragment states are unacknowledged and
numbered upwards, and the original size has grown by the packet lengths. -/
theorem add_fragments_spec (now : Nat) (ps : List packet_t) :
    ∀ (t : fragment_tracker_t) (id : Nat), id + ps.length ≤ 65536 →
      (add_fragments now t id ps).message_id = t.message_id ∧
      (add_fragments now t id ps).total_fragments = t.total_fragments ∧
      (add_fragments now t id ps).acked_fragments = t.acked_fragments ∧
      (add_fragments now t id ps).total_transmitted_size = t.total_transmitted_size ∧
      (add_fragments now t id ps).retransmission_count = t.retransmission_count ∧
      (add_fragments now t id ps).fragments.length = t.fragments.length + ps.length ∧
      tracked_ids (add_fragments now t id ps) = tracked_ids t ++ List.range' id ps.length ∧
      (add_fragments now t id ps).fragments.map (fun f => f.packet) =
        t.fragments.map (fun f => f.packet) ++ ps ∧
      (add_fragments now t id ps).fragments.countP (fun f => f.acknowledged) =
        t.fragments.countP (fun f => f.acknowledged) ∧
      (add_fragments now t id ps).total_original_size =
        (ps.foldl (fun acc p => u32 (acc + u32 p.len)) t.total_original_size) := by
  induction ps with
  | nil =>
    intro t id _
    simp [add_fragments]
  | cons p rest ih =>
    intro t id hid
    simp only [List.length_cons] at hid
    have hr : List.range' (u16 (id + 1)) rest.length = List.range' (id + 1) rest.length := by
      by_cases h0 : rest.length = 0
      · rw [h0]; rfl
      · have hu : u16 (id + 1) = id + 1 := by unfold u16; omega
        rw [hu]
    have h := ih (add_fragment_to_tracker now t id p) (u16 (id + 1)) (by unfold u16; omega)
    obtain ⟨h1, h2, h3, h4, h5, h6, h7, h8, h9, h10⟩ := h
    unfold add_fragments
    refine ⟨h1, h2, h3, h4, h5, ?_, ?_, ?_, ?_, ?_⟩
    · rw [h6]; simp [add_fragment_to_tracker]; omega
    · rw [h7, hr]; simp [tracked_ids, add_fragment_to_tracker, List.range'_succ]
    · rw [h8]; simp [add_fragment_to_tracker]
    · rw [h9]; simp [add_fragment_to_tracker]
    · rw [h10]; simp [add_fragment_to_tracker]


/-- The tracker that `generate_message` creates for a message which the IKE_SA
splits into `fragments`, when the packet array was empty before. -/
theorem generate_message_tracker (env : env_t) (this : private_task_manager_t)
    (message_id : Nat) (fragments : List packet_t)
    (hsel : this.selective_retransmission_enabled = true)
    (h1 : 1 < fragments.length) (h2 : fragments.length < 65536) :
    ∃ t0, generate_message env this message_id (some fragments) [] =
        (true, { this with outgoing_tracker := some t0 }, fragments) ∧
      t0.message_id = message_id ∧
      t0.total_fragments = fragments.length ∧
      t0.acked_fragments = 0 ∧
      t0.total_transmitted_size = 0 ∧
      t0.fragments.length = fragments.length ∧
      tracked_ids t0 = List.range' 1 fragments.length ∧
      t0.fragments.map (fun f => f.packet) = fragments ∧
      t0.fragments.countP (fun f => f.acknowledged) = 0 ∧
      t0.total_original_size = total_data_size fragments := by
  have hu : u16 fragments.length = fragments.length := by unfold u16; omega
  obtain ⟨a1, a2, a3, a4, _, a6, a7, a8, a9, a10⟩ := add_fragments_spec env.now fragments
    { create_fragment_tracker env.now message_id (u16 fragments.length) with
      selective_retransmission_supported := this.peer_supports_selective_retransmission
      total_original_size := 0
      total_transmitted_size := 0 } 1 (by omega)
  refine ⟨_, ?_, a1, ?_, a3, a4, ?_, ?_, ?_, ?_, ?_⟩
  · unfold generate_message
    simp only [List.nil_append, hu, h1, hsel, and_self, if_true]
  · rw [a2]; simp [create_fragment_tracker, hu]
  · rw [a6]; simp [create_fragment_tracker]
  · rw [a7]; simp [tracked_ids, create_fragment_tracker]
  · rw [a8]; simp [create_fragment_tracker]
  · rw [a9]; simp [create_fragment_tracker]
  · rw [a10]; rfl

theorem tracker_inv_update (e : Endian) (now : Nat) (t : fragment_tracker_t)
    (a : fragment_ack_data_t) (h : tracker_inv t) :
    tracker_inv (update_fragment_ack_status e now t a) ∧
    (update_fragment_ack_status e now t a).total_fragments = t.total_fragments ∧
    (update_fragment_ack_status e now t a).message_id = t.message_id := by
  obtain ⟨h1, h2, h3⟩ := h
  have hsum := countP_acked_add_unacked t.fragments
  have hle := countP_newly_le e a t.fragments
  have hc : t.acked_fragments < 65536 := by omega
  refine ⟨⟨?_, ?_, ?_⟩, rfl, rfl⟩
  · rw [update_acked_fragments e now t a hc, update_fragments, countP_mark_acked,
      Nat.mod_eq_of_lt (by omega), h1]
  · rw [update_fragments, List.length_map]; exact h2
  · exact h3

theorem tracker_inv_le (t : fragment_tracker_t) (h : tracker_inv t) :
    t.acked_fragments ≤ t.total_fragments := by
  obtain ⟨h1, h2, _⟩ := h
  rw [h1, ← h2]
  exact List.countP_le_length _

theorem tracker_inv_apply_acks (e : Endian) (records : List (Nat × fragment_ack_data_t)) :
    ∀ t, tracker_inv t → tracker_inv (apply_acks e t records) ∧
      (apply_acks e t records).total_fragments = t.total_fragments := by
  induction records with
  | nil => intro t h; exact ⟨h, rfl⟩
  | cons r rest ih =>
    intro t h
    rw [apply_acks_cons]
    obtain ⟨k1, k2, _⟩ := tracker_inv_update e r.1 t r.2 h
    obtain ⟨k3, k4⟩ := ih _ k1
    exact ⟨k3, by rw [k4, k2]⟩

/-- What `process_fragment_ack` does to the tracker: nothing, or one call of
`update_fragment_ack_status` with a record. -/
theorem process_fragment_ack_tracker (e : Endian) (env : env_t) (this : private_task_manager_t)
    (message : message_t) :
    (process_fragment_ack e env this message).outgoing_tracker = this.outgoing_tracker ∨
    ∃ t a, this.outgoing_tracker = some t ∧
      (process_fragment_ack e env this message).outgoing_tracker =
        some (update_fragment_ack_status e env.now { t with last_ack_time := env.now } a) := by
  unfold process_fragment_ack
  cases h1 : message.get_notify notify_type_t.FRAGMENT_ACK with
  | none => exact Or.inl rfl
  | some n =>
    simp only []
    by_cases hlen : n.notification_data.length < sizeof_fragment_ack_data_t
    · simp only [hlen, if_true]; exact Or.inl trivial
    · simp only [hlen, if_false]
      cases htr : this.outgoing_tracker with
      | none => exact Or.inl htr
      | some tr =>
        dsimp only
        by_cases hmid : tr.message_id ≠ ntohs e (ack_of_chunk e n.notification_data).message_id
        · rw [if_pos hmid]; exact Or.inl htr
        · rw [if_neg hmid]
          refine Or.inr ⟨tr, ack_of_chunk e n.notification_data, rfl, ?_⟩
          split_ifs <;> rfl

/-- The property of a manager that its tracker, when present, satisfies the
representation invariant, is kept by `process_fragment_ack`. -/
theorem process_fragment_ack_inv (e : Endian) (env : env_t) (this : private_task_manager_t)
    (message : message_t)
    (h : ∀ t, this.outgoing_tracker = some t → tracker_inv t) :
    ∀ t, (process_fragment_ack e env this message).outgoing_tracker = some t → tracker_inv t := by
  intro t ht
  rcases process_fragment_ack_tracker e env this message with h1 | ⟨t0, a, h1, h2⟩
  · rw [h1] at ht; exact h t ht
  · rw [h2] at ht
    simp only [Option.some.injEq] at ht
    rw [← ht]
    have hi : tracker_inv { t0 with last_ack_time := env.now } := h t0 h1
    exact (tracker_inv_update e env.now _ _ hi).1

theorem process_acks_inv (e : Endian) (messages : List (env_t × message_t)) :
    ∀ this : private_task_manager_t,
      (∀ t, this.outgoing_tracker = some t → tracker_inv t) →
      ∀ t, (process_acks e this messages).outgoing_tracker = some t → tracker_inv t := by
  induction messages with
  | nil => intro this h; exact h
  | cons m rest ih =>
    intro this h
    exact ih _ (process_fragment_ack_inv e m.1 this m.2 h)

/-- Claim C4.  The tracker that `generate_message` builds for a message of `n`
fragments (fragment numbers 1..n in order, `total_fragments = n`) satisfies
`acked_fragments ≤ total_fragments` after every sequence of acknowledgment
messages handled by `process_fragment_ack` and after every sequence of records
applied by `update_fragment_ack_status`. -/
theorem acked_le_total (e : Endian) (env : env_t) (this : private_task_manager_t)
    (message_id : Nat) (fragments : List packet_t)
    (hsel : this.selective_retransmission_enabled = true)
    (h1 : 1 < fragments.length) (h2 : fragments.length < 65536) :
    ∃ t0, (generate_message env this message_id (some fragments) []).2.1.outgoing_tracker =
        some t0 ∧
      tracked_ids t0 = List.range' 1 fragments.length ∧
      t0.total_fragments = fragments.length ∧
      (∀ (messages : List (env_t × message_t)) (t : fragment_tracker_t),
        (process_acks e (generate_message env this message_id (some fragments) []).2.1
          messages).outgoing_tracker = some t →
        t.acked_fragments ≤ t.total_fragments) ∧
      (∀ records : List (Nat × fragment_ack_data_t),
        (apply_acks e t0 records).acked_fragments ≤ (apply_acks e t0 records).total_fragments) := by
  obtain ⟨t0, hg, _, b2, b3, _, b5, b6, _, b8, _⟩ :=
    generate_message_tracker env this message_id fragments hsel h1 h2
  have hinv : tracker_inv t0 := ⟨by rw [b3, b8], by rw [b5, b2], by rw [b2]; exact h2⟩
  refine ⟨t0, by rw [hg], b6, b2, ?_, ?_⟩
  · intro messages t ht
    rw [hg] at ht
    apply tracker_inv_le
    refine process_acks_inv e messages _ ?_ t ht
    intro t' ht'
    simp only [Option.some.injEq] at ht'
    rw [← ht']; exact hinv
  · intro records
    exact tracker_inv_le _ (tracker_inv_apply_acks e records t0 hinv).1

/-- Witness of `acked_le_total`: a message of three fragments. -/
theorem acked_le_total_witness :
    (({} : private_task_manager_t).selective_retransmission_enabled = true) ∧
    1 < ([{}, {}, {}] : List packet_t).length ∧
    ∃ t0, (generate_message {} {} 1 (some [{}, {}, {}]) []).2.1.outgoing_tracker = some t0 ∧
      ∀ records : List (Nat × fragment_ack_data_t),
        (apply_acks Endian.little t0 records).acked_fragments ≤
          (apply_acks Endian.little t0 records).total_fragments := by
  obtain ⟨t0, h1, _, _, _, h5⟩ := acked_le_total Endian.little {} {} 1 [{}, {}, {}]
    (by decide) (by decide) (by decide)
  exact ⟨by decide, by decide, t0, h1, h5⟩

/-- Claim C5.  With selective retransmission enabled and an outgoing tracker for
message `m` whose fragments are all acknowledged, `retransmit(m)` returns
SUCCESS, hands no packet to the sender or to a MOBIKE task, schedules no job,
raises no alert, keeps no reference to a pending job, and leaves
`initiating.retransmitted`, the packets and the tracker unchanged. -/
theorem retransmit_complete_no_rearm (fuel : Nat) (env : env_t) (this : private_task_manager_t)
    (m : Nat) (t : fragment_tracker_t)
    (hsel : this.selective_retransmission_enabled = true)
    (ht : this.outgoing_tracker = some t)
    (hm : t.message_id = m)
    (hall : t.acked_fragments = t.total_fragments) :
    ∃ r, retransmit (fuel + 1) env this m = some r ∧
      r.status = status_t.SUCCESS ∧
      r.effects.sent = [] ∧
      r.effects.mobike_transmitted = [] ∧
      r.effects.jobs = [] ∧
      r.effects.alerts = [] ∧
      r.this.current_retransmit_job = none ∧
      r.this.initiating_retransmitted = this.initiating_retransmitted ∧
      r.this.initiating_packets = this.initiating_packets ∧
      r.this.outgoing_tracker = this.outgoing_tracker := by
  refine ⟨{ status := status_t.SUCCESS, this := { this with current_retransmit_job := none }
            effects := { log := [log_t.RETRANSMIT_JOB_EARLY_EXIT] } }, ?_, rfl, rfl, rfl, rfl, rfl,
    rfl, rfl, rfl, rfl⟩
  unfold retransmit
  simp [is_complete, ht, hsel, hm, hall]

set_option maxRecDepth 100000 in
/-- Witness of `retransmit_complete_no_rearm`: the end of a clean exchange, where
the acknowledgments report the fragments 1, then 1-2, then 1-3 of a message of
three fragments, after which the timer fires. -/
theorem retransmit_complete_no_rearm_witness :
    (process_acks Endian.big (after_initial_send 1)
      [({}, ack_of_received 1 [1]), ({}, ack_of_received 1 [1, 2]),
       ({}, ack_of_received 1 [1, 2, 3])]).outgoing_tracker.map
        (fun t => (t.message_id, t.acked_fragments, t.total_fragments)) = some (1, 3, 3) ∧
    ∃ r, retransmit 1 {} (process_acks Endian.big (after_initial_send 1)
      [({}, ack_of_received 1 [1]), ({}, ack_of_received 1 [1, 2]),
       ({}, ack_of_received 1 [1, 2, 3])]) 1 = some r ∧
      r.status = status_t.SUCCESS ∧ r.effects.sent = [] ∧ r.effects.jobs = [] := by
  obtain ⟨r, h1, h2, h3, _, h5, _⟩ := retransmit_complete_no_rearm 0 {}
    (process_acks Endian.big (after_initial_send 1)
      [({}, ack_of_received 1 [1]), ({}, ack_of_received 1 [1, 2]),
       ({}, ack_of_received 1 [1, 2, 3])]) 1
    ((process_acks Endian.big (after_initial_send 1)
      [({}, ack_of_received 1 [1]), ({}, ack_of_received 1 [1, 2]),
       ({}, ack_of_received 1 [1, 2, 3])]).outgoing_tracker.getD {})
    (by decide) (by decide) (by decide) (by decide)
  exact ⟨by decide, r, h1, h2, h3, h5⟩

theorem missing_loop_spec (now : Nat) (fs : List fragment_state_t) :
    ∀ (mp : List packet_t) (sz cnt : Nat),
      (missing_loop now fs mp sz cnt).1 = fs.map (resend_state now) ∧
      (missing_loop now fs mp sz cnt).2.1 =
        mp ++ (fs.filter (fun f => !f.acknowledged)).map (fun f => f.packet) ∧
      (missing_loop now fs mp sz cnt).2.2.1 =
        (fs.filter (fun f => !f.acknowledged)).foldl (fun acc f => u32 (acc + f.data_size)) sz ∧
      (cnt < 4294967296 → (missing_loop now fs mp sz cnt).2.2.2 =
        (cnt + fs.countP (fun f => !f.acknowledged)) % 4294967296) := by
  induction fs with
  | nil =>
    intro mp sz cnt
    refine ⟨rfl, by simp [missing_loop], rfl, ?_⟩
    intro h
    simp [missing_loop]
    omega
  | cons f rest ih =>
    intro mp sz cnt
    by_cases hf : f.acknowledged = true
    · obtain ⟨h1, h2, h3, h4⟩ := ih mp sz cnt
      unfold missing_loop
      simp only [hf, if_true]
      refine ⟨?_, ?_, ?_, ?_⟩
      · rw [h1]; simp [resend_state, hf]
      · rw [h2]; simp [hf]
      · rw [h3]; simp [hf]
      · intro hc; rw [h4 hc]; simp [hf]
    · obtain ⟨h1, h2, h3, h4⟩ := ih (mp ++ [f.packet]) (u32 (sz + f.data_size)) (u32 (cnt + 1))
      have hf' : f.acknowledged = false := by simpa using hf
      unfold missing_loop
      simp only [hf', Bool.false_eq_true, if_false]
      refine ⟨?_, ?_, ?_, ?_⟩
      · rw [h1]; simp [resend_state, hf']
      · rw [h2]; simp [hf']
      · rw [h3]; simp [hf']
      · intro hc
        rw [h4 (by unfold u32; omega)]
        simp only [List.countP_cons, hf]
        unfold u32
        simp
        omega

theorem simulate_loss_false (env : env_t) (this : private_task_manager_t) (count i : Nat)
    (p : packet_t)
    (h : 0 < this.initiating_retransmitted ∨ env.simulate_first_fragment_loss = false) :
    simulate_loss env this count i p = false := by
  unfold simulate_loss
  rcases h with h | h
  · have : (this.initiating_retransmitted == 0) = false := by
      simp; omega
    simp [this]
  · simp [h]

theorem send_loop_no_loss (env : env_t) (this : private_task_manager_t) (src dst : Option Nat)
    (count : Nat) (ps : List packet_t)
    (h : 0 < this.initiating_retransmitted ∨ env.simulate_first_fragment_loss = false) :
    ∀ i, send_loop env this src dst count i ps = ps.map (clone_packet src dst) := by
  induction ps with
  | nil => intro i; rfl
  | cons p rest ih =>
    intro i
    unfold send_loop
    rw [simulate_loss_false env this count i p h]
    simp [ih]

/-- What `send_packets` leaves in the manager: only the transmitted size of the
tracker changes, and only when the message ID of the tracker is not zero. -/
theorem send_packets_this (env : env_t) (this : private_task_manager_t) (ps : List packet_t)
    (src dst : Option Nat) :
    (send_packets env this ps src dst).1 =
      { this with outgoing_tracker := this.outgoing_tracker.map (fun t =>
          if 0 < t.message_id then
            { t with total_transmitted_size := u32 (t.total_transmitted_size + total_data_size ps) }
          else t) } := by
  cases this
  simp only [send_packets]
  split
  · split_ifs with hm <;> simp [hm]
  · rfl

theorem send_packets_sent (env : env_t) (this : private_task_manager_t) (ps : List packet_t)
    (src dst : Option Nat) :
    (send_packets env this ps src dst).2 = send_loop env this src dst ps.length 0 ps := by
  unfold send_packets
  cases h : this.outgoing_tracker with
  | none => rfl
  | some t =>
    by_cases hm : 0 < t.message_id
    · simp [hm]
    · simp [hm]


theorem filter_missing_eq_nil {fs : List fragment_state_t}
    (h : fs.countP (fun f => !f.acknowledged) = 0) :
    fs.filter (fun f => !f.acknowledged) = [] := by
  rw [List.countP_eq_length_filter] at h
  exact List.length_eq_zero.mp h

/-- Claim C6.  Called (as at line 735, where `initiating.retransmitted > 0`) on a
tracker that is not complete, `retransmit_missing_fragments_simple` hands to the
sender exactly the packets of the unacknowledged fragments, in the order of the
fragment array, addressed from the local to the remote host; each
unacknowledged fragment state gets `retransmit_count` incremented by one,
`last_sent` set to the current time and `data_size` added to
`total_transmitted` (both counters are `uint32_t`); every acknowledged fragment
state is unchanged. -/
theorem retransmit_missing_fragments_simple_spec (env : env_t) (this : private_task_manager_t)
    (t : fragment_tracker_t)
    (ht : this.outgoing_tracker = some t)
    (hinc : t.acked_fragments ≠ t.total_fragments)
    (hre : 0 < this.initiating_retransmitted ∨ env.simulate_first_fragment_loss = false)
    (hlen : t.fragments.length < 4294967296) :
    (retransmit_missing_fragments_simple env this).effects.sent =
      (missing_fragments t).map (fun f => clone_packet env.my_host env.other_host f.packet) ∧
    (retransmit_missing_fragments_simple env this).effects.sent.map (fun p => p.data) =
      (missing_fragments t).map (fun f => f.packet.data) ∧
    ∃ t', (retransmit_missing_fragments_simple env this).this.outgoing_tracker = some t' ∧
      t'.fragments = t.fragments.map (resend_state env.now) ∧
      ∀ (i : Nat) (f : fragment_state_t), t.fragments[i]? = some f →
        ∃ g, t'.fragments[i]? = some g ∧
          (f.acknowledged = true → g = f) ∧
          (f.acknowledged = false →
            g.retransmit_count = u32 (f.retransmit_count + 1) ∧
            g.last_sent = env.now ∧
            g.total_transmitted = u32 (f.total_transmitted + f.data_size) ∧
            g.fragment_id = f.fragment_id ∧ g.packet = f.packet ∧
            g.data_size = f.data_size ∧ g.acknowledged = false) := by
  obtain ⟨l1, l2, _, l4⟩ := missing_loop_spec env.now t.fragments [] 0 0
  have l4' := l4 (by norm_num)
  have hcnt : t.fragments.countP (fun f => !f.acknowledged) < 4294967296 :=
    Nat.lt_of_le_of_lt (List.countP_le_length _) hlen
  rw [Nat.zero_add, Nat.mod_eq_of_lt hcnt] at l4'
  rw [List.nil_append] at l2
  have hfr : ∀ t' : fragment_tracker_t, t'.fragments = t.fragments.map (resend_state env.now) →
      ∀ (i : Nat) (f : fragment_state_t), t.fragments[i]? = some f →
        ∃ g, t'.fragments[i]? = some g ∧
          (f.acknowledged = true → g = f) ∧
          (f.acknowledged = false →
            g.retransmit_count = u32 (f.retransmit_count + 1) ∧
            g.last_sent = env.now ∧
            g.total_transmitted = u32 (f.total_transmitted + f.data_size) ∧
            g.fragment_id = f.fragment_id ∧ g.packet = f.packet ∧
            g.data_size = f.data_size ∧ g.acknowledged = false) := by
    intro t' ht' i f hf
    refine ⟨resend_state env.now f, ?_, ?_, ?_⟩
    · rw [ht', List.getElem?_map, hf]; rfl
    · intro h; simp [resend_state, h]
    · intro h; simp [resend_state, h]
  have hdata : ((missing_fragments t).map
      (fun f => clone_packet env.my_host env.other_host f.packet)).map (fun p => p.data) =
      (missing_fragments t).map (fun f => f.packet.data) := by
    rw [List.map_map]; rfl
  by_cases hz : 0 < t.fragments.countP (fun f => !f.acknowledged)
  · have hrun : ∃ T : fragment_tracker_t,
        T.fragments = (missing_loop env.now t.fragments [] 0 0).1 ∧
        retransmit_missing_fragments_simple env this =
        { status := status_t.NEED_MORE
          this := (send_packets env { this with outgoing_tracker := some T }
            (missing_loop env.now t.fragments [] 0 0).2.1 env.my_host env.other_host).1
          effects := { sent := (send_packets env { this with outgoing_tracker := some T }
            (missing_loop env.now t.fragments [] 0 0).2.1 env.my_host env.other_host).2 } } := by
      refine ⟨({ t with
          fragments := (missing_loop env.now t.fragments [] 0 0).1
          total_transmitted_size :=
            u32 (t.total_transmitted_size + (missing_loop env.now t.fragments [] 0 0).2.2.1)
          retransmission_count := u32 (t.retransmission_count + 1) } : fragment_tracker_t),
        rfl, ?_⟩
      unfold retransmit_missing_fragments_simple
      simp only [ht, hinc, if_false, l4', hz, if_true]
    obtain ⟨T, hT, hrun⟩ := hrun
    rw [hrun]
    have hre' : 0 < ({ this with outgoing_tracker := some T } :
        private_task_manager_t).initiating_retransmitted ∨
        env.simulate_first_fragment_loss = false := hre
    simp only [send_packets_this, send_packets_sent]
    rw [send_loop_no_loss env _ _ _ _ _ hre', l2]
    refine ⟨?_, ?_, ?_⟩
    · simp [missing_fragments, List.map_map]
    · rw [← hdata]; simp [missing_fragments, List.map_map]
    · simp only [Option.map_some']
      refine ⟨_, rfl, ?_, ?_⟩
      · split_ifs <;> simp only [hT, l1]
      · apply hfr
        split_ifs <;> simp only [hT, l1]
  · have hz0 : t.fragments.countP (fun f => !f.acknowledged) = 0 := by omega
    have hrun : retransmit_missing_fragments_simple env this =
        { status := status_t.SUCCESS
          this := { this with outgoing_tracker := some (
            { t with fragments := (missing_loop env.now t.fragments [] 0 0).1 }) } } := by
      unfold retransmit_missing_fragments_simple
      simp only [ht, hinc, if_false, l4', hz]
    rw [hrun]
    have hnil : missing_fragments t = [] := filter_missing_eq_nil hz0
    refine ⟨?_, ?_, ?_⟩
    · rw [hnil]; rfl
    · rw [hnil]; rfl
    · exact ⟨_, rfl, l1, hfr _ l1⟩

theorem send_packets_frame (env : env_t) (this : private_task_manager_t) (ps : List packet_t)
    (src dst : Option Nat) :
    (send_packets env this ps src dst).1.initiating_retransmitted = this.initiating_retransmitted ∧
    (send_packets env this ps src dst).1.initiating_mid = this.initiating_mid ∧
    (send_packets env this ps src dst).1.initiating_packets = this.initiating_packets ∧
    (∀ t, this.outgoing_tracker = some t →
      ∃ t', (send_packets env this ps src dst).1.outgoing_tracker = some t' ∧
        t'.acked_fragments = t.acked_fragments ∧ t'.total_fragments = t.total_fragments ∧
        t'.message_id = t.message_id ∧ t'.total_original_size = t.total_original_size ∧
        t'.fragments = t.fragments ∧
        t'.total_transmitted_size =
          if 0 < t.message_id then u32 (t.total_transmitted_size + total_data_size ps)
          else t.total_transmitted_size) := by
  rw [send_packets_this]
  refine ⟨rfl, rfl, rfl, ?_⟩
  intro t ht
  simp only [ht, Option.map_some']
  refine ⟨_, rfl, ?_⟩
  split_ifs <;> exact ⟨rfl, rfl, rfl, rfl, rfl, rfl⟩

theorem retransmit_missing_fragments_simple_frame (env : env_t) (this : private_task_manager_t)
    (t : fragment_tracker_t) (ht : this.outgoing_tracker = some t) :
    (retransmit_missing_fragments_simple env this).this.initiating_retransmitted =
      this.initiating_retransmitted ∧
    ∃ t', (retransmit_missing_fragments_simple env this).this.outgoing_tracker = some t' ∧
      t'.acked_fragments = t.acked_fragments ∧ t'.total_fragments = t.total_fragments ∧
      t'.message_id = t.message_id := by
  unfold retransmit_missing_fragments_simple
  simp only [ht]
  split_ifs with h1 h2
  · exact ⟨rfl, t, ht, rfl, rfl, rfl⟩
  · obtain ⟨f1, _, _, f4⟩ := send_packets_frame env
      { this with outgoing_tracker := some (
        { t with
          fragments := (missing_loop env.now t.fragments [] 0 0).1
          total_transmitted_size :=
            u32 (t.total_transmitted_size + (missing_loop env.now t.fragments [] 0 0).2.2.1)
          retransmission_count := u32 (t.retransmission_count + 1) }) }
      (missing_loop env.now t.fragments [] 0 0).2.1 env.my_host env.other_host
    obtain ⟨t', g1, g2, g3, g4, _⟩ := f4 _ rfl
    exact ⟨f1, t', g1, g2, g3, g4⟩
  · exact ⟨rfl, _, rfl, rfl, rfl, rfl⟩


/-- The transmission step of the selective branch keeps the retransmission
counter and the identity and acknowledgment counters of the tracker, schedules
nothing, and logs exactly one tag of the selective branch. -/
theorem selective_step_frame (env : env_t) (this : private_task_manager_t)
    (t : fragment_tracker_t) (log0 : List log_t) (ht : this.outgoing_tracker = some t) :
    (selective_step env this t log0).1.initiating_retransmitted =
      this.initiating_retransmitted ∧
    (∃ t', (selective_step env this t log0).1.outgoing_tracker = some t' ∧
      t'.acked_fragments = t.acked_fragments ∧ t'.total_fragments = t.total_fragments ∧
      t'.message_id = t.message_id) ∧
    (selective_step env this t log0).2.jobs = [] ∧
    (selective_step env this t log0).2.alerts = [] ∧
    (selective_step env this t log0).2.mobike_transmitted = [] ∧
    ∃ tag, (selective_step env this t log0).2.log = log0 ++ [tag] ∧
      (tag = log_t.III8_SELECTIVE_RETRANSMIT_SHARED_TIMEOUT ∨
       tag = log_t.SELECTIVE_RETRANSMIT_NO_MISSING ∨
       tag = log_t.III1_SELECTIVE_RETRANSMIT_INITIAL) := by
  by_cases h1 : 0 < this.initiating_retransmitted
  · by_cases h2 : 0 < count_missing t.fragments 0
    · have hs : selective_step env this t log0 =
          ((retransmit_missing_fragments_simple env this).this,
            { sent := (retransmit_missing_fragments_simple env this).effects.sent
              log := log0 ++ [log_t.III8_SELECTIVE_RETRANSMIT_SHARED_TIMEOUT] }) := by
        simp only [selective_step, h1, h2, if_true]
      rw [hs]
      obtain ⟨f1, f2⟩ := retransmit_missing_fragments_simple_frame env this t ht
      exact ⟨f1, f2, rfl, rfl, rfl, _, rfl, Or.inl rfl⟩
    · have hs : selective_step env this t log0 =
          (this, { log := log0 ++ [log_t.SELECTIVE_RETRANSMIT_NO_MISSING] }) := by
        simp only [selective_step, h1, h2, if_true, if_false]
      rw [hs]
      exact ⟨rfl, ⟨t, ht, rfl, rfl, rfl⟩, rfl, rfl, rfl, _, rfl, Or.inr (Or.inl rfl)⟩
  · have hs : selective_step env this t log0 =
        ((send_packets env this this.initiating_packets env.my_host env.other_host).1,
          { sent := (send_packets env this this.initiating_packets env.my_host env.other_host).2
            log := log0 ++ [log_t.III1_SELECTIVE_RETRANSMIT_INITIAL] }) := by
      simp only [selective_step, h1, if_false]
    rw [hs]
    obtain ⟨f1, _, _, f4⟩ := send_packets_frame env this this.initiating_packets
      env.my_host env.other_host
    obtain ⟨t', g1, g2, g3, g4, _⟩ := f4 t ht
    exact ⟨f1, ⟨t', g1, g2, g3, g4⟩, rfl, rfl, rfl, _, rfl, Or.inr (Or.inr rfl)⟩

/-- The selective branch on a tracker that is not complete: it returns SUCCESS,
counts the retransmission, and schedules exactly one job for the message ID of
the tracker, through `schedule_job` with the argument 1800. -/
theorem retransmit_selective_spec (env : env_t) (this : private_task_manager_t)
    (t : fragment_tracker_t) (log0 : List log_t) (ht : this.outgoing_tracker = some t)
    (hinc : t.acked_fragments < t.total_fragments) :
    ∃ r, retransmit_selective env this t log0 = some r ∧
      r.status = status_t.SUCCESS ∧
      r.effects.jobs = [sched_call_t.schedule_job { message_id := t.message_id } 1800] ∧
      r.this.current_retransmit_job = some { message_id := t.message_id } ∧
      r.this.initiating_retransmitted = u32 (this.initiating_retransmitted + 1) ∧
      r.effects.sent = (selective_step env this t log0).2.sent ∧
      r.effects.alerts = [] ∧
      r.effects.mobike_transmitted = [] ∧
      r.this.outgoing_tracker = (selective_step env this t log0).1.outgoing_tracker ∧
      ∃ tag, r.effects.log = log0 ++ [tag, log_t.III10_SELECTIVE_RETRANSMIT_SHARED_TIMEOUT,
          log_t.RETRANSMIT_JOB_CREATING] ∧
        (tag = log_t.III8_SELECTIVE_RETRANSMIT_SHARED_TIMEOUT ∨
         tag = log_t.SELECTIVE_RETRANSMIT_NO_MISSING ∨
         tag = log_t.III1_SELECTIVE_RETRANSMIT_INITIAL) := by
  obtain ⟨f1, ⟨t', g1, g2, g3, g4⟩, f3, f4, f5, tag, f6, f7⟩ :=
    selective_step_frame env this t log0 ht
  have hne : ¬ t.acked_fragments = t.total_fragments := by omega
  have hnle : ¬ t'.total_fragments ≤ t'.acked_fragments := by omega
  unfold retransmit_selective
  simp only [hne, if_false, g1, hnle]
  refine ⟨_, rfl, rfl, ?_, ?_, ?_, ?_, ?_, ?_, ?_, tag, ?_, f7⟩
  · simp [effects_t.append, f3, g4]
  · simp [g4]
  · simp [f1]
  · simp [effects_t.append]
  · simp [effects_t.append, f4]
  · simp [effects_t.append, f5]
  · rfl
  · simp [effects_t.append, f6]


/-- The whole-message branch without a MOBIKE task: all packets go through
`send_packets`, the retransmission is counted, and one job is scheduled through
`schedule_job_ms` with the timeout of the retransmission settings. -/
theorem retransmit_traditional_spec (env : env_t) (this : private_task_manager_t) (m : Nat)
    (log0 : List log_t) :
    (retransmit_traditional env this m none log0).status = status_t.SUCCESS ∧
    (retransmit_traditional env this m none log0).effects.log =
      log0 ++ [log_t.RETRANSMIT_DEBUG_JOB_CREATE_TRADITIONAL] ∧
    (retransmit_traditional env this m none log0).effects.jobs =
      [sched_call_t.schedule_job_ms
        { message_id := if is_selective_retransmit this m then m else this.initiating_mid }
        (u32 (env.retransmission_timeout this.initiating_retransmitted))] ∧
    (retransmit_traditional env this m none log0).effects.mobike_transmitted = [] ∧
    (retransmit_traditional env this m none log0).this.initiating_retransmitted =
      u32 (this.initiating_retransmitted + 1) ∧
    ((0 < this.initiating_retransmitted ∨ env.simulate_first_fragment_loss = false) →
      (retransmit_traditional env this m none log0).effects.sent =
        this.initiating_packets.map (clone_packet env.my_host env.other_host)) ∧
    (∀ t, this.outgoing_tracker = some t →
      ∃ t', (retransmit_traditional env this m none log0).this.outgoing_tracker = some t' ∧
        t'.total_original_size = t.total_original_size ∧
        t'.total_transmitted_size =
          if 0 < t.message_id then
            u32 (t.total_transmitted_size + total_data_size this.initiating_packets)
          else t.total_transmitted_size) := by
  have heq : retransmit_traditional env this m none log0 =
      retransmit_reschedule this
        (send_packets env
          (if this.initiating_retransmitted ≠ 0 then
            { this with initiating_retransmit_sent := true } else this)
          (if this.initiating_retransmitted ≠ 0 then
            { this with initiating_retransmit_sent := true } else this).initiating_packets
          env.my_host env.other_host).1 m
        { sent := (send_packets env
            (if this.initiating_retransmitted ≠ 0 then
              { this with initiating_retransmit_sent := true } else this)
            (if this.initiating_retransmitted ≠ 0 then
              { this with initiating_retransmit_sent := true } else this).initiating_packets
            env.my_host env.other_host).2
          alerts := if this.initiating_retransmitted ≠ 0 then
              [alert_t.ALERT_RETRANSMIT_SEND this.initiating_packets.getLast?
                this.initiating_retransmitted]
            else []
          log := log0 }
        (u32 (env.retransmission_timeout this.initiating_retransmitted)) := rfl
  rw [heq]
  generalize hthis1 : (if this.initiating_retransmitted ≠ 0 then
      ({ this with initiating_retransmit_sent := true } : private_task_manager_t)
      else this) = this1
  have k1 : this1.initiating_retransmitted = this.initiating_retransmitted := by
    rw [← hthis1]; split_ifs <;> rfl
  have k2 : this1.initiating_packets = this.initiating_packets := by
    rw [← hthis1]; split_ifs <;> rfl
  have k3 : this1.outgoing_tracker = this.outgoing_tracker := by
    rw [← hthis1]; split_ifs <;> rfl
  obtain ⟨f1, _, _, f4⟩ := send_packets_frame env this1 this1.initiating_packets
    env.my_host env.other_host
  refine ⟨rfl, rfl, rfl, rfl, ?_, ?_, ?_⟩
  · show u32 ((send_packets env this1 this1.initiating_packets env.my_host
      env.other_host).1.initiating_retransmitted + 1) = _
    rw [f1, k1]
  · intro hre
    have hre' : 0 < this1.initiating_retransmitted ∨
        env.simulate_first_fragment_loss = false := by rw [k1]; exact hre
    show (send_packets env this1 this1.initiating_packets env.my_host env.other_host).2 ++ [] = _
    rw [List.append_nil, send_packets_sent, send_loop_no_loss env _ _ _ _ _ hre', k2]
  · intro t ht
    obtain ⟨t', g1, _, _, _, g5, _, g7⟩ := f4 t (by rw [k3]; exact ht)
    rw [k2] at g7
    exact ⟨t', g1, g5, g7⟩


/-- A timer tick that is not for a complete tracker and that is for the message
in flight with packets pending, or for a tracked message, runs the main block. -/
theorem retransmit_enters_main (fuel : Nat) (env : env_t) (this : private_task_manager_t)
    (m : Nat)
    (hnc : ∀ t, this.outgoing_tracker = some t → this.selective_retransmission_enabled = true →
      t.message_id = m → t.acked_fragments < t.total_fragments)
    (hent : (m = this.initiating_mid ∧ 0 < this.initiating_packets.length) ∨
      is_selective_retransmit this m = true) :
    retransmit (fuel + 1) env this m =
      retransmit_main env { this with current_retransmit_job := none } m := by
  have hc : is_complete { this with current_retransmit_job := none } m = false := by
    unfold is_complete
    cases ht : this.outgoing_tracker with
    | none => rfl
    | some t =>
      simp only [Bool.and_eq_false_iff, decide_eq_false_iff_not]
      by_cases h1 : this.selective_retransmission_enabled = true
      · by_cases h2 : t.message_id = m
        · have := hnc t ht h1 h2
          exact Or.inr (by omega)
        · exact Or.inl (Or.inr (by simpa using h2))
      · exact Or.inl (Or.inl (by simpa using h1))
  have hent' : (m = ({ this with current_retransmit_job := none } :
        private_task_manager_t).initiating_mid ∧
      0 < ({ this with current_retransmit_job := none } :
        private_task_manager_t).initiating_packets.length) ∨
      is_selective_retransmit { this with current_retransmit_job := none } m = true := hent
  unfold retransmit
  dsimp only
  rw [hc]
  simp only [Bool.false_eq_true, if_false]
  rw [if_pos hent']

/-- The main block without a MOBIKE task and before the give-up threshold chooses
between the selective and the whole-message branch. -/
theorem retransmit_main_no_mobike (env : env_t) (this : private_task_manager_t) (m : Nat)
    (hmob : find_mobike this = none)
    (hgu : this.initiating_retransmitted ≤ this.retransmit_tries) :
    retransmit_main env this m =
      match this.outgoing_tracker with
      | some t =>
        if this.selective_retransmission_enabled = true ∧
            this.peer_supports_selective_retransmission = true ∧ t.message_id = m then
          retransmit_selective env this t
            [log_t.RETRANSMIT_DEBUG_ENTERED_IF, log_t.RETRANSMIT_DEBUG_NO_MOBIKE_PROBING]
        else
          some (retransmit_traditional env this m none
            [log_t.RETRANSMIT_DEBUG_ENTERED_IF, log_t.RETRANSMIT_DEBUG_NO_MOBIKE_PROBING])
      | none =>
        some (retransmit_traditional env this m none
          [log_t.RETRANSMIT_DEBUG_ENTERED_IF, log_t.RETRANSMIT_DEBUG_NO_MOBIKE_PROBING]) := by
  have hgu' : ¬ this.retransmit_tries < this.initiating_retransmitted := by omega
  unfold retransmit_main
  simp only [hmob, hgu', if_false, if_true, Option.isNone_none, true_and, List.cons_append,
    List.nil_append]

theorem retransmit_main_selective (env : env_t) (this : private_task_manager_t) (m : Nat)
    (t : fragment_tracker_t)
    (hmob : find_mobike this = none)
    (hgu : this.initiating_retransmitted ≤ this.retransmit_tries)
    (ht : this.outgoing_tracker = some t)
    (hsel : this.selective_retransmission_enabled = true)
    (hpeer : this.peer_supports_selective_retransmission = true)
    (hm : t.message_id = m) :
    retransmit_main env this m = retransmit_selective env this t
      [log_t.RETRANSMIT_DEBUG_ENTERED_IF, log_t.RETRANSMIT_DEBUG_NO_MOBIKE_PROBING] := by
  rw [retransmit_main_no_mobike env this m hmob hgu]
  simp only [ht]
  rw [if_pos ⟨hsel, hpeer, hm⟩]

theorem retransmit_main_traditional (env : env_t) (this : private_task_manager_t) (m : Nat)
    (hmob : find_mobike this = none)
    (hgu : this.initiating_retransmitted ≤ this.retransmit_tries)
    (hn : ¬ (this.selective_retransmission_enabled = true ∧
      this.peer_supports_selective_retransmission = true ∧
      ∃ t, this.outgoing_tracker = some t ∧ t.message_id = m)) :
    retransmit_main env this m = some (retransmit_traditional env this m none
      [log_t.RETRANSMIT_DEBUG_ENTERED_IF, log_t.RETRANSMIT_DEBUG_NO_MOBIKE_PROBING]) := by
  rw [retransmit_main_no_mobike env this m hmob hgu]
  cases ht : this.outgoing_tracker with
  | none => rfl
  | some t =>
    have : ¬ (this.selective_retransmission_enabled = true ∧
        this.peer_supports_selective_retransmission = true ∧ t.message_id = m) := by
      rintro ⟨h1, h2, h3⟩
      exact hn ⟨h1, h2, t, ht, h3⟩
    simp only []
    rw [if_neg this]


/-- Claim C10, amended.  For a timer tick that reaches the retransmission logic
(the message ID is the one in flight with packets pending, or a tracker for it
exists), whose tracker is not complete, before the give-up threshold and with no
MOBIKE task among the active tasks of an INFORMATIONAL exchange: `retransmit`
takes the selective path if and only if selective retransmission is enabled
locally, the peer has advertised support and the outgoing tracker exists with
the ticked message ID; in every other such case it takes the whole-message path,
schedules the next job through the backoff timeout and, unless the loss
simulation drops the first packet of an initial transmission, hands the full
packet sequence to the sender. -/
theorem retransmit_path_choice (fuel : Nat) (env : env_t) (this : private_task_manager_t)
    (m : Nat)
    (hnc : ∀ t, this.outgoing_tracker = some t → this.selective_retransmission_enabled = true →
      t.message_id = m → t.acked_fragments < t.total_fragments)
    (hent : (m = this.initiating_mid ∧ 0 < this.initiating_packets.length) ∨
      is_selective_retransmit this m = true)
    (hgu : this.initiating_retransmitted ≤ this.retransmit_tries)
    (hmob : find_mobike this = none) :
    ∃ r, retransmit (fuel + 1) env this m = some r ∧
      r.status = status_t.SUCCESS ∧
      (log_t.III10_SELECTIVE_RETRANSMIT_SHARED_TIMEOUT ∈ r.effects.log ↔
        (this.selective_retransmission_enabled = true ∧
          this.peer_supports_selective_retransmission = true ∧
          ∃ t, this.outgoing_tracker = some t ∧ t.message_id = m)) ∧
      (¬ (this.selective_retransmission_enabled = true ∧
          this.peer_supports_selective_retransmission = true ∧
          ∃ t, this.outgoing_tracker = some t ∧ t.message_id = m) →
        log_t.RETRANSMIT_DEBUG_JOB_CREATE_TRADITIONAL ∈ r.effects.log ∧
        r.effects.jobs = [sched_call_t.schedule_job_ms
          { message_id := if is_selective_retransmit this m then m else this.initiating_mid }
          (u32 (env.retransmission_timeout this.initiating_retransmitted))] ∧
        ((0 < this.initiating_retransmitted ∨ env.simulate_first_fragment_loss = false) →
          r.effects.sent =
            this.initiating_packets.map (clone_packet env.my_host env.other_host))) := by
  rw [retransmit_enters_main fuel env this m hnc hent]
  have hmob' : find_mobike { this with current_retransmit_job := none } = none := hmob
  have hgu' : ({ this with current_retransmit_job := none } :
      private_task_manager_t).initiating_retransmitted ≤
      ({ this with current_retransmit_job := none } : private_task_manager_t).retransmit_tries :=
    hgu
  by_cases hcnd : this.selective_retransmission_enabled = true ∧
      this.peer_supports_selective_retransmission = true ∧
      ∃ t, this.outgoing_tracker = some t ∧ t.message_id = m
  · obtain ⟨h1, h2, t, ht, h4⟩ := hcnd
    have ht' : ({ this with current_retransmit_job := none } :
        private_task_manager_t).outgoing_tracker = some t := ht
    rw [retransmit_main_selective env _ m t hmob' hgu' ht' h1 h2 h4]
    obtain ⟨r, r1, r2, _, _, _, _, _, _, _, tag, r10, _⟩ := retransmit_selective_spec env
      { this with current_retransmit_job := none } t
      [log_t.RETRANSMIT_DEBUG_ENTERED_IF, log_t.RETRANSMIT_DEBUG_NO_MOBIKE_PROBING] ht'
      (hnc t ht h1 h4)
    refine ⟨r, r1, r2, ?_, ?_⟩
    · rw [r10]
      constructor
      · intro _; exact ⟨h1, h2, t, ht, h4⟩
      · intro _; simp
    · intro h; exact absurd ⟨h1, h2, t, ht, h4⟩ h
  · have hcnd' : ¬ (({ this with current_retransmit_job := none } :
          private_task_manager_t).selective_retransmission_enabled = true ∧
        ({ this with current_retransmit_job := none } :
          private_task_manager_t).peer_supports_selective_retransmission = true ∧
        ∃ t, ({ this with current_retransmit_job := none } :
          private_task_manager_t).outgoing_tracker = some t ∧ t.message_id = m) := hcnd
    rw [retransmit_main_traditional env _ m hmob' hgu' hcnd']
    obtain ⟨s1, s2, s3, _, _, s6, _⟩ := retransmit_traditional_spec env
      { this with current_retransmit_job := none } m
      [log_t.RETRANSMIT_DEBUG_ENTERED_IF, log_t.RETRANSMIT_DEBUG_NO_MOBIKE_PROBING]
    refine ⟨_, rfl, s1, ?_, ?_⟩
    · rw [s2]
      constructor
      · intro h; simp at h
      · intro h; exact absurd h hcnd
    · intro _
      refine ⟨by rw [s2]; simp, s3, s6⟩

theorem u32_total_data_size (ps : List packet_t) : u32 (total_data_size ps) = total_data_size ps := by
  unfold total_data_size
  induction ps using List.reverseRecOn with
  | nil => rfl
  | append_singleton l a _ =>
    rw [List.foldl_append, List.foldl_cons, List.foldl_nil]
    unfold u32
    omega

/-- With a MOBIKE task among the active tasks of an INFORMATIONAL exchange the
main block hands no packet to the sender: the packet goes to the MOBIKE task. -/
theorem retransmit_main_mobike_sent (env : env_t) (this : private_task_manager_t) (m : Nat)
    (mob : task_t) (hmob : find_mobike this = some mob) :
    ∃ r, retransmit_main env this m = some r ∧ r.effects.sent = [] := by
  unfold retransmit_main
  simp only [hmob]
  by_cases hp : mob.is_probing = true
  · simp only [hp]
    refine ⟨_, rfl, ?_⟩
    unfold retransmit_probing
    split_ifs <;> simp [retransmit_reschedule, effects_t.append]
  · have hp' : mob.is_probing = false := by simpa using hp
    simp only [hp', if_true]
    by_cases hg : this.retransmit_tries < this.initiating_retransmitted
    · simp only [hg, if_true]
      exact ⟨_, rfl, rfl⟩
    · simp only [hg, if_false]
      have htrad : (retransmit_traditional env this m (some mob)
          ([log_t.RETRANSMIT_DEBUG_ENTERED_IF] ++
            [log_t.RETRANSMIT_DEBUG_NO_MOBIKE_PROBING])).effects.sent = [] := by
        unfold retransmit_traditional
        simp only []
        split_ifs <;> simp [retransmit_reschedule, effects_t.append]
      cases ht : this.outgoing_tracker with
      | none => exact ⟨_, rfl, htrad⟩
      | some t =>
        simp only [Option.isNone_some, Bool.false_eq_true, false_and, if_false]
        exact ⟨_, rfl, htrad⟩


theorem selective_step_initial (env : env_t) (this : private_task_manager_t)
    (t : fragment_tracker_t) (log0 : List log_t) (h0 : this.initiating_retransmitted = 0) :
    selective_step env this t log0 =
      ((send_packets env this this.initiating_packets env.my_host env.other_host).1,
        { sent := (send_packets env this this.initiating_packets env.my_host env.other_host).2
          log := log0 ++ [log_t.III1_SELECTIVE_RETRANSMIT_INITIAL] }) := by
  have : ¬ 0 < this.initiating_retransmitted := by omega
  simp only [selective_step, this, if_false]

/-- Claim C8, amended.  For a fragmented outbound message with a message ID
greater than zero: after `generate_message` has created the tracker from the
fragments and the first `retransmit` call (`initiating.retransmitted = 0`) has
handed all fragments to the sender, `total_transmitted_size` of the tracker
equals `total_original_size`, which is the sum of the fragment packet lengths
(in `uint32_t` arithmetic). -/
theorem initial_send_counted_once (fuel : Nat) (env0 env : env_t)
    (this : private_task_manager_t) (message_id : Nat) (fragments : List packet_t)
    (hsel : this.selective_retransmission_enabled = true)
    (h1 : 1 < fragments.length) (h2 : fragments.length < 65536)
    (hpos : 0 < message_id)
    (hmid : this.initiating_mid = message_id)
    (hre : this.initiating_retransmitted = 0) :
    ∃ r, retransmit (fuel + 1) env
        { (generate_message env0 this message_id (some fragments) []).2.1 with
          initiating_packets := (generate_message env0 this message_id (some fragments) []).2.2 }
        message_id = some r ∧
      (r.effects.sent = fragments.map (clone_packet env.my_host env.other_host) →
        ∃ t, r.this.outgoing_tracker = some t ∧
          t.total_transmitted_size = t.total_original_size ∧
          t.total_original_size = total_data_size fragments) := by
  obtain ⟨t0, hg, b1, b2, b3, b4, _, _, _, _, b9⟩ :=
    generate_message_tracker env0 this message_id fragments hsel h1 h2
  rw [hg]
  dsimp only
  generalize hthis1 : ({ this with outgoing_tracker := some t0, initiating_packets := fragments } :
    private_task_manager_t) = this1
  have k1 : this1.outgoing_tracker = some t0 := by rw [← hthis1]
  have k2 : this1.initiating_packets = fragments := by rw [← hthis1]
  have k3 : this1.initiating_retransmitted = 0 := by rw [← hthis1]; exact hre
  have k4 : this1.initiating_mid = message_id := by rw [← hthis1]; exact hmid
  have k5 : find_mobike this1 = find_mobike this := by rw [← hthis1]; rfl
  have hnc : ∀ t, this1.outgoing_tracker = some t →
      this1.selective_retransmission_enabled = true →
      t.message_id = message_id → t.acked_fragments < t.total_fragments := by
    intro t ht _ _
    rw [k1] at ht
    simp only [Option.some.injEq] at ht
    rw [← ht, b3, b2]; omega
  have hent : (message_id = this1.initiating_mid ∧ 0 < this1.initiating_packets.length) ∨
      is_selective_retransmit this1 message_id = true := by
    left; rw [k4, k2]; exact ⟨rfl, by omega⟩
  rw [retransmit_enters_main fuel env this1 message_id hnc hent]
  generalize hthis2 : ({ this1 with current_retransmit_job := none } :
    private_task_manager_t) = this2
  have j1 : this2.outgoing_tracker = some t0 := by rw [← hthis2]; exact k1
  have j2 : this2.initiating_packets = fragments := by rw [← hthis2]; exact k2
  have j3 : this2.initiating_retransmitted = 0 := by rw [← hthis2]; exact k3
  have htot : ∀ t' : fragment_tracker_t, t'.total_original_size = t0.total_original_size →
      t'.total_transmitted_size =
        (if 0 < t0.message_id then
          u32 (t0.total_transmitted_size + total_data_size this2.initiating_packets)
        else t0.total_transmitted_size) →
      t'.total_transmitted_size = t'.total_original_size ∧
        t'.total_original_size = total_data_size fragments := by
    intro t' e1 e2
    rw [b1, if_pos hpos, b4, Nat.zero_add, j2, u32_total_data_size] at e2
    rw [e1, e2, b9]
    exact ⟨rfl, rfl⟩
  cases hm : find_mobike this2 with
  | some mob =>
    obtain ⟨r, r1, r2⟩ := retransmit_main_mobike_sent env this2 message_id mob hm
    refine ⟨r, r1, ?_⟩
    intro hs
    rw [r2] at hs
    have := congrArg List.length hs
    simp only [List.length_nil, List.length_map] at this
    omega
  | none =>
    have hgu : this2.initiating_retransmitted ≤ this2.retransmit_tries := by rw [j3]; omega
    by_cases hcnd : this2.selective_retransmission_enabled = true ∧
        this2.peer_supports_selective_retransmission = true ∧
        ∃ t, this2.outgoing_tracker = some t ∧ t.message_id = message_id
    · obtain ⟨c1, c2, _, _, _⟩ := hcnd
      rw [retransmit_main_selective env this2 message_id t0 hm hgu j1 c1 c2 b1]
      obtain ⟨r, r1, _, _, _, _, _, _, _, r9, _⟩ := retransmit_selective_spec env this2 t0
        [log_t.RETRANSMIT_DEBUG_ENTERED_IF, log_t.RETRANSMIT_DEBUG_NO_MOBIKE_PROBING] j1
        (by rw [b3, b2]; omega)
      refine ⟨r, r1, ?_⟩
      intro _
      rw [selective_step_initial env this2 t0 _ j3] at r9
      obtain ⟨_, _, _, f4⟩ := send_packets_frame env this2 this2.initiating_packets
        env.my_host env.other_host
      obtain ⟨t', g1, _, _, _, g5, _, g7⟩ := f4 t0 j1
      refine ⟨t', by rw [r9]; exact g1, htot t' g5 g7⟩
    · rw [retransmit_main_traditional env this2 message_id hm hgu hcnd]
      obtain ⟨_, _, _, _, _, _, s7⟩ := retransmit_traditional_spec env this2 message_id
        [log_t.RETRANSMIT_DEBUG_ENTERED_IF, log_t.RETRANSMIT_DEBUG_NO_MOBIKE_PROBING]
      obtain ⟨t', g1, g2, g3⟩ := s7 t0 j1
      exact ⟨_, rfl, fun _ => ⟨t', g1, htot t' g2 g3⟩⟩

set_option maxRecDepth 100000 in
/-- Witness of `retransmit_missing_fragments_simple_spec`: after the loss of
fragment 1 of three, only the packet of fragment 1 is handed to the sender. -/
theorem retransmit_missing_fragments_simple_spec_witness :
    (after_first_fragment_loss 1).outgoing_tracker.map
      (fun t => (t.acked_fragments, t.total_fragments, t.fragments.map (fun f => f.acknowledged))) =
      some (2, 3, [false, true, true]) ∧
    0 < (after_first_fragment_loss 1).initiating_retransmitted ∧
    (retransmit_missing_fragments_simple { now := 2 } (after_first_fragment_loss 1)).effects.sent
      = (missing_fragments ((after_first_fragment_loss 1).outgoing_tracker.getD {})).map
          (fun f => clone_packet (some 1) (some 2) f.packet) ∧
    (missing_fragments ((after_first_fragment_loss 1).outgoing_tracker.getD {})).map
      (fun f => f.fragment_id) = [1] :=
  ⟨by decide, by decide,
    (retransmit_missing_fragments_simple_spec { now := 2 } (after_first_fragment_loss 1)
      ((after_first_fragment_loss 1).outgoing_tracker.getD {}) (by decide) (by decide)
      (Or.inl (by decide)) (by decide)).1,
    by decide⟩

set_option maxRecDepth 100000 in
/-- Claim C7, the code at the failing input.  A message with ID 1 of three
fragments of 100 bytes is sent, the peer acknowledges the fragments 2 and 3, and
one selective retransmission resends fragment 1 alone: `total_original_size` is
300 and the size of fragment 1 is 100, yet `total_transmitted_size` is 500,
because both `retransmit_missing_fragments_simple` (line 3855) and `send_packets`
(line 496) add the resent bytes. -/
theorem selective_resend_counted_twice :
    (after_initial_send 1).outgoing_tracker.map
      (fun t => (t.total_original_size, t.total_transmitted_size)) = some (300, 300) ∧
    (retransmit 1 { now := 2 } (after_first_fragment_loss 1) 1).map
      (fun r => (r.status, r.effects.sent.map packet_t.len,
        r.this.outgoing_tracker.map (fun t =>
          (t.total_original_size,
           (t.fragments.filter (fun f => f.fragment_id == 1)).map (fun f => f.data_size),
           t.total_transmitted_size)))) =
      some (status_t.SUCCESS, [100], some (300, [100], 500)) := by
  refine ⟨by decide, by decide⟩

set_option maxRecDepth 100000 in
/-- Counterexample to claim C8 as stated, at message ID 0: the tracker is created
for the three fragments of 100 bytes and the first `retransmit` call hands all
three to the sender, but `send_packets` skips a tracker whose message ID is zero
(line 491), so `total_transmitted_size` stays 0 while `total_original_size` is
300. -/
theorem initial_send_counted_once_counterexample :
    (retransmit 1 {} (three_fragments 0) 0).map
      (fun r => (r.status, r.effects.sent,
        r.this.outgoing_tracker.map (fun t =>
          (t.message_id, t.total_original_size, t.total_transmitted_size)))) =
      some (status_t.SUCCESS,
        [packet_of_size 100, packet_of_size 100, packet_of_size 100].map
          (clone_packet (some 1) (some 2)),
        some (0, 300, 0)) := by
  decide

set_option maxRecDepth 100000 in
/-- Witness of `initial_send_counted_once`: a message with ID 1 of three fragments
of 100 bytes. -/
theorem initial_send_counted_once_witness :
    (1 : Nat) < [packet_of_size 100, packet_of_size 100, packet_of_size 100].length ∧
    (0 : Nat) < 1 ∧
    ∃ r t, retransmit 1 {}
        { (generate_message {} { initiating_mid := 1 } 1
            (some [packet_of_size 100, packet_of_size 100, packet_of_size 100]) []).2.1 with
          initiating_packets := (generate_message {} { initiating_mid := 1 } 1
            (some [packet_of_size 100, packet_of_size 100, packet_of_size 100]) []).2.2 }
        1 = some r ∧
      r.this.outgoing_tracker = some t ∧
      t.total_transmitted_size = t.total_original_size ∧
      t.total_original_size = 300 := by
  obtain ⟨r, hr, himp⟩ := initial_send_counted_once 0 {} {} { initiating_mid := 1 } 1
    [packet_of_size 100, packet_of_size 100, packet_of_size 100]
    (by decide) (by decide) (by decide) (by decide) (by decide) (by decide)
  have hs : (retransmit 1 {}
        { (generate_message {} { initiating_mid := 1 } 1
            (some [packet_of_size 100, packet_of_size 100, packet_of_size 100]) []).2.1 with
          initiating_packets := (generate_message {} { initiating_mid := 1 } 1
            (some [packet_of_size 100, packet_of_size 100, packet_of_size 100]) []).2.2 }
        1).map (fun r => r.effects.sent) =
      some ([packet_of_size 100, packet_of_size 100, packet_of_size 100].map
        (clone_packet (some 1) (some 2))) := by decide
  rw [hr] at hs
  simp only [Option.map_some', Option.some.injEq] at hs
  obtain ⟨t, h1, h2, h3⟩ := himp hs
  exact ⟨by decide, by decide, r, t, hr, h1, h2, by rw [h3]; decide⟩

set_option maxRecDepth 100000 in
/-- Claim C9, the code at the failing input.  On the selective branch of the
initial transmission of a tracked message with ID 1 exactly one job is
scheduled, for message ID 1, but through `schedule_job` (line 776), the entry
point of the scheduler that takes seconds: the job fires after 1800 seconds,
that is 1800000 milliseconds, not after 1800 milliseconds. -/
theorem selective_timer_in_seconds :
    (retransmit 1 {} (three_fragments 1) 1).map
      (fun r => (r.status, r.effects.jobs, r.effects.jobs.map sched_call_t.delay_ms,
        r.this.current_retransmit_job,
        decide (log_t.III10_SELECTIVE_RETRANSMIT_SHARED_TIMEOUT ∈ r.effects.log))) =
      some (status_t.SUCCESS, [sched_call_t.schedule_job { message_id := 1 } 1800], [1800000],
        some { message_id := 1 }, true) := by
  decide

set_option maxRecDepth 100000 in
/-- Counterexample to claim C10 as stated.  First input: selective
retransmission is enabled, the peer supports it and the tracker exists for the
ticked message ID 1, which is in flight, not complete and below the give-up
threshold, yet with a MOBIKE task among the active tasks of the INFORMATIONAL
exchange `retransmit` does not take the selective path: it takes the
whole-message path and hands only the first packet to the MOBIKE task, nothing
to the sender.  Second input: with no packet pending and no tracker, a tick for
the current message ID is neither stale, complete nor give-up, and `retransmit`
returns INVALID_STATE without sending or scheduling anything. -/
theorem retransmit_path_choice_counterexample :
    (mobike_update.selective_retransmission_enabled = true ∧
      mobike_update.peer_supports_selective_retransmission = true ∧
      mobike_update.outgoing_tracker.map
        (fun t => (t.message_id, t.acked_fragments, t.total_fragments)) = some (1, 0, 3) ∧
      mobike_update.initiating_mid = 1 ∧
      mobike_update.initiating_retransmitted ≤ mobike_update.retransmit_tries ∧
      (retransmit 1 {} mobike_update 1).map
        (fun r => (r.status,
          decide (log_t.III10_SELECTIVE_RETRANSMIT_SHARED_TIMEOUT ∈ r.effects.log),
          decide (log_t.RETRANSMIT_DEBUG_JOB_CREATE_TRADITIONAL ∈ r.effects.log),
          r.effects.sent, r.effects.mobike_transmitted.length)) =
        some (status_t.SUCCESS, false, true, [], 1)) ∧
    (idle_manager.initiating_mid = 1 ∧
      idle_manager.outgoing_tracker = none ∧
      (retransmit 1 {} idle_manager 1).map
        (fun r => (r.status,
          decide (log_t.III10_SELECTIVE_RETRANSMIT_SHARED_TIMEOUT ∈ r.effects.log),
          decide (log_t.RETRANSMIT_DEBUG_JOB_CREATE_TRADITIONAL ∈ r.effects.log),
          r.effects.sent, r.effects.jobs)) =
        some (status_t.INVALID_STATE, false, false, [], [])) := by
  refine ⟨⟨by decide, by decide, by decide, by decide, by decide, by decide⟩,
    by decide, by decide, by decide⟩

set_option maxRecDepth 100000 in
/-- Witness of `retransmit_path_choice`: the initial transmission of a tracked
message of three fragments to a peer that supports selective retransmission
takes the selective path. -/
theorem retransmit_path_choice_witness :
    (three_fragments 1).initiating_retransmitted ≤ (three_fragments 1).retransmit_tries ∧
    find_mobike (three_fragments 1) = none ∧
    ∃ r, retransmit 1 {} (three_fragments 1) 1 = some r ∧
      log_t.III10_SELECTIVE_RETRANSMIT_SHARED_TIMEOUT ∈ r.effects.log := by
  have hT : (three_fragments 1).outgoing_tracker =
      some ((three_fragments 1).outgoing_tracker.getD {}) := by decide
  obtain ⟨r, h1, _, h3, _⟩ := retransmit_path_choice 0 {} (three_fragments 1) 1
    (by
      intro t ht _ _
      rw [hT] at ht
      simp only [Option.some.injEq] at ht
      rw [← ht]
      decide)
    (Or.inl (by decide)) (by decide) (by decide)
  exact ⟨by decide, by decide, r, h1, h3.mpr ⟨by decide, by decide, _, hT, by decide⟩⟩

/-- The probing test of the main block answers no when no active MOBIKE task is
probing. -/
theorem find_mobike_not_probing (this : private_task_manager_t)
    (hprobe : ∀ task ∈ this.active_tasks,
      task.type = task_type_t.TASK_IKE_MOBIKE → task.is_probing = false) :
    find_mobike this = none ∨ ∃ m, find_mobike this = some m ∧ m.is_probing = false := by
  cases h : find_mobike this with
  | none => exact Or.inl rfl
  | some m =>
    refine Or.inr ⟨m, rfl, ?_⟩
    unfold find_mobike at h
    split at h
    · have hm := List.mem_of_find?_eq_some h
      have hp := List.find?_some h
      exact hprobe m hm (by simpa using hp)
    · cases h

/-- Claim C11.  When `retransmit(m)` reaches the retransmission logic (`m` is
the message ID in flight with packets pending, no active MOBIKE task is
probing, a tracker for `m` is not complete) and `initiating.retransmitted`
exceeds `retransmit.tries`, it returns DESTROY_ME, raises
ALERT_RETRANSMIT_SEND_TIMEOUT with the first pending packet, hands no packet to
the sender or to a MOBIKE task, schedules no job and keeps no job reference. -/
theorem retransmit_gives_up (fuel : Nat) (env : env_t) (this : private_task_manager_t)
    (m : Nat)
    (hmid : m = this.initiating_mid)
    (hpk : 0 < this.initiating_packets.length)
    (hprobe : ∀ task ∈ this.active_tasks,
      task.type = task_type_t.TASK_IKE_MOBIKE → task.is_probing = false)
    (hnc : ∀ t, this.outgoing_tracker = some t → t.message_id = m →
      t.acked_fragments < t.total_fragments)
    (hgu : this.retransmit_tries < this.initiating_retransmitted) :
    ∃ r, retransmit (fuel + 1) env this m = some r ∧
      r.status = status_t.DESTROY_ME ∧
      r.effects.alerts =
        [alert_t.ALERT_RETRANSMIT_SEND_TIMEOUT this.initiating_packets.head?] ∧
      r.effects.sent = [] ∧
      r.effects.mobike_transmitted = [] ∧
      r.effects.jobs = [] ∧
      r.this = { this with current_retransmit_job := none } := by
  rw [retransmit_enters_main fuel env this m (fun t ht _ hm => hnc t ht hm)
    (Or.inl ⟨hmid, hpk⟩)]
  have hp := find_mobike_not_probing { this with current_retransmit_job := none } hprobe
  have hgu' : ({ this with current_retransmit_job := none } :
      private_task_manager_t).retransmit_tries <
      ({ this with current_retransmit_job := none } :
        private_task_manager_t).initiating_retransmitted := hgu
  refine ⟨{ status := status_t.DESTROY_ME, this := { this with current_retransmit_job := none }
            effects :=
              { alerts := [alert_t.ALERT_RETRANSMIT_SEND_TIMEOUT this.initiating_packets.head?],
                log := [log_t.RETRANSMIT_DEBUG_ENTERED_IF,
                  log_t.RETRANSMIT_DEBUG_NO_MOBIKE_PROBING] } },
    ?_, rfl, rfl, rfl, rfl, rfl, rfl⟩
  unfold retransmit_main
  rcases hp with hp | ⟨mob, hp, hq⟩
  · simp only [hp, hgu', if_true, List.cons_append, List.nil_append]
  · simp only [hp, hq, hgu', if_true, List.cons_append, List.nil_append]

/-- Witness of `retransmit_gives_up`. -/
theorem retransmit_gives_up_witness :
    ∃ r, retransmit 1 {} exhausted_manager 3 = some r ∧
      r.status = status_t.DESTROY_ME ∧
      r.effects.alerts = [alert_t.ALERT_RETRANSMIT_SEND_TIMEOUT (some (packet_of_size 80))] ∧
      r.effects.sent = [] ∧
      r.effects.mobike_transmitted = [] ∧
      r.effects.jobs = [] ∧
      r.this = { exhausted_manager with current_retransmit_job := none } :=
  retransmit_gives_up 0 {} exhausted_manager 3 rfl (by decide) (by decide)
    (by intro t ht; cases ht) (by decide)

/-- A timer tick for a message ID below the one in flight, with no tracker for
the ticked message and no incomplete tracker for the message in flight, returns
SUCCESS without touching a collaborator; the manager it leaves differs from the
one it found in the job reference, which is cleared. -/
theorem retransmit_stale (fuel : Nat) (env : env_t) (this : private_task_manager_t) (m : Nat)
    (hlt : m < this.initiating_mid)
    (hno : ∀ t, this.outgoing_tracker = some t → t.message_id ≠ m)
    (hcur : ∀ t, this.outgoing_tracker = some t → t.message_id = this.initiating_mid →
      t.total_fragments ≤ t.acked_fragments) :
    retransmit (fuel + 1) env this m = some
      { status := status_t.SUCCESS
        this := { this with current_retransmit_job := none }
        effects := { log := [log_t.RETRANSMIT_OLD_JOB_DETECTED,
                             log_t.RETRANSMIT_OLD_JOB_GRACEFUL_EXIT] } } := by
  have hc : is_complete { this with current_retransmit_job := none } m = false := by
    unfold is_complete
    cases ht : this.outgoing_tracker with
    | none => rfl
    | some t =>
      have := hno t ht
      simp [this]
  have hs : is_selective_retransmit { this with current_retransmit_job := none } m = false := by
    unfold is_selective_retransmit
    cases ht : this.outgoing_tracker with
    | none => simp
    | some t =>
      have := hno t ht
      simp [this]
  have hp : has_pending_fragments { this with current_retransmit_job := none } = false := by
    unfold has_pending_fragments
    cases ht : this.outgoing_tracker with
    | none => rfl
    | some t =>
      simp only [Bool.and_eq_false_iff, decide_eq_false_iff_not]
      by_cases h2 : t.message_id = this.initiating_mid
      · have := hcur t ht h2
        exact Or.inr (by omega)
      · exact Or.inl (Or.inr (by simpa using h2))
  have hne : ¬ (m = ({ this with current_retransmit_job := none } :
      private_task_manager_t).initiating_mid ∧
      0 < ({ this with current_retransmit_job := none } :
        private_task_manager_t).initiating_packets.length) := by
    rintro ⟨h, _⟩
    have : m = this.initiating_mid := h
    omega
  have hlt' : m < ({ this with current_retransmit_job := none } :
      private_task_manager_t).initiating_mid := hlt
  unfold retransmit
  dsimp only
  rw [hc, hs, hp]
  simp only [Bool.false_eq_true, if_false, or_false]
  rw [if_neg hne, if_pos hlt']

/-- Claim C12, divergence.  The stale job for message 1 fires while message 2 is
in flight and its own retransmit job is pending: `retransmit(1)` returns SUCCESS
without sending or scheduling, and leaves the message IDs, the retransmission
counter, the packets and the tracker alone, but the manager no longer holds the
reference to the pending job of message 2. -/
theorem stale_tick_clears_job_reference :
    awaiting_response.current_retransmit_job = some { message_id := 2 } ∧
    ∃ r, retransmit 1 {} awaiting_response 1 = some r ∧
      r.status = status_t.SUCCESS ∧
      r.effects.sent = [] ∧
      r.effects.jobs = [] ∧
      r.this.initiating_mid = awaiting_response.initiating_mid ∧
      r.this.responding_mid = awaiting_response.responding_mid ∧
      r.this.initiating_retransmitted = awaiting_response.initiating_retransmitted ∧
      r.this.initiating_packets = awaiting_response.initiating_packets ∧
      r.this.outgoing_tracker = awaiting_response.outgoing_tracker ∧
      r.this.current_retransmit_job = none ∧
      r.this ≠ awaiting_response := by
  refine ⟨rfl, _, retransmit_stale 0 {} awaiting_response 1 (by decide)
    (by intro t ht; cases ht) (by intro t ht; cases ht), rfl, rfl, rfl, rfl, rfl, rfl, rfl, rfl,
    rfl, ?_⟩
  intro h
  have := congrArg private_task_manager_t.current_retransmit_job h
  cases this

theorem response_preamble_frame (this : private_task_manager_t) (message : message_t) :
    (response_preamble this message).active_tasks = this.active_tasks ∧
    (response_preamble this message).initiating_type = this.initiating_type ∧
    (response_preamble this message).initiating_mid = this.initiating_mid := by
  unfold response_preamble response_stats print_intermediate_transmission_stats
    update_response_transmission_stats
  cases this.outgoing_tracker <;> (dsimp only; split_ifs <;> exact ⟨rfl, rfl, rfl⟩)

theorem pre_process_pass_ok (tasks : List task_t)
    (h : ∀ task ∈ tasks, task.pre_process = none ∨ task.pre_process = some status_t.SUCCESS) :
    (pre_process_pass tasks).1 = none := by
  induction tasks with
  | nil => rfl
  | cons task rest ih =>
    have ih1 := ih (fun t ht => h t (List.mem_cons_of_mem _ ht))
    unfold pre_process_pass
    rcases h task (List.mem_cons_self _ _) with h1 | h1
    · simp only [h1]; exact ih1
    · simp only [h1]; exact ih1

theorem process_pass_ok (env : env_t) (rest : List task_t) :
    ∀ (this : private_task_manager_t) (eff : effects_t),
      (∀ task ∈ rest, task.process = status_t.SUCCESS ∨ task.process = status_t.NEED_MORE) →
      (∀ task ∈ rest, task.process_reset = none) →
      ∃ eff1, process_pass env this rest eff = step_t.goes_on
        { this with active_tasks := this.active_tasks ++
            rest.filter (fun task => task.process == status_t.NEED_MORE) } eff1 := by
  induction rest with
  | nil =>
    intro this eff _ _
    exact ⟨eff, by simp [process_pass]⟩
  | cons task rest ih =>
    intro this eff hp hr
    have hr1 := hr task (List.mem_cons_self _ _)
    have hp' : ∀ t ∈ rest, t.process = status_t.SUCCESS ∨ t.process = status_t.NEED_MORE :=
      fun t ht => hp t (List.mem_cons_of_mem _ ht)
    have hr' : ∀ t ∈ rest, t.process_reset = none := fun t ht => hr t (List.mem_cons_of_mem _ ht)
    unfold process_pass
    rcases hp task (List.mem_cons_self _ _) with h1 | h1
    · obtain ⟨eff1, h⟩ := ih this
        (eff.append { hooks := [{ hook := hook_t.process, task := task },
          { hook := hook_t.destroy, task := task }] }) hp' hr'
      refine ⟨eff1, ?_⟩
      simp only [hr1, h1]
      rw [h]
      simp [List.filter_cons, h1]
    · obtain ⟨eff1, h⟩ := ih { this with active_tasks := this.active_tasks ++ [task] }
        (eff.append { hooks := [{ hook := hook_t.process, task := task }] }) hp' hr'
      refine ⟨eff1, ?_⟩
      simp only [hr1, h1]
      rw [h]
      simp [List.filter_cons, h1]

theorem post_process_pass_ok (tasks : List task_t)
    (h : ∀ task ∈ tasks, task.post_process = none ∨ task.post_process = some status_t.SUCCESS ∨
      task.post_process = some status_t.NEED_MORE) :
    (post_process_pass tasks).1 = false ∧
    (post_process_pass tasks).2.1 =
      tasks.filter (fun task => task.post_process != some status_t.SUCCESS) := by
  induction tasks with
  | nil => exact ⟨rfl, rfl⟩
  | cons task rest ih =>
    obtain ⟨i1, i2⟩ := ih (fun t ht => h t (List.mem_cons_of_mem _ ht))
    unfold post_process_pass
    rcases h task (List.mem_cons_self _ _) with h1 | h1 | h1
    · simp only [h1]
      exact ⟨i1, by simp [List.filter_cons, h1, i2]⟩
    · simp only [h1]
      exact ⟨i1, by simp [List.filter_cons, h1, i2]⟩
    · simp only [h1]
      exact ⟨i1, by simp [List.filter_cons, h1, i2]⟩

/-- The passes of `process_response` over active tasks that all let the response
through run to the end; the message ID is then advanced and the exchange
closed. -/
theorem response_passes_ok (env : env_t) (this : private_task_manager_t) (message : message_t)
    (hexp : message.exchange_type = this.initiating_type)
    (hsyn : has_fatal_invalid_syntax message = false)
    (hpre : ∀ task ∈ this.active_tasks,
      task.pre_process = none ∨ task.pre_process = some status_t.SUCCESS)
    (hproc : ∀ task ∈ this.active_tasks,
      task.process = status_t.SUCCESS ∨ task.process = status_t.NEED_MORE)
    (hreset : ∀ task ∈ this.active_tasks, task.process_reset = none)
    (hpost : ∀ task ∈ this.active_tasks,
      task.post_process = none ∨ task.post_process = some status_t.SUCCESS ∨
        task.post_process = some status_t.NEED_MORE) :
    ∃ this1 eff, response_passes env this message = step_t.goes_on this1 eff ∧
      this1.initiating_mid = u32 (this.initiating_mid + 1) ∧
      this1.initiating_packets = [] ∧
      this1.initiating_type = exchange_type_t.EXCHANGE_TYPE_UNDEFINED ∧
      this1.current_retransmit_job = none ∧
      this1.active_tasks = (this.active_tasks.filter
        (fun task => task.process == status_t.NEED_MORE)).filter
        (fun task => task.post_process != some status_t.SUCCESS) := by
  have he : response_expected this message = true := by
    unfold response_expected
    simp [hexp]
  have hp1 := pre_process_pass_ok this.active_tasks hpre
  obtain ⟨eff2, hp2⟩ := process_pass_ok env this.active_tasks
    { this with reset := false, active_tasks := [] }
    { hooks := (pre_process_pass this.active_tasks).2, alerts := cleared_alert this }
    hproc hreset
  have hpost' : ∀ task ∈ this.active_tasks.filter
      (fun task => task.process == status_t.NEED_MORE),
      task.post_process = none ∨ task.post_process = some status_t.SUCCESS ∨
        task.post_process = some status_t.NEED_MORE :=
    fun t ht => hpost t (List.mem_of_mem_filter ht)
  obtain ⟨hp3, hp4⟩ := post_process_pass_ok _ hpost'
  unfold response_passes
  rw [he, hsyn]
  simp only [Bool.true_eq_false, Bool.false_eq_true, if_false]
  rw [hp1]
  simp only []
  rw [hp2]
  simp only [List.nil_append]
  rw [hp3]
  simp only [Bool.false_eq_true, if_false]
  exact ⟨_, _, rfl, rfl, rfl, rfl, rfl, hp4⟩

/-- Claim C13, amended.  When `process_response` handles a response of the
exchange type in flight that carries no fatal INVALID_SYNTAX notify, every
`pre_process` method of the active tasks returns SUCCESS, every `process` and
`post_process` method returns SUCCESS or NEED_MORE, and no task has the manager
reset, then `initiate` is chained on a manager whose `initiating.mid` is the
previous value plus one modulo 2^32, whose `initiating.packets` is empty, whose
`initiating.type` is EXCHANGE_TYPE_UNDEFINED and whose retransmit job reference
is cleared; the tasks left active are those that need another exchange. -/
theorem process_response_advances_mid (fuel : Nat) (env : env_t)
    (this : private_task_manager_t) (message : message_t)
    (hexp : message.exchange_type = this.initiating_type)
    (hsyn : has_fatal_invalid_syntax message = false)
    (hpre : ∀ task ∈ this.active_tasks,
      task.pre_process = none ∨ task.pre_process = some status_t.SUCCESS)
    (hproc : ∀ task ∈ this.active_tasks,
      task.process = status_t.SUCCESS ∨ task.process = status_t.NEED_MORE)
    (hreset : ∀ task ∈ this.active_tasks, task.process_reset = none)
    (hpost : ∀ task ∈ this.active_tasks,
      task.post_process = none ∨ task.post_process = some status_t.SUCCESS ∨
        task.post_process = some status_t.NEED_MORE) :
    ∃ this1 eff, process_response_steps env this message = step_t.goes_on this1 eff ∧
      process_response fuel env this message =
        (initiate fuel env this1).map (result_t.after eff) ∧
      this1.initiating_mid = u32 (this.initiating_mid + 1) ∧
      this1.initiating_packets = [] ∧
      this1.initiating_type = exchange_type_t.EXCHANGE_TYPE_UNDEFINED ∧
      this1.current_retransmit_job = none ∧
      this1.active_tasks = (this.active_tasks.filter
        (fun task => task.process == status_t.NEED_MORE)).filter
        (fun task => task.post_process != some status_t.SUCCESS) := by
  obtain ⟨k1, k2, k3⟩ := response_preamble_frame this message
  obtain ⟨this1, eff, h1, h2, h3, h4, h5, h6⟩ := response_passes_ok env
    (response_preamble this message) message (by rw [k2]; exact hexp) hsyn
    (by rw [k1]; exact hpre) (by rw [k1]; exact hproc) (by rw [k1]; exact hreset)
    (by rw [k1]; exact hpost)
  have hs : process_response_steps env this message = step_t.goes_on this1 eff := h1
  refine ⟨this1, eff, hs, ?_, ?_, h3, h4, h5, ?_⟩
  · unfold process_response
    rw [hs]
  · rw [h2, k3]
  · rw [h6, k1]

set_option maxRecDepth 100000 in
/-- Witness of `process_response_advances_mid`: the IKE_AUTH response arrives for
the request 1; the message ID becomes 2 and the task that needs another exchange
stays active. -/
theorem process_response_advances_mid_witness :
    ∃ this1 eff, process_response_steps {} auth_in_flight auth_response =
        step_t.goes_on this1 eff ∧
      process_response 1 {} auth_in_flight auth_response =
        (initiate 1 {} this1).map (result_t.after eff) ∧
      this1.initiating_mid = 2 ∧
      this1.initiating_packets = [] ∧
      this1.initiating_type = exchange_type_t.EXCHANGE_TYPE_UNDEFINED ∧
      this1.current_retransmit_job = none ∧
      this1.active_tasks.map (fun task => task.type) = [task_type_t.TASK_IKE_AUTH] := by
  obtain ⟨this1, eff, h1, h2, h3, h4, h5, h6, h7⟩ := process_response_advances_mid 1 {}
    auth_in_flight auth_response rfl (by decide) (by decide) (by decide) (by decide) (by decide)
  exact ⟨this1, eff, h1, h2, by rw [h3]; decide, h4, h5, h6, by rw [h7]; decide⟩

set_option maxRecDepth 100000 in
/-- Claim C13, counterexample.  Every method of the only active task answers
SUCCESS or NEED_MORE and nothing resets the manager, yet the matching response
does not complete the exchange: `pre_process` answers NEED_MORE, so the response
is ignored, `process_response` returns SUCCESS without chaining `initiate`, and
`initiating.mid`, the packets, the exchange type and the job reference stay as
they were. -/
theorem process_response_advances_mid_counterexample :
    auth_response.exchange_type = pre_process_defers.initiating_type ∧
    has_fatal_invalid_syntax auth_response = false ∧
    (∀ task ∈ pre_process_defers.active_tasks,
      (task.pre_process = none ∨ task.pre_process = some status_t.SUCCESS ∨
        task.pre_process = some status_t.NEED_MORE) ∧
      (task.process = status_t.SUCCESS ∨ task.process = status_t.NEED_MORE) ∧
      task.process_reset = none ∧
      (task.post_process = none ∨ task.post_process = some status_t.SUCCESS ∨
        task.post_process = some status_t.NEED_MORE)) ∧
    process_response_steps {} pre_process_defers auth_response =
      step_t.returns status_t.SUCCESS pre_process_defers
        { hooks := [{ hook := hook_t.pre_process
                      task := { type := task_type_t.TASK_IKE_AUTH
                                pre_process := some status_t.NEED_MORE
                                process := status_t.NEED_MORE } }] } ∧
    pre_process_defers.initiating_mid = 1 ∧
    pre_process_defers.initiating_packets ≠ [] ∧
    ¬ ∃ this1 eff, process_response_steps {} pre_process_defers auth_response =
        step_t.goes_on this1 eff := by
  have h : process_response_steps {} pre_process_defers auth_response =
      step_t.returns status_t.SUCCESS pre_process_defers
        { hooks := [{ hook := hook_t.pre_process
                      task := { type := task_type_t.TASK_IKE_AUTH
                                pre_process := some status_t.NEED_MORE
                                process := status_t.NEED_MORE } }] } := by
    rfl
  refine ⟨rfl, by decide, by decide, h, rfl, by decide, ?_⟩
  rintro ⟨this1, eff, h1⟩
  rw [h] at h1
  cases h1

/-- Claim C15.  With an exchange in flight (`initiating.type` is not
EXCHANGE_TYPE_UNDEFINED) that is not deferred, `initiate` returns SUCCESS; it
calls no method of a task, hands no message to the generation service, sends
and schedules nothing, and leaves the manager as it is but for the start time
it records: `initiating.mid`, `initiating.packets` and the three task queues
are unchanged. -/
theorem initiate_window_of_one (fuel : Nat) (env : env_t) (this : private_task_manager_t)
    (htype : this.initiating_type ≠ exchange_type_t.EXCHANGE_TYPE_UNDEFINED)
    (hdef : this.initiating_deferred = false) :
    ∃ r, initiate (fuel + 1) env this = some r ∧
      r.status = status_t.SUCCESS ∧
      r.effects = {} ∧
      r.this = { this with start_time := env.now } ∧
      r.this.initiating_mid = this.initiating_mid ∧
      r.this.initiating_packets = this.initiating_packets ∧
      r.this.queued_tasks = this.queued_tasks ∧
      r.this.active_tasks = this.active_tasks ∧
      r.this.passive_tasks = this.passive_tasks := by
  refine ⟨{ status := status_t.SUCCESS, this := { this with start_time := env.now } },
    ?_, rfl, rfl, rfl, rfl, rfl, rfl, rfl, rfl⟩
  unfold initiate
  simp only [ne_eq, htype, not_false_eq_true, if_true, hdef, Bool.false_eq_true, if_false]

/-- Witness of `initiate_window_of_one`: a second `initiate` while the
CREATE_CHILD_SA request 4 is in flight activates nothing, although a DPD task is
queued and due. -/
theorem initiate_window_of_one_witness :
    ∃ r, initiate 1 { now := 7 } busy_manager = some r ∧
      r.status = status_t.SUCCESS ∧
      r.effects = {} ∧
      r.this = { busy_manager with start_time := 7 } ∧
      r.this.initiating_mid = 4 ∧
      r.this.initiating_packets = [packet_of_size 120] ∧
      r.this.queued_tasks = [{ task := { type := task_type_t.TASK_IKE_DPD }, time := 0 }] ∧
      r.this.active_tasks = [{ type := task_type_t.TASK_CHILD_CREATE }] ∧
      r.this.passive_tasks = [{ type := task_type_t.TASK_IKE_MOBIKE }] :=
  initiate_window_of_one 0 { now := 7 } busy_manager (by decide) rfl

theorem same_exchange_refl (a : private_task_manager_t) : same_exchange a a := ⟨rfl, rfl⟩

theorem same_exchange_trans {a b c : private_task_manager_t} (h1 : same_exchange a b)
    (h2 : same_exchange b c) : same_exchange a c :=
  ⟨h2.1.trans h1.1, h2.2.trans h1.2⟩

theorem keeps_exchange_refl (a : private_task_manager_t) : keeps_exchange a a :=
  Or.inl ⟨rfl, rfl⟩

theorem keeps_exchange_of_same {a b : private_task_manager_t} (h : same_exchange a b) :
    keeps_exchange a b := Or.inl h

theorem keeps_exchange_trans {a b c : private_task_manager_t} (h1 : keeps_exchange a b)
    (h2 : keeps_exchange b c) : keeps_exchange a c := by
  rcases h2 with ⟨h2a, h2b⟩ | h2
  · rcases h1 with ⟨h1a, h1b⟩ | h1
    · exact Or.inl ⟨h2a.trans h1a, h2b.trans h1b⟩
    · exact Or.inr (h2a.trans h1)
  · exact Or.inr h2

theorem in_flight_inv_of_nil {a : private_task_manager_t} (h : a.active_tasks = []) :
    in_flight_inv a := by
  intro ⟨task, ht, _⟩
  rw [h] at ht
  cases ht

theorem keeps_exchange_inv {a b : private_task_manager_t} (h : keeps_exchange a b)
    (ha : in_flight_inv a) : in_flight_inv b := by
  rcases h with ⟨h1, h2⟩ | h
  · intro hb
    rw [h1] at hb
    rw [h2]
    exact ha hb
  · exact in_flight_inv_of_nil h

theorem in_flight_inv_of_type {a : private_task_manager_t}
    (h : a.initiating_type ≠ exchange_type_t.EXCHANGE_TYPE_UNDEFINED) : in_flight_inv a :=
  fun _ => h

theorem send_packets_same (env : env_t) (this : private_task_manager_t) (ps : List packet_t)
    (src dst : Option Nat) : same_exchange this (send_packets env this ps src dst).1 := by
  rw [send_packets_this]
  exact ⟨rfl, rfl⟩

theorem retransmit_missing_fragments_simple_same (env : env_t)
    (this : private_task_manager_t) :
    same_exchange this (retransmit_missing_fragments_simple env this).this := by
  unfold retransmit_missing_fragments_simple
  cases this.outgoing_tracker with
  | none => exact ⟨rfl, rfl⟩
  | some tracker =>
    dsimp only
    split_ifs
    · exact ⟨rfl, rfl⟩
    · exact same_exchange_trans (b := _) ⟨rfl, rfl⟩ (send_packets_same env _ _ _ _)
    · exact ⟨rfl, rfl⟩

theorem selective_step_same (env : env_t) (this : private_task_manager_t)
    (tracker : fragment_tracker_t) (log0 : List log_t) :
    same_exchange this (selective_step env this tracker log0).1 := by
  unfold selective_step
  split_ifs with h1
  · dsimp only
    split_ifs
    · exact retransmit_missing_fragments_simple_same env this
    · exact ⟨rfl, rfl⟩
  · exact send_packets_same env this _ _ _

theorem retransmit_selective_same (env : env_t) (this : private_task_manager_t)
    (tracker : fragment_tracker_t) (log0 : List log_t) (r : result_t)
    (h : retransmit_selective env this tracker log0 = some r) : same_exchange this r.this := by
  have hs := selective_step_same env this tracker log0
  unfold retransmit_selective at h
  split_ifs at h
  · cases h; exact ⟨rfl, rfl⟩
  · dsimp only at h
    split at h
    · cases h
    · split_ifs at h
      · cases h; exact hs
      · cases h; exact hs

theorem retransmit_reschedule_same (this0 this : private_task_manager_t) (message_id : Nat)
    (eff : effects_t) (timeout : Nat) :
    same_exchange this (retransmit_reschedule this0 this message_id eff timeout).this :=
  ⟨rfl, rfl⟩

theorem retransmit_traditional_same (env : env_t) (this : private_task_manager_t)
    (message_id : Nat) (mobike : Option task_t) (log0 : List log_t) :
    same_exchange this (retransmit_traditional env this message_id mobike log0).this := by
  unfold retransmit_traditional
  cases mobike with
  | none =>
    dsimp only
    refine same_exchange_trans (b := (send_packets env _ _ _ _).1) ?_
      (retransmit_reschedule_same _ _ _ _ _)
    refine same_exchange_trans (b := _) ?_ (send_packets_same env _ _ _ _)
    split_ifs <;> exact ⟨rfl, rfl⟩
  | some m =>
    dsimp only
    split_ifs <;> exact ⟨rfl, rfl⟩

theorem retransmit_probing_same (env : env_t) (this : private_task_manager_t)
    (message_id : Nat) (m : task_t) (log0 : List log_t) :
    same_exchange this (retransmit_probing env this message_id m log0).this := by
  unfold retransmit_probing
  split_ifs <;> exact ⟨rfl, rfl⟩

theorem retransmit_main_same (env : env_t) (this : private_task_manager_t) (message_id : Nat)
    (r : result_t) (h : retransmit_main env this message_id = some r) :
    same_exchange this r.this := by
  unfold retransmit_main at h
  dsimp only at h
  split_ifs at h
  · cases h; exact ⟨rfl, rfl⟩
  · split at h
    · split_ifs at h
      · exact retransmit_selective_same env this _ _ r h
      · cases h; exact retransmit_traditional_same env this _ _ _
    · cases h; exact retransmit_traditional_same env this _ _ _
  · split at h
    · cases h; exact retransmit_probing_same env this _ _ _
    · cases h

/-- The method `retransmit` leaves the active tasks and the exchange type as
they are. -/
theorem retransmit_same (fuel : Nat) (env : env_t) :
    ∀ (this : private_task_manager_t) (message_id : Nat) (r : result_t),
      retransmit fuel env this message_id = some r → same_exchange this r.this := by
  induction fuel with
  | zero =>
    intro this message_id r h
    simp [retransmit] at h
  | succ fuel ih =>
    intro this message_id r h
    unfold retransmit at h
    dsimp only at h
    split_ifs at h
    · cases h; exact ⟨rfl, rfl⟩
    · exact same_exchange_trans (b := { this with current_retransmit_job := none }) ⟨rfl, rfl⟩
        (retransmit_main_same env _ _ r h)
    · rw [Option.map_eq_some'] at h
      obtain ⟨r0, h0, h1⟩ := h
      subst h1
      exact same_exchange_trans (b := { this with current_retransmit_job := none }) ⟨rfl, rfl⟩
        (ih _ _ r0 h0)
    · cases h; exact ⟨rfl, rfl⟩
    · cases h; exact ⟨rfl, rfl⟩

theorem generate_message_same (env : env_t) (this : private_task_manager_t) (message_id : Nat)
    (generated : Option (List packet_t)) (packets : List packet_t) :
    same_exchange this (generate_message env this message_id generated packets).2.1 := by
  unfold generate_message
  cases generated with
  | none => exact ⟨rfl, rfl⟩
  | some fragments =>
    dsimp only
    split_ifs <;> exact ⟨rfl, rfl⟩

theorem exchange_of_tasks_none (tasks : List task_t) :
    exchange_of_tasks tasks = none ↔ ∀ task ∈ tasks, names_exchange task.type = false := by
  induction tasks with
  | nil => simp [exchange_of_tasks]
  | cons task rest ih =>
    unfold exchange_of_tasks
    cases ht : task.type <;> simp [names_exchange, ht, ih]

theorem activate_loop_type (now : Nat) (type : task_type_t) (queued : List queued_task_t)
    (r : task_t × List queued_task_t) (h : activate_loop now type queued = some r) :
    r.1.type = type := by
  induction queued generalizing r with
  | nil => simp [activate_loop] at h
  | cons q rest ih =>
    unfold activate_loop at h
    split_ifs at h with hq
    · cases h; exact hq.1
    · rw [Option.map_eq_some'] at h
      obtain ⟨r0, h0, h1⟩ := h
      subst h1
      exact ih r0 h0

theorem activate_task_false (env : env_t) (this : private_task_manager_t) (type : task_type_t)
    (h : (activate_task env this type).1 = false) : (activate_task env this type).2 = this := by
  unfold activate_task at h ⊢
  cases ha : activate_loop env.now type this.queued_tasks with
  | none => rfl
  | some r => rw [ha] at h; cases h

theorem activate_task_active (env : env_t) (this : private_task_manager_t) (type : task_type_t) :
    (activate_task env this type).2.initiating_type = this.initiating_type ∧
    ((activate_task env this type).2.active_tasks = this.active_tasks ∨
      ∃ task, task.type = type ∧
        (activate_task env this type).2.active_tasks = this.active_tasks ++ [task]) := by
  unfold activate_task
  cases ha : activate_loop env.now type this.queued_tasks with
  | none => exact ⟨rfl, Or.inl rfl⟩
  | some r => exact ⟨rfl, Or.inr ⟨r.1, activate_loop_type _ _ _ r ha, rfl⟩⟩

theorem activate_first_none (env : env_t) (chain : List (task_type_t × exchange_type_t)) :
    ∀ (this : private_task_manager_t), (activate_first env this chain).1 = none →
      (activate_first env this chain).2 = this := by
  induction chain with
  | nil => intro this _; rfl
  | cons c rest ih =>
    intro this h
    obtain ⟨type, exchange⟩ := c
    unfold activate_first at h ⊢
    dsimp only at h ⊢
    by_cases h1 : (activate_task env this type).1 = true
    · rw [if_pos h1] at h; cases h
    · rw [if_neg h1] at h ⊢
      have h2 := activate_task_false env this type (by simpa using h1)
      rw [h2] at h ⊢
      exact ih this h

theorem activate_new_tasks_none (env : env_t) (this : private_task_manager_t)
    (hempty : this.active_tasks = [])
    (h : (activate_new_tasks env this).1 = none) :
    ∀ task ∈ (activate_new_tasks env this).2.active_tasks, names_exchange task.type = false := by
  unfold activate_new_tasks at h ⊢
  cases hs : env.state <;> simp only [hs] at h ⊢
  · -- IKE_CREATED
    split_ifs at h ⊢ with hi
    · have h2 := activate_task_false env _ task_type_t.TASK_IKE_INIT (by simpa using hi)
      rw [h2]
      rcases (activate_task_active env this task_type_t.TASK_IKE_VENDOR).2 with h3 | ⟨t, ht, h3⟩
      · rw [h3, hempty]; intro task hm; cases hm
      · rw [h3, hempty]
        intro task hm
        simp only [List.nil_append, List.mem_singleton] at hm
        subst hm
        simp [names_exchange, ht]
  · rw [hempty]; intro task hm; cases hm
  · rw [activate_first_none env _ this h, hempty]; intro task hm; cases hm
  · rw [hempty]; intro task hm; cases hm
  · rw [activate_first_none env _ this h, hempty]; intro task hm; cases hm
  · rw [activate_first_none env _ this h, hempty]; intro task hm; cases hm
  · rw [hempty]; intro task hm; cases hm
  · rw [hempty]; intro task hm; cases hm

theorem select_exchange_none (env : env_t) (this : private_task_manager_t)
    (hd : (select_exchange env this).derived = true)
    (h : (select_exchange env this).exchange = none) :
    ∀ task ∈ (select_exchange env this).this.active_tasks, names_exchange task.type = false := by
  unfold select_exchange at hd h ⊢
  split_ifs at hd h ⊢ with h0
  · exact activate_new_tasks_none env this (List.length_eq_zero.mp h0) h
  · dsimp only at hd h ⊢
    split_ifs at hd h ⊢ with h1
    · exact (exchange_of_tasks_none _).mp h

/-- When `initiate` does not tell the caller to destroy the IKE_SA, it leaves an
active task that names an exchange only with an exchange in flight. -/
theorem initiate_inv (fuel : Nat) (env : env_t) :
    ∀ (this : private_task_manager_t) (r : result_t), initiate fuel env this = some r →
      r.status ≠ status_t.DESTROY_ME → in_flight_inv r.this := by
  induction fuel with
  | zero =>
    intro this r h
    simp [initiate] at h
  | succ fuel ih =>
    intro this r h hs
    unfold initiate at h
    dsimp only at h
    split_ifs at h with h1 h2 h3
    · have := retransmit_same _ env _ _ r h
      exact in_flight_inv_of_type (by rw [this.2]; exact h1)
    · cases h
      exact in_flight_inv_of_type h1
    · cases h
      exact absurd rfl hs
    · split at h
      · cases h
        intro ⟨task, ht, hn⟩
        have := select_exchange_none env _ (by simpa using h3) (by assumption) task ht
        rw [this] at hn
        cases hn
      · split at h
        · cases h; exact absurd rfl hs
        · cases h; exact absurd rfl hs
        · split_ifs at h with h4 h5 h6
          · rw [Option.map_eq_some'] at h
            obtain ⟨r0, h0, h1⟩ := h
            subst h1
            exact ih _ r0 h0 hs
          · cases h; exact absurd rfl hs
          · cases h; exact absurd rfl hs
          · rw [Option.map_eq_some'] at h
            obtain ⟨r0, h0, h1⟩ := h
            subst h1
            have hr := retransmit_same _ env _ _ r0 h0
            have hg := generate_message_same env
            refine in_flight_inv_of_type ?_
            show r0.this.initiating_type ≠ _
            rw [hr.2]
            dsimp only
            rw [(hg _ _ _ _).2]
            exact h4

theorem process_fragment_ack_same (e : Endian) (env : env_t) (this : private_task_manager_t)
    (message : message_t) : same_exchange this (process_fragment_ack e env this message) := by
  unfold process_fragment_ack
  split
  · exact ⟨rfl, rfl⟩
  · dsimp only
    split_ifs
    · exact ⟨rfl, rfl⟩
    · split
      · exact ⟨rfl, rfl⟩
      · split_ifs <;> exact ⟨rfl, rfl⟩

theorem incr_mid_same (this : private_task_manager_t) (initiate : Bool) :
    same_exchange this (incr_mid this initiate) := by
  unfold incr_mid
  split_ifs <;> exact ⟨rfl, rfl⟩

theorem parse_failure_same (env : env_t) (this : private_task_manager_t) (msg : message_t)
    (status parse_status : status_t) (type : Nat) :
    same_exchange this (parse_failure env this msg status parse_status type).this := by
  unfold parse_failure send_invalid_syntax
  cases parse_status <;> dsimp only <;> (try split_ifs) <;> exact ⟨rfl, rfl⟩

theorem parse_message_same (env : env_t) (this : private_task_manager_t) (msg : message_t) :
    same_exchange this (parse_message env this msg).this := by
  unfold parse_message
  dsimp only
  split_ifs
  all_goals
    first
      | exact ⟨rfl, rfl⟩
      | exact same_exchange_trans ⟨rfl, rfl⟩ (parse_failure_same env _ msg _ _ _)

theorem reset_nil (env : env_t) (this : private_task_manager_t) (initiate respond : Nat) :
    (reset env this initiate respond).1.active_tasks = [] := rfl

theorem flush_queue_keeps (this : private_task_manager_t) (queue : task_queue_t) :
    keeps_exchange this (flush_queue this queue).1 := by
  unfold flush_queue
  cases queue
  · exact Or.inr rfl
  · exact Or.inl ⟨rfl, rfl⟩
  · exact Or.inl ⟨rfl, rfl⟩
  · exact Or.inl ⟨rfl, rfl⟩

theorem flush_nil (this : private_task_manager_t) : (flush this).1.active_tasks = [] := rfl

theorem build_response_same (env : env_t) (this : private_task_manager_t)
    (request : message_t) : same_exchange this (build_response env this request).this := by
  unfold build_response
  dsimp only
  have hg := generate_message_same env
  have hs := send_packets_same env
  split_ifs <;>
    first
      | exact ⟨((hg _ _ _ _).1), ((hg _ _ _ _).2)⟩
      | exact ⟨((hs _ _ _ _).1.trans (hg _ _ _ _).1), ((hs _ _ _ _).2.trans (hg _ _ _ _).2)⟩

theorem informational_scan_same (e : Endian) (env : env_t) (message : message_t)
    (payloads : List payload_t) :
    ∀ (this : private_task_manager_t),
      same_exchange this (informational_scan e env message this payloads).2 := by
  induction payloads with
  | nil => intro this; exact ⟨rfl, rfl⟩
  | cons payload rest ih =>
    intro this
    unfold informational_scan
    split
    · split_ifs
      · exact ih this
      · exact same_exchange_trans (process_fragment_ack_same e env this message) (ih _)
      · split
        · exact ⟨rfl, rfl⟩
        · exact ih this
    · split_ifs <;> exact ⟨rfl, rfl⟩
    · exact ih this

theorem spawn_tasks_same (e : Endian) (env : env_t) (this : private_task_manager_t)
    (message : message_t) (this1 : private_task_manager_t)
    (h : spawn_tasks e env this message = some this1) : same_exchange this this1 := by
  unfold spawn_tasks at h
  by_cases h0 : this.passive_tasks.length = 0
  · rw [if_pos h0] at h
    cases hx : message.exchange_type <;> simp only [hx] at h <;> (try split_ifs at h) <;>
      (cases h
       first
         | exact ⟨rfl, rfl⟩
         | exact same_exchange_trans (informational_scan_same e env message _ this) ⟨rfl, rfl⟩)
  · rw [if_neg h0] at h
    cases h
    exact ⟨rfl, rfl⟩

theorem process_resets_keeps (env : env_t) (this : private_task_manager_t) (task : task_t) :
    keeps_exchange this (process_resets env this task).1 := by
  unfold process_resets
  cases task.process_reset with
  | none => exact Or.inl ⟨rfl, rfl⟩
  | some args => exact Or.inr rfl

theorem request_process_pass_keeps (env : env_t) (rest : List task_t) :
    ∀ (this : private_task_manager_t) (eff : effects_t),
      keeps_exchange this (request_process_pass env this rest eff).this := by
  induction rest with
  | nil => intro this eff; exact Or.inl ⟨rfl, rfl⟩
  | cons task rest ih =>
    intro this eff
    have hr := process_resets_keeps env this task
    unfold request_process_pass
    dsimp only
    cases task.process <;> dsimp only <;>
      first
        | exact keeps_exchange_trans hr (ih _ _)
        | exact keeps_exchange_trans (keeps_exchange_trans hr (Or.inl ⟨rfl, rfl⟩)) (ih _ _)
        | exact keeps_exchange_trans hr (Or.inl ⟨rfl, rfl⟩)


theorem result_after_this (eff : effects_t) (r : result_t) : (r.after eff).this = r.this := rfl

theorem result_after_status (eff : effects_t) (r : result_t) :
    (r.after eff).status = r.status := rfl

theorem latch_peer_support_same (this : private_task_manager_t) (message : message_t) :
    same_exchange this (latch_peer_support this message) := by
  unfold latch_peer_support
  split_ifs <;> exact ⟨rfl, rfl⟩

theorem request_passes_keeps (env : env_t) (this : private_task_manager_t)
    (message : message_t) : keeps_exchange this (request_passes env this message).this := by
  unfold request_passes
  dsimp only
  split
  · exact Or.inl ⟨rfl, rfl⟩
  · split
    · exact Or.inl ⟨rfl, rfl⟩
    · exact Or.inl ⟨rfl, rfl⟩
    · exact flush_queue_keeps this _
  · have hp := request_process_pass_keeps env this.passive_tasks
      { this with passive_tasks := [] }
      { hooks := (pre_process_pass this.passive_tasks).2 }
    have hp1 : keeps_exchange this (request_process_pass env { this with passive_tasks := [] }
        this.passive_tasks { hooks := (pre_process_pass this.passive_tasks).2 }).this :=
      keeps_exchange_trans (Or.inl ⟨rfl, rfl⟩) hp
    split
    · rename_i heq
      rw [heq] at hp1
      exact hp1
    · rename_i heq
      rw [heq] at hp1
      exact hp1
    · rename_i heq
      rw [heq] at hp1
      split_ifs
      · exact keeps_exchange_trans hp1 (Or.inl ⟨rfl, rfl⟩)
      · rw [result_after_this]
        exact keeps_exchange_trans (keeps_exchange_trans hp1 (Or.inl ⟨rfl, rfl⟩))
          (Or.inl (build_response_same env _ message))

theorem process_request_keeps (e : Endian) (env : env_t) (this : private_task_manager_t)
    (message : message_t) : keeps_exchange this (process_request e env this message).this := by
  unfold process_request
  have h1 := latch_peer_support_same this message
  cases hs : spawn_tasks e env (latch_peer_support this message) message with
  | none => exact Or.inl h1
  | some this2 =>
    exact keeps_exchange_trans (Or.inl (same_exchange_trans h1 (spawn_tasks_same e env _ _ _ hs)))
      (request_passes_keeps env this2 message)

theorem conclude_request_keeps (env : env_t) (r : result_t) (schedule_delete_job : Bool) :
    keeps_exchange r.this (conclude_request env r schedule_delete_job).this := by
  unfold conclude_request
  split
  · exact Or.inl ⟨rfl, rfl⟩
  · exact Or.inl ⟨rfl, rfl⟩
  · exact Or.inr rfl

theorem store_hash_same (env : env_t) (this : private_task_manager_t) (msg : message_t) :
    same_exchange this (store_hash env this msg) := by
  unfold store_hash
  split <;> exact ⟨rfl, rfl⟩

theorem set_defrag_same (this : private_task_manager_t) (slot : defrag_slot_t)
    (defrag : Option defrag_t) : same_exchange this (set_defrag this slot defrag) := by
  unfold set_defrag
  cases slot <;> exact ⟨rfl, rfl⟩

theorem acknowledge_fragment_same (e : Endian) (env : env_t) (this1 : private_task_manager_t)
    (defrag : defrag_t) (msg : message_t) (fragment_number : Nat) (status : status_t)
    (acked : private_task_manager_t × effects_t)
    (h : acknowledge_fragment e env this1 defrag msg fragment_number status = some acked) :
    same_exchange this1 acked.1 := by
  have hs : same_exchange this1
      (if fragment_number = 1 then store_hash env this1 msg else this1) := by
    split_ifs
    · exact store_hash_same env this1 msg
    · exact ⟨rfl, rfl⟩
  unfold acknowledge_fragment at h
  by_cases h1 : status = status_t.NEED_MORE ∨ status = status_t.SUCCESS
  · rw [if_pos h1] at h
    dsimp only at h
    by_cases h2 : (if fragment_number = 1 then store_hash env this1 msg
        else this1).selective_retransmission_enabled = true
    · rw [if_pos h2] at h
      cases hk : send_immediate_fragment_ack e env.malloc_ok env.my_host env.other_host
          (some defrag) msg.message_id fragment_number with
      | none => rw [hk] at h; cases h
      | some ack_msg => rw [hk] at h; cases h; exact hs
    · rw [if_neg h2] at h
      cases h; exact hs
  · rw [if_neg h1] at h
    cases h; exact ⟨rfl, rfl⟩

theorem complete_reassembly_inv
    (reinject : private_task_manager_t → message_t → Option result_t)
    (hre : ∀ th m r, reinject th m = some r → r.status ≠ status_t.DESTROY_ME →
      in_flight_inv th → in_flight_inv r.this)
    (env : env_t) (this3 : private_task_manager_t) (slot : defrag_slot_t) (defrag : defrag_t)
    (msg : message_t) (eff : effects_t) (h : result_t)
    (hh : complete_reassembly reinject env this3 slot defrag msg eff = some h)
    (hs : h.status ≠ status_t.DESTROY_ME) (hi : in_flight_inv this3) :
    in_flight_inv h.this := by
  unfold complete_reassembly at hh
  dsimp only at hh
  split_ifs at hh
  · cases hh
    exact keeps_exchange_inv (Or.inl (set_defrag_same this3 slot none)) hi
  · cases hr : reinject this3 defrag.reassembled with
    | none => rw [hr] at hh; cases hh
    | some r =>
      rw [hr] at hh
      cases hh
      have hrs : r.status ≠ status_t.DESTROY_ME := by
        intro hc
        apply hs
        simp [hc]
      exact keeps_exchange_inv (Or.inl (set_defrag_same r.this slot none))
        (hre _ _ r hr hrs hi)

/-- The function `handle_fragment` keeps the invariant whenever the re-injection
does and the status is not DESTROY_ME. -/
theorem handle_fragment_inv (reinject : private_task_manager_t → message_t → Option result_t)
    (hre : ∀ th m r, reinject th m = some r → r.status ≠ status_t.DESTROY_ME →
      in_flight_inv th → in_flight_inv r.this)
    (e : Endian) (env : env_t) (this : private_task_manager_t) (slot : defrag_slot_t)
    (msg : message_t) (msg_defrag : Option defrag_slot_t) (h : result_t)
    (hh : handle_fragment reinject e env this slot msg msg_defrag = some h)
    (hs : h.status ≠ status_t.DESTROY_ME) (hi : in_flight_inv this) : in_flight_inv h.this := by
  have inv_same : ∀ {a b : private_task_manager_t}, same_exchange a b → in_flight_inv a →
      in_flight_inv b := fun hab ha => keeps_exchange_inv (Or.inl hab) ha
  unfold handle_fragment at hh
  cases hg : get_fragment msg with
  | none =>
    rw [hg] at hh
    cases hh
    dsimp only
    split_ifs
    · exact inv_same (store_hash_same env this msg) hi
    · exact hi
  | some fragment_number =>
    rw [hg] at hh
    dsimp only at hh
    cases ho : obtain_defrag env this slot msg with
    | none => rw [ho] at hh; cases hh; exact hi
    | some defrag0 =>
      rw [ho] at hh
      dsimp only at hh
      cases ha : acknowledge_fragment e env
          (set_defrag this slot (some (env.add_fragment defrag0 msg).2))
          (env.add_fragment defrag0 msg).2 msg fragment_number (env.add_fragment defrag0 msg).1 with
      | none => rw [ha] at hh; cases hh
      | some acked =>
        rw [ha] at hh
        dsimp only at hh
        have i3 : in_flight_inv acked.1 :=
          inv_same (same_exchange_trans (set_defrag_same this slot _)
            (acknowledge_fragment_same _ _ _ _ _ _ _ _ ha)) hi
        split_ifs at hh
        · exact complete_reassembly_inv reinject hre env _ slot _ msg _ h hh hs i3
        · cases hh
          exact i3


theorem process_pass_returned (env : env_t) (rest : List task_t) :
    ∀ (this : private_task_manager_t) (eff : effects_t),
      (process_pass env this rest eff).returned = none ∨
      (process_pass env this rest eff).returned = some status_t.DESTROY_ME := by
  induction rest with
  | nil => intro this eff; exact Or.inl rfl
  | cons task rest ih =>
    intro this eff
    unfold process_pass
    dsimp only
    cases task.process_reset with
    | some args =>
      dsimp only
      cases task.process <;> first | exact Or.inl rfl | exact Or.inr rfl
    | none =>
      dsimp only
      cases task.process <;> first | exact ih _ _ | exact Or.inr rfl

theorem response_passes_returned (env : env_t) (this : private_task_manager_t)
    (message : message_t) (status : status_t) (this1 : private_task_manager_t)
    (eff : effects_t) (h : response_passes env this message = step_t.returns status this1 eff)
    (hs : status ≠ status_t.DESTROY_ME) : this1 = this := by
  unfold response_passes at h
  split_ifs at h
  · cases h; exact absurd rfl hs
  · cases h; exact absurd rfl hs
  · dsimp only at h
    split at h
    · cases h; rfl
    · have hp := process_pass_returned env this.active_tasks
        { this with reset := false, active_tasks := [] }
        { hooks := (pre_process_pass this.active_tasks).2, alerts := cleared_alert this }
      split at h
      · rename_i heq
        rw [heq] at hp
        cases h
        rcases hp with hp | hp
        · cases hp
        · cases hp; exact absurd rfl hs
      · cases h
      · split_ifs at h
        cases h; exact absurd rfl hs

/-- Handling a response keeps the invariant whenever the status is not
DESTROY_ME. -/
theorem process_response_inv (fuel : Nat) (env : env_t) (this : private_task_manager_t)
    (message : message_t) (r : result_t) (h : process_response fuel env this message = some r)
    (hs : r.status ≠ status_t.DESTROY_ME) (hi : in_flight_inv this) : in_flight_inv r.this := by
  unfold process_response at h
  cases hp : process_response_steps env this message with
  | returns status this1 eff =>
    rw [hp] at h
    cases h
    have := response_passes_returned env _ message status this1 eff hp hs
    subst this
    obtain ⟨k1, k2, _⟩ := response_preamble_frame this message
    exact keeps_exchange_inv (Or.inl ⟨k1, k2⟩) hi
  | goes_on this1 eff =>
    rw [hp] at h
    rw [Option.map_eq_some'] at h
    obtain ⟨r0, h0, h1⟩ := h
    subst h1
    exact initiate_inv fuel env this1 r0 h0 hs
  | restarts this1 eff =>
    rw [hp] at h
    rw [Option.map_eq_some'] at h
    obtain ⟨r0, h0, h1⟩ := h
    subst h1
    exact initiate_inv fuel env this1 r0 h0 hs

theorem message_id_mismatch_same (e : Endian) (env : env_t) (this : private_task_manager_t)
    (msg : message_t) (is_fragment_ack_request : Bool) (eff : effects_t) :
    same_exchange this (message_id_mismatch e env this msg is_fragment_ack_request eff).this := by
  unfold message_id_mismatch
  dsimp only
  split_ifs
  · exact same_exchange_trans (parse_message_same env this msg)
      (process_fragment_ack_same e env _ msg)
  · exact parse_message_same env this msg

theorem after_parse_this (p : result_t) : (after_parse p).this = p.this := by
  unfold after_parse
  split_ifs <;> rfl

theorem receive_unknown_request_same (e : Endian) (env : env_t)
    (this : private_task_manager_t) (msg : message_t) :
    same_exchange this (receive_unknown_request e env this msg).this := by
  have hp := parse_message_same env this msg
  unfold receive_unknown_request
  dsimp only
  split_ifs
  · exact same_exchange_trans hp (message_id_mismatch_same e env _ msg _ _)
  · rw [after_parse_this]; exact hp
  · exact message_id_mismatch_same e env this msg _ _

theorem receive_request_same (e : Endian) (env : env_t) (this : private_task_manager_t)
    (msg : message_t) : same_exchange this (receive_request e env this msg).this := by
  unfold receive_request
  split
  · exact send_packets_same env this _ _ _
  · exact receive_unknown_request_same e env this msg
  · rw [after_parse_this]; exact parse_message_same env this msg
  · exact ⟨rfl, rfl⟩

theorem receive_response_same (e : Endian) (env : env_t) (this : private_task_manager_t)
    (msg : message_t) : same_exchange this (receive_response e env this msg).this := by
  have hp := parse_message_same env this msg
  have ha := process_fragment_ack_same e env
  unfold receive_response
  dsimp only
  split_ifs
  · rw [after_parse_this]; exact same_exchange_trans hp (ha _ msg)
  · rw [after_parse_this]; exact hp
  · exact same_exchange_trans hp (ha _ msg)
  · exact hp
  · exact message_id_mismatch_same e env this msg _ _

theorem receive_message_same (e : Endian) (env : env_t) (this : private_task_manager_t)
    (msg : message_t) : same_exchange this (receive_message e env this msg).this := by
  unfold receive_message
  split_ifs
  · exact receive_request_same e env this msg
  · exact receive_response_same e env this msg

theorem handle_request_inv (reinject : private_task_manager_t → message_t → Option result_t)
    (hre : ∀ th m r, reinject th m = some r → r.status ≠ status_t.DESTROY_ME →
      in_flight_inv th → in_flight_inv r.this)
    (e : Endian) (env : env_t) (this : private_task_manager_t) (msg : message_t)
    (msg_defrag : Option defrag_slot_t) (schedule_delete_job : Bool) (r : result_t)
    (h : handle_request reinject e env this msg msg_defrag schedule_delete_job = some r)
    (hs : r.status ≠ status_t.DESTROY_ME) (hi : in_flight_inv this) : in_flight_inv r.this := by
  unfold handle_request at h
  by_cases h1 : reject_request env this msg = true
  · rw [if_pos h1] at h
    cases h; exact hi
  · rw [if_neg h1] at h
    cases hf : handle_fragment reinject e env this defrag_slot_t.responding msg msg_defrag with
    | none => rw [hf] at h; cases h
    | some hr =>
      rw [hf] at h
      dsimp only at h
      by_cases h2 : hr.status ≠ status_t.SUCCESS
      · rw [if_pos h2] at h
        cases h
        exact handle_fragment_inv reinject hre e env this _ msg msg_defrag r hf hs hi
      · rw [if_neg h2] at h
        rw [not_not] at h2
        have i1 := handle_fragment_inv reinject hre e env this _ msg msg_defrag hr hf
          (by rw [h2]; decide) hi
        by_cases h3 : (env.bus_message msg).exchange_type =
            exchange_type_t.EXCHANGE_TYPE_UNDEFINED
        · rw [if_pos h3] at h
          cases h
          exact i1
        · rw [if_neg h3] at h
          cases h
          rw [result_after_this]
          exact keeps_exchange_inv (keeps_exchange_trans (process_request_keeps e env hr.this _)
            (conclude_request_keeps env _ _)) i1

theorem handle_response_inv (reinject : private_task_manager_t → message_t → Option result_t)
    (hre : ∀ th m r, reinject th m = some r → r.status ≠ status_t.DESTROY_ME →
      in_flight_inv th → in_flight_inv r.this)
    (fuel : Nat) (e : Endian) (env : env_t) (this : private_task_manager_t) (msg : message_t)
    (msg_defrag : Option defrag_slot_t) (schedule_delete_job : Bool) (r : result_t)
    (h : handle_response reinject fuel e env this msg msg_defrag schedule_delete_job = some r)
    (hs : r.status ≠ status_t.DESTROY_ME) (hi : in_flight_inv this) : in_flight_inv r.this := by
  unfold handle_response at h
  cases hf : handle_fragment reinject e env this defrag_slot_t.initiating msg msg_defrag with
  | none => rw [hf] at h; cases h
  | some hr =>
    rw [hf] at h
    dsimp only at h
    by_cases h2 : hr.status ≠ status_t.SUCCESS
    · rw [if_pos h2] at h
      cases h
      exact handle_fragment_inv reinject hre e env this _ msg msg_defrag r hf hs hi
    · rw [if_neg h2] at h
      rw [not_not] at h2
      have i1 := handle_fragment_inv reinject hre e env this _ msg msg_defrag hr hf
        (by rw [h2]; decide) hi
      by_cases h3 : (env.bus_message msg).exchange_type =
          exchange_type_t.EXCHANGE_TYPE_UNDEFINED
      · rw [if_pos h3] at h
        cases h
        exact i1
      · rw [if_neg h3] at h
        cases hp : process_response fuel env hr.this (env.bus_message msg) with
        | none => rw [hp] at h; cases h
        | some r0 =>
          rw [hp] at h
          cases h
          rw [result_after_this]
          rw [result_after_status] at hs
          unfold conclude_response at hs ⊢
          by_cases h4 : r0.status ≠ status_t.SUCCESS
          · rw [if_pos h4] at hs
            exact absurd rfl hs
          · rw [if_neg h4]
            rw [not_not] at h4
            exact process_response_inv fuel env hr.this _ r0 hp (by rw [h4]; decide) i1

/-- The method `process_message` keeps the invariant whenever its status is not
DESTROY_ME. -/
theorem process_message_inv (fuel : Nat) (e : Endian) (env : env_t) :
    ∀ (this : private_task_manager_t) (msg : message_t) (msg_defrag : Option defrag_slot_t)
      (r : result_t), process_message fuel e env this msg msg_defrag = some r →
      r.status ≠ status_t.DESTROY_ME → in_flight_inv this → in_flight_inv r.this := by
  induction fuel with
  | zero =>
    intro this msg msg_defrag r h
    simp [process_message] at h
  | succ fuel ih =>
    intro this msg msg_defrag r h hs hi
    have hrec := receive_message_same e env this msg
    unfold process_message at h
    cases hr : receive_message e env this msg with
    | returns status this1 eff =>
      rw [hr] at h hrec
      cases h
      exact keeps_exchange_inv (Or.inl hrec) hi
    | restarts this1 eff =>
      rw [hr] at h hrec
      cases h
      exact keeps_exchange_inv (Or.inl hrec) hi
    | goes_on this1 eff =>
      rw [hr] at h hrec
      have i1 : in_flight_inv this1 := keeps_exchange_inv (Or.inl hrec) hi
      dsimp only at h
      split_ifs at h
      · cases h; exact absurd rfl hs
      · rw [Option.map_eq_some'] at h
        obtain ⟨r0, h0, h1⟩ := h
        subst h1
        exact handle_request_inv _ (fun th m r hr => ih th m _ r hr) e env this1 msg msg_defrag
          _ r0 h0 hs i1
      · rw [Option.map_eq_some'] at h
        obtain ⟨r0, h0, h1⟩ := h
        subst h1
        exact handle_response_inv _ (fun th m r hr => ih th m _ r hr) (fuel + 1) e env this1 msg
          msg_defrag _ r0 h0 hs i1

/-- Every public operation keeps the invariant whenever its status is not
DESTROY_ME. -/
theorem perform_inv (fuel : Nat) (e : Endian) (env : env_t) (this : private_task_manager_t)
    (op : operation_t) (r : result_t) (h : perform fuel e env this op = some r)
    (hs : r.status ≠ status_t.DESTROY_ME) (hi : in_flight_inv this) : in_flight_inv r.this := by
  cases op with
  | queue_task_delayed task delay =>
    simp only [perform, Option.some.injEq] at h
    subst h
    exact keeps_exchange_inv (Or.inl ⟨rfl, rfl⟩) hi
  | initiate => exact initiate_inv fuel env this r h hs
  | retransmit message_id =>
    exact keeps_exchange_inv (Or.inl (retransmit_same fuel env this message_id r h)) hi
  | process_message msg => exact process_message_inv fuel e env this msg none r h hs hi
  | incr_mid initiate =>
    simp only [perform, Option.some.injEq] at h
    subst h
    exact keeps_exchange_inv (Or.inl (incr_mid_same this initiate)) hi
  | reset initiate respond =>
    simp only [perform, Option.some.injEq] at h
    subst h
    exact in_flight_inv_of_nil rfl
  | flush =>
    simp only [perform, Option.some.injEq] at h
    subst h
    exact in_flight_inv_of_nil rfl
  | flush_queue queue =>
    simp only [perform, Option.some.injEq] at h
    subst h
    exact keeps_exchange_inv (flush_queue_keeps this queue) hi
  | adopt_tasks other =>
    simp only [perform, Option.some.injEq] at h
    subst h
    exact keeps_exchange_inv (Or.inl ⟨rfl, rfl⟩) hi
  | remove_task queue index =>
    simp only [perform, Option.some.injEq] at h
    subst h
    cases queue with
    | TASK_QUEUE_ACTIVE =>
      rintro ⟨task, ht, hn⟩
      exact hi ⟨task, List.mem_of_mem_eraseIdx ht, hn⟩
    | TASK_QUEUE_PASSIVE => exact keeps_exchange_inv (Or.inl ⟨rfl, rfl⟩) hi
    | TASK_QUEUE_QUEUED => exact keeps_exchange_inv (Or.inl ⟨rfl, rfl⟩) hi
    | TASK_QUEUE_OTHER => exact hi

/-- The invariant holds in every reachable state. -/
theorem reachable_inv (this : private_task_manager_t) (h : reachable this) :
    in_flight_inv this := by
  induction h with
  | create a b tries => exact in_flight_inv_of_nil rfl
  | step fuel e env op this0 r _ hp hs ih => exact perform_inv fuel e env this0 op r hp hs ih

/-- Claim C14, amended.  In every state reachable from `task_manager_v2_create`
through the public operations, none of which told the caller to destroy the
IKE_SA, an active task of a type that names an exchange (IKE_INIT, IKE_AUTH,
CHILD_CREATE, CHILD_REKEY, IKE_REKEY or IKE_MOBIKE) implies that an exchange is
in flight: `initiating.type` is not EXCHANGE_TYPE_UNDEFINED. -/
theorem active_exchange_in_flight (this : private_task_manager_t) (h : reachable this)
    (task : task_t) (ht : task ∈ this.active_tasks)
    (hn : names_exchange task.type = true) :
    this.initiating_type ≠ exchange_type_t.EXCHANGE_TYPE_UNDEFINED := by
  exact reachable_inv this h ⟨task, ht, hn⟩

theorem reachable_init_queued : reachable init_queued :=
  reachable.step 1 Endian.big {}
    (operation_t.queue_task_delayed { type := task_type_t.TASK_IKE_INIT } 0)
    (task_manager_v2_create true true 5)
    { status := status_t.SUCCESS, this := init_queued }
    (reachable.create true true 5) rfl (by decide)

set_option maxRecDepth 100000 in
theorem reachable_init_sent : reachable init_sent :=
  reachable.step 1 Endian.big { state := ike_sa_state_t.IKE_CREATED } operation_t.initiate
    init_queued ((initiate 1 { state := ike_sa_state_t.IKE_CREATED } init_queued).getD
      { status := status_t.FAILED, this := init_queued })
    reachable_init_queued rfl (by decide)

/-- Witness of `active_exchange_in_flight`: after `queue_task` of an IKE_INIT task
and `initiate` in state IKE_CREATED the task is active and the IKE_SA_INIT
exchange is in flight. -/
theorem active_exchange_in_flight_witness :
    init_sent.active_tasks = [{ type := task_type_t.TASK_IKE_INIT }] ∧
    init_sent.initiating_type ≠ exchange_type_t.EXCHANGE_TYPE_UNDEFINED :=
  ⟨rfl, active_exchange_in_flight init_sent reachable_init_sent
    { type := task_type_t.TASK_IKE_INIT } (by decide) (by decide)⟩

theorem reachable_vendor_activated : reachable vendor_activated :=
  reachable.step 1 Endian.big { state := ike_sa_state_t.IKE_CREATED } operation_t.initiate
    (queue_task {} (task_manager_v2_create true true 5) { type := task_type_t.TASK_IKE_VENDOR })
    { status := status_t.SUCCESS, this := vendor_activated }
    (reachable.step 1 Endian.big {}
      (operation_t.queue_task_delayed { type := task_type_t.TASK_IKE_VENDOR } 0)
      (task_manager_v2_create true true 5)
      { status := status_t.SUCCESS
        this := queue_task {} (task_manager_v2_create true true 5)
          { type := task_type_t.TASK_IKE_VENDOR } }
      (reachable.create true true 5) rfl (by decide))
    rfl (by decide)

/-- Claim C14, counterexample.  On a freshly created manager `queue_task` queues
a lone IKE_VENDOR task and `initiate` is called in state IKE_CREATED: the task
is activated (line 965), no IKE_INIT task can be (line 966), and `initiate`
returns SUCCESS at line 1105 with the task active and `initiating.type` still
EXCHANGE_TYPE_UNDEFINED. -/
theorem active_implies_in_flight_counterexample :
    reachable vendor_activated ∧
    0 < vendor_activated.active_tasks.length ∧
    vendor_activated.initiating_type = exchange_type_t.EXCHANGE_TYPE_UNDEFINED ∧
    ¬ (∀ this : private_task_manager_t, reachable this → 0 < this.active_tasks.length →
      this.initiating_type ≠ exchange_type_t.EXCHANGE_TYPE_UNDEFINED) :=
  ⟨reachable_vendor_activated, by decide, rfl,
    fun h => h vendor_activated reachable_vendor_activated (by decide) rfl⟩

/-- Claim C16, amended.  For every message, `is_retransmit` returns NEED_MORE
exactly when the message has ID 0 and carries a FRAGMENT_ACK notify or its ID is
`responding.mid`; among the other messages, those whose ID is
`responding.mid - 1` (taken in a `uint32_t`) while a response is cached are
hashed: ALREADY_DONE is returned exactly when the SHA-1 hash equals
`responding.prev_hash`, FAILED exactly when the message cannot be hashed; and
INVALID_ARG is returned in every remaining case. -/
theorem is_retransmit_classification (env : env_t) (this : private_task_manager_t)
    (msg : message_t) :
    (is_retransmit env this msg = status_t.NEED_MORE ↔
      (msg.message_id = 0 ∧ has_fragment_ack_notify msg = true) ∨
        msg.message_id = this.responding_mid) ∧
    (is_retransmit env this msg = status_t.ALREADY_DONE ↔
      ¬ (msg.message_id = 0 ∧ has_fragment_ack_notify msg = true) ∧
      msg.message_id ≠ this.responding_mid ∧
      msg.message_id = u32 (this.responding_mid + 4294967295) ∧
      0 < this.responding_packets.length ∧
      hash_message env msg = some this.responding_prev_hash) ∧
    (is_retransmit env this msg = status_t.FAILED ↔
      ¬ (msg.message_id = 0 ∧ has_fragment_ack_notify msg = true) ∧
      msg.message_id ≠ this.responding_mid ∧
      msg.message_id = u32 (this.responding_mid + 4294967295) ∧
      0 < this.responding_packets.length ∧
      hash_message env msg = none) ∧
    (is_retransmit env this msg = status_t.INVALID_ARG ↔
      ¬ (msg.message_id = 0 ∧ has_fragment_ack_notify msg = true) ∧
      msg.message_id ≠ this.responding_mid ∧
      ¬ (msg.message_id = u32 (this.responding_mid + 4294967295) ∧
        0 < this.responding_packets.length ∧
        (hash_message env msg = none ∨
          hash_message env msg = some this.responding_prev_hash))) := by
  unfold is_retransmit
  dsimp only
  by_cases h1 : msg.message_id = 0 ∧ has_fragment_ack_notify msg = true
  · rw [if_pos h1]
    simp [h1]
  · rw [if_neg h1]
    by_cases h2 : msg.message_id = this.responding_mid
    · rw [if_pos h2]
      simp [h1, h2]
    · rw [if_neg h2]
      by_cases h3 : msg.message_id = u32 (this.responding_mid + 4294967295) ∧
          0 < this.responding_packets.length
      · rw [if_pos h3]
        cases hh : hash_message env msg with
        | none =>
          dsimp only
          refine ⟨?_, ?_, ?_, ?_⟩
          · constructor
            · intro h; cases h
            · rintro (h | h)
              · exact absurd h h1
              · exact absurd h h2
          · constructor
            · intro h; cases h
            · intro h; cases h.2.2.2.2
          · constructor
            · intro _; exact ⟨h1, h2, h3.1, h3.2, rfl⟩
            · intro _; rfl
          · constructor
            · intro h; cases h
            · intro h; exact absurd ⟨h3.1, h3.2, Or.inl rfl⟩ h.2.2
        | some hash =>
          dsimp only
          by_cases h4 : hash = this.responding_prev_hash
          · rw [if_pos h4]
            refine ⟨?_, ?_, ?_, ?_⟩
            · constructor
              · intro h; cases h
              · rintro (h | h)
                · exact absurd h h1
                · exact absurd h h2
            · constructor
              · intro _; exact ⟨h1, h2, h3.1, h3.2, by rw [h4]⟩
              · intro _; rfl
            · constructor
              · intro h; cases h
              · intro h; cases h.2.2.2.2
            · constructor
              · intro h; cases h
              · intro h; exact absurd ⟨h3.1, h3.2, Or.inr (by rw [h4])⟩ h.2.2
          · rw [if_neg h4]
            refine ⟨?_, ?_, ?_, ?_⟩
            · constructor
              · intro h; cases h
              · rintro (h | h)
                · exact absurd h h1
                · exact absurd h h2
            · constructor
              · intro h; cases h
              · intro h; exact absurd (Option.some.inj h.2.2.2.2) h4
            · constructor
              · intro h; cases h
              · intro h; cases h.2.2.2.2
            · constructor
              · intro _
                refine ⟨h1, h2, ?_⟩
                rintro ⟨_, _, h | h⟩
                · cases h
                · exact absurd (Option.some.inj h) h4
              · intro _; rfl
      · rw [if_neg h3]
        have h3' : ¬ (msg.message_id = u32 (this.responding_mid + 4294967295) ∧
            0 < this.responding_packets.length ∧
            (hash_message env msg = none ∨
              hash_message env msg = some this.responding_prev_hash)) :=
          fun h => h3 ⟨h.1, h.2.1⟩
        have h3a : ¬ (msg.message_id = u32 (this.responding_mid + 4294967295) ∧
            0 < this.responding_packets.length ∧
            hash_message env msg = some this.responding_prev_hash) :=
          fun h => h3 ⟨h.1, h.2.1⟩
        have h3b : ¬ (msg.message_id = u32 (this.responding_mid + 4294967295) ∧
            0 < this.responding_packets.length ∧
            hash_message env msg = none) :=
          fun h => h3 ⟨h.1, h.2.1⟩
        refine ⟨?_, ?_, ?_, ?_⟩
        · constructor
          · intro h; cases h
          · rintro (h | h)
            · exact absurd h h1
            · exact absurd h h2
        · constructor
          · intro h; cases h
          · intro h; exact absurd h.2.2 h3a
        · constructor
          · intro h; cases h
          · intro h; exact absurd h.2.2 h3b
        · constructor
          · intro _; exact ⟨h1, h2, h3'⟩
          · intro _; rfl

/-- Claim C16, counterexample.  The responder expects request 5 and has the
response to request 4 cached; a request with ID 4 arrives while no hasher is
available.  The request has not the ID `responding.mid`, is no MID-0
acknowledgment, and its hash does not equal `responding.prev_hash` (there is
none), yet `is_retransmit` returns FAILED (line 2467), not INVALID_ARG. -/
theorem is_retransmit_classification_counterexample :
    request_4.message_id ≠ responder_at_5.responding_mid ∧
    ¬ (request_4.message_id = 0 ∧ has_fragment_ack_notify request_4 = true) ∧
    hash_message no_hasher request_4 ≠ some responder_at_5.responding_prev_hash ∧
    is_retransmit no_hasher responder_at_5 request_4 = status_t.FAILED ∧
    is_retransmit no_hasher responder_at_5 request_4 ≠ status_t.INVALID_ARG := by
  refine ⟨by decide, by decide, ?_, rfl, ?_⟩
  · intro h; cases h
  · intro h; cases h

/-- Claim C18, divergence.  The responder expects request 5; an INFORMATIONAL
request with message ID 9 arrives, which is no retransmission, no MID-0
acknowledgment and no MID-sync candidate, and which carries a critical payload
of an unknown type.  The block for unexpected message IDs parses it (line 2625),
and `parse_message` answers it with an UNSUPPORTED_CRITICAL_PAYLOAD notify and
advances `responding.mid` (lines 2241-2244); `process_message` returns SUCCESS
with a packet sent and `responding.mid` at 6. -/
theorem out_of_window_request_advances_mid :
    request_9_critical.message_id ≠ responder_at_5.responding_mid ∧
    is_retransmit {} responder_at_5 request_9_critical = status_t.INVALID_ARG ∧
    has_fragment_ack_notify request_9_critical = false ∧
    ¬ (request_9_critical.message_id = 0 ∧
      is_potential_mid_sync {} request_9_critical = true) ∧
    ∃ r, process_message 1 Endian.big {} responder_at_5 request_9_critical none = some r ∧
      r.status = status_t.SUCCESS ∧
      r.effects.generated =
        [{ exchange_type := exchange_type_t.INFORMATIONAL
           request := false
           message_id := 9
           source := some 1
           destination := some 2
           payloads := [payload_t.PLV2_NOTIFY
             { notify_type := notify_type_t.UNSUPPORTED_CRITICAL_PAYLOAD
               protocol_id := PROTO_NONE
               notification_data := [200] }] }] ∧
      r.effects.sent = [{}] ∧
      responder_at_5.responding_mid = 5 ∧
      r.this.responding_mid = 6 :=
  ⟨by decide, rfl, rfl, by decide, _, rfl, rfl, rfl, rfl, rfl, rfl⟩

/-- Claim C19, divergence.  An INFORMATIONAL request whose only payload is a
FRAGMENT_ACK notify reaches `process_request` while no passive task exists.  The
acknowledgment is processed inline, the variable `task` stays NULL, and line
1862 creates a DPD task that line 1864 inserts into `passive_tasks`; its
`process` and `build` methods are called and a response is generated and
sent. -/
theorem fragment_ack_request_spawns_dpd :
    fragment_ack_only.exchange_type = exchange_type_t.INFORMATIONAL ∧
    fragment_ack_only.payloads.length = 1 ∧
    has_fragment_ack_notify fragment_ack_only = true ∧
    responder_at_5.passive_tasks = [] ∧
    (spawn_tasks Endian.big dpd_responder responder_at_5 fragment_ack_only).map
      (fun this => this.passive_tasks) = some [dpd_task] ∧
    (process_request Endian.big dpd_responder responder_at_5 fragment_ack_only).status =
      status_t.SUCCESS ∧
    (process_request Endian.big dpd_responder responder_at_5 fragment_ack_only).effects.hooks =
      [{ hook := hook_t.process, task := dpd_task },
       { hook := hook_t.build, task := dpd_task },
       { hook := hook_t.destroy, task := dpd_task }] ∧
    (process_request Endian.big dpd_responder responder_at_5
      fragment_ack_only).effects.generated =
      [{ exchange_type := exchange_type_t.INFORMATIONAL
         request := false
         message_id := 5
         source := some 1
         destination := some 2 }] ∧
    (process_request Endian.big dpd_responder responder_at_5 fragment_ack_only).effects.sent =
      [{}] :=
  ⟨rfl, rfl, rfl, rfl, rfl, rfl, rfl, rfl, rfl⟩

/-- Claim C20, divergence.  The manager expects request 0 (`responding.mid` is 0,
nothing is cached).  An INFORMATIONAL request with message ID 0 whose only
payload is a FRAGMENT_ACK notify has the expected message ID, so `is_retransmit`
passes it on (line 2459) and it is handled like a new request:
`process_request` returns SUCCESS, line 2698 advances `responding.mid` to 1,
line 2699 stores the hash of the acknowledgment in `responding.prev_hash`, and
`build_response` has stored the response to the acknowledgment in
`responding.packets`.  The same acknowledgment received while request 5 is
expected takes the block of lines 2602-2635, which only processes the
acknowledgment and leaves the window as it is. -/
theorem mid_zero_ack_consumes_window_slot :
    fragment_ack_only.request = true ∧
    fragment_ack_only.message_id = 0 ∧
    fragment_ack_only.exchange_type = exchange_type_t.INFORMATIONAL ∧
    fragment_ack_only.payloads.length = 1 ∧
    has_fragment_ack_notify fragment_ack_only = true ∧
    has_fragment_ack_notify (unparsed fragment_ack_only) = false ∧
    (({} : private_task_manager_t).responding_mid = 0 ∧
      ({} : private_task_manager_t).responding_prev_hash = [] ∧
      ({} : private_task_manager_t).responding_packets = []) ∧
    (∃ r, process_message 1 Endian.big dpd_responder {} fragment_ack_only none = some r ∧
      r.status = status_t.SUCCESS ∧
      r.this.responding_mid = 1 ∧
      r.this.responding_prev_hash = [10, 11, 12] ∧
      r.this.responding_packets = [{}]) ∧
    (∃ r, process_message 1 Endian.big dpd_responder responder_at_5 fragment_ack_only none =
        some r ∧
      r.status = status_t.SUCCESS ∧
      r.this.responding_mid = responder_at_5.responding_mid ∧
      r.this.responding_prev_hash = responder_at_5.responding_prev_hash ∧
      r.this.responding_packets = responder_at_5.responding_packets) :=
  ⟨rfl, rfl, rfl, rfl, rfl, rfl, ⟨rfl, rfl, rfl⟩, ⟨_, rfl, rfl, rfl, rfl, rfl⟩,
    ⟨_, rfl, rfl, rfl, rfl, rfl⟩⟩

/-- As initiator of an IKE_SA in state IKE_CREATED or IKE_CONNECTING,
`reject_request` rejects a request unless it is an INFORMATIONAL request that
carries a FRAGMENT_ACK notify. -/
theorem reject_request_half_open_initiator (env : env_t) (this : private_task_manager_t)
    (msg : message_t)
    (hstate : env.state = ike_sa_state_t.IKE_CREATED ∨
      env.state = ike_sa_state_t.IKE_CONNECTING)
    (hinit : env.is_initiator = true) :
    reject_request env this msg =
      !(msg.exchange_type == exchange_type_t.INFORMATIONAL && has_fragment_ack_notify msg) := by
  unfold reject_request
  rcases hstate with hs | hs <;>
    cases hx : msg.exchange_type <;> cases ha : has_fragment_ack_notify msg <;>
      simp [hs, hinit, hx, ha]

/-- Claim C21, counterexample.  The local side is the initiator of an IKE_SA in
state IKE_CONNECTING.  An INFORMATIONAL request that carries a FRAGMENT_ACK
notify together with a DELETE payload for the IKE_SA is not rejected: the
exception of lines 2362-2369 is a guard on the presence of the notify
(`has_fragment_ack_notify`), and `process_request` spawns an IKE_DELETE task for
the request. -/
theorem reject_request_admits_ack_with_delete :
    connecting_initiator.state = ike_sa_state_t.IKE_CONNECTING ∧
    connecting_initiator.is_initiator = true ∧
    fragment_ack_with_delete.exchange_type = exchange_type_t.INFORMATIONAL ∧
    fragment_ack_with_delete.payloads.length = 2 ∧
    has_fragment_ack_notify fragment_ack_with_delete = true ∧
    reject_request connecting_initiator {} fragment_ack_with_delete = false ∧
    (spawn_tasks Endian.big connecting_initiator {} fragment_ack_with_delete).map
      (fun this => this.passive_tasks.map (fun task => task.type)) =
      some [task_type_t.TASK_IKE_DELETE] :=
  ⟨rfl, rfl, rfl, rfl, rfl, rfl, rfl⟩

/-- The variable `ts_found` is set exactly when a traffic selector payload is
among the payloads. -/
theorem ts_found_iff (payloads : List payload_t) :
    ts_found payloads = true ↔
      payload_t.PLV2_TS_INITIATOR ∈ payloads ∨ payload_t.PLV2_TS_RESPONDER ∈ payloads := by
  unfold ts_found
  rw [List.any_eq_true]
  constructor
  · rintro ⟨p, hp, h⟩
    cases p <;> simp at h
    · exact Or.inl hp
    · exact Or.inr hp
  · rintro (h | h)
    · exact ⟨_, h, rfl⟩
    · exact ⟨_, h, rfl⟩

/-- The variable `notify_found` is set exactly when a REKEY_SA notify for AH or
ESP is among the payloads. -/
theorem rekey_notify_found_iff (payloads : List payload_t) :
    rekey_notify_found payloads = true ↔
      ∃ notify, payload_t.PLV2_NOTIFY notify ∈ payloads ∧
        notify.notify_type = notify_type_t.REKEY_SA ∧
        (notify.protocol_id = PROTO_AH ∨ notify.protocol_id = PROTO_ESP) := by
  unfold rekey_notify_found
  rw [List.any_eq_true]
  constructor
  · rintro ⟨p, hp, h⟩
    cases p with
    | PLV2_NOTIFY n =>
      simp only [Bool.and_eq_true, Bool.or_eq_true, beq_iff_eq] at h
      exact ⟨n, hp, h.1, h.2⟩
    | _ => simp at h
  · rintro ⟨n, hn, h1, h2⟩
    refine ⟨_, hn, ?_⟩
    simp only [Bool.and_eq_true, Bool.or_eq_true, beq_iff_eq]
    exact ⟨h1, h2⟩

/-- Claim C23, amended.  For a CREATE_CHILD_SA request on an IKE_SA that is
neither in state IKE_CREATED nor IKE_CONNECTING, with no passive task,
`process_request` inserts exactly one task into `passive_tasks` and goes on to
the passes over it: a child-rekey task if the request contains a traffic
selector payload (TSi or TSr) and a REKEY_SA notify for AH or ESP, a
child-create task if it contains a traffic selector payload and no such notify,
and an ike-rekey task if it contains no traffic selector payload. -/
theorem create_child_sa_spawning (e : Endian) (env : env_t) (this : private_task_manager_t)
    (message : message_t)
    (hx : message.exchange_type = exchange_type_t.CREATE_CHILD_SA)
    (hs1 : env.state ≠ ike_sa_state_t.IKE_CREATED)
    (hs2 : env.state ≠ ike_sa_state_t.IKE_CONNECTING)
    (hp : this.passive_tasks = []) :
    ∃ type,
      spawn_tasks e env (latch_peer_support this message) message =
        some { latch_peer_support this message with
               passive_tasks := [create_task env type] } ∧
      process_request e env this message =
        request_passes env
          { latch_peer_support this message with passive_tasks := [create_task env type] }
          message ∧
      (create_task env type).type = type ∧
      (type = task_type_t.TASK_CHILD_REKEY ↔
        (payload_t.PLV2_TS_INITIATOR ∈ message.payloads ∨
          payload_t.PLV2_TS_RESPONDER ∈ message.payloads) ∧
        ∃ notify, payload_t.PLV2_NOTIFY notify ∈ message.payloads ∧
          notify.notify_type = notify_type_t.REKEY_SA ∧
          (notify.protocol_id = PROTO_AH ∨ notify.protocol_id = PROTO_ESP)) ∧
      (type = task_type_t.TASK_CHILD_CREATE ↔
        (payload_t.PLV2_TS_INITIATOR ∈ message.payloads ∨
          payload_t.PLV2_TS_RESPONDER ∈ message.payloads) ∧
        ¬ ∃ notify, payload_t.PLV2_NOTIFY notify ∈ message.payloads ∧
          notify.notify_type = notify_type_t.REKEY_SA ∧
          (notify.protocol_id = PROTO_AH ∨ notify.protocol_id = PROTO_ESP)) ∧
      (type = task_type_t.TASK_IKE_REKEY ↔
        ¬ (payload_t.PLV2_TS_INITIATOR ∈ message.payloads ∨
          payload_t.PLV2_TS_RESPONDER ∈ message.payloads)) := by
  have hl : (latch_peer_support this message).passive_tasks = [] := by
    unfold latch_peer_support
    split_ifs
    · exact hp
    · exact hp
  have hspawn : spawn_tasks e env (latch_peer_support this message) message =
      some { latch_peer_support this message with
             passive_tasks := [create_task env (child_sa_task message.payloads)] } := by
    unfold spawn_tasks
    rw [if_pos (by rw [hl]; rfl)]
    simp only [hx]
    rw [if_neg (by rintro (h | h); exact hs1 h; exact hs2 h), hl]
    rfl
  refine ⟨child_sa_task message.payloads, hspawn, ?_, rfl, ?_, ?_, ?_⟩
  · unfold process_request
    rw [hspawn]
  · rw [← ts_found_iff, ← rekey_notify_found_iff]
    unfold child_sa_task
    cases ts_found message.payloads <;> cases rekey_notify_found message.payloads <;> simp
  · rw [← ts_found_iff, ← rekey_notify_found_iff]
    unfold child_sa_task
    cases ts_found message.payloads <;> cases rekey_notify_found message.payloads <;> simp
  · rw [← ts_found_iff]
    unfold child_sa_task
    cases ts_found message.payloads <;> cases rekey_notify_found message.payloads <;> simp

/-- Witness of `create_child_sa_spawning`: a request with traffic selectors and a
REKEY_SA notify for ESP gets a child-rekey task. -/
theorem create_child_sa_spawning_witness :
    (spawn_tasks Endian.big {} (latch_peer_support {} rekey_with_ts) rekey_with_ts).map
      (fun this => this.passive_tasks.map (fun task => task.type)) =
      some [task_type_t.TASK_CHILD_REKEY] ∧
    ∃ type,
      spawn_tasks Endian.big {} (latch_peer_support {} rekey_with_ts) rekey_with_ts =
        some { latch_peer_support {} rekey_with_ts with
               passive_tasks := [create_task {} type] } ∧
      process_request Endian.big {} {} rekey_with_ts =
        request_passes {}
          { latch_peer_support {} rekey_with_ts with passive_tasks := [create_task {} type] }
          rekey_with_ts ∧
      (create_task {} type).type = type ∧
      (type = task_type_t.TASK_CHILD_REKEY ↔
        (payload_t.PLV2_TS_INITIATOR ∈ rekey_with_ts.payloads ∨
          payload_t.PLV2_TS_RESPONDER ∈ rekey_with_ts.payloads) ∧
        ∃ notify, payload_t.PLV2_NOTIFY notify ∈ rekey_with_ts.payloads ∧
          notify.notify_type = notify_type_t.REKEY_SA ∧
          (notify.protocol_id = PROTO_AH ∨ notify.protocol_id = PROTO_ESP)) ∧
      (type = task_type_t.TASK_CHILD_CREATE ↔
        (payload_t.PLV2_TS_INITIATOR ∈ rekey_with_ts.payloads ∨
          payload_t.PLV2_TS_RESPONDER ∈ rekey_with_ts.payloads) ∧
        ¬ ∃ notify, payload_t.PLV2_NOTIFY notify ∈ rekey_with_ts.payloads ∧
          notify.notify_type = notify_type_t.REKEY_SA ∧
          (notify.protocol_id = PROTO_AH ∨ notify.protocol_id = PROTO_ESP)) ∧
      (type = task_type_t.TASK_IKE_REKEY ↔
        ¬ (payload_t.PLV2_TS_INITIATOR ∈ rekey_with_ts.payloads ∨
          payload_t.PLV2_TS_RESPONDER ∈ rekey_with_ts.payloads)) :=
  ⟨rfl, create_child_sa_spawning Endian.big {} {} rekey_with_ts rfl (by decide) (by decide) rfl⟩

/-- Claim C23, counterexample.  On an established IKE_SA with no passive task, a
CREATE_CHILD_SA request that contains a REKEY_SA notify for ESP and no traffic
selector payload gets an ike-rekey task (line 1765), not a child-rekey task:
the notify is looked at only when a traffic selector payload was found. -/
theorem create_child_sa_spawning_counterexample :
    rekey_without_ts.exchange_type = exchange_type_t.CREATE_CHILD_SA ∧
    (∃ notify, payload_t.PLV2_NOTIFY notify ∈ rekey_without_ts.payloads ∧
      notify.notify_type = notify_type_t.REKEY_SA ∧ notify.protocol_id = PROTO_ESP) ∧
    (spawn_tasks Endian.big {} {} rekey_without_ts).map
      (fun this => this.passive_tasks.map (fun task => task.type)) =
      some [task_type_t.TASK_IKE_REKEY] ∧
    (spawn_tasks Endian.big {} {} rekey_without_ts).map
      (fun this => this.passive_tasks.map (fun task => task.type)) ≠
      some [task_type_t.TASK_CHILD_REKEY] := by
  refine ⟨rfl, ⟨_, List.mem_singleton.mpr rfl, rfl, rfl⟩, rfl, ?_⟩
  intro h
  cases h

/-- What `acknowledge_fragment` leaves alone: the expected message ID, and the
messages handed back to the IKE_SA. -/
theorem acknowledge_fragment_frame (e : Endian) (env : env_t) (this1 : private_task_manager_t)
    (defrag : defrag_t) (msg : message_t) (fragment_number : Nat) (status : status_t)
    (this2 : private_task_manager_t) (eff : effects_t)
    (h : acknowledge_fragment e env this1 defrag msg fragment_number status = some (this2, eff)) :
    this2.responding_mid = this1.responding_mid ∧ eff.reinjected = [] := by
  have hs : ∀ t : private_task_manager_t,
      (store_hash env t msg).responding_mid = t.responding_mid := by
    intro t
    unfold store_hash
    split <;> rfl
  have hsel : ∀ t : private_task_manager_t,
      (if fragment_number = 1 then store_hash env t msg else t).responding_mid =
        t.responding_mid := by
    intro t
    split_ifs
    · exact hs t
    · rfl
  unfold acknowledge_fragment at h
  by_cases h1 : status = status_t.NEED_MORE ∨ status = status_t.SUCCESS
  · rw [if_pos h1] at h
    dsimp only at h
    by_cases h2 : (if fragment_number = 1 then store_hash env this1 msg
        else this1).selective_retransmission_enabled = true
    · rw [if_pos h2] at h
      cases hm : send_immediate_fragment_ack e env.malloc_ok env.my_host env.other_host
          (some defrag) msg.message_id fragment_number with
      | none => rw [hm] at h; cases h
      | some ack_msg =>
        rw [hm] at h
        cases h
        exact ⟨hsel this1, rfl⟩
    · rw [if_neg h2] at h
      cases h
      exact ⟨hsel this1, rfl⟩
  · rw [if_neg h1] at h
    cases h
    exact ⟨rfl, rfl⟩

/-- Destroying the helper of a slot leaves the slot empty. -/
theorem get_defrag_set_none (this : private_task_manager_t) (slot : defrag_slot_t) :
    get_defrag (set_defrag this slot none) slot = none := by
  cases slot <;> rfl

/-- The test of line 2092.  When `handle_fragment` completes the reassembly of a
message with ID m (the helper answers SUCCESS to `add_fragment`), the
reassembled message is not handed to `process_message` of the IKE_SA exactly
when `responding.mid` is at least m and the state of the IKE_SA is past
IKE_CONNECTING, and `handle_fragment` returns NEED_MORE; otherwise it is handed
over exactly once and the status it gets is returned, NEED_MORE in place of
SUCCESS.  In both cases the helper is destroyed and its slot reset to NULL. -/
theorem handle_fragment_completed
    (reinject : private_task_manager_t → message_t → Option result_t)
    (e : Endian) (env : env_t) (this : private_task_manager_t) (slot : defrag_slot_t)
    (msg : message_t) (msg_defrag : Option defrag_slot_t) (fragment_number : Nat)
    (defrag0 defrag : defrag_t) (this3 : private_task_manager_t) (eff : effects_t)
    (hfrag : get_fragment msg = some fragment_number)
    (hdef : obtain_defrag env this slot msg = some defrag0)
    (hadd : env.add_fragment defrag0 msg = (status_t.SUCCESS, defrag))
    (hack : acknowledge_fragment e env (set_defrag this slot (some defrag)) defrag msg
      fragment_number status_t.SUCCESS = some (this3, eff)) :
    this3.responding_mid = this.responding_mid ∧
    eff.reinjected = [] ∧
    (msg.message_id ≤ this.responding_mid ∧ env.state ≠ ike_sa_state_t.IKE_CREATED ∧
        env.state ≠ ike_sa_state_t.IKE_CONNECTING →
      ∃ h, handle_fragment reinject e env this slot msg msg_defrag = some h ∧
        h.status = status_t.NEED_MORE ∧
        h.effects.reinjected = [] ∧
        h.this = set_defrag this3 slot none ∧
        get_defrag h.this slot = none) ∧
    (¬ (msg.message_id ≤ this.responding_mid ∧ env.state ≠ ike_sa_state_t.IKE_CREATED ∧
        env.state ≠ ike_sa_state_t.IKE_CONNECTING) →
      ∀ r, reinject this3 defrag.reassembled = some r →
        ∃ h, handle_fragment reinject e env this slot msg msg_defrag = some h ∧
          h.status = (if r.status = status_t.SUCCESS then status_t.NEED_MORE else r.status) ∧
          h.effects.reinjected = defrag.reassembled :: r.effects.reinjected ∧
          h.this = set_defrag r.this slot none ∧
          get_defrag h.this slot = none) := by
  obtain ⟨hmid, hre⟩ := acknowledge_fragment_frame e env _ defrag msg fragment_number _ _ _ hack
  have hmid' : this3.responding_mid = this.responding_mid := by
    rw [hmid]
    cases slot <;> rfl
  have hstep : handle_fragment reinject e env this slot msg msg_defrag =
      complete_reassembly reinject env this3 slot defrag msg eff := by
    unfold handle_fragment
    rw [hfrag]
    dsimp only
    rw [hdef]
    dsimp only
    rw [hadd]
    dsimp only
    rw [hack]
    dsimp only
    rw [if_pos rfl]
  have hpast : (decide (ike_sa_state_t.IKE_CONNECTING.toNat < env.state.toNat) = true) ↔
      (env.state ≠ ike_sa_state_t.IKE_CREATED ∧ env.state ≠ ike_sa_state_t.IKE_CONNECTING) := by
    cases env.state <;> simp [ike_sa_state_t.toNat]
  refine ⟨hmid', hre, ?_, ?_⟩
  · rintro ⟨h1, h2⟩
    have hc : (decide (msg.message_id ≤ this3.responding_mid) &&
        decide (ike_sa_state_t.IKE_CONNECTING.toNat < env.state.toNat)) = true := by
      rw [Bool.and_eq_true]
      exact ⟨by rw [hmid']; exact decide_eq_true h1, hpast.mpr h2⟩
    refine ⟨{ status := status_t.NEED_MORE, this := set_defrag this3 slot none, effects := eff },
      ?_, rfl, hre, rfl, get_defrag_set_none _ _⟩
    rw [hstep]
    unfold complete_reassembly
    dsimp only
    rw [if_pos hc]
  · intro hn r hr
    have hc : ¬ ((decide (msg.message_id ≤ this3.responding_mid) &&
        decide (ike_sa_state_t.IKE_CONNECTING.toNat < env.state.toNat)) = true) := by
      rw [Bool.and_eq_true]
      rintro ⟨k1, k2⟩
      exact hn ⟨by rw [← hmid']; exact of_decide_eq_true k1, hpast.mp k2⟩
    refine ⟨{ status := if r.status = status_t.SUCCESS then status_t.NEED_MORE else r.status
              this := set_defrag r.this slot none
              effects := (eff.append { reinjected := [defrag.reassembled] }).append r.effects },
      ?_, rfl, ?_, rfl, get_defrag_set_none _ _⟩
    · rw [hstep]
      unfold complete_reassembly
      dsimp only
      rw [if_neg hc, hr]
    · show (eff.reinjected ++ [defrag.reassembled]) ++ r.effects.reinjected = _
      rw [hre]
      rfl

/-- An instance of `handle_fragment_completed`: on an established IKE_SA that expects
request 2, the fragment that completes request 2 does not have the reassembled
message handed to the IKE_SA. -/
theorem handle_fragment_completed_witness :
    ∃ h, handle_fragment reinject_ok Endian.big (last_fragment_env ike_sa_state_t.IKE_ESTABLISHED)
        (plain_responder 2) defrag_slot_t.responding (second_fragment 2) none = some h ∧
      h.status = status_t.NEED_MORE ∧
      h.effects.reinjected = [] ∧
      h.this = set_defrag (set_defrag (plain_responder 2) defrag_slot_t.responding (some {}))
        defrag_slot_t.responding none ∧
      get_defrag h.this defrag_slot_t.responding = none :=
  (handle_fragment_completed reinject_ok Endian.big
    (last_fragment_env ike_sa_state_t.IKE_ESTABLISHED) (plain_responder 2)
    defrag_slot_t.responding (second_fragment 2) none 2 {} {}
    (set_defrag (plain_responder 2) defrag_slot_t.responding (some {})) {}
    rfl rfl rfl rfl).2.2.1 ⟨by decide, by decide, by decide⟩

/-- Claim C29, amended.  For every message that the IKE_SA splits into more
than 64 fragments (and fewer than 65536, the range of the `uint16_t` counter),
`generate_message` with selective retransmission enabled creates a tracker for
all of them as for any fragmented message: the condition of `retransmit` for
the selective path holds for the message, the tracker holds a fragment with
number 65, which no acknowledgment record can mark, and so the tracker is
incomplete after every sequence of acknowledgment records. -/
theorem generate_message_tracks_beyond_bitmap (env : env_t) (this : private_task_manager_t)
    (message_id : Nat) (fragments : List packet_t)
    (hsel : this.selective_retransmission_enabled = true)
    (h64 : 64 < fragments.length) (h2 : fragments.length < 65536) :
    ∃ t0, generate_message env this message_id (some fragments) [] =
        (true, { this with outgoing_tracker := some t0 }, fragments) ∧
      t0.message_id = message_id ∧
      t0.total_fragments = fragments.length ∧
      is_selective_retransmit { this with outgoing_tracker := some t0 } message_id = true ∧
      65 ∈ tracked_ids t0 ∧
      ∀ (e : Endian) (records : List (Nat × fragment_ack_data_t)),
        (∀ f ∈ (apply_acks e t0 records).fragments,
          64 < f.fragment_id → f.acknowledged = false) ∧
        (apply_acks e t0 records).acked_fragments <
          (apply_acks e t0 records).total_fragments := by
  obtain ⟨t0, g1, g2, g3, g4, _, g6, g7, _, g9, _⟩ :=
    generate_message_tracker env this message_id fragments hsel (by omega) h2
  have hun : ∀ f ∈ t0.fragments, f.acknowledged = false := by
    intro f hf
    have := (List.countP_eq_zero.mp g9) f hf
    simpa using this
  have h65 : 65 ∈ tracked_ids t0 := by
    rw [g7, List.mem_range']
    exact ⟨64, by omega, rfl⟩
  have hinv : tracker_inv t0 := ⟨by rw [g4, g9], by rw [g6, g3], by rw [g3]; exact h2⟩
  refine ⟨t0, g1, g2, g3, ?_, h65, ?_⟩
  · unfold is_selective_retransmit
    simp [hsel, g2]
  · intro e records
    have hfr := apply_acks_fragments e records t0
    have hbig : ∀ f ∈ (apply_acks e t0 records).fragments,
        64 < f.fragment_id → f.acknowledged = false := by
      intro f hf hid
      rw [hfr, List.mem_map] at hf
      obtain ⟨f0, hf0, rfl⟩ := hf
      rw [mark_any_id] at hid
      rw [mark_any_acknowledged, hun f0 hf0, Bool.false_or]
      unfold acked_by_any
      rw [Bool.eq_false_iff]
      intro hany
      rw [List.any_eq_true] at hany
      obtain ⟨r, _, hr⟩ := hany
      unfold is_acked_in_current at hr
      rw [if_neg (by omega)] at hr
      cases hr
    refine ⟨hbig, ?_⟩
    obtain ⟨⟨k1, k2, _⟩, _⟩ := tracker_inv_apply_acks e records t0 hinv
    rw [k1, ← k2]
    have hle := List.countP_le_length (fun f : fragment_state_t => f.acknowledged)
      (l := (apply_acks e t0 records).fragments)
    rcases Nat.lt_or_ge (List.countP (fun f : fragment_state_t => f.acknowledged)
      (apply_acks e t0 records).fragments) (apply_acks e t0 records).fragments.length with h | h
    · exact h
    · exfalso
      have heq := Nat.le_antisymm hle h
      have hall := List.countP_eq_length.mp heq
      have hmem : 65 ∈ (apply_acks e t0 records).fragments.map (fun f => f.fragment_id) := by
        rw [hfr, List.map_map]
        have : (fun f : fragment_state_t => f.fragment_id) ∘ mark_any e records =
            fun f => f.fragment_id := by
          funext f
          exact mark_any_id e records f
        rw [this]
        exact h65
      rw [List.mem_map] at hmem
      obtain ⟨f, hf, hid⟩ := hmem
      have h1 := hall f hf
      have h2 := hbig f hf (by omega)
      rw [h2] at h1
      cases h1

/-- Witness of `generate_message_tracks_beyond_bitmap`: a message of 65
fragments. -/
theorem generate_message_tracks_beyond_bitmap_witness :
    ∃ t0, generate_message {} {} 7 (some fragments_65) [] =
        (true, { ({} : private_task_manager_t) with outgoing_tracker := some t0 },
          fragments_65) ∧
      t0.message_id = 7 ∧
      t0.total_fragments = 65 ∧
      is_selective_retransmit { ({} : private_task_manager_t) with outgoing_tracker := some t0 }
        7 = true ∧
      65 ∈ tracked_ids t0 ∧
      ∀ (e : Endian) (records : List (Nat × fragment_ack_data_t)),
        (∀ f ∈ (apply_acks e t0 records).fragments,
          64 < f.fragment_id → f.acknowledged = false) ∧
        (apply_acks e t0 records).acked_fragments <
          (apply_acks e t0 records).total_fragments := by
  obtain ⟨t0, h1, h2, h3, h4, h5, h6⟩ := generate_message_tracks_beyond_bitmap {} {} 7
    fragments_65 rfl (by simp [fragments_65]) (by simp [fragments_65])
  exact ⟨t0, h1, h2, by rw [h3]; simp [fragments_65], h4, h5, h6⟩

/-- Claim C30, divergence.  When the message just generated yields one packet (or
none), or selective retransmission is disabled, `generate_message` leaves the
manager as it is: lines 559-592 are skipped and nothing else touches
`outgoing_tracker`, so a tracker that existed before is still present
afterwards. -/
theorem generate_message_keeps_stale_tracker (env : env_t) (this : private_task_manager_t)
    (message_id : Nat) (fragments packets : List packet_t)
    (h : fragments.length ≤ 1 ∨ this.selective_retransmission_enabled = false) :
    generate_message env this message_id (some fragments) packets =
      (true, this, packets ++ fragments) := by
  unfold generate_message
  dsimp only
  rw [if_neg]
  rintro ⟨h1, h2⟩
  rcases h with h | h
  · unfold u16 at h1
    have : fragments.length % 65536 = fragments.length := Nat.mod_eq_of_lt (by omega)
    omega
  · rw [h] at h2
    cases h2

/-- Witness of `generate_message_keeps_stale_tracker`: the manager holds the
tracker of message 1, which was split into three fragments; message 2 yields
exactly one packet, and the tracker of message 1 is still present after
`generate_message`. -/
theorem generate_message_keeps_stale_tracker_witness :
    (three_fragments 1).selective_retransmission_enabled = true ∧
    ((three_fragments 1).outgoing_tracker.map (fun t => (t.message_id, t.total_fragments))) =
      some (1, 3) ∧
    generate_message {} (three_fragments 1) 2 (some [packet_of_size 80]) [] =
      (true, three_fragments 1, [] ++ [packet_of_size 80]) :=
  ⟨rfl, rfl, generate_message_keeps_stale_tracker {} (three_fragments 1) 2
    [packet_of_size 80] [] (Or.inl (by decide))⟩

theorem collide_loop_calls (type : task_type_t) (task : task_t) (active : List task_t) :
    ∀ call ∈ (collide_loop type task active).2, call.hook = hook_t.collide := by
  induction active with
  | nil => intro call h; cases h
  | cons a rest ih =>
    unfold collide_loop
    split
    · split_ifs
      · intro call h
        rw [List.mem_singleton] at h
        rw [h]
      · exact ih
    · split_ifs
      · intro call h
        rw [List.mem_singleton] at h
        rw [h]
      · exact ih
    · exact ih

theorem handle_collisions_calls (this : private_task_manager_t) (task : task_t) :
    ∀ call ∈ (handle_collisions this task).2, call.hook = hook_t.collide := by
  unfold handle_collisions
  split_ifs
  · exact collide_loop_calls _ _ _
  · intro call h; cases h

/-- For a passive ike-rekey or ike-delete task the loop asks the first active
ike-rekey task. -/
theorem collide_loop_ike (type : task_type_t) (task : task_t)
    (htype : type = task_type_t.TASK_IKE_REKEY ∨ type = task_type_t.TASK_IKE_DELETE)
    (active : List task_t) :
    (collide_loop type task active).1 = true ↔
      ∃ a, active.find? (fun a => a.type == task_type_t.TASK_IKE_REKEY) = some a ∧
        a.collide = true := by
  have hnc : ¬ type = task_type_t.TASK_CHILD_REKEY := by
    rcases htype with h | h <;> rw [h] <;> decide
  induction active with
  | nil => simp [collide_loop]
  | cons a rest ih =>
    unfold collide_loop
    cases ha : a.type <;> simp only [htype, hnc, if_true, if_false, List.find?, ha] <;>
      first
        | exact ih
        | simp

/-- For a passive child-rekey task the loop asks the first active child-rekey
task. -/
theorem collide_loop_child (task : task_t) (active : List task_t) :
    (collide_loop task_type_t.TASK_CHILD_REKEY task active).1 = true ↔
      ∃ a, active.find? (fun a => a.type == task_type_t.TASK_CHILD_REKEY) = some a ∧
        a.collide = true := by
  induction active with
  | nil => simp [collide_loop]
  | cons a rest ih =>
    unfold collide_loop
    cases ha : a.type <;> simp only [if_true, if_false, List.find?, ha] <;>
      first
        | exact ih
        | simp

/-- The tasks the build pass of `build_response` calls `build` on: those up to and
including the first one that does not answer SUCCESS or NEED_MORE. -/
theorem response_build_pass_adoption (this : private_task_manager_t) (tasks : List task_t) :
    ∀ (message : message_t) (mid_sync : Bool),
      ∃ visited unvisited, tasks = visited ++ unvisited ∧
        (response_build_pass this tasks message mid_sync).tasks =
          visited.filter (fun task =>
            !(handle_collisions this task).1 && task.build != status_t.SUCCESS) ++ unvisited ∧
        (∀ task ∈ visited, ({ hook := hook_t.build, task := task } : hook_call_t) ∈
          (response_build_pass this tasks message mid_sync).hooks) ∧
        (∀ call ∈ (response_build_pass this tasks message mid_sync).hooks,
          call.hook = hook_t.destroy →
            call.task ∈ visited ∧ (handle_collisions this call.task).1 = false) := by
  induction tasks with
  | nil =>
    intro message mid_sync
    refine ⟨[], [], rfl, rfl, ?_, ?_⟩
    · intro task h; cases h
    · intro call h; cases h
  | cons task rest ih =>
    intro message mid_sync
    have hc := handle_collisions_calls this task
    cases hb : task.build with
    | SUCCESS =>
      obtain ⟨v, u, h1, h2, h3, h4⟩ := ih (built_by task message)
        (mid_sync || task.type == task_type_t.TASK_IKE_MID_SYNC)
      refine ⟨task :: v, u, by rw [h1]; rfl, ?_, ?_, ?_⟩
      · unfold response_build_pass
        simp only [hb]
        rw [h2]
        simp [List.filter, hb]
      · intro t ht
        unfold response_build_pass
        simp only [hb]
        rcases List.mem_cons.mp ht with rfl | ht
        · simp
        · have := h3 t ht
          simp [this]
      · intro call hcall hd
        unfold response_build_pass at hcall
        simp only [hb] at hcall
        simp only [List.mem_append, List.mem_singleton, List.mem_cons, List.singleton_append]
          at hcall
        rcases hcall with (hcall | hcall) | hcall
        · rcases hcall with hcall | hcall
          · rw [hcall] at hd; cases hd
          · have := hc call hcall
            rw [this] at hd; cases hd
        · by_cases had : (handle_collisions this task).1 = true
          · rw [if_pos had] at hcall; cases hcall
          · rw [if_neg had] at hcall
            rw [List.mem_singleton] at hcall
            rw [hcall]
            exact ⟨List.mem_cons_self _ _, by simpa using had⟩
        · obtain ⟨k1, k2⟩ := h4 call hcall hd
          exact ⟨List.mem_cons_of_mem _ k1, k2⟩
    | NEED_MORE =>
      obtain ⟨v, u, h1, h2, h3, h4⟩ := ih (built_by task message)
        (mid_sync || task.type == task_type_t.TASK_IKE_MID_SYNC)
      refine ⟨task :: v, u, by rw [h1]; rfl, ?_, ?_, ?_⟩
      · unfold response_build_pass
        simp only [hb]
        rw [h2]
        by_cases had : (handle_collisions this task).1 = true
        · simp [List.filter, hb, had]
        · simp [List.filter, hb, had]
          try rfl
      · intro t ht
        unfold response_build_pass
        simp only [hb]
        rcases List.mem_cons.mp ht with rfl | ht
        · simp
        · have := h3 t ht
          simp [this]
      · intro call hcall hd
        unfold response_build_pass at hcall
        simp only [hb] at hcall
        simp only [List.mem_append, List.mem_singleton, List.mem_cons, List.singleton_append]
          at hcall
        rcases hcall with (hcall | hcall) | hcall
        · rw [hcall] at hd; cases hd
        · have := hc call hcall
          rw [this] at hd; cases hd
        · obtain ⟨k1, k2⟩ := h4 call hcall hd
          exact ⟨List.mem_cons_of_mem _ k1, k2⟩
    | DESTROY_ME =>
      refine ⟨[task], rest, rfl, ?_, ?_, ?_⟩
      · unfold response_build_pass
        simp only [hb]
        by_cases had : (handle_collisions this task).1 = true
        · simp [List.filter, hb, had]
        · simp [List.filter, hb, had]
          try rfl
      · intro t ht
        rw [List.mem_singleton] at ht
        unfold response_build_pass
        simp only [hb]
        simp [ht]
      · intro call hcall hd
        unfold response_build_pass at hcall
        simp only [hb] at hcall
        simp only [List.mem_append, List.mem_singleton, List.mem_cons, List.singleton_append]
          at hcall
        rcases hcall with hcall | hcall
        · rw [hcall] at hd; cases hd
        · have := hc call hcall
          rw [this] at hd; cases hd
    | _ =>
      refine ⟨[task], rest, rfl, ?_, ?_, ?_⟩
      · unfold response_build_pass
        simp only [hb]
        by_cases had : (handle_collisions this task).1 = true
        · simp [List.filter, hb, had]
        · simp [List.filter, hb, had]
          try rfl
      · intro t ht
        rw [List.mem_singleton] at ht
        unfold response_build_pass
        simp only [hb]
        simp [ht]
      · intro call hcall hd
        unfold response_build_pass at hcall
        simp only [hb] at hcall
        simp only [List.mem_append, List.mem_singleton, List.mem_cons, List.singleton_append]
          at hcall
        rcases hcall with hcall | hcall
        · rw [hcall] at hd; cases hd
        · have := hc call hcall
          rw [this] at hd; cases hd

/-- The first element of a list with a property, when there is one. -/
theorem exists_first_with {α : Type} (p : α → Bool) (l : List α) (h : ∃ x ∈ l, p x = true) :
    ∃ pre x post, l = pre ++ x :: post ∧ p x = true ∧ ∀ y ∈ pre, p y = false := by
  induction l with
  | nil => obtain ⟨x, hx, _⟩ := h; cases hx
  | cons a rest ih =>
    by_cases ha : p a = true
    · exact ⟨[], a, rest, rfl, ha, fun y hy => by cases hy⟩
    · obtain ⟨x, hx, hp⟩ := h
      rcases List.mem_cons.mp hx with rfl | hx
      · exact absurd hp ha
      · obtain ⟨pre, y, post, h1, h2, h3⟩ := ih ⟨x, hx, hp⟩
        refine ⟨a :: pre, y, post, by rw [h1]; rfl, h2, ?_⟩
        intro z hz
        rcases List.mem_cons.mp hz with rfl | hz
        · simpa using ha
        · exact h3 z hz

theorem activate_loop_none (now : Nat) (type : task_type_t) (queued : List queued_task_t)
    (h : ∀ q ∈ queued, is_due now type q = false) : activate_loop now type queued = none := by
  induction queued with
  | nil => rfl
  | cons q rest ih =>
    unfold activate_loop
    have hq := h q (List.mem_cons_self _ _)
    unfold is_due at hq
    rw [if_neg]
    · rw [ih (fun x hx => h x (List.mem_cons_of_mem _ hx))]
      rfl
    · rintro ⟨h1, h2⟩
      rw [h1] at hq
      simp at hq
      omega

theorem activate_loop_first (now : Nat) (type : task_type_t) (pre : List queued_task_t)
    (q : queued_task_t) (post : List queued_task_t) (hq : is_due now type q = true)
    (hpre : ∀ x ∈ pre, is_due now type x = false) :
    activate_loop now type (pre ++ q :: post) = some (q.task, pre ++ post) := by
  induction pre with
  | nil =>
    unfold is_due at hq
    simp only [Bool.and_eq_true, beq_iff_eq, decide_eq_true_eq] at hq
    simp only [List.nil_append]
    unfold activate_loop
    rw [if_pos ⟨hq.1, by omega⟩]
  | cons a rest ih =>
    have ha := hpre a (List.mem_cons_self _ _)
    unfold is_due at ha
    simp only [List.cons_append]
    unfold activate_loop
    rw [if_neg]
    · rw [ih (fun x hx => hpre x (List.mem_cons_of_mem _ hx))]
      rfl
    · rintro ⟨h1, h2⟩
      rw [h1] at ha
      simp at ha
      omega

theorem activate_first_skip (env : env_t) (this : private_task_manager_t)
    (chain1 chain2 : List (task_type_t × exchange_type_t))
    (h : ∀ c ∈ chain1, ∀ q ∈ this.queued_tasks, is_due env.now c.1 q = false) :
    activate_first env this (chain1 ++ chain2) = activate_first env this chain2 := by
  induction chain1 with
  | nil => rfl
  | cons c rest ih =>
    obtain ⟨type, exchange⟩ := c
    have hn : activate_task env this type = (false, this) := by
      unfold activate_task
      rw [activate_loop_none env.now type this.queued_tasks
        (h (type, exchange) (List.mem_cons_self _ _))]
    have hstep : activate_first env this ((type, exchange) :: (rest ++ chain2)) =
        activate_first env this (rest ++ chain2) := by
      rw [activate_first]
      rw [hn]
      simp only [Bool.false_eq_true, if_false]
    simp only [List.cons_append]
    rw [hstep]
    exact ih (fun c hc => h c (List.mem_cons_of_mem _ hc))

theorem established_chain_eq :
    established_chain =
      spec_activation_priority.map (fun type => (type, spec_activation_exchange type)) ++
        [(task_type_t.TASK_IKE_DELETE, exchange_type_t.INFORMATIONAL)] := by
  decide

/-- The activation step of `initiate` (lines 959-1063) with no active task and
the IKE_SA in state IKE_ESTABLISHED: nothing is activated when no queued task of
a type of the priority list is due; otherwise exactly the first due task of the
first type of the list with a due task is moved to the active list, and the
exchange is CREATE_CHILD_SA for child-create, child-rekey and ike-rekey and
INFORMATIONAL otherwise. -/
theorem select_exchange_established (env : env_t) (this : private_task_manager_t)
    (hstate : env.state = ike_sa_state_t.IKE_ESTABLISHED)
    (hactive : this.active_tasks = []) :
    ((∀ type ∈ spec_activation_priority, ∀ q ∈ this.queued_tasks,
        is_due env.now type q = false) →
      (select_exchange env this).exchange = none ∧ (select_exchange env this).this = this) ∧
    (∀ before type after, spec_activation_priority = before ++ type :: after →
      (∀ t ∈ before, ∀ q ∈ this.queued_tasks, is_due env.now t q = false) →
      ∀ pre q post, this.queued_tasks = pre ++ q :: post →
        is_due env.now type q = true →
        (∀ x ∈ pre, is_due env.now type x = false) →
        (select_exchange env this).exchange = some (spec_activation_exchange type) ∧
        (select_exchange env this).this =
          { this with queued_tasks := pre ++ post, active_tasks := [q.task] }) ∧
    (select_exchange env this).this.active_tasks.length ≤ 1 ∧
    (∀ task ∈ (select_exchange env this).this.active_tasks,
      ∃ q ∈ this.queued_tasks, q.task = task ∧ q.time ≤ env.now ∧
        task.type ∈ spec_activation_priority) := by
  have hsel : select_exchange env this =
      { exchange := (activate_first env this established_chain).1
        this := (activate_first env this established_chain).2 } := by
    unfold select_exchange
    rw [if_pos (by rw [hactive]; rfl)]
    unfold activate_new_tasks
    simp only [hstate]
  have part1 : (∀ type ∈ spec_activation_priority, ∀ q ∈ this.queued_tasks,
        is_due env.now type q = false) →
      (select_exchange env this).exchange = none ∧ (select_exchange env this).this = this := by
    intro h
    have h0 : activate_first env this (established_chain ++ []) = activate_first env this [] :=
      activate_first_skip env this established_chain [] (by
        intro c hc q hq
        rw [established_chain_eq] at hc
        rcases List.mem_append.mp hc with hc | hc
        · rw [List.mem_map] at hc
          obtain ⟨t, ht, rfl⟩ := hc
          exact h t ht q hq
        · rw [List.mem_singleton] at hc
          rw [hc]
          exact h _ (by decide) q hq)
    rw [List.append_nil] at h0
    rw [hsel, h0]
    exact ⟨rfl, rfl⟩
  have part2 : ∀ before type after, spec_activation_priority = before ++ type :: after →
      (∀ t ∈ before, ∀ q ∈ this.queued_tasks, is_due env.now t q = false) →
      ∀ pre q post, this.queued_tasks = pre ++ q :: post →
        is_due env.now type q = true →
        (∀ x ∈ pre, is_due env.now type x = false) →
        (select_exchange env this).exchange = some (spec_activation_exchange type) ∧
        (select_exchange env this).this =
          { this with queued_tasks := pre ++ post, active_tasks := [q.task] } := by
    intro before type after hsplit hbefore pre q post hq hdue hpre
    have hchain : established_chain =
        before.map (fun type => (type, spec_activation_exchange type)) ++
          ((type, spec_activation_exchange type) ::
            (after.map (fun type => (type, spec_activation_exchange type)) ++
              [(task_type_t.TASK_IKE_DELETE, exchange_type_t.INFORMATIONAL)])) := by
      rw [established_chain_eq, hsplit]
      simp
    have hskip := activate_first_skip env this
      (before.map (fun type => (type, spec_activation_exchange type)))
      ((type, spec_activation_exchange type) ::
        (after.map (fun type => (type, spec_activation_exchange type)) ++
          [(task_type_t.TASK_IKE_DELETE, exchange_type_t.INFORMATIONAL)]))
      (by
        intro c hc x hx
        rw [List.mem_map] at hc
        obtain ⟨t, ht, rfl⟩ := hc
        exact hbefore t ht x hx)
    have hact : activate_task env this type =
        (true, { this with queued_tasks := pre ++ post, active_tasks := [q.task] }) := by
      unfold activate_task
      rw [hq, activate_loop_first env.now type pre q post hdue hpre]
      dsimp only
      rw [hactive]
      rfl
    rw [hsel, hchain, hskip]
    rw [activate_first]
    rw [hact]
    exact ⟨rfl, rfl⟩
  have part34 : (select_exchange env this).this.active_tasks.length ≤ 1 ∧
      (∀ task ∈ (select_exchange env this).this.active_tasks,
        ∃ q ∈ this.queued_tasks, q.task = task ∧ q.time ≤ env.now ∧
          task.type ∈ spec_activation_priority) := by
    by_cases hany : ∃ type ∈ spec_activation_priority,
        (this.queued_tasks.any (is_due env.now type)) = true
    · obtain ⟨before, type, after, hs1, hs2, hs3⟩ := exists_first_with
        (fun type => this.queued_tasks.any (is_due env.now type)) spec_activation_priority hany
      obtain ⟨pre, q, post, hq1, hq2, hq3⟩ := exists_first_with (is_due env.now type)
        this.queued_tasks (by simpa [List.any_eq_true] using hs2)
      obtain ⟨_, k2⟩ := part2 before type after hs1
        (by
          intro t ht x hx
          have := hs3 t ht
          rw [List.any_eq_false] at this
          simpa using this x hx)
        pre q post hq1 hq2 hq3
      rw [k2]
      refine ⟨by simp, ?_⟩
      intro task ht
      rw [List.mem_singleton] at ht
      unfold is_due at hq2
      simp only [Bool.and_eq_true, beq_iff_eq, decide_eq_true_eq] at hq2
      refine ⟨q, by rw [hq1]; simp, ht.symm, hq2.2, ?_⟩
      rw [ht, hq2.1, hs1]
      simp
    · obtain ⟨_, k2⟩ := part1 (by
        intro type ht q hq
        by_contra hd
        exact hany ⟨type, ht, by
          rw [List.any_eq_true]
          exact ⟨q, hq, by simpa using hd⟩⟩)
      rw [k2, hactive]
      exact ⟨by simp, fun task ht => by cases ht⟩
  exact ⟨part1, part2, part34.1, part34.2⟩

theorem same_window_refl (a : private_task_manager_t) : same_window a a := ⟨rfl, rfl, rfl⟩

theorem same_window_trans {a b c : private_task_manager_t} (h1 : same_window a b)
    (h2 : same_window b c) : same_window a c :=
  ⟨h2.1.trans h1.1, h2.2.1.trans h1.2.1, h2.2.2.trans h1.2.2⟩

theorem derive_keys_sub (tasks : List task_t) :
    ∀ task ∈ (derive_keys tasks).2.1, task ∈ tasks := by
  induction tasks with
  | nil => intro task h; cases h
  | cons t rest ih =>
    intro task h
    unfold derive_keys at h
    by_cases ht : t.type = task_type_t.TASK_IKE_INIT
    · rw [if_pos ht] at h
      cases hd : t.derive_keys <;> simp only [hd] at h <;>
        first
          | exact List.mem_cons_of_mem _ h
          | exact h
    · rw [if_neg ht] at h
      rcases List.mem_cons.mp h with h | h
      · rw [h]; exact List.mem_cons_self _ _
      · exact List.mem_cons_of_mem _ (ih task h)

/-- The status a failed parsing ends with is never SUCCESS. -/
theorem parse_failure_status (env : env_t) (this : private_task_manager_t) (msg : message_t)
    (status parse_status : status_t) (type : Nat) (h : status ≠ status_t.SUCCESS) :
    (parse_failure env this msg status parse_status type).status ≠ status_t.SUCCESS := by
  unfold parse_failure
  cases parse_status <;> dsimp only <;> (try split_ifs) <;>
    first
      | exact h
      | (unfold send_invalid_syntax
         dsimp only
         split_ifs <;> decide)

/-- A message that `parse_message` takes with SUCCESS: the keys were derived, and
nothing was sent. -/
theorem parse_message_success (env : env_t) (this : private_task_manager_t) (msg : message_t)
    (h : (parse_message env this msg).status = status_t.SUCCESS) :
    parse_message env this msg =
      { status := status_t.SUCCESS
        this := { this with passive_tasks := (derive_keys this.passive_tasks).2.1 }
        effects := { hooks := (derive_keys this.passive_tasks).2.2 } } := by
  unfold parse_message at h ⊢
  dsimp only at h ⊢
  by_cases hp : (if (derive_keys this.passive_tasks).1 = true then
      if msg.parse_body = status_t.SUCCESS then (has_unsupported_critical_payload msg).1
      else msg.parse_body
    else status_t.INVALID_STATE) = status_t.SUCCESS
  · rw [if_pos hp] at h ⊢
    dsimp only at h
    rw [h]
  · rw [if_neg hp] at h
    exfalso
    dsimp only at h
    have h0 : (if (derive_keys this.passive_tasks).1 = true then
        (if (derive_keys this.passive_tasks).1 = true then
          if msg.parse_body = status_t.SUCCESS then (has_unsupported_critical_payload msg).1
          else msg.parse_body
        else status_t.INVALID_STATE)
        else status_t.DESTROY_ME) ≠ status_t.SUCCESS := by
      by_cases hd : (derive_keys this.passive_tasks).1 = true
      · rw [if_pos hd]; exact hp
      · rw [if_neg hd]; decide
    have h1 := parse_failure_status env
      { this with passive_tasks := (derive_keys this.passive_tasks).2.1 } msg _
      (if (derive_keys this.passive_tasks).1 = true then
        if msg.parse_body = status_t.SUCCESS then (has_unsupported_critical_payload msg).1
        else msg.parse_body
      else status_t.INVALID_STATE) (has_unsupported_critical_payload msg).2 h0
    unfold parse_failure_state at h
    cases hs : env.state <;> simp only [hs] at h <;>
      first
        | exact h1 h
        | cases h

/-- A request that passes the first part of `process_message` was parsed with
SUCCESS. -/
theorem receive_request_goes_on (e : Endian) (env : env_t) (this : private_task_manager_t)
    (msg : message_t) (this1 : private_task_manager_t) (eff0 : effects_t)
    (hreq : msg.request = true)
    (h : receive_message e env this msg = step_t.goes_on this1 eff0) :
    this1 = { this with passive_tasks := (derive_keys this.passive_tasks).2.1 } ∧
    eff0 = { hooks := (derive_keys this.passive_tasks).2.2 } := by
  have hafter : after_parse (parse_message env this msg) = step_t.goes_on this1 eff0 →
      this1 = { this with passive_tasks := (derive_keys this.passive_tasks).2.1 } ∧
      eff0 = { hooks := (derive_keys this.passive_tasks).2.2 } := by
    intro ha
    unfold after_parse at ha
    by_cases hs : (parse_message env this msg).status ≠ status_t.SUCCESS
    · rw [if_pos hs] at ha; cases ha
    · rw [if_neg hs] at ha
      have hs' : (parse_message env this msg).status = status_t.SUCCESS := by
        by_contra k; exact hs k
      rw [parse_message_success env this msg hs'] at ha
      cases ha
      exact ⟨rfl, rfl⟩
  have hmis : ∀ th b eff, message_id_mismatch e env th msg b eff ≠ step_t.goes_on this1 eff0 := by
    intro th b eff k
    unfold message_id_mismatch at k
    dsimp only at k
    split_ifs at k
  unfold receive_message at h
  rw [if_pos hreq] at h
  unfold receive_request at h
  cases hr : is_retransmit env this (unparsed msg) <;> simp only [hr] at h <;>
    first
      | exact hafter h
      | cases h
      | (unfold receive_unknown_request at h
         by_cases hm : msg.message_id = 0 ∧ is_potential_mid_sync env msg = true
         · rw [if_pos hm] at h
           dsimp only at h
           by_cases hq : (parse_message env this msg).status = status_t.SUCCESS ∧
               is_mid_sync msg = false
           · rw [if_pos hq] at h
             exact absurd h (hmis _ _ _)
           · rw [if_neg hq] at h
             exact hafter h
         · rw [if_neg hm] at h
           exact absurd h (hmis _ _ _))

/-- The second part of `process_message` for a request, when a configuration is
at hand. -/
theorem process_message_request (fuel : Nat) (e : Endian) (env : env_t)
    (this : private_task_manager_t) (msg : message_t) (msg_defrag : Option defrag_slot_t)
    (this1 : private_task_manager_t) (eff0 : effects_t)
    (hreq : msg.request = true)
    (hrecv : receive_message e env this msg = step_t.goes_on this1 eff0)
    (hcfg : env.has_ike_cfg = true ∨ env.backends_get_ike_cfg = true) :
    process_message (fuel + 1) e env this msg msg_defrag =
      (handle_request (fun th m => process_message fuel e env th m
        (some defrag_slot_t.responding)) e env this1 msg msg_defrag (!env.has_ike_cfg)).map
        (result_t.after eff0) := by
  rw [process_message, hrecv]
  dsimp only
  rw [if_neg, if_pos hreq]
  rintro ⟨h1, h2⟩
  rcases hcfg with h | h
  · rw [h] at h1; cases h1
  · rw [h] at h2; cases h2

/-- The state in which `process_request` is called for a request that is no
fragment: the hash of a message that is not a reassembled one is stored. -/
theorem handle_request_accepted
    (reinject : private_task_manager_t → message_t → Option result_t)
    (e : Endian) (env : env_t) (this1 : private_task_manager_t) (msg : message_t)
    (msg_defrag : Option defrag_slot_t) (schedule_delete_job : Bool)
    (hrej : reject_request env this1 msg = false)
    (hfrag : get_fragment msg = none)
    (hbus : (env.bus_message msg).exchange_type ≠ exchange_type_t.EXCHANGE_TYPE_UNDEFINED) :
    handle_request reinject e env this1 msg msg_defrag schedule_delete_job =
      some ((conclude_request env
        (process_request e env
          (if msg_defrag ≠ some defrag_slot_t.responding then store_hash env this1 msg
           else this1)
          (env.bus_message msg)) schedule_delete_job).after {}) := by
  unfold handle_request
  rw [hrej]
  simp only [Bool.false_eq_true, if_false]
  unfold handle_fragment
  rw [hfrag]
  dsimp only
  rw [if_neg (by exact fun k => k rfl), if_neg hbus]

theorem store_hash_window (env : env_t) (this : private_task_manager_t) (msg : message_t) :
    (store_hash env this msg).responding_mid = this.responding_mid ∧
    (store_hash env this msg).responding_prev_hash = this.responding_prev_hash ∧
    (store_hash env this msg).responding_packets = this.responding_packets ∧
    (store_hash env this msg).passive_tasks = this.passive_tasks ∧
    (∀ hash, hash_message env msg = some hash →
      (store_hash env this msg).responding_hash = hash) := by
  unfold store_hash
  cases hash_message env msg with
  | none => exact ⟨rfl, rfl, rfl, rfl, fun hash h => by cases h⟩
  | some hash => exact ⟨rfl, rfl, rfl, rfl, fun hash h => by cases h; rfl⟩

theorem process_fragment_ack_window (e : Endian) (env : env_t) (this : private_task_manager_t)
    (message : message_t) :
    same_window this (process_fragment_ack e env this message) ∧
    (process_fragment_ack e env this message).passive_tasks = this.passive_tasks := by
  unfold process_fragment_ack
  split
  · exact ⟨same_window_refl _, rfl⟩
  · dsimp only
    split_ifs
    · exact ⟨same_window_refl _, rfl⟩
    · split
      · exact ⟨same_window_refl _, rfl⟩
      · split_ifs <;> exact ⟨⟨rfl, rfl, rfl⟩, rfl⟩

theorem informational_scan_window (e : Endian) (env : env_t) (message : message_t)
    (payloads : List payload_t) :
    ∀ (this : private_task_manager_t),
      same_window this (informational_scan e env message this payloads).2 ∧
      (informational_scan e env message this payloads).2.passive_tasks = this.passive_tasks := by
  induction payloads with
  | nil => intro this; exact ⟨same_window_refl _, rfl⟩
  | cons payload rest ih =>
    intro this
    unfold informational_scan
    split
    · split_ifs
      · exact ih this
      · obtain ⟨k1, k2⟩ := process_fragment_ack_window e env this message
        obtain ⟨k3, k4⟩ := ih (process_fragment_ack e env this message)
        exact ⟨same_window_trans k1 k3, k4.trans k2⟩
      · split
        · exact ⟨same_window_refl _, rfl⟩
        · exact ih this
    · split_ifs <;> exact ⟨same_window_refl _, rfl⟩
    · exact ih this

/-- The tasks `spawn_tasks` leaves in the passive list were there before or were
made by a task constructor. -/
theorem spawn_tasks_window (e : Endian) (env : env_t) (this : private_task_manager_t)
    (message : message_t) (this1 : private_task_manager_t)
    (h : spawn_tasks e env this message = some this1) :
    same_window this this1 ∧
    ∀ task ∈ this1.passive_tasks, task ∈ this.passive_tasks ∨ ∃ type, task = create_task env type := by
  unfold spawn_tasks at h
  by_cases h0 : this.passive_tasks.length = 0
  · rw [if_pos h0] at h
    cases hx : message.exchange_type <;> simp only [hx] at h
    · cases h; exact ⟨same_window_refl _, fun task ht => Or.inl ht⟩
    · cases h
      refine ⟨⟨rfl, rfl, rfl⟩, ?_⟩
      intro task ht
      rcases List.mem_append.mp ht with ht | ht
      · exact Or.inl ht
      · rw [List.mem_map] at ht
        obtain ⟨type, _, rfl⟩ := ht
        exact Or.inr ⟨type, rfl⟩
    · cases h; exact ⟨same_window_refl _, fun task ht => Or.inl ht⟩
    · split_ifs at h
      cases h
      refine ⟨⟨rfl, rfl, rfl⟩, ?_⟩
      intro task ht
      rcases List.mem_append.mp ht with ht | ht
      · exact Or.inl ht
      · rw [List.mem_singleton] at ht
        exact Or.inr ⟨_, ht⟩
    · cases h
      obtain ⟨k1, k2⟩ := informational_scan_window e env message message.payloads this
      refine ⟨same_window_trans k1 ⟨rfl, rfl, rfl⟩, ?_⟩
      intro task ht
      rcases List.mem_append.mp ht with ht | ht
      · rw [k2] at ht
        exact Or.inl ht
      · rw [List.mem_singleton] at ht
        exact Or.inr ⟨_, ht⟩
    · cases h; exact ⟨same_window_refl _, fun task ht => Or.inl ht⟩
    · cases h; exact ⟨same_window_refl _, fun task ht => Or.inl ht⟩
  · rw [if_neg h0] at h
    cases h
    exact ⟨same_window_refl _, fun task ht => Or.inl ht⟩

theorem generate_message_window (env : env_t) (this : private_task_manager_t)
    (message_id : Nat) (generated : Option (List packet_t)) (packets : List packet_t) :
    same_window this (generate_message env this message_id generated packets).2.1 ∧
    (generate_message env this message_id generated packets).2.1.passive_tasks =
      this.passive_tasks ∧
    (generate_message env this message_id generated packets).2.1.initiating_retransmitted =
      this.initiating_retransmitted := by
  unfold generate_message
  cases generated with
  | none => exact ⟨same_window_refl _, rfl, rfl⟩
  | some fragments =>
    dsimp only
    split_ifs <;> exact ⟨⟨rfl, rfl, rfl⟩, rfl, rfl⟩

/-- What `generate_message` answers and stores. -/
theorem generate_message_result (env : env_t) (this : private_task_manager_t)
    (message_id : Nat) (generated : Option (List packet_t)) (packets : List packet_t) :
    ((generate_message env this message_id generated packets).1 = true ↔
      ∃ fragments, generated = some fragments) ∧
    (∀ fragments, generated = some fragments →
      (generate_message env this message_id generated packets).2.2 = packets ++ fragments) := by
  unfold generate_message
  cases generated with
  | none =>
    refine ⟨⟨fun h => (by cases h), fun h => ?_⟩, fun fragments h => (by cases h)⟩
    obtain ⟨f, hf⟩ := h
    cases hf
  | some fragments =>
    dsimp only
    split_ifs
    · exact ⟨⟨fun _ => ⟨fragments, rfl⟩, fun _ => rfl⟩, fun f h => by cases h; rfl⟩
    · exact ⟨⟨fun _ => ⟨fragments, rfl⟩, fun _ => rfl⟩, fun f h => by cases h; rfl⟩

theorem send_packets_window (env : env_t) (this : private_task_manager_t) (ps : List packet_t)
    (src dst : Option Nat) :
    same_window this (send_packets env this ps src dst).1 ∧
    (send_packets env this ps src dst).1.responding_packets = this.responding_packets ∧
    (send_packets env this ps src dst).1.passive_tasks = this.passive_tasks := by
  rw [send_packets_this]
  exact ⟨⟨rfl, rfl, rfl⟩, rfl, rfl⟩

/-- The build pass of `build_response` leaves the header of the response alone. -/
theorem response_build_pass_message (this : private_task_manager_t) (tasks : List task_t) :
    ∀ (message : message_t) (mid_sync : Bool),
      (response_build_pass this tasks message mid_sync).message.message_id =
        message.message_id ∧
      (response_build_pass this tasks message mid_sync).message.request = message.request := by
  have hb : ∀ (task : task_t) (message : message_t),
      (built_by task message).message_id = message.message_id ∧
      (built_by task message).request = message.request := by
    intro task message
    unfold built_by
    split <;> exact ⟨rfl, rfl⟩
  induction tasks with
  | nil => intro message mid_sync; exact ⟨rfl, rfl⟩
  | cons task rest ih =>
    intro message mid_sync
    unfold response_build_pass
    dsimp only
    cases task.build <;> dsimp only <;>
      first
        | exact ⟨(ih _ _).1.trans (hb task message).1, (ih _ _).2.trans (hb task message).2⟩
        | exact hb task message

/-- The build pass of `build_response` when every task answers SUCCESS or
NEED_MORE to `build`: no deletion is asked for, and the MID-sync flag is set
exactly when a MID-sync task is among the tasks. -/
theorem response_build_pass_clean (this : private_task_manager_t) (tasks : List task_t)
    (hbuild : ∀ task ∈ tasks,
      task.build = status_t.SUCCESS ∨ task.build = status_t.NEED_MORE) :
    ∀ (message : message_t) (mid_sync : Bool),
      (response_build_pass this tasks message mid_sync).delete = false ∧
      (response_build_pass this tasks message mid_sync).mid_sync =
        (mid_sync || tasks.any (fun task => task.type == task_type_t.TASK_IKE_MID_SYNC)) ∧
      (∀ task ∈ (response_build_pass this tasks message mid_sync).tasks, task ∈ tasks) := by
  induction tasks with
  | nil =>
    intro message mid_sync
    refine ⟨rfl, ?_, fun task h => by cases h⟩
    simp [response_build_pass]
  | cons task rest ih =>
    intro message mid_sync
    have ih' := ih (fun t ht => hbuild t (List.mem_cons_of_mem _ ht)) (built_by task message)
      (mid_sync || task.type == task_type_t.TASK_IKE_MID_SYNC)
    obtain ⟨k1, k2, k3⟩ := ih'
    unfold response_build_pass
    dsimp only
    rcases hbuild task (List.mem_cons_self _ _) with hb | hb
    · rw [hb]
      dsimp only
      refine ⟨k1, ?_, fun t ht => List.mem_cons_of_mem _ (k3 t ht)⟩
      rw [k2, List.any_cons, Bool.or_assoc]
    · rw [hb]
      dsimp only
      refine ⟨k1, ?_, ?_⟩
      · rw [k2, List.any_cons, Bool.or_assoc]
      · intro t ht
        split_ifs at ht
        · exact List.mem_cons_of_mem _ (k3 t ht)
        · rcases List.mem_cons.mp ht with ht | ht
          · rw [ht]; exact List.mem_cons_self _ _
          · exact List.mem_cons_of_mem _ (k3 t ht)

theorem flush_queue_window (this : private_task_manager_t) (queue : task_queue_t) :
    same_window this (flush_queue this queue).1 ∧
    (flush_queue this queue).1.responding_packets = this.responding_packets := by
  unfold flush_queue
  cases queue <;> exact ⟨⟨rfl, rfl, rfl⟩, rfl⟩

/-- The process pass over passive tasks none of which has the manager reset. -/
theorem request_process_pass_window (env : env_t) (rest : List task_t) :
    ∀ (this : private_task_manager_t) (eff : effects_t),
      (∀ task ∈ rest, task.process_reset = none) →
      same_window this (request_process_pass env this rest eff).this ∧
      (∀ task ∈ (request_process_pass env this rest eff).this.passive_tasks,
        task ∈ this.passive_tasks ∨ task ∈ rest) := by
  induction rest with
  | nil =>
    intro this eff _
    exact ⟨same_window_refl _, fun task ht => Or.inl ht⟩
  | cons task rest ih =>
    intro this eff h
    have ht := h task (List.mem_cons_self _ _)
    have hr := fun t htt => h t (List.mem_cons_of_mem task htt)
    have hp : process_resets env this task = (this, {}) := by
      unfold process_resets
      rw [ht]
    unfold request_process_pass
    dsimp only
    rw [hp]
    dsimp only
    cases task.process <;> dsimp only <;>
      first
        | (obtain ⟨k1, k2⟩ := ih this _ hr
           refine ⟨k1, ?_⟩
           intro t htt
           rcases k2 t htt with k | k
           · exact Or.inl k
           · exact Or.inr (List.mem_cons_of_mem _ k))
        | (obtain ⟨k1, k2⟩ := ih { this with passive_tasks := this.passive_tasks ++ [task] } _ hr
           refine ⟨same_window_trans ⟨rfl, rfl, rfl⟩ k1, ?_⟩
           intro t htt
           rcases k2 t htt with k | k
           · rcases List.mem_append.mp k with k | k
             · exact Or.inl k
             · rw [List.mem_singleton] at k
               rw [k]
               exact Or.inr (List.mem_cons_self _ _)
           · exact Or.inr (List.mem_cons_of_mem _ k))
        | (refine ⟨⟨rfl, rfl, rfl⟩, ?_⟩
           intro t htt
           rcases List.mem_append.mp htt with k | k
           · exact Or.inl k
           · exact Or.inr (List.mem_cons_of_mem _ k))

theorem request_process_pass_no_restart (env : env_t) (rest : List task_t) :
    ∀ (this : private_task_manager_t) (eff : effects_t)
      (this1 : private_task_manager_t) (eff1 : effects_t),
      request_process_pass env this rest eff ≠ step_t.restarts this1 eff1 := by
  induction rest with
  | nil =>
    intro this eff this1 eff1 h
    unfold request_process_pass at h
    cases h
  | cons task rest ih =>
    intro this eff this1 eff1 h
    unfold request_process_pass at h
    dsimp only at h
    cases hp : task.process <;> simp only [hp] at h <;>
      first
        | exact ih _ _ _ _ h
        | cases h

theorem post_process_pass_sub (tasks : List task_t) :
    ∀ task ∈ (post_process_pass tasks).2.1, task ∈ tasks := by
  induction tasks with
  | nil => intro task h; cases h
  | cons t rest ih =>
    intro task h
    unfold post_process_pass at h
    cases hp : t.post_process with
    | none =>
      simp only [hp] at h
      rcases List.mem_cons.mp h with h | h
      · rw [h]; exact List.mem_cons_self _ _
      · exact List.mem_cons_of_mem _ (ih task h)
    | some status =>
      cases status <;> simp only [hp] at h <;>
        first
          | exact List.mem_cons_of_mem _ (ih task h)
          | exact List.mem_cons_of_mem _ h
          | (rcases List.mem_cons.mp h with h | h
             · rw [h]; exact List.mem_cons_self _ _
             · exact List.mem_cons_of_mem _ (ih task h))

theorem post_build_pass_ok (tasks : List task_t)
    (h : ∀ task ∈ tasks, task.post_build = none ∨ task.post_build = some status_t.SUCCESS ∨
      task.post_build = some status_t.NEED_MORE) :
    (post_build_pass tasks).1 = true := by
  induction tasks with
  | nil => rfl
  | cons t rest ih =>
    have ih' := ih (fun task ht => h task (List.mem_cons_of_mem _ ht))
    unfold post_build_pass
    dsimp only
    rcases h t (List.mem_cons_self _ _) with k | k | k <;> rw [k] <;> exact ih'

/-- The window of the responder after `build_response`. -/
theorem build_response_window (env : env_t) (this : private_task_manager_t)
    (request : message_t) : same_window this (build_response env this request).this := by
  unfold build_response
  dsimp only
  have hg := generate_message_window env
  have hs := send_packets_window env
  split_ifs <;>
    first
      | exact ⟨(hg _ _ _ _).1.1, (hg _ _ _ _).1.2.1, (hg _ _ _ _).1.2.2⟩
      | exact ⟨((hs _ _ _ _).1.1).trans (hg _ _ _ _).1.1,
          ((hs _ _ _ _).1.2.1).trans (hg _ _ _ _).1.2.1,
          ((hs _ _ _ _).1.2.2).trans (hg _ _ _ _).1.2.2⟩

theorem clone_packet_none (packet : packet_t) : clone_packet none none packet = packet := by
  cases packet
  rfl

theorem add_notify_header (message : message_t) (type : notify_type_t) (data : List Nat) :
    (add_notify message type data).message_id = message.message_id ∧
    (add_notify message type data).request = message.request := ⟨rfl, rfl⟩

/-- The window of the responder after the passes of `process_request`, when no
passive task has the manager reset. -/
theorem request_passes_window (env : env_t) (this : private_task_manager_t)
    (message : message_t)
    (hreset : ∀ task ∈ this.passive_tasks, task.process_reset = none) :
    same_window this (request_passes env this message).this := by
  have hp := (request_process_pass_window env this.passive_tasks
    { this with passive_tasks := [] } { hooks := (pre_process_pass this.passive_tasks).2 }
    hreset).1
  have hp1 : same_window this (request_process_pass env { this with passive_tasks := [] }
      this.passive_tasks { hooks := (pre_process_pass this.passive_tasks).2 }).this :=
    same_window_trans ⟨rfl, rfl, rfl⟩ hp
  unfold request_passes
  dsimp only
  split
  · exact same_window_refl _
  · split
    · exact same_window_refl _
    · exact same_window_refl _
    · exact (flush_queue_window this _).1
  · split
    · rename_i heq
      rw [heq] at hp1
      exact hp1
    · rename_i heq
      rw [heq] at hp1
      exact hp1
    · rename_i heq
      rw [heq] at hp1
      split_ifs
      · exact same_window_trans hp1 ⟨rfl, rfl, rfl⟩
      · rw [result_after_this]
        exact same_window_trans (same_window_trans hp1 ⟨rfl, rfl, rfl⟩)
          (build_response_window env _ message)

theorem latch_peer_support_window (this : private_task_manager_t) (message : message_t) :
    same_window this (latch_peer_support this message) ∧
    (latch_peer_support this message).passive_tasks = this.passive_tasks := by
  unfold latch_peer_support
  split_ifs <;> exact ⟨⟨rfl, rfl, rfl⟩, rfl⟩

/-- The tasks `process_request` works on have the manager reset no more than
those of the passive list and those the task constructors make. -/
theorem spawned_no_reset (e : Endian) (env : env_t) (this this2 : private_task_manager_t)
    (message : message_t)
    (hcreate : ∀ type, (env.task_create type).process_reset = none)
    (hpassive : ∀ task ∈ this.passive_tasks, task.process_reset = none)
    (hs : spawn_tasks e env (latch_peer_support this message) message = some this2) :
    ∀ task ∈ this2.passive_tasks, task.process_reset = none := by
  intro task ht
  rcases (spawn_tasks_window e env _ message this2 hs).2 task ht with k | ⟨type, k⟩
  · rw [(latch_peer_support_window this message).2] at k
    exact hpassive task k
  · rw [k]
    exact hcreate type

/-- The window of the responder after `process_request`, when no task has the
manager reset. -/
theorem process_request_window (e : Endian) (env : env_t) (this : private_task_manager_t)
    (message : message_t)
    (hcreate : ∀ type, (env.task_create type).process_reset = none)
    (hpassive : ∀ task ∈ this.passive_tasks, task.process_reset = none) :
    same_window this (process_request e env this message).this := by
  unfold process_request
  cases hs : spawn_tasks e env (latch_peer_support this message) message with
  | none => exact (latch_peer_support_window this message).1
  | some this2 =>
    exact same_window_trans
      (same_window_trans (latch_peer_support_window this message).1
        (spawn_tasks_window e env _ message this2 hs).1)
      (request_passes_window env this2 message
        (spawned_no_reset e env this this2 message hcreate hpassive hs))

/-- The two hash buffers after `process_request`, whatever the tasks do. -/
theorem request_process_pass_hashes (env : env_t) (rest : List task_t) :
    ∀ (this : private_task_manager_t) (eff : effects_t),
      (request_process_pass env this rest eff).this.responding_prev_hash =
        this.responding_prev_hash ∧
      (request_process_pass env this rest eff).this.responding_hash = this.responding_hash := by
  have hp : ∀ (this : private_task_manager_t) (task : task_t),
      (process_resets env this task).1.responding_prev_hash = this.responding_prev_hash ∧
      (process_resets env this task).1.responding_hash = this.responding_hash := by
    intro this task
    unfold process_resets
    cases task.process_reset with
    | none => exact ⟨rfl, rfl⟩
    | some args => exact ⟨rfl, rfl⟩
  induction rest with
  | nil => intro this eff; exact ⟨rfl, rfl⟩
  | cons task rest ih =>
    intro this eff
    unfold request_process_pass
    dsimp only
    cases task.process <;> dsimp only <;>
      first
        | exact ⟨(ih _ _).1.trans (hp this task).1, (ih _ _).2.trans (hp this task).2⟩
        | exact hp this task

theorem request_passes_hashes (env : env_t) (this : private_task_manager_t)
    (message : message_t) :
    (request_passes env this message).this.responding_prev_hash = this.responding_prev_hash ∧
    (request_passes env this message).this.responding_hash = this.responding_hash := by
  have hp := request_process_pass_hashes env this.passive_tasks
    { this with passive_tasks := [] } { hooks := (pre_process_pass this.passive_tasks).2 }
  have hp1 : (request_process_pass env { this with passive_tasks := [] }
        this.passive_tasks
        { hooks := (pre_process_pass this.passive_tasks).2 }).this.responding_prev_hash =
        this.responding_prev_hash ∧
      (request_process_pass env { this with passive_tasks := [] }
        this.passive_tasks
        { hooks := (pre_process_pass this.passive_tasks).2 }).this.responding_hash =
        this.responding_hash := hp
  unfold request_passes
  dsimp only
  split
  · exact ⟨rfl, rfl⟩
  · split
    · exact ⟨rfl, rfl⟩
    · exact ⟨rfl, rfl⟩
    · exact ⟨(flush_queue_window this _).1.2.1, (flush_queue_window this _).1.2.2⟩
  · split
    · rename_i heq
      rw [heq] at hp1
      exact hp1
    · rename_i heq
      rw [heq] at hp1
      exact hp1
    · rename_i heq
      rw [heq] at hp1
      split_ifs
      · exact hp1
      · rw [result_after_this]
        have hb := build_response_window env
        exact ⟨(hb _ message).2.1.trans hp1.1, (hb _ message).2.2.trans hp1.2⟩

theorem process_request_hashes (e : Endian) (env : env_t) (this : private_task_manager_t)
    (message : message_t) :
    (process_request e env this message).this.responding_prev_hash =
      this.responding_prev_hash ∧
    (process_request e env this message).this.responding_hash = this.responding_hash := by
  unfold process_request
  have h1 := (latch_peer_support_window this message).1
  cases hs : spawn_tasks e env (latch_peer_support this message) message with
  | none => exact ⟨h1.2.1, h1.2.2⟩
  | some this2 =>
    have h2 := (spawn_tasks_window e env _ message this2 hs).1
    have h3 := request_passes_hashes env this2 message
    exact ⟨h3.1.trans (h2.2.1.trans h1.2.1), h3.2.trans (h2.2.2.trans h1.2.2)⟩

/-- The result of `process_message` for a request that passed its first part, is
not rejected and is no fragment. -/
theorem process_message_accepted (fuel : Nat) (e : Endian) (env : env_t)
    (this : private_task_manager_t) (msg : message_t) (msg_defrag : Option defrag_slot_t)
    (this1 : private_task_manager_t) (eff0 : effects_t)
    (hreq : msg.request = true)
    (hrecv : receive_message e env this msg = step_t.goes_on this1 eff0)
    (hcfg : env.has_ike_cfg = true ∨ env.backends_get_ike_cfg = true)
    (hrej : reject_request env this1 msg = false)
    (hfrag : get_fragment msg = none)
    (hbus : (env.bus_message msg).exchange_type ≠ exchange_type_t.EXCHANGE_TYPE_UNDEFINED) :
    this1 = { this with passive_tasks := (derive_keys this.passive_tasks).2.1 } ∧
    process_message (fuel + 1) e env this msg msg_defrag =
      some (((conclude_request env
        (process_request e env (accepted_state env this msg msg_defrag) (env.bus_message msg))
        (!env.has_ike_cfg)).after {}).after eff0) := by
  obtain ⟨k1, _⟩ := receive_request_goes_on e env this msg this1 eff0 hreq hrecv
  refine ⟨k1, ?_⟩
  rw [process_message_request fuel e env this msg msg_defrag this1 eff0 hreq hrecv hcfg,
    handle_request_accepted _ e env this1 msg msg_defrag _ hrej hfrag hbus]
  subst k1
  rfl

theorem accepted_state_window (env : env_t) (this : private_task_manager_t) (msg : message_t)
    (msg_defrag : Option defrag_slot_t) :
    (accepted_state env this msg msg_defrag).responding_mid = this.responding_mid ∧
    (accepted_state env this msg msg_defrag).responding_prev_hash = this.responding_prev_hash ∧
    (∀ task ∈ (accepted_state env this msg msg_defrag).passive_tasks,
      task ∈ this.passive_tasks) ∧
    (msg_defrag = none → ∀ hash, hash_message env msg = some hash →
      (accepted_state env this msg msg_defrag).responding_hash = hash) := by
  unfold accepted_state
  by_cases h : msg_defrag ≠ some defrag_slot_t.responding
  · rw [if_pos h]
    obtain ⟨k1, k2, _, k4, k5⟩ := store_hash_window env
      { this with passive_tasks := (derive_keys this.passive_tasks).2.1 } msg
    refine ⟨k1, k2, ?_, fun _ => k5⟩
    intro task ht
    rw [k4] at ht
    exact derive_keys_sub _ task ht
  · rw [if_neg h]
    refine ⟨rfl, rfl, fun task ht => derive_keys_sub _ task ht, ?_⟩
    intro hn
    rw [hn] at h
    exact absurd (by intro k; cases k) h

/-- Claim C22.  For every state of the IKE_SA and every request, `reject_request`
returns TRUE for an IKE_SA_INIT request unless the state is IKE_CREATED, for an
IKE_AUTH request unless the state is IKE_CONNECTING, and for an
IKE_INTERMEDIATE request unless the state is IKE_CONNECTING and `has_queued`
finds an IKE_INIT task in the passive queue.  A request that `reject_request`
rejects (it passed the first part of `process_message`, so it was parsed with
SUCCESS, and a configuration is at hand) gets no response: `process_message`
returns FAILED, generates and sends nothing and leaves `responding.mid`, the
cached response and `responding.prev_hash` unchanged. -/
theorem initial_exchange_rejection (env : env_t) (msg : message_t) :
    (∀ this : private_task_manager_t,
      (msg.exchange_type = exchange_type_t.IKE_SA_INIT →
        env.state ≠ ike_sa_state_t.IKE_CREATED → reject_request env this msg = true) ∧
      (msg.exchange_type = exchange_type_t.IKE_AUTH →
        env.state ≠ ike_sa_state_t.IKE_CONNECTING → reject_request env this msg = true) ∧
      (msg.exchange_type = exchange_type_t.IKE_INTERMEDIATE →
        ¬ (env.state = ike_sa_state_t.IKE_CONNECTING ∧
          has_queued this task_queue_t.TASK_QUEUE_PASSIVE task_type_t.TASK_IKE_INIT = true) →
        reject_request env this msg = true)) ∧
    (∀ (fuel : Nat) (e : Endian) (this this1 : private_task_manager_t) (eff0 : effects_t)
        (msg_defrag : Option defrag_slot_t),
      msg.request = true →
      receive_message e env this msg = step_t.goes_on this1 eff0 →
      (env.has_ike_cfg = true ∨ env.backends_get_ike_cfg = true) →
      reject_request env this1 msg = true →
      ∃ r, process_message (fuel + 1) e env this msg msg_defrag = some r ∧
        r.status = status_t.FAILED ∧
        r.effects.sent = [] ∧
        r.effects.generated = [] ∧
        r.this.responding_mid = this.responding_mid ∧
        r.this.responding_packets = this.responding_packets ∧
        r.this.responding_prev_hash = this.responding_prev_hash) := by
  constructor
  · intro this
    refine ⟨?_, ?_, ?_⟩
    · intro hx hs
      unfold reject_request
      simp [hx, hs]
    · intro hx hs
      unfold reject_request
      simp [hx, hs]
    · intro hx hs
      unfold reject_request
      simp only [hx]
      by_cases h1 : env.state = ike_sa_state_t.IKE_CONNECTING
      · have h2 : has_queued this task_queue_t.TASK_QUEUE_PASSIVE
            task_type_t.TASK_IKE_INIT = false := by
          cases hq : has_queued this task_queue_t.TASK_QUEUE_PASSIVE task_type_t.TASK_IKE_INIT
          · rfl
          · exact absurd ⟨h1, hq⟩ hs
        simp [h1, h2]
      · simp [h1]
  · intro fuel e this this1 eff0 msg_defrag hreq hrecv hcfg hrej
    obtain ⟨k1, k2⟩ := receive_request_goes_on e env this msg this1 eff0 hreq hrecv
    refine ⟨({ status := status_t.FAILED, this := this1 } : result_t).after eff0, ?_, rfl, ?_, ?_,
      ?_, ?_, ?_⟩
    · rw [process_message_request fuel e env this msg msg_defrag this1 eff0 hreq hrecv hcfg]
      unfold handle_request
      rw [hrej]
      rfl
    · rw [k2]; rfl
    · rw [k2]; rfl
    · rw [k1]; rfl
    · rw [k1]; rfl
    · rw [k1]; rfl

/-- Witness of `initial_exchange_rejection`: an IKE_AUTH request with the
expected message ID 5 arrives on an established IKE_SA; it is rejected, nothing
is sent and request 5 is still expected. -/
theorem initial_exchange_rejection_witness :
    reject_request {} responder_at_5 auth_request_5 = true ∧
    ∃ r, process_message 1 Endian.big {} responder_at_5 auth_request_5 none = some r ∧
      r.status = status_t.FAILED ∧
      r.effects.sent = [] ∧
      r.effects.generated = [] ∧
      r.this.responding_mid = responder_at_5.responding_mid ∧
      r.this.responding_packets = responder_at_5.responding_packets ∧
      r.this.responding_prev_hash = responder_at_5.responding_prev_hash :=
  ⟨((initial_exchange_rejection {} auth_request_5).1 responder_at_5).2.1 rfl (by decide),
   (initial_exchange_rejection {} auth_request_5).2 0 Endian.big responder_at_5 responder_at_5
     {} none rfl rfl (Or.inl rfl) rfl⟩

/-- The MID-sync case of `build_response`. -/
theorem build_response_mid_sync (env : env_t) (this : private_task_manager_t)
    (request : message_t)
    (hms : ∃ task ∈ this.passive_tasks, task.type = task_type_t.TASK_IKE_MID_SYNC)
    (hbuild : ∀ task ∈ this.passive_tasks,
      task.build = status_t.SUCCESS ∨ task.build = status_t.NEED_MORE)
    (hpost : ∀ task ∈ this.passive_tasks,
      task.post_build = none ∨ task.post_build = some status_t.SUCCESS ∨
        task.post_build = some status_t.NEED_MORE)
    (hgen : ∀ response, ∃ fragments, env.generate_message_fragmented response = some fragments)
    (hloss : 0 < this.initiating_retransmitted ∨ env.simulate_first_fragment_loss = false) :
    (build_response env this request).status = status_t.NEED_MORE ∧
    (build_response env this request).this.responding_packets = [] ∧
    ∃ response fragments,
      (build_response env this request).effects.generated = [response] ∧
      response.request = false ∧
      response.message_id = this.responding_mid ∧
      env.generate_message_fragmented response = some fragments ∧
      (build_response env this request).effects.sent = fragments := by
  have hm := response_build_pass_message this this.passive_tasks (response_message this request)
    false
  obtain ⟨hdel, hmsync, hsub⟩ := response_build_pass_clean this this.passive_tasks hbuild
    (response_message this request) false
  have hany : this.passive_tasks.any
      (fun task => task.type == task_type_t.TASK_IKE_MID_SYNC) = true := by
    rw [List.any_eq_true]
    obtain ⟨task, ht, htype⟩ := hms
    exact ⟨task, ht, by rw [htype]; rfl⟩
  rw [hany] at hmsync
  unfold build_response
  dsimp only
  generalize response_build_pass this this.passive_tasks (response_message this request) false
    = b at hm hdel hmsync hsub ⊢
  generalize hmsg : (if this.selective_retransmission_enabled = true ∧
      request.exchange_type = exchange_type_t.IKE_SA_INIT then
      add_notify b.message notify_type_t.SELECTIVE_FRAGMENT_RETRANSMISSION_SUPPORTED []
    else b.message) = message
  have hmm : message.message_id = this.responding_mid ∧ message.request = false := by
    rw [← hmsg]
    split_ifs
    · exact ⟨hm.1, hm.2⟩
    · exact ⟨hm.1, hm.2⟩
  obtain ⟨fragments, hf⟩ := hgen message
  rw [hf]
  have hg1 := ((generate_message_result env { this with passive_tasks := b.tasks }
    message.message_id (some fragments) (clear_packets this.responding_packets)).1).mpr
    ⟨fragments, rfl⟩
  have hg2 := (generate_message_result env { this with passive_tasks := b.tasks }
    message.message_id (some fragments) (clear_packets this.responding_packets)).2
    fragments rfl
  have hg3 := generate_message_window env { this with passive_tasks := b.tasks }
    message.message_id (some fragments) (clear_packets this.responding_packets)
  have hpb : (post_build_pass b.tasks).1 = true :=
    post_build_pass_ok b.tasks (fun task ht => hpost task (hsub task ht))
  have hmsync' : b.mid_sync = true := by rw [hmsync]; rfl
  rw [hg3.2.1] 
  simp only [hg1, hdel, hmsync', hpb, and_self, if_true, Bool.true_eq_false, if_false,
    Bool.false_eq_true]
  refine ⟨trivial, rfl, message, fragments, ?_, hmm.2, hmm.1, hf, ?_⟩
  · simp [effects_t.append]
  · simp only [effects_t.append, List.nil_append]
    rw [send_packets_sent, send_loop_no_loss _ _ _ _ _ _ (Or.imp (fun h => (by have h3 := hg3.2.2; dsimp only at h3 ⊢; omega)) id hloss)]
    simp only [hg2]
    have hid : clone_packet none none = id := funext clone_packet_none
    simp [clear_packets, hid]


/-- Claim C25 (as amended).  Whenever the passive task list `build_response`
works on holds a TASK_IKE_MID_SYNC task, no task asks for the deletion of the
IKE_SA (every `build` answers SUCCESS or NEED_MORE), the response can be
generated and no `post_build` hook fails, `build_response` returns NEED_MORE
with the cached response packets cleared, after generating one response with
the message ID `responding.mid` and sending its fragments (all of them when the
simulation of a lost first fragment does not apply).  And whenever
`process_request` returns NEED_MORE for a request that passed the first part of
`process_message`, `process_message` returns SUCCESS with the manager as
`process_request` left it: `responding.prev_hash` is unchanged, and
`responding.mid` is unchanged when no task had the manager reset. -/
theorem mid_sync_keeps_window (env : env_t) :
    (∀ (this : private_task_manager_t) (request : message_t),
      (∃ task ∈ this.passive_tasks, task.type = task_type_t.TASK_IKE_MID_SYNC) →
      (∀ task ∈ this.passive_tasks,
        task.build = status_t.SUCCESS ∨ task.build = status_t.NEED_MORE) →
      (∀ task ∈ this.passive_tasks,
        task.post_build = none ∨ task.post_build = some status_t.SUCCESS ∨
          task.post_build = some status_t.NEED_MORE) →
      (∀ response, ∃ fragments, env.generate_message_fragmented response = some fragments) →
      (0 < this.initiating_retransmitted ∨ env.simulate_first_fragment_loss = false) →
      (build_response env this request).status = status_t.NEED_MORE ∧
      (build_response env this request).this.responding_packets = [] ∧
      ∃ response fragments,
        (build_response env this request).effects.generated = [response] ∧
        response.request = false ∧
        response.message_id = this.responding_mid ∧
        env.generate_message_fragmented response = some fragments ∧
        (build_response env this request).effects.sent = fragments) ∧
    (∀ (fuel : Nat) (e : Endian) (this this1 : private_task_manager_t) (eff0 : effects_t)
        (msg : message_t) (msg_defrag : Option defrag_slot_t),
      msg.request = true →
      receive_message e env this msg = step_t.goes_on this1 eff0 →
      (env.has_ike_cfg = true ∨ env.backends_get_ike_cfg = true) →
      reject_request env this1 msg = false →
      get_fragment msg = none →
      (env.bus_message msg).exchange_type ≠ exchange_type_t.EXCHANGE_TYPE_UNDEFINED →
      (process_request e env (accepted_state env this msg msg_defrag)
        (env.bus_message msg)).status = status_t.NEED_MORE →
      ∃ r, process_message (fuel + 1) e env this msg msg_defrag = some r ∧
        r.status = status_t.SUCCESS ∧
        r.this = (process_request e env (accepted_state env this msg msg_defrag)
          (env.bus_message msg)).this ∧
        r.this.responding_prev_hash = this.responding_prev_hash ∧
        ((∀ type, (env.task_create type).process_reset = none) →
          (∀ task ∈ this.passive_tasks, task.process_reset = none) →
          r.this.responding_mid = this.responding_mid)) := by
  constructor
  · intro this request hms hbuild hpost hgen hloss
    exact build_response_mid_sync env this request hms hbuild hpost hgen hloss
  · intro fuel e this this1 eff0 msg msg_defrag hreq hrecv hcfg hrej hfrag hbus hmore
    obtain ⟨_, hpm⟩ := process_message_accepted fuel e env this msg msg_defrag this1 eff0 hreq
      hrecv hcfg hrej hfrag hbus
    obtain ⟨a1, a2, a3, _⟩ := accepted_state_window env this msg msg_defrag
    have hh := process_request_hashes e env (accepted_state env this msg msg_defrag)
      (env.bus_message msg)
    have hc : conclude_request env
        (process_request e env (accepted_state env this msg msg_defrag) (env.bus_message msg))
        (!env.has_ike_cfg) =
        { status := status_t.SUCCESS
          this := (process_request e env (accepted_state env this msg msg_defrag)
            (env.bus_message msg)).this
          effects := (process_request e env (accepted_state env this msg msg_defrag)
            (env.bus_message msg)).effects.append (delete_job env (!env.has_ike_cfg)) } := by
      unfold conclude_request
      rw [hmore]
    rw [hc] at hpm
    refine ⟨_, hpm, rfl, rfl, ?_, ?_⟩
    · show (process_request e env (accepted_state env this msg msg_defrag)
          (env.bus_message msg)).this.responding_prev_hash = _
      rw [hh.1, a2]
    · intro hcreate hpassive
      have hw := process_request_window e env (accepted_state env this msg msg_defrag)
        (env.bus_message msg) hcreate (fun task ht => hpassive task (a3 task ht))
      show (process_request e env (accepted_state env this msg msg_defrag)
          (env.bus_message msg)).this.responding_mid = _
      rw [hw.1, a1]

set_option maxRecDepth 100000 in
/-- Witness of `mid_sync_keeps_window`: a request with message ID 0 that carries
an IKEV2_MESSAGE_ID_SYNC notify reaches a responder that expects request 5; the
response is sent, and request 5 is still expected with the hash of request 4
kept. -/
theorem mid_sync_keeps_window_witness :
    ((build_response {} mid_sync_passive mid_sync_request).status = status_t.NEED_MORE ∧
      (build_response {} mid_sync_passive mid_sync_request).this.responding_packets = []) ∧
    ∃ r, process_message 1 Endian.big mid_sync_env responder_at_5 mid_sync_request none =
        some r ∧
      r.status = status_t.SUCCESS ∧
      r.this.responding_prev_hash = [4, 4, 4] ∧
      r.this.responding_mid = 5 := by
  have h1 := (mid_sync_keeps_window {}).1 mid_sync_passive mid_sync_request
    ⟨mid_sync_task, List.mem_singleton.mpr rfl, rfl⟩
    (fun task ht => by rw [List.mem_singleton.mp ht]; exact Or.inl rfl)
    (fun task ht => by rw [List.mem_singleton.mp ht]; exact Or.inl rfl)
    (fun response => ⟨_, rfl⟩) (Or.inr rfl)
  obtain ⟨r, h2, h3, _, h5, h6⟩ := (mid_sync_keeps_window mid_sync_env).2 0 Endian.big
    responder_at_5 responder_at_5 {} mid_sync_request none rfl rfl (Or.inl rfl) rfl rfl
    (by decide) rfl
  exact ⟨⟨h1.1, h1.2.1⟩, r, h2, h3, h5, h6 (fun _ => rfl) (fun task ht => by cases ht)⟩

/-- Counterexample to C25 as stated: with a TASK_IKE_MID_SYNC task in the passive
list and no task asking for deletion, `build_response` returns DESTROY_ME, not
NEED_MORE, and sends nothing when the response cannot be generated (lines
1586-1621). -/
theorem mid_sync_keeps_window_counterexample :
    mid_sync_task ∈ mid_sync_passive.passive_tasks ∧
    mid_sync_task.type = task_type_t.TASK_IKE_MID_SYNC ∧
    (∀ task ∈ mid_sync_passive.passive_tasks, task.build = status_t.SUCCESS) ∧
    (build_response no_generation mid_sync_passive mid_sync_request).status =
      status_t.DESTROY_ME ∧
    (build_response no_generation mid_sync_passive mid_sync_request).status ≠
      status_t.NEED_MORE ∧
    (build_response no_generation mid_sync_passive mid_sync_request).effects.sent = [] := by
  refine ⟨List.mem_singleton.mpr rfl, rfl, ?_, rfl, by decide, rfl⟩
  intro task ht
  rw [List.mem_singleton.mp ht]
  rfl

set_option maxRecDepth 100000 in
/-- Claim C31, divergence.  Request 1 was sent in three fragments; its response
is handled by `process_response`, which advances `initiating.mid` to 2 and sends
the next request, but leaves the tracker of message 1 in place.  The
acknowledgment for message 1 that arrives afterwards is applied to it: the
three fragments are marked, `acked_fragments` goes from 0 to 3, `last_ack_time`
is set, and the reference to the retransmit job of message 2 is cleared. -/
theorem late_ack_updates_stale_tracker :
    dpd_waiting.initiating_mid = 1 ∧
    (process_response 3 {} dpd_waiting response_1).map (fun r => r.status) =
      some status_t.SUCCESS ∧
    after_response_1.initiating_mid = 2 ∧
    tracker_summary after_response_1 = some (1, 0, 3, 0, [false, false, false]) ∧
    after_response_1.current_retransmit_job =
      some { message_id := 2, kind := job_kind_t.retransmit_job } ∧
    tracker_summary (process_fragment_ack Endian.big { now := 7 } after_response_1
      (ack_of_received 1 [1, 2, 3])) = some (1, 3, 3, 7, [true, true, true]) ∧
    (process_fragment_ack Endian.big { now := 7 } after_response_1
      (ack_of_received 1 [1, 2, 3])).current_retransmit_job = none ∧
    process_fragment_ack Endian.big { now := 7 } after_response_1
      (ack_of_received 1 [1, 2, 3]) ≠ after_response_1 := by
  refine ⟨rfl, rfl, rfl, rfl, rfl, rfl, rfl, ?_⟩
  intro h
  have h2 := congrArg (fun this => this.current_retransmit_job) h
  revert h2
  decide

theorem is_acked_in_current_eq (e : Endian) (a : fragment_ack_data_t) (id : Nat) :
    is_acked_in_current e a id = (decide (0 < id ∧ id ≤ 64) && ack_bit e a id) := by
  unfold is_acked_in_current ack_bit
  by_cases h : 0 < id ∧ id ≤ 64
  · rw [if_pos h]
    simp only [and_one_shiftLeft_ne_zero, h, and_self, decide_True, Bool.true_and]
  · rw [if_neg h]
    simp [h]

theorem ack_loop_congr (e : Endian) (a b : fragment_ack_data_t) (fs : List fragment_state_t)
    (h : ∀ f ∈ fs, is_acked_in_current e a f.fragment_id =
      is_acked_in_current e b f.fragment_id) :
    ∀ c, ack_loop e a fs c = ack_loop e b fs c := by
  induction fs with
  | nil => intro c; rfl
  | cons f rest ih =>
    intro c
    have hf := h f (List.mem_cons_self _ _)
    have hr := ih (fun g hg => h g (List.mem_cons_of_mem _ hg))
    unfold ack_loop
    rw [hf, hr, hr]

/-- Claim C32.  For every tracker and any two records whose bitmaps, as the host
reads them, agree on the bits of the fragment numbers 1..64 present in the
tracker, `update_fragment_ack_status` yields the same tracker: the same
fragment states with the same flags and the same `acked_fragments`, whatever
the fields `message_id`, `received_count` and `total_fragments` of the records
hold and whatever other bits are set. -/
theorem update_ignores_untrusted_fields (e : Endian) (now : Nat) (tracker : fragment_tracker_t)
    (a b : fragment_ack_data_t)
    (h : ∀ f ∈ tracker.fragments, 0 < f.fragment_id → f.fragment_id ≤ 64 →
      ack_bit e a f.fragment_id = ack_bit e b f.fragment_id) :
    update_fragment_ack_status e now tracker a = update_fragment_ack_status e now tracker b := by
  have hc := ack_loop_congr e a b tracker.fragments (by
    intro f hf
    rw [is_acked_in_current_eq, is_acked_in_current_eq]
    by_cases hid : 0 < f.fragment_id ∧ f.fragment_id ≤ 64
    · rw [h f hf hid.1 hid.2]
    · simp [hid]) tracker.acked_fragments
  unfold update_fragment_ack_status
  rw [hc]

/-- Witness of `update_ignores_untrusted_fields`: a tracker of three fragments
and two records that agree on the bits of the fragments 1 to 3 only. -/
theorem update_ignores_untrusted_fields_witness :
    ack_1_3 ≠ ack_1_3_noisy ∧
    update_fragment_ack_status Endian.big 7 (fresh_tracker 1 3) ack_1_3 =
      update_fragment_ack_status Endian.big 7 (fresh_tracker 1 3) ack_1_3_noisy ∧
    (update_fragment_ack_status Endian.big 7 (fresh_tracker 1 3) ack_1_3).acked_fragments = 2 :=
  ⟨by decide,
   update_ignores_untrusted_fields Endian.big 7 (fresh_tracker 1 3) ack_1_3 ack_1_3_noisy
     (by decide), by decide⟩

/-- Every record `send_immediate_fragment_ack` builds carries the message ID
truncated to 16 bits in network byte order, and a bitmap of eight 16 bit
words. -/
theorem build_fragment_ack_header (e : Endian) (malloc_ok : Bool) (defrag : defrag_t)
    (message_id fragment_number : Nat) (ack : fragment_ack_data_t)
    (h : build_fragment_ack e malloc_ok defrag message_id fragment_number =
      ack_build_t.built ack) :
    ack.message_id = htons e (u16 message_id) ∧ bitmap_ok ack.ack_bitmap := by
  unfold build_fragment_ack at h
  dsimp only at h
  split at h
  · split_ifs at h <;>
      first
      | (cases h; exact ⟨rfl, foldl_set_bitmap_bit_ok e _ _ bitmap_ok_zero⟩)
      | (cases h; exact ⟨rfl, set_bitmap_bit_ok e bitmap_ok_zero _⟩)
  · split_ifs at h <;>
      first
      | (cases h; exact ⟨rfl, foldl_set_bitmap_bit_ok e _ _ bitmap_ok_zero⟩)
      | (cases h; exact ⟨rfl, set_bitmap_bit_ok e bitmap_ok_zero _⟩)

/-- Reading the three header words of the chunk of a record gives the words as
sent. -/
theorem ack_of_chunk_header (e1 e2 : Endian) (a : fragment_ack_data_t) :
    (ack_of_chunk e2 (chunk_of_ack e1 a)).message_id = wire_word e1 e2 a.message_id ∧
    (ack_of_chunk e2 (chunk_of_ack e1 a)).total_fragments = wire_word e1 e2 a.total_fragments ∧
    (ack_of_chunk e2 (chunk_of_ack e1 a)).received_count =
      wire_word e1 e2 a.received_count := by
  obtain ⟨mid, tot, rc, bm⟩ := a
  simp only [ack_of_chunk, chunk_of_ack]
  rw [store_16_eq e1 mid, store_16_eq e1 tot, store_16_eq e1 rc]
  exact ⟨rfl, rfl, rfl⟩

theorem ntohs_htons_u16 (e : Endian) (x : Nat) : ntohs e (htons e (u16 x)) = u16 x :=
  htons_htons e (Nat.mod_lt _ (by norm_num))

/-- Claim C39.  For every message ID m, the record that
`send_immediate_fragment_ack` builds for m on a host of byte order `e1`, read on
a host of byte order `e2`, holds m mod 2^16.  `process_fragment_ack` applies it
to a tracker with the message ID m when m < 65536 (the tracker it leaves is the
one `update_fragment_ack_status` yields); for m ≥ 65536 the message IDs do not
match and the manager is left unchanged. -/
theorem ack_message_id_truncated (e1 e2 : Endian) (env : env_t) (malloc_ok : Bool)
    (me other : Option Nat) (defrag : defrag_t) (m fragment_number : Nat) (msg : message_t)
    (this : private_task_manager_t) (tracker : fragment_tracker_t)
    (hsend : send_immediate_fragment_ack e1 malloc_ok me other (some defrag) m fragment_number =
      some msg)
    (htracker : this.outgoing_tracker = some tracker)
    (hm : tracker.message_id = m) :
    ∃ notify, msg.get_notify notify_type_t.FRAGMENT_ACK = some notify ∧
      ntohs e2 (ack_of_chunk e2 notify.notification_data).message_id = m % 65536 ∧
      (m < 65536 →
        (process_fragment_ack e2 env this msg).outgoing_tracker =
          some (update_fragment_ack_status e2 env.now { tracker with last_ack_time := env.now }
            (ack_of_chunk e2 notify.notification_data))) ∧
      (65536 ≤ m → process_fragment_ack e2 env this msg = this) := by
  unfold send_immediate_fragment_ack at hsend
  dsimp only at hsend
  cases hb : build_fragment_ack e1 malloc_ok defrag m fragment_number with
  | no_return => rw [hb] at hsend; cases hsend
  | built ack =>
    rw [hb] at hsend
    simp only [Option.some.injEq] at hsend
    obtain ⟨hid, hok⟩ := build_fragment_ack_header e1 malloc_ok defrag m fragment_number ack hb
    have hnot : msg.get_notify notify_type_t.FRAGMENT_ACK =
        some { notify_type := notify_type_t.FRAGMENT_ACK, protocol_id := 0
               notification_data := chunk_of_ack e1 ack } := by
      rw [← hsend]
      simp [message_t.get_notify, fragment_ack_message]
    have hmid : ntohs e2 (ack_of_chunk e2 (chunk_of_ack e1 ack)).message_id = m % 65536 := by
      rw [(ack_of_chunk_header e1 e2 ack).1, hid, ntohs_wire_word e1 e2 (htons_lt e1 _),
        ntohs_htons_u16]
      rfl
    have hlen : ¬ (chunk_of_ack e1 ack).length < sizeof_fragment_ack_data_t := by
      rw [chunk_of_ack_length e1 ack hok.1]
      exact Nat.lt_irrefl _
    refine ⟨_, hnot, hmid, ?_, ?_⟩
    · intro hlt
      have heq : ¬ tracker.message_id ≠
          ntohs e2 (ack_of_chunk e2 (chunk_of_ack e1 ack)).message_id := by
        rw [hmid, hm, Nat.mod_eq_of_lt hlt]
        exact fun h => h rfl
      unfold process_fragment_ack
      rw [hnot]
      dsimp only
      rw [if_neg hlen, htracker]
      dsimp only
      rw [if_neg heq]
      split_ifs <;> rfl
    · intro hge
      have hne : tracker.message_id ≠
          ntohs e2 (ack_of_chunk e2 (chunk_of_ack e1 ack)).message_id := by
        rw [hmid, hm]
        have := Nat.mod_lt m (show 0 < 65536 by norm_num)
        omega
      unfold process_fragment_ack
      rw [hnot]
      dsimp only
      rw [if_neg hlen, htracker]
      dsimp only
      rw [if_pos hne]

set_option maxRecDepth 100000 in
/-- Witness of `ack_message_id_truncated`: the acknowledgment a little endian
peer builds for message 65537 carries the message ID 1 and is discarded by the
manager that tracks message 65537. -/
theorem ack_message_id_truncated_witness :
    ∃ notify, (ack_of_received 65537 [1, 2, 3]).get_notify notify_type_t.FRAGMENT_ACK =
        some notify ∧
      ntohs Endian.big (ack_of_chunk Endian.big notify.notification_data).message_id = 1 ∧
      process_fragment_ack Endian.big {} (three_fragments 65537)
        (ack_of_received 65537 [1, 2, 3]) = three_fragments 65537 := by
  obtain ⟨notify, h1, h2, _, h4⟩ := ack_message_id_truncated Endian.little Endian.big {} true
    (some 2) (some 1) { get_total_fragments := some 3, get_received_fragments := some [1, 2, 3] }
    65537 3 (ack_of_received 65537 [1, 2, 3]) (three_fragments 65537)
    ((three_fragments 65537).outgoing_tracker.getD {}) rfl rfl rfl
  exact ⟨notify, h1, h2, h4 (by decide)⟩

theorem set_bitmap_bit_high (e : Endian) (bm : List Nat) (f w : Nat) (hw : 4 ≤ w) :
    (set_bitmap_bit e bm f).getD w 0 = bm.getD w 0 := by
  unfold set_bitmap_bit
  split_ifs with h
  · have hne : (f - 1) / 16 ≠ w := by omega
    simp only [List.getD_eq_getElem?_getD, List.getElem?_set_ne hne]
  · rfl

theorem foldl_set_bitmap_bit_high (e : Endian) (l : List Nat) (w : Nat) (hw : 4 ≤ w) :
    ∀ bm : List Nat, (l.foldl (set_bitmap_bit e) bm).getD w 0 = bm.getD w 0 := by
  induction l with
  | nil => intro bm; rfl
  | cons f rest ih =>
    intro bm
    rw [List.foldl_cons, ih, set_bitmap_bit_high e bm f w hw]

/-- The bits of a bitmap filled by the statements of lines 4086-4093 from the
empty bitmap: the bit of a fragment number is set exactly when the number is in
the list and at most 64. -/
theorem ack_bit_foldl (e : Endian) (l : List Nat) (mid tot rc : Nat) (id : Nat) (hid : 1 ≤ id) :
    ack_bit e { message_id := mid, total_fragments := tot, received_count := rc
                ack_bitmap := l.foldl (set_bitmap_bit e) [0, 0, 0, 0, 0, 0, 0, 0] } id =
      (decide (id ∈ l) && decide (id ≤ 64)) := by
  by_cases h64 : id ≤ 64
  · have h1 := is_acked_foldl_set_bitmap_bit e l id
      { message_id := mid, total_fragments := tot, received_count := rc
        ack_bitmap := [0, 0, 0, 0, 0, 0, 0, 0] } bitmap_ok_zero
    rw [is_acked_in_current_eq, is_acked_zero e _ rfl] at h1
    have hd : decide (0 < id ∧ id ≤ 64) = true := by simp; omega
    rw [hd] at h1
    simp only [Bool.true_and, Bool.false_or, Bool.and_true] at h1
    rw [h1]
    simp [h64]
  · have hw : 4 ≤ (id - 1) / 16 := by omega
    unfold ack_bit
    dsimp only
    rw [foldl_set_bitmap_bit_high e l _ hw]
    have h0 : ([0, 0, 0, 0, 0, 0, 0, 0] : List Nat).getD ((id - 1) / 16) 0 = 0 := by
      rw [List.getD_eq_getElem?_getD]
      rcases Nat.lt_or_ge ((id - 1) / 16) 8 with h | h
      · interval_cases ((id - 1) / 16) <;> rfl
      · rw [List.getElem?_eq_none (by simpa using h)]
        rfl
    rw [h0]
    have : ntohs e 0 = 0 := by cases e <;> rfl
    rw [this]
    simp [h64]

/-- The record of a reassembled message: what lines 4013-4139 build when the
reassembler reports no received fragment. -/
theorem build_fragment_ack_reassembled (e : Endian) (malloc_ok : Bool) (defrag : defrag_t)
    (message_id fragment_number : Nat)
    (hrecv : (defrag.get_received_fragments.getD []).length = 0)
    (h1 : 1 ≤ reassembled_total defrag fragment_number)
    (h64 : reassembled_total defrag fragment_number ≤ 64) :
    ∃ l : List Nat,
      (∀ id, id ∈ l ↔ 1 ≤ id ∧ id ≤ reassembled_total defrag fragment_number) ∧
      build_fragment_ack e malloc_ok defrag message_id fragment_number =
        ack_build_t.built
          { message_id := htons e (u16 message_id)
            total_fragments := htons e (reassembled_total defrag fragment_number)
            received_count := htons e (reassembled_total defrag fragment_number)
            ack_bitmap := l.foldl (set_bitmap_bit e) [0, 0, 0, 0, 0, 0, 0, 0] } := by
  have hrc : u16 ((defrag.get_received_fragments.getD []).length) = 0 := by rw [hrecv]; rfl
  have hmap : ∀ n, n ≤ 64 → ∀ id, id ∈ (List.range n).map (fun i => u16 (i + 1)) ↔
      1 ≤ id ∧ id ≤ n := by
    intro n hn id
    rw [List.mem_map]
    constructor
    · rintro ⟨i, hi, rfl⟩
      rw [List.mem_range] at hi
      have : u16 (i + 1) = i + 1 := Nat.mod_eq_of_lt (by omega)
      rw [this]
      omega
    · rintro ⟨h1, h2⟩
      refine ⟨id - 1, List.mem_range.mpr (by omega), ?_⟩
      have : u16 (id - 1 + 1) = id - 1 + 1 := Nat.mod_eq_of_lt (by omega)
      rw [this]
      omega
  have hrange : ∀ n, ∀ id, id ∈ List.range' 1 n ↔ 1 ≤ id ∧ id ≤ n := by
    intro n id
    rw [List.mem_range'_1]
    omega
  have hlen : ∀ n, ((List.range n).map (fun i => u16 (i + 1))).take n =
      (List.range n).map (fun i => u16 (i + 1)) := by
    intro n
    apply List.take_of_length_le
    simp
  unfold reassembled_total at h1 h64 ⊢
  unfold build_fragment_ack
  dsimp only
  rw [hrc]
  by_cases h0 : u16 (defrag.get_total_fragments.getD 0) = 0
  · rw [if_pos h0] at h1 h64 ⊢
    rw [if_pos ⟨rfl, h0⟩]
    dsimp only
    cases malloc_ok
    · refine ⟨List.range' 1 (u16 fragment_number), hrange _, ?_⟩
      simp only [Bool.false_eq_true, if_false]
      rw [if_pos (Or.inl ⟨trivial, h1⟩), if_neg (by omega)]
    · refine ⟨(List.range (u16 fragment_number)).map (fun i => u16 (i + 1)), hmap _ h64, ?_⟩
      simp only [if_true]
      rw [if_pos (Nat.lt_of_lt_of_le Nat.zero_lt_one h1), hlen]
  · rw [if_neg h0] at h1 h64 ⊢
    rw [if_neg (fun h => h0 h.2), if_pos ⟨rfl, h1⟩]
    dsimp only
    cases malloc_ok
    · refine ⟨List.range' 1 (u16 (defrag.get_total_fragments.getD 0)), hrange _, ?_⟩
      simp only [Bool.false_eq_true, if_false]
      rw [if_pos (Or.inl ⟨trivial, h1⟩), if_neg (by omega)]
    · refine ⟨(List.range (u16 (defrag.get_total_fragments.getD 0))).map (fun i => u16 (i + 1)),
        hmap _ h64, ?_⟩
      simp only [if_true]
      rw [if_pos (Nat.lt_of_lt_of_le Nat.zero_lt_one h1), hlen]

/-- Claim C33 (as amended).  Whenever `send_immediate_fragment_ack` is called with a
reassembler that reports no received fragment, and T is the total the
reassembler reports, or the number of the fragment that arrived when it reports
no total, with 1 ≤ T ≤ 64: the record it emits has the bit of every fragment
number 1..T set and no other bit of the bitmap, and its fields
`total_fragments` and `received_count` hold T.  When the reassembler reports its
total, T does not depend on the number of the fragment that arrived. -/
theorem reassembled_ack_covers_all (e : Endian) (malloc_ok : Bool) (me other : Option Nat)
    (defrag : defrag_t) (message_id fragment_number : Nat)
    (hrecv : (defrag.get_received_fragments.getD []).length = 0)
    (h1 : 1 ≤ reassembled_total defrag fragment_number)
    (h64 : reassembled_total defrag fragment_number ≤ 64) :
    (∃ ack, build_fragment_ack e malloc_ok defrag message_id fragment_number =
        ack_build_t.built ack ∧
      send_immediate_fragment_ack e malloc_ok me other (some defrag) message_id
        fragment_number = some (fragment_ack_message e me other ack) ∧
      ntohs e ack.total_fragments = reassembled_total defrag fragment_number ∧
      ntohs e ack.received_count = reassembled_total defrag fragment_number ∧
      ∀ id, 1 ≤ id →
        ack_bit e ack id = decide (id ≤ reassembled_total defrag fragment_number)) ∧
    (∀ T, defrag.get_total_fragments = some T → 1 ≤ T → T ≤ 64 →
      reassembled_total defrag fragment_number = T) := by
  constructor
  · obtain ⟨l, hl, hb⟩ := build_fragment_ack_reassembled e malloc_ok defrag message_id
      fragment_number hrecv h1 h64
    have hlt : reassembled_total defrag fragment_number < 65536 := by omega
    refine ⟨_, hb, ?_, htons_htons e hlt, htons_htons e hlt, ?_⟩
    · simp only [send_immediate_fragment_ack, hb]
    · intro id hid
      rw [ack_bit_foldl e l _ _ _ id hid]
      by_cases hT : id ≤ reassembled_total defrag fragment_number
      · have hm : id ∈ l := (hl id).mpr ⟨hid, hT⟩
        have h2 : id ≤ 64 := by omega
        simp [hm, h2, hT]
      · have hm : ¬ id ∈ l := fun h => hT ((hl id).mp h).2
        simp [hm, hT]
  · intro T hT hT1 hT64
    unfold reassembled_total
    rw [hT]
    have : u16 ((some T : Option Nat).getD 0) = T := Nat.mod_eq_of_lt (by simp; omega)
    rw [this, if_neg (by omega)]

/-- Witness of `reassembled_ack_covers_all`: the reassembler of a message of
three fragments reports its total and no received fragment; fragment 2 arrived
last, and the record covers the fragments 1 to 3. -/
theorem reassembled_ack_covers_all_witness :
    ∃ ack, build_fragment_ack Endian.little true
        { get_total_fragments := some 3, get_received_fragments := some [] }
        7 2 = ack_build_t.built ack ∧
      ntohs Endian.little ack.total_fragments = 3 ∧
      ∀ id, 1 ≤ id → ack_bit Endian.little ack id = decide (id ≤ 3) := by
  obtain ⟨⟨ack, hb, _, ht, _, hbits⟩, _⟩ := reassembled_ack_covers_all Endian.little true
    (some 2) (some 1) { get_total_fragments := some 3, get_received_fragments := some [] } 7 2
    rfl (by decide) (by decide)
  exact ⟨ack, hb, ht, hbits⟩

/-- Counterexample to C33 as stated: the reassembler of a completed message of
three fragments reports neither a total nor received fragments (its state was
reset).  When fragment 2 arrives last the record covers the fragments 1 and 2
only and its field `total_fragments` holds 2; when fragment 3 arrives last it
covers 1 to 3: the record depends on the number of the fragment that arrived
last. -/
theorem reassembled_ack_covers_all_counterexample :
    build_fragment_ack Endian.big true defrag_reset 7 2 = ack_build_t.built
      { message_id := 7, total_fragments := 2, received_count := 2
        ack_bitmap := [3, 0, 0, 0, 0, 0, 0, 0] } ∧
    build_fragment_ack Endian.big true defrag_reset 7 3 = ack_build_t.built
      { message_id := 7, total_fragments := 3, received_count := 3
        ack_bitmap := [7, 0, 0, 0, 0, 0, 0, 0] } ∧
    ack_bit Endian.big
      { message_id := 7, total_fragments := 2, received_count := 2
        ack_bitmap := [3, 0, 0, 0, 0, 0, 0, 0] } 3 = false := by
  refine ⟨by decide, by decide, by decide⟩

theorem getLast?_append_singleton {α : Type} (l : List α) (a : α) :
    (l ++ [a]).getLast? = some a := by
  simp

theorem adopt_tasks_loop_spec (now : Nat) (theirs : List queued_task_t) :
    ∀ (n : Nat) (mine : List queued_task_t) (calls : List hook_call_t),
      theirs.length ≤ n →
      adopt_tasks_loop now n mine theirs calls =
        (theirs.map (fun queued => { queued with time := now }) ++ mine, [],
          calls ++ theirs.reverse.map
            (fun queued => { hook := hook_t.migrate, task := queued.task })) := by
  induction theirs using List.reverseRecOn with
  | nil =>
    intro n mine calls _
    cases n <;> simp [adopt_tasks_loop]
  | append_singleton init last ih =>
    intro n mine calls hn
    rw [List.length_append, List.length_singleton] at hn
    cases n with
    | zero => omega
    | succ n =>
      unfold adopt_tasks_loop
      rw [getLast?_append_singleton]
      dsimp only
      rw [List.dropLast_concat, ih n _ _ (by omega)]
      simp

theorem reset_queued_loop_spec (now : Nat) (queue : List queued_task_t) :
    reset_queued_loop now queue =
      (queue.map (fun queued => { queued with time := now }),
       queue.map (fun queued => { hook := hook_t.migrate, task := queued.task })) := by
  induction queue with
  | nil => rfl
  | cons q rest ih =>
    unfold reset_queued_loop
    rw [ih]
    rfl

theorem reset_active_loop_spec (now : Nat) (active : List task_t) :
    ∀ (n : Nat) (queue : List queued_task_t) (calls : List hook_call_t),
      active.length ≤ n →
      reset_active_loop now n active queue calls =
        ([], active.map (fun task => { task := task, time := now }) ++ queue,
          calls ++ active.reverse.map (fun task => { hook := hook_t.migrate, task := task })) := by
  induction active using List.reverseRecOn with
  | nil =>
    intro n queue calls _
    cases n <;> simp [reset_active_loop]
  | append_singleton init last ih =>
    intro n queue calls hn
    rw [List.length_append, List.length_singleton] at hn
    cases n with
    | zero => omega
    | succ n =>
      unfold reset_active_loop
      rw [getLast?_append_singleton]
      dsimp only
      rw [List.dropLast_concat, ih n _ _ (by omega)]
      simp

/-- The loop of `adopt_tasks` yields what the closed form of the method says. -/
theorem adopt_tasks_run_eq (env : env_t) (this other : private_task_manager_t) :
    adopt_tasks_run env this other = adopt_tasks env this other := by
  unfold adopt_tasks_run adopt_tasks
  rw [adopt_tasks_loop_spec env.now other.queued_tasks _ _ _ (Nat.le_refl _)]
  simp

/-- The statements of `reset` yield what the closed form of the method says. -/
theorem reset_run_eq (env : env_t) (this : private_task_manager_t) (initiate respond : Nat) :
    reset_run env this initiate respond = reset env this initiate respond := by
  unfold reset_run reset
  have hq : ∀ (x : private_task_manager_t), x.queued_tasks = this.queued_tasks →
      x.active_tasks = this.active_tasks →
      reset_active_loop env.now x.active_tasks.length x.active_tasks
        (reset_queued_loop env.now x.queued_tasks).1 (reset_queued_loop env.now x.queued_tasks).2 =
      ([], this.active_tasks.map (fun task => { task := task, time := env.now }) ++
          this.queued_tasks.map (fun queued => { queued with time := env.now }),
        this.queued_tasks.map (fun queued => { hook := hook_t.migrate, task := queued.task }) ++
          this.active_tasks.reverse.map (fun task => { hook := hook_t.migrate, task := task })) := by
    intro x h1 h2
    rw [reset_queued_loop_spec, reset_active_loop_spec env.now _ _ _ _ (Nat.le_refl _), h1, h2]
  by_cases hi : initiate ≠ UINT_MAX
  · by_cases hr : respond ≠ UINT_MAX
    · simp only [if_pos hi, if_pos hr]
      rw [hq _ rfl rfl]
    · simp only [if_pos hi, if_neg hr]
      rw [hq _ rfl rfl]
  · by_cases hr : respond ≠ UINT_MAX
    · simp only [if_neg hi, if_pos hr]
      rw [hq _ rfl rfl]
    · simp only [if_neg hi, if_neg hr]
      rw [hq _ rfl rfl]

/-- Claim C34.  For every pair of managers, after `adopt_tasks` the queue of this
manager consists of the tasks that were queued on the other manager, in their
order, followed by the tasks that were queued on this one, in their order; the
queue of the other manager is empty; `migrate` was called once on every adopted
task, and every adopted task has the time now; the queued tasks of this manager
keep their time; the active and passive tasks of both managers are unchanged. -/
theorem adopt_tasks_moves_queue (env : env_t) (this other : private_task_manager_t) :
    (adopt_tasks_run env this other).1.queued_tasks.map (fun queued => queued.task) =
      other.queued_tasks.map (fun queued => queued.task) ++
        this.queued_tasks.map (fun queued => queued.task) ∧
    (adopt_tasks_run env this other).1.queued_tasks =
      other.queued_tasks.map (fun queued => { queued with time := env.now }) ++
        this.queued_tasks ∧
    (∀ queued ∈ (adopt_tasks_run env this other).1.queued_tasks.take other.queued_tasks.length,
      queued.time = env.now) ∧
    (adopt_tasks_run env this other).1.queued_tasks.drop other.queued_tasks.length =
      this.queued_tasks ∧
    (adopt_tasks_run env this other).2.1.queued_tasks = [] ∧
    (adopt_tasks_run env this other).2.2.hooks =
      other.queued_tasks.reverse.map
        (fun queued => { hook := hook_t.migrate, task := queued.task }) ∧
    (adopt_tasks_run env this other).1.active_tasks = this.active_tasks ∧
    (adopt_tasks_run env this other).1.passive_tasks = this.passive_tasks ∧
    (adopt_tasks_run env this other).2.1.active_tasks = other.active_tasks ∧
    (adopt_tasks_run env this other).2.1.passive_tasks = other.passive_tasks ∧
    adopt_tasks_run env this other = adopt_tasks env this other := by
  have hq : (adopt_tasks_run env this other).1.queued_tasks =
      other.queued_tasks.map (fun queued => { queued with time := env.now }) ++
        this.queued_tasks := by
    rw [adopt_tasks_run_eq]
    rfl
  have hlen : (other.queued_tasks.map
      (fun queued : queued_task_t => ({ queued with time := env.now } : queued_task_t))).length =
      other.queued_tasks.length := List.length_map _ _
  refine ⟨?_, hq, ?_, ?_, ?_, ?_, rfl, rfl, rfl, rfl, adopt_tasks_run_eq env this other⟩
  · rw [hq, List.map_append, List.map_map]
    rfl
  · intro queued hmem
    rw [hq, List.take_left' hlen, List.mem_map] at hmem
    obtain ⟨q0, _, rfl⟩ := hmem
    rfl
  · rw [hq, List.drop_left' hlen]
  · rw [adopt_tasks_run_eq]
    rfl
  · rw [adopt_tasks_run_eq]
    rfl

/-- Claim C35.  For every manager and arguments (i, r), after `reset(i, r)`
`initiating.mid` is i unless i is UINT_MAX and `responding.mid` is r unless r is
UINT_MAX (then each is unchanged), `initiating.type` is
EXCHANGE_TYPE_UNDEFINED, the fragment tracker, both packet arrays and both
reassemblers are gone, no task is active, and the queue holds the tasks that
were active, in their order, followed by the tasks that were queued, in their
order, all with the time now; `migrate` was called on each of them, the passive
tasks are unchanged and the flag `reset` is set. -/
theorem reset_requeues_tasks (env : env_t) (this : private_task_manager_t)
    (initiate respond : Nat) :
    (reset_run env this initiate respond).1.initiating_mid =
      (if initiate = UINT_MAX then this.initiating_mid else initiate) ∧
    (reset_run env this initiate respond).1.responding_mid =
      (if respond = UINT_MAX then this.responding_mid else respond) ∧
    (reset_run env this initiate respond).1.initiating_type =
      exchange_type_t.EXCHANGE_TYPE_UNDEFINED ∧
    (reset_run env this initiate respond).1.outgoing_tracker = none ∧
    (reset_run env this initiate respond).1.initiating_packets = [] ∧
    (reset_run env this initiate respond).1.responding_packets = [] ∧
    (reset_run env this initiate respond).1.initiating_defrag = none ∧
    (reset_run env this initiate respond).1.responding_defrag = none ∧
    (reset_run env this initiate respond).1.active_tasks = [] ∧
    (reset_run env this initiate respond).1.queued_tasks.map (fun queued => queued.task) =
      this.active_tasks ++ this.queued_tasks.map (fun queued => queued.task) ∧
    (∀ queued ∈ (reset_run env this initiate respond).1.queued_tasks, queued.time = env.now) ∧
    (reset_run env this initiate respond).2.hooks =
      this.queued_tasks.map (fun queued => { hook := hook_t.migrate, task := queued.task }) ++
        this.active_tasks.reverse.map (fun task => { hook := hook_t.migrate, task := task }) ∧
    (reset_run env this initiate respond).1.passive_tasks = this.passive_tasks ∧
    (reset_run env this initiate respond).1.reset = true ∧
    reset_run env this initiate respond = reset env this initiate respond := by
  have hq : (reset_run env this initiate respond).1.queued_tasks =
      this.active_tasks.map (fun task => { task := task, time := env.now }) ++
        this.queued_tasks.map (fun queued => { queued with time := env.now }) := by
    rw [reset_run_eq]
    rfl
  rw [reset_run_eq]
  rw [reset_run_eq] at hq
  refine ⟨?_, ?_, rfl, rfl, rfl, rfl, rfl, rfl, rfl, ?_, ?_, rfl, rfl, rfl, rfl⟩
  · show (if initiate ≠ UINT_MAX then initiate else this.initiating_mid) = _
    by_cases h : initiate = UINT_MAX
    · rw [if_neg (fun k => k h), if_pos h]
    · rw [if_pos h, if_neg h]
  · show (if respond ≠ UINT_MAX then respond else this.responding_mid) = _
    by_cases h : respond = UINT_MAX
    · rw [if_neg (fun k => k h), if_pos h]
    · rw [if_pos h, if_neg h]
  · rw [hq, List.map_append, List.map_map, List.map_map]
    simp [Function.comp_def]
  · intro queued hmem
    rw [hq, List.mem_append, List.mem_map, List.mem_map] at hmem
    rcases hmem with ⟨_, _, rfl⟩ | ⟨_, _, rfl⟩ <;> rfl

theorem retransmit_selective_some (env : env_t) (this : private_task_manager_t)
    (t : fragment_tracker_t) (log0 : List log_t) (ht : this.outgoing_tracker = some t) :
    ∃ r, retransmit_selective env this t log0 = some r := by
  unfold retransmit_selective
  by_cases hc : t.acked_fragments = t.total_fragments
  · rw [if_pos hc]
    exact ⟨_, rfl⟩
  · rw [if_neg hc]
    obtain ⟨_, ⟨t1, ht1, _⟩, _⟩ := selective_step_frame env this t log0 ht
    dsimp only
    rw [ht1]
    dsimp only
    split_ifs <;> exact ⟨_, rfl⟩

/-- The main block of `retransmit` always returns. -/
theorem retransmit_main_some (env : env_t) (this : private_task_manager_t) (m : Nat) :
    ∃ r, retransmit_main env this m = some r := by
  unfold retransmit_main
  dsimp only
  cases hmob : find_mobike this with
  | none =>
    dsimp only
    rw [if_pos rfl]
    split_ifs
    · exact ⟨_, rfl⟩
    · cases ht : this.outgoing_tracker with
      | none => exact ⟨_, rfl⟩
      | some t =>
        dsimp only
        split_ifs
        · exact retransmit_selective_some env this t _ ht
        · exact ⟨_, rfl⟩
  | some mob =>
    dsimp only
    cases hp : mob.is_probing
    · rw [if_pos rfl]
      split_ifs
      · exact ⟨_, rfl⟩
      · cases ht : this.outgoing_tracker with
        | none => exact ⟨_, rfl⟩
        | some t =>
          dsimp only
          split_ifs
          · exact retransmit_selective_some env this t _ ht
          · exact ⟨_, rfl⟩
    · rw [if_neg (by decide)]
      exact ⟨_, rfl⟩

theorem job_cleared_idem (this : private_task_manager_t) :
    ({ job_cleared this with current_retransmit_job := none } : private_task_manager_t) =
      job_cleared this := rfl

/-- What the test of lines 879-881 says about the manager. -/
theorem has_pending_fragments_iff (this : private_task_manager_t) :
    has_pending_fragments this = true ↔
      this.selective_retransmission_enabled = true ∧
      ∃ t, this.outgoing_tracker = some t ∧ t.message_id = this.initiating_mid ∧
        t.acked_fragments < t.total_fragments := by
  unfold has_pending_fragments
  cases ht : this.outgoing_tracker with
  | none => simp
  | some t => simp [and_assoc]

/-- A call of `retransmit` for the message in flight whose tracker has
unacknowledged fragments runs the main block, whatever the depth allowed. -/
theorem retransmit_pending_enters_main (fuel : Nat) (env : env_t)
    (this : private_task_manager_t) (h : has_pending_fragments (job_cleared this) = true) :
    retransmit (fuel + 1) env this this.initiating_mid =
      retransmit_main env (job_cleared this) this.initiating_mid := by
  obtain ⟨hsel, t, ht, hm, hlt⟩ := (has_pending_fragments_iff _).mp h
  have hcomp : is_complete (job_cleared this) this.initiating_mid = false := by
    unfold is_complete
    rw [ht]
    have : ¬ t.total_fragments ≤ t.acked_fragments := by omega
    simp [this]
  have hselr : is_selective_retransmit (job_cleared this) this.initiating_mid = true := by
    unfold is_selective_retransmit
    rw [ht, hsel]
    simpa using hm
  show (if is_complete (job_cleared this) this.initiating_mid = true then _
    else if (this.initiating_mid = (job_cleared this).initiating_mid ∧
        0 < (job_cleared this).initiating_packets.length) ∨
        is_selective_retransmit (job_cleared this) this.initiating_mid = true then
      retransmit_main env (job_cleared this) this.initiating_mid
    else _) = _
  rw [hcomp, if_neg (by decide), if_pos (Or.inr hselr)]

/-- Claim C36.  `retransmit` returns on every input with a recursion depth of at
most two: a depth of two always gives a result and a greater depth gives the
same one.  A depth of one fails to give a result exactly when the recursive call
of line 886 is reached, which requires selective retransmission to be enabled
and a tracker for `initiating.mid` with unacknowledged fragments; the inner
call `retransmit(initiating.mid)` then runs the main block and does not reach
the recursive call again. -/
theorem retransmit_depth_two (env : env_t) (this : private_task_manager_t) (message_id : Nat) :
    (∃ r, retransmit 2 env this message_id = some r) ∧
    (∀ fuel, retransmit (fuel + 2) env this message_id = retransmit 2 env this message_id) ∧
    (retransmit 1 env this message_id = none ↔ retransmit_recurses this message_id = true) ∧
    (retransmit_recurses this message_id = true →
      this.selective_retransmission_enabled = true ∧
      (∃ t, this.outgoing_tracker = some t ∧ t.message_id = this.initiating_mid ∧
        t.acked_fragments < t.total_fragments) ∧
      (∀ fuel, retransmit (fuel + 1) env (job_cleared this) this.initiating_mid =
        retransmit_main env (job_cleared this) this.initiating_mid) ∧
      retransmit_recurses (job_cleared this) this.initiating_mid = false) := by
  have hunf : ∀ fuel, retransmit (fuel + 1) env this message_id =
      if is_complete (job_cleared this) message_id = true then
        some { status := status_t.SUCCESS, this := job_cleared this
               effects := { log := [log_t.RETRANSMIT_JOB_EARLY_EXIT] } }
      else if (message_id = this.initiating_mid ∧ 0 < this.initiating_packets.length) ∨
          is_selective_retransmit (job_cleared this) message_id = true then
        retransmit_main env (job_cleared this) message_id
      else if message_id < this.initiating_mid then
        if has_pending_fragments (job_cleared this) = true then
          (retransmit fuel env (job_cleared this) this.initiating_mid).map (fun r =>
            { r with effects := ({ log := [log_t.RETRANSMIT_OLD_JOB_DETECTED,
                log_t.RETRANSMIT_OLD_JOB_TRIGGERING_SELECTIVE] } : effects_t).append r.effects })
        else
          some { status := status_t.SUCCESS, this := job_cleared this
                 effects := { log := [log_t.RETRANSMIT_OLD_JOB_DETECTED,
                                      log_t.RETRANSMIT_OLD_JOB_GRACEFUL_EXIT] } }
      else
        some { status := status_t.INVALID_STATE, this := job_cleared this
               effects := { log := [log_t.RETRANSMIT_DEBUG_RETURNING_INVALID_STATE] } } :=
    fun _ => rfl
  have hinner : has_pending_fragments (job_cleared this) = true →
      ∀ fuel, retransmit (fuel + 1) env (job_cleared this) this.initiating_mid =
        retransmit_main env (job_cleared this) this.initiating_mid := by
    intro hp fuel
    exact retransmit_pending_enters_main fuel env (job_cleared this) hp
  by_cases h1 : is_complete (job_cleared this) message_id = true
  · have hnr : retransmit_recurses this message_id = false := by
      unfold retransmit_recurses
      rw [h1]
      rfl
    refine ⟨?_, ?_, ?_, ?_⟩
    · rw [hunf, if_pos h1]; exact ⟨_, rfl⟩
    · intro fuel; rw [hunf, hunf, if_pos h1, if_pos h1]
    · rw [hunf, if_pos h1, hnr]; simp
    · rw [hnr]; intro h; cases h
  · by_cases h2 : (message_id = this.initiating_mid ∧ 0 < this.initiating_packets.length) ∨
        is_selective_retransmit (job_cleared this) message_id = true
    · have hnr : retransmit_recurses this message_id = false := by
        unfold retransmit_recurses
        rcases h2 with h2 | h2
        · simp [h2]
        · simp [h2]
      obtain ⟨r, hr⟩ := retransmit_main_some env (job_cleared this) message_id
      refine ⟨?_, ?_, ?_, ?_⟩
      · rw [hunf, if_neg h1, if_pos h2]; exact ⟨r, hr⟩
      · intro fuel; rw [hunf, hunf, if_neg h1, if_neg h1, if_pos h2, if_pos h2]
      · rw [hunf, if_neg h1, if_pos h2, hnr, hr]; simp
      · rw [hnr]; intro h; cases h
    · by_cases h3 : message_id < this.initiating_mid
      · by_cases h4 : has_pending_fragments (job_cleared this) = true
        · have hrec : retransmit_recurses this message_id = true := by
            unfold retransmit_recurses
            have h1f : is_complete (job_cleared this) message_id = false := by
              simpa using h1
            rw [h1f, h4]
            simp only [not_or] at h2
            simp [h2.1, h2.2, h3]
          obtain ⟨r, hr⟩ := retransmit_main_some env (job_cleared this) this.initiating_mid
          obtain ⟨k1, k2⟩ := (has_pending_fragments_iff _).mp h4
          refine ⟨?_, ?_, ?_, ?_⟩
          · rw [hunf, if_neg h1, if_neg h2, if_pos h3, if_pos h4, hinner h4 0, hr]
            exact ⟨_, rfl⟩
          · intro fuel
            rw [hunf, hunf, if_neg h1, if_neg h1, if_neg h2, if_neg h2, if_pos h3, if_pos h3,
              if_pos h4, if_pos h4, hinner h4 fuel, hinner h4 0]
          · rw [hunf, if_neg h1, if_neg h2, if_pos h3, if_pos h4, hrec]
            simp [retransmit]
          · intro _
            refine ⟨k1, k2, hinner h4, ?_⟩
            unfold retransmit_recurses
            have : is_selective_retransmit (job_cleared (job_cleared this))
                this.initiating_mid = true := by
              obtain ⟨t, ht, hm, _⟩ := k2
              unfold is_selective_retransmit
              have hsel2 : (job_cleared (job_cleared this)).selective_retransmission_enabled =
                  true := k1
              have ht2 : (job_cleared (job_cleared this)).outgoing_tracker = some t := ht
              rw [hsel2, ht2]
              simpa using hm
            rw [this]
            simp
        · have hnr : retransmit_recurses this message_id = false := by
            unfold retransmit_recurses
            have : has_pending_fragments (job_cleared this) = false := by simpa using h4
            rw [this]
            simp
          refine ⟨?_, ?_, ?_, ?_⟩
          · rw [hunf, if_neg h1, if_neg h2, if_pos h3, if_neg h4]; exact ⟨_, rfl⟩
          · intro fuel
            rw [hunf, hunf, if_neg h1, if_neg h1, if_neg h2, if_neg h2, if_pos h3, if_pos h3,
              if_neg h4, if_neg h4]
          · rw [hunf, if_neg h1, if_neg h2, if_pos h3, if_neg h4, hnr]; simp
          · rw [hnr]; intro h; cases h
      · have hnr : retransmit_recurses this message_id = false := by
          unfold retransmit_recurses
          simp [h3]
        refine ⟨?_, ?_, ?_, ?_⟩
        · rw [hunf, if_neg h1, if_neg h2, if_neg h3]; exact ⟨_, rfl⟩
        · intro fuel
          rw [hunf, hunf, if_neg h1, if_neg h1, if_neg h2, if_neg h2, if_neg h3, if_neg h3]
        · rw [hunf, if_neg h1, if_neg h2, if_neg h3, hnr]; simp
        · rw [hnr]; intro h; cases h

set_option maxRecDepth 100000 in
/-- Example of the recursion: the job of message 1 fires while message 2 is in
flight with three unacknowledged fragments; a depth of one is used up, a depth
of two gives the result of the selective resend. -/
theorem stale_job_recursion_example :
    retransmit_recurses stale_job_state 1 = true ∧
    retransmit 1 {} stale_job_state 1 = none ∧
    (retransmit 2 {} stale_job_state 1).map (fun r => (r.status, r.effects.sent.length)) =
      some (status_t.SUCCESS, 3) := by
  refine ⟨by decide, rfl, by decide⟩

theorem test_set_bit_eq (n : Nat) (hn : n ≤ 64) (bm : List Nat) (hok : bitmap_ok bm) (id : Nat) :
    test_set_bit n bm id =
      if id ≤ n then set_bitmap_bit Endian.big bm id else bm := by
  unfold test_set_bit set_bitmap_bit
  by_cases h0 : 0 < id
  · by_cases h1 : id ≤ n
    · have h64 : id ≤ 64 := by omega
      have hw : (id - 1) / 16 < 8 := by omega
      have hb : (1 : Nat) <<< ((id - 1) % 16) < 65536 := by
        rw [Nat.one_shiftLeft]
        have : (id - 1) % 16 < 16 := Nat.mod_lt _ (by norm_num)
        calc 2 ^ ((id - 1) % 16) < 2 ^ 16 := Nat.pow_lt_pow_right (by norm_num) this
          _ = 65536 := by norm_num
      have hx := getD_lt_of_bitmap_ok hok ((id - 1) / 16)
      have hor : bm.getD ((id - 1) / 16) 0 ||| 1 <<< ((id - 1) % 16) < 65536 := by
        have := Nat.or_lt_two_pow (n := 16) hx hb
        simpa using this
      simp only [h0, h1, h64, hw, and_self, if_true]
      have e1 : u16 (bm.getD ((id - 1) / 16) 0 ||| 1 <<< ((id - 1) % 16)) =
          bm.getD ((id - 1) / 16) 0 ||| 1 <<< ((id - 1) % 16) := Nat.mod_eq_of_lt hor
      have e2 : htons Endian.big (1 <<< ((id - 1) % 16)) = 1 <<< ((id - 1) % 16) :=
        Nat.mod_eq_of_lt hb
      rw [e1, e2]
    · rw [if_neg (fun h => h1 h.2), if_neg h1]
  · have hid : id = 0 := by omega
    subst hid
    simp

theorem foldl_test_set_bit (n : Nat) (hn : n ≤ 64) (l : List Nat) :
    ∀ bm, bitmap_ok bm →
      l.foldl (test_set_bit n) bm =
        (l.filter (fun id => decide (id ≤ n))).foldl (set_bitmap_bit Endian.big) bm := by
  induction l with
  | nil => intro bm _; rfl
  | cons id rest ih =>
    intro bm hok
    rw [List.foldl_cons, test_set_bit_eq n hn bm hok]
    by_cases h : id ≤ n
    · rw [if_pos h, List.filter_cons_of_pos (by simpa using h), List.foldl_cons]
      exact ih _ (set_bitmap_bit_ok Endian.big hok id)
    · rw [if_neg h, List.filter_cons_of_neg (by simpa using h)]
      exact ih _ hok

/-- The bit the reference model reads for the array index `j` is the bit of the
fragment number `j + 1` in the list the record was built from. -/
theorem test_is_acked_create (message_id n : Nat) (hn : n ≤ 64) (received : List Nat)
    (hlen : received.length < 65536) (j : Nat) (hj : j < n) :
    test_is_acked (create_test_fragment_ack message_id n received received.length) j =
      decide (j + 1 ∈ received) := by
  have hun : u16 n = n := Nat.mod_eq_of_lt (by omega)
  have hul : u16 received.length = received.length := Nat.mod_eq_of_lt hlen
  unfold test_is_acked create_test_fragment_ack
  dsimp only
  rw [hun, hul, List.take_length, foldl_test_set_bit n hn _ _ bitmap_ok_zero]
  have hok := foldl_set_bitmap_bit_ok Endian.big
    (received.filter (fun id => decide (id ≤ n))) _ bitmap_ok_zero
  have h1 := is_acked_foldl_set_bitmap_bit Endian.big
    (received.filter (fun id => decide (id ≤ n))) (j + 1)
    { ack_bitmap := [0, 0, 0, 0, 0, 0, 0, 0] } bitmap_ok_zero
  rw [is_acked_zero Endian.big { ack_bitmap := [0, 0, 0, 0, 0, 0, 0, 0] } rfl (j + 1),
    Bool.false_or] at h1
  have hlhs : is_acked_in_current Endian.big
      { ack_bitmap := (received.filter (fun id => decide (id ≤ n))).foldl
          (set_bitmap_bit Endian.big) [0, 0, 0, 0, 0, 0, 0, 0] } (j + 1) =
      ((((received.filter (fun id => decide (id ≤ n))).foldl (set_bitmap_bit Endian.big)
        [0, 0, 0, 0, 0, 0, 0, 0]).getD (j / 16) 0 &&& (1 <<< (j % 16))) != 0) := by
    unfold is_acked_in_current
    rw [if_pos ⟨by omega, by omega⟩]
    dsimp only
    have hw := getD_lt_of_bitmap_ok hok (j / 16)
    have : ntohs Endian.big (((received.filter (fun id => decide (id ≤ n))).foldl
        (set_bitmap_bit Endian.big) [0, 0, 0, 0, 0, 0, 0, 0]).getD (j / 16) 0) =
        ((received.filter (fun id => decide (id ≤ n))).foldl
        (set_bitmap_bit Endian.big) [0, 0, 0, 0, 0, 0, 0, 0]).getD (j / 16) 0 :=
      Nat.mod_eq_of_lt hw
    simp only [Nat.add_sub_cancel]
    rw [this]
  rw [← hlhs, h1]
  have hmem : (j + 1 ∈ received.filter (fun id => decide (id ≤ n))) ↔ j + 1 ∈ received := by
    rw [List.mem_filter]
    simp
    omega
  have h64 : 0 < j + 1 ∧ j + 1 ≤ 64 := ⟨by omega, by omega⟩
  simp [hmem, h64]

/-- The loop of the reference model over an array whose pointers are all set,
within the bound: every fragment takes its bit and the count grows by the
number of bits set. -/
theorem update_test_loop_spec (ack_data : test_fragment_ack_data_t) (bound : Nat)
    (hb : bound ≤ 64) (frs : List (Option test_fragment_state_t)) :
    ∀ (i acked : Nat), (∀ entry ∈ frs, entry.isSome = true) → i + frs.length ≤ bound →
      acked + frs.length < 65536 →
      (update_test_loop ack_data bound i frs acked).1.map
          (fun entry => entry.map (fun fragment => fragment.acknowledged)) =
        (List.range' i frs.length).map (fun j => some (test_is_acked ack_data j)) ∧
      (∀ entry ∈ (update_test_loop ack_data bound i frs acked).1, entry.isSome = true) ∧
      (update_test_loop ack_data bound i frs acked).1.length = frs.length ∧
      (update_test_loop ack_data bound i frs acked).2 =
        acked + (List.range' i frs.length).countP (fun j => test_is_acked ack_data j) := by
  induction frs with
  | nil =>
    intro i acked _ _ _
    exact ⟨rfl, (fun _ h => (by cases h)), rfl, rfl⟩
  | cons entry rest ih =>
    intro i acked hsome hlen hacked
    rw [List.length_cons] at hlen hacked
    have hi : i < bound := by omega
    have hw : i / 16 < 8 := by omega
    obtain ⟨fragment, hf⟩ := Option.isSome_iff_exists.mp (hsome entry (List.mem_cons_self _ _))
    subst hf
    have hrest : ∀ e ∈ rest, e.isSome = true := fun e he => hsome e (List.mem_cons_of_mem _ he)
    have hle := List.countP_le_length (fun j => test_is_acked ack_data j)
      (l := List.range' (i + 1) rest.length)
    rw [List.length_range'] at hle
    unfold update_test_loop
    rw [if_pos hi, if_pos hw]
    dsimp only
    cases hbit : test_is_acked ack_data i
    · obtain ⟨k1, k2, k3, k4⟩ := ih (i + 1) acked hrest (by omega) (by omega)
      simp only [Bool.false_eq_true, if_false]
      refine ⟨?_, ?_, ?_, ?_⟩
      · rw [List.map_cons, k1, List.length_cons, List.range'_succ, List.map_cons, hbit]
        rfl
      · intro e he
        rcases List.mem_cons.mp he with h | h
        · rw [h]; rfl
        · exact k2 e h
      · rw [List.length_cons, List.length_cons, k3]
      · rw [k4, List.length_cons, List.range'_succ, List.countP_cons, hbit]
        simp
    · have hu : u16 (acked + 1) = acked + 1 := Nat.mod_eq_of_lt (by omega)
      obtain ⟨k1, k2, k3, k4⟩ := ih (i + 1) (acked + 1) hrest (by omega) (by omega)
      simp only [if_true, hu]
      refine ⟨?_, ?_, ?_, ?_⟩
      · rw [List.map_cons, k1, List.length_cons, List.range'_succ, List.map_cons, hbit]
        rfl
      · intro e he
        rcases List.mem_cons.mp he with h | h
        · rw [h]; rfl
        · exact k2 e h
      · rw [List.length_cons, List.length_cons, k3]
      · rw [k4, List.length_cons, List.range'_succ, List.countP_cons, hbit]
        simp
        omega

theorem map_range'_shift {α : Type} (f : Nat → α) (n : Nat) :
    (List.range' 0 n).map (fun j => f (j + 1)) = (List.range' 1 n).map f := by
  have h : List.range' 1 n = (List.range' 0 n).map (fun j => j + 1) := by
    have := List.map_add_range' 1 0 n 1
    rw [show (1 : Nat) + 0 = 1 from rfl] at this
    rw [← this]
    apply List.map_congr_left
    intro a _
    exact Nat.add_comm 1 a
  rw [h, List.map_map]
  rfl

theorem countP_range'_shift (p : Nat → Bool) (n : Nat) :
    (List.range' 0 n).countP (fun j => p (j + 1)) = (List.range' 1 n).countP p := by
  have h := map_range'_shift p n
  have h1 := List.countP_map (fun b : Bool => b) (fun j => p (j + 1)) (List.range' 0 n)
  have h2 := List.countP_map (fun b : Bool => b) p (List.range' 1 n)
  rw [h] at h1
  rw [h2] at h1
  exact h1.symm

/-- Two maps of a list that are given as maps of a range combine pointwise. -/
theorem map_combine {α β γ δ : Type} (F : β → γ → δ) (g : α → β) (h : α → γ)
    (G : Nat → β) (H : Nat → γ) (l : List α) :
    ∀ (s n : Nat), l.map g = (List.range' s n).map G → l.map h = (List.range' s n).map H →
      l.map (fun x => F (g x) (h x)) = (List.range' s n).map (fun j => F (G j) (H j)) := by
  induction l with
  | nil =>
    intro s n h1 _
    cases n with
    | zero => rfl
    | succ n => rw [List.range'_succ] at h1; cases h1
  | cons x rest ih =>
    intro s n h1 h2
    cases n with
    | zero => cases h1
    | succ n =>
      rw [List.range'_succ, List.map_cons, List.map_cons] at h1 h2
      rw [List.range'_succ, List.map_cons, List.map_cons]
      injection h1 with a1 a2
      injection h2 with b1 b2
      rw [a1, b1, ih (s + 1) n a2 b2]

theorem countP_of_map {α : Type} (g : α → Bool) (G : Nat → Bool) (l : List α) (s n : Nat)
    (h : l.map g = (List.range' s n).map G) :
    l.countP g = (List.range' s n).countP G := by
  have h1 := List.countP_map (fun b : Bool => b) g l
  have h2 := List.countP_map (fun b : Bool => b) G (List.range' s n)
  rw [h, h2] at h1
  exact h1.symm

theorem map_range'_congr {α : Type} (f g : Nat → α) (s n : Nat)
    (h : ∀ i, s ≤ i → i < s + n → f i = g i) :
    (List.range' s n).map f = (List.range' s n).map g := by
  apply List.map_congr_left
  intro i hi
  rw [List.mem_range'_1] at hi
  exact h i hi.1 hi.2

theorem countP_range'_congr (f g : Nat → Bool) (s n : Nat)
    (h : ∀ i, s ≤ i → i < s + n → f i = g i) :
    (List.range' s n).countP f = (List.range' s n).countP g := by
  apply List.countP_congr
  intro i hi
  rw [List.mem_range'_1] at hi
  rw [h i hi.1 hi.2]

/-- One acknowledgment applied to both trackers keeps them in agreement, when the
list of received fragments contains the previous one. -/
theorem models_agree_step (e : Endian) (n now1 now2 message_id : Nat) (hn : n ≤ 64)
    (received received1 : List Nat) (test : test_fragment_tracker_t)
    (tracker : fragment_tracker_t) (record : fragment_ack_data_t)
    (h : models_agree n received test tracker)
    (hcum : ∀ i ∈ received, i ∈ received1)
    (hlen : received1.length < 65536)
    (henc : ∀ id, 1 ≤ id → id ≤ n → ack_bit e record id = decide (id ∈ received1)) :
    models_agree n received1
      (update_test_fragment_ack_status now1 test
        (create_test_fragment_ack message_id test.total_fragments received1 received1.length))
      (update_fragment_ack_status e now2 tracker record) := by
  obtain ⟨t1, t2, t3, t4, t5, p1, p2, p3, p4⟩ := h
  have hmin : min test.total_fragments 64 = n := by rw [t1]; omega
  obtain ⟨k1, k2, k3, k4⟩ := update_test_loop_spec
    (create_test_fragment_ack message_id test.total_fragments received1 received1.length)
    n hn test.fragments 0 0 t3 (by omega) (by omega)
  have hbits : ∀ j, 0 ≤ j → j < 0 + n →
      test_is_acked (create_test_fragment_ack message_id test.total_fragments received1
        received1.length) j = decide (j + 1 ∈ received1) := by
    intro j _ hj
    rw [t1]
    exact test_is_acked_create message_id n hn received1 hlen j (by omega)
  have hplen : tracker.fragments.length = n := by
    have := congrArg List.length p1
    rw [tracked_ids, List.length_map, List.length_range'] at this
    exact this
  have hinv : tracker_inv tracker := by
    refine ⟨?_, by rw [hplen, p2], by rw [p2]; omega⟩
    rw [p4, countP_of_map _ _ _ _ _ p3]
  have hnew : (update_fragment_ack_status e now2 tracker record).fragments.map
      (fun f => f.acknowledged) = (List.range' 1 n).map (fun i => decide (i ∈ received1)) := by
    rw [update_fragments, List.map_map]
    have hfun : ((fun f : fragment_state_t => f.acknowledged) ∘ mark_acked e record) =
        fun f => (fun (b : Bool) (i : Nat) => b || is_acked_in_current e record i)
          f.acknowledged f.fragment_id := by
      funext f
      exact mark_acked_acknowledged e record f
    rw [hfun, map_combine (fun (b : Bool) (i : Nat) => b || is_acked_in_current e record i)
      (fun f => f.acknowledged) (fun f => f.fragment_id)
      (fun i => decide (i ∈ received)) (fun i => i) tracker.fragments 1 n p3
      (by rw [List.map_id']; exact p1)]
    apply map_range'_congr
    intro i hi1 hi2
    dsimp only
    rw [is_acked_in_current_eq, henc i hi1 (by omega)]
    have h64 : 0 < i ∧ i ≤ 64 := ⟨by omega, by omega⟩
    by_cases hm : i ∈ received
    · simp [hm, hcum i hm]
    · simp [hm, h64]
  obtain ⟨⟨q1, _, _⟩, q2, _⟩ := tracker_inv_update e now2 tracker record hinv
  refine ⟨t1, ?_, ?_, ?_, ?_, ?_, ?_, hnew, ?_⟩
  · show (update_test_loop _ (min test.total_fragments 64) 0 test.fragments 0).1.length = n
    rw [hmin, k3, t2]
  · show ∀ entry ∈ (update_test_loop _ (min test.total_fragments 64) 0 test.fragments 0).1, _
    rw [hmin]
    exact k2
  · show (update_test_loop _ (min test.total_fragments 64) 0 test.fragments 0).1.map _ = _
    rw [hmin, k1, t2, map_range'_congr _ (fun j => some (decide (j + 1 ∈ received1))) 0 n
      (fun j a b => by rw [hbits j a b])]
    exact map_range'_shift (fun i => some (decide (i ∈ received1))) n
  · show (update_test_loop _ (min test.total_fragments 64) 0 test.fragments 0).2 = _
    rw [hmin, k4, t2, Nat.zero_add, countP_range'_congr _ (fun j => decide (j + 1 ∈ received1))
      0 n (fun j a b => by rw [hbits j a b])]
    exact countP_range'_shift (fun i => decide (i ∈ received1)) n
  · show (update_fragment_ack_status e now2 tracker record).fragments.map
      (fun f => f.fragment_id) = _
    rw [update_fragments, List.map_map]
    have : ((fun f : fragment_state_t => f.fragment_id) ∘ mark_acked e record) =
        fun f => f.fragment_id := by
      funext f
      exact mark_acked_id e record f
    rw [this]
    exact p1
  · rw [q2, p2]
  · rw [q1, countP_of_map _ _ _ _ _ hnew]

/-- A sequence of acknowledgments, each containing the one before, keeps the two
trackers in agreement. -/
theorem models_agree_acks (e : Endian) (n now1 now2 message_id : Nat) (hn : n ≤ 64) :
    ∀ (acks : List (List Nat × fragment_ack_data_t)) (prev : List Nat × fragment_ack_data_t)
      (test : test_fragment_tracker_t) (tracker : fragment_tracker_t),
      models_agree n prev.1 test tracker →
      List.Chain (fun a b => ∀ i ∈ a.1, i ∈ b.1) prev acks →
      (∀ p ∈ acks, p.1.length < 65536) →
      (∀ p ∈ acks, ∀ id, 1 ≤ id → id ≤ n → ack_bit e p.2 id = decide (id ∈ p.1)) →
      models_agree n (acks.getLast?.getD prev).1
        (test_apply_acks now1 message_id test (acks.map (fun p => p.1)))
        (apply_acks e tracker (acks.map (fun p => (now2, p.2)))) := by
  intro acks
  induction acks with
  | nil => intro prev test tracker h _ _ _; exact h
  | cons p rest ih =>
    intro prev test tracker h hchain hlen henc
    rw [List.chain_cons] at hchain
    have hstep := models_agree_step e n now1 now2 message_id hn prev.1 p.1 test tracker p.2 h
      hchain.1 (hlen p (List.mem_cons_self _ _)) (henc p (List.mem_cons_self _ _))
    have hrec := ih p _ _ hstep hchain.2
      (fun q hq => hlen q (List.mem_cons_of_mem _ hq))
      (fun q hq => henc q (List.mem_cons_of_mem _ hq))
    have hlast : ((p :: rest).getLast?.getD prev) = (rest.getLast?.getD p) := by
      cases rest with
      | nil => rfl
      | cons q rest2 =>
        rw [List.getLast?_cons_cons]
        cases hx : (q :: rest2).getLast? with
        | none => simp at hx
        | some x => rfl
    rw [hlast]
    exact hrec

theorem models_agree_flags (n : Nat) (received : List Nat) (test : test_fragment_tracker_t)
    (tracker : fragment_tracker_t) (h : models_agree n received test tracker) :
    test_flags test = tracker_flags tracker ∧
    test.acked_fragments = tracker.acked_fragments ∧
    ((∀ id, 1 ≤ id → id ≤ n → id ∈ received) →
      test.acked_fragments = test.total_fragments ∧
      tracker.acked_fragments = tracker.total_fragments) := by
  obtain ⟨t1, _, _, t4, t5, _, p2, p3, p4⟩ := h
  refine ⟨?_, by rw [t5, p4], ?_⟩
  · rw [t4]
    unfold tracker_flags
    have : tracker.fragments.map (fun f => some f.acknowledged) =
        (tracker.fragments.map (fun f => f.acknowledged)).map some := by
      rw [List.map_map]
      rfl
    rw [this, p3, List.map_map]
    rfl
  · intro hall
    have hc : (List.range' 1 n).countP (fun i => decide (i ∈ received)) = n := by
      have := (List.countP_eq_length (p := fun i => decide (i ∈ received))
        (l := List.range' 1 n)).mpr (by
          intro i hi
          rw [List.mem_range'_1] at hi
          simpa using hall i hi.1 (by omega))
      rw [this, List.length_range']
    rw [t5, p4, hc, t1, p2]
    exact ⟨rfl, rfl⟩

/-- The production record for a non-empty list of received fragments, built on a
host of byte order `e1` and read from the wire on a host of byte order `e2`,
carries exactly the fragment numbers of the list among 1..64. -/
theorem record_of_received_bits (e1 e2 : Endian) (message_id total : Nat) (received : List Nat)
    (hne : received ≠ []) (hlen : received.length < 65536) (id : Nat) (h1 : 1 ≤ id)
    (h64 : id ≤ 64) :
    ack_bit e2 (ack_of_chunk e2 (chunk_of_ack e1
      (record_of_received e1 message_id total received))) id = decide (id ∈ received) := by
  have hb := build_fragment_ack_received e1 true (some total) received message_id
    (received.getLastD 0) hne hlen
  have hrec : record_of_received e1 message_id total received =
      { message_id := htons e1 (u16 message_id)
        total_fragments := htons e1 (u16 ((some total : Option Nat).getD 0))
        received_count := htons e1 received.length
        ack_bitmap := received.foldl (set_bitmap_bit e1) [0, 0, 0, 0, 0, 0, 0, 0] } := by
    unfold record_of_received
    rw [hb]
  have hok : bitmap_ok (record_of_received e1 message_id total received).ack_bitmap := by
    rw [hrec]
    exact foldl_set_bitmap_bit_ok e1 _ _ bitmap_ok_zero
  have hd : decide (0 < id ∧ id ≤ 64) = true := by simp; omega
  have hw := is_acked_in_current_wire e1 e2 _ hok id
  rw [is_acked_in_current_eq, is_acked_in_current_eq, hd, Bool.true_and, Bool.true_and] at hw
  rw [hw, hrec, ack_bit_foldl e1 received _ _ _ id h1]
  simp [h64]

/-- Claim C37.  For a message of n ≤ 64 fragments, start from a tracker of the
reference model of test_simple.c and a production tracker that both hold the
fragments 1..n, none acknowledged.  For every sequence of acknowledgments in
which each list of received fragments contains the lists of the earlier ones,
the reference record being built by `create_test_fragment_ack` and the
production record carrying the same fragment numbers in its bitmap: after every
step `update_test_fragment_ack_status` and `update_fragment_ack_status` have
yielded the same flags fragment by fragment and the same `acked_fragments`, and
after an acknowledgment that lists all n fragments both trackers have
`acked_fragments = total_fragments`. -/
theorem reference_model_agrees (e : Endian) (n now1 now2 message_id : Nat)
    (test : test_fragment_tracker_t) (tracker : fragment_tracker_t)
    (acks : List (List Nat × fragment_ack_data_t))
    (hn : n ≤ 64)
    (htest : test.total_fragments = n ∧ test.fragments.length = n ∧
      test.acked_fragments = 0 ∧
      ∀ entry ∈ test.fragments, ∃ fragment, entry = some fragment ∧
        fragment.acknowledged = false)
    (htracker : tracked_ids tracker = List.range' 1 n ∧ tracker.total_fragments = n ∧
      tracker.acked_fragments = 0 ∧ ∀ f ∈ tracker.fragments, f.acknowledged = false)
    (hcum : List.Chain' (fun a b => ∀ i ∈ a.1, i ∈ b.1) acks)
    (hlen : ∀ p ∈ acks, p.1.length < 65536)
    (henc : ∀ p ∈ acks, ∀ id, 1 ≤ id → id ≤ n → ack_bit e p.2 id = decide (id ∈ p.1)) :
    ∀ k,
      test_flags (test_apply_acks now1 message_id test ((acks.take k).map (fun p => p.1))) =
        tracker_flags (apply_acks e tracker ((acks.take k).map (fun p => (now2, p.2)))) ∧
      (test_apply_acks now1 message_id test ((acks.take k).map (fun p => p.1))).acked_fragments =
        (apply_acks e tracker ((acks.take k).map (fun p => (now2, p.2)))).acked_fragments ∧
      (∀ p, (acks.take k).getLast? = some p → (∀ id, 1 ≤ id → id ≤ n → id ∈ p.1) →
        (test_apply_acks now1 message_id test
            ((acks.take k).map (fun p => p.1))).acked_fragments =
          (test_apply_acks now1 message_id test
            ((acks.take k).map (fun p => p.1))).total_fragments ∧
        (apply_acks e tracker ((acks.take k).map (fun p => (now2, p.2)))).acked_fragments =
          (apply_acks e tracker ((acks.take k).map (fun p => (now2, p.2)))).total_fragments) := by
  intro k
  obtain ⟨t1, t2, t3, t4⟩ := htest
  obtain ⟨p1, p2, p3, p4⟩ := htracker
  have hfalse : (fun i : Nat => decide (i ∈ ([] : List Nat))) = fun _ => false := by
    funext i
    simp
  have h0 : models_agree n ([] : List Nat) test tracker := by
    have hplen : tracker.fragments.length = n := by
      have := congrArg List.length p1
      rw [tracked_ids, List.length_map, List.length_range'] at this
      exact this
    refine ⟨t1, t2, ?_, ?_, ?_, p1, p2, ?_, ?_⟩
    · intro entry hentry
      obtain ⟨f, hf, _⟩ := t4 entry hentry
      rw [hf]
      rfl
    · unfold test_flags
      apply List.ext_getElem
      · simp [t2]
      · intro i hi1 hi2
        simp only [List.getElem_map]
        obtain ⟨f, hf, hack⟩ := t4 _ (List.getElem_mem (l := test.fragments)
          (by simpa using hi1))
        rw [hf]
        simp [hack]
    · rw [t3, hfalse]
      simp
    · apply List.ext_getElem
      · simp [hplen]
      · intro i hi1 hi2
        simp only [List.getElem_map]
        rw [p4 _ (List.getElem_mem (l := tracker.fragments) (by simpa using hi1))]
        simp
    · rw [p3, hfalse]
      simp
  have hchain : List.Chain (fun a b : List Nat × fragment_ack_data_t => ∀ i ∈ a.1, i ∈ b.1)
      (([] : List Nat), ({} : fragment_ack_data_t)) (acks.take k) := by
    have hc := hcum.take k
    cases hk : acks.take k with
    | nil => exact List.Chain.nil
    | cons q rest =>
      rw [hk] at hc
      exact List.Chain.cons (fun i hi => by cases hi) hc
  have hres := models_agree_acks e n now1 now2 message_id hn (acks.take k)
    (([] : List Nat), ({} : fragment_ack_data_t)) test tracker h0 hchain
    (fun p hp => hlen p (List.mem_of_mem_take hp))
    (fun p hp => henc p (List.mem_of_mem_take hp))
  obtain ⟨r1, r2, r3⟩ := models_agree_flags n _ _ _ hres
  refine ⟨r1, r2, ?_⟩
  intro p hp hall
  rw [hp] at r3
  exact r3 hall

set_option maxRecDepth 100000 in
/-- Witness of `reference_model_agrees`: the scenario of test_simple.c, a message
of six fragments acknowledged as 1, 2, 4, 6, then 1, 2, 3, 4, 6, then 1 to 6, the
production records being built by a little endian peer and read by a big endian
host.  After the three acknowledgments both trackers have all six fragments
acknowledged. -/
theorem reference_model_agrees_witness :
    test_flags (test_apply_acks 0 12345 (test_tracker_of 0 12345 scenario_sizes)
        ((scenario_records.take 3).map (fun p => p.1))) =
      tracker_flags (apply_acks Endian.big (fresh_tracker 12345 6)
        ((scenario_records.take 3).map (fun p => (0, p.2)))) ∧
    (test_apply_acks 0 12345 (test_tracker_of 0 12345 scenario_sizes)
        ((scenario_records.take 3).map (fun p => p.1))).acked_fragments =
      (apply_acks Endian.big (fresh_tracker 12345 6)
        ((scenario_records.take 3).map (fun p => (0, p.2)))).acked_fragments ∧
    (apply_acks Endian.big (fresh_tracker 12345 6)
        ((scenario_records.take 3).map (fun p => (0, p.2)))).acked_fragments = 6 := by
  have h := reference_model_agrees Endian.big 6 0 0 12345
    (test_tracker_of 0 12345 scenario_sizes) (fresh_tracker 12345 6) scenario_records
    (by decide)
    ⟨rfl, rfl, rfl, by
      intro entry hentry
      have hfr : (test_tracker_of 0 12345 scenario_sizes).fragments =
          [some { fragment_id := 1, data_size := 1400, total_transmitted := 1400 },
           some { fragment_id := 2, data_size := 1400, total_transmitted := 1400 },
           some { fragment_id := 3, data_size := 1400, total_transmitted := 1400 },
           some { fragment_id := 4, data_size := 1400, total_transmitted := 1400 },
           some { fragment_id := 5, data_size := 1400, total_transmitted := 1400 },
           some { fragment_id := 6, data_size := 1192, total_transmitted := 1192 }] := by
        decide
      rw [hfr] at hentry
      simp only [List.mem_cons, List.mem_singleton, List.not_mem_nil, or_false] at hentry
      rcases hentry with h | h | h | h | h | h <;> exact ⟨_, h, rfl⟩⟩
    ⟨by decide, rfl, rfl, by decide⟩
    (by
      show List.Chain' _ [scenario_records.getD 0 ([], {}), scenario_records.getD 1 ([], {}),
        scenario_records.getD 2 ([], {})]
      exact List.chain'_cons.mpr ⟨by decide,
        List.chain'_cons.mpr ⟨by decide, List.chain'_singleton _⟩⟩)
    (by decide)
    (by
      intro p hp id h1 h2
      have hp2 : p ∈ [scenario_records.getD 0 ([], {}), scenario_records.getD 1 ([], {}),
          scenario_records.getD 2 ([], {})] := hp
      simp only [List.mem_cons, List.mem_singleton, List.not_mem_nil, or_false] at hp2
      interval_cases id <;> rcases hp2 with h | h | h <;> (rw [h]; decide))
    3
  obtain ⟨h1, h2, h3⟩ := h
  refine ⟨h1, h2, ?_⟩
  have h4 := (h3 (scenario_records.getD 2 ([], {})) (by decide) (by
    intro id k1 k2
    interval_cases id <;> decide)).2
  rw [h4]
  decide

theorem count_missing_eq (fs : List fragment_state_t) :
    ∀ c, c + fs.countP (fun f => !f.acknowledged) < 65536 →
      count_missing fs c = c + fs.countP (fun f => !f.acknowledged) := by
  induction fs with
  | nil => intro c _; rfl
  | cons f rest ih =>
    intro c hc
    unfold count_missing
    cases hf : f.acknowledged
    · simp only [List.countP_cons, hf, Bool.not_false, if_true] at hc ⊢
      simp only [Bool.false_eq_true, if_false]
      have hu : u16 (c + 1) = c + 1 := Nat.mod_eq_of_lt (by omega)
      rw [hu, ih (c + 1) (by omega)]
      omega
    · simp only [List.countP_cons, hf, Bool.not_true, Bool.false_eq_true, if_false,
        Nat.add_zero] at hc ⊢
      simp only [if_true]
      exact ih c hc

/-- What the representation invariant of a tracker gives: the tracker is complete
exactly when no fragment is unacknowledged, and an incomplete tracker has a
missing fragment for the count of lines 715-725 to find. -/
theorem tracker_inv_complete (t : fragment_tracker_t) (h : tracker_inv t) :
    (t.acked_fragments = t.total_fragments ↔ ∀ f ∈ t.fragments, f.acknowledged = true) ∧
    (t.acked_fragments ≠ t.total_fragments → 0 < count_missing t.fragments 0) := by
  obtain ⟨h1, h2, h3⟩ := h
  have hsum := countP_acked_add_unacked t.fragments
  constructor
  · rw [h1, ← h2]
    exact List.countP_eq_length
  · intro hne
    rw [count_missing_eq t.fragments 0 (by omega)]
    omega

/-- Claim C38.  For the tracker that `generate_message` builds for a message of
more than one fragment, after every sequence of acknowledgment records applied
by `update_fragment_ack_status` and after every sequence of acknowledgment
messages handled by `process_fragment_ack`: `acked_fragments` is the number of
fragment states whose flag `acknowledged` is TRUE; it equals `total_fragments`
exactly when every fragment is acknowledged; and when it does not, the count of
missing fragments of lines 715-725 is positive, so that a retransmission in the
selective branch takes the resend of line 735 and never the branch of lines
739-744 in which no fragment is missing. -/
theorem acked_counts_acknowledged (e : Endian) (env : env_t) (this : private_task_manager_t)
    (message_id : Nat) (fragments : List packet_t)
    (hsel : this.selective_retransmission_enabled = true)
    (h1 : 1 < fragments.length) (h2 : fragments.length < 65536) :
    ∃ t0, (generate_message env this message_id (some fragments) []).2.1.outgoing_tracker =
        some t0 ∧
      (∀ t, ((∃ records : List (Nat × fragment_ack_data_t), t = apply_acks e t0 records) ∨
          ∃ messages : List (env_t × message_t),
            (process_acks e (generate_message env this message_id (some fragments) []).2.1
              messages).outgoing_tracker = some t) →
        t.acked_fragments = t.fragments.countP (fun f => f.acknowledged) ∧
        (t.acked_fragments = t.total_fragments ↔ ∀ f ∈ t.fragments, f.acknowledged = true) ∧
        (t.acked_fragments ≠ t.total_fragments →
          0 < count_missing t.fragments 0 ∧
          ∀ (env1 : env_t) (this1 : private_task_manager_t) (log0 : List log_t),
            0 < this1.initiating_retransmitted →
            (selective_step env1 this1 t log0).2.log =
              log0 ++ [log_t.III8_SELECTIVE_RETRANSMIT_SHARED_TIMEOUT])) := by
  obtain ⟨t0, hg, _, b2, b3, _, b5, _, _, b8, _⟩ :=
    generate_message_tracker env this message_id fragments hsel h1 h2
  have hinv : tracker_inv t0 := ⟨by rw [b3, b8], by rw [b5, b2], by rw [b2]; exact h2⟩
  have ht0 : (generate_message env this message_id (some fragments) []).2.1.outgoing_tracker =
      some t0 := by rw [hg]
  refine ⟨t0, ht0, ?_⟩
  intro t hreach
  have hti : tracker_inv t := by
    rcases hreach with ⟨records, rfl⟩ | ⟨messages, hm⟩
    · exact (tracker_inv_apply_acks e records t0 hinv).1
    · refine process_acks_inv e messages _ ?_ t hm
      intro t1 ht1
      rw [ht0] at ht1
      cases ht1
      exact hinv
  obtain ⟨k1, k2⟩ := tracker_inv_complete t hti
  refine ⟨hti.1, k1, ?_⟩
  intro hne
  have hpos := k2 hne
  refine ⟨hpos, ?_⟩
  intro env1 this1 log0 hre
  unfold selective_step
  rw [if_pos hre]
  dsimp only
  rw [if_pos hpos]

/-- Witness of `acked_counts_acknowledged`: the tracker of a message of three
fragments after the acknowledgment of the fragments 1 and 3. -/
theorem acked_counts_acknowledged_witness :
    ∃ t0, (generate_message {} {} 1 (some [{}, {}, {}]) []).2.1.outgoing_tracker = some t0 ∧
      (apply_acks Endian.big t0 [(7, ack_1_3)]).acked_fragments =
        (apply_acks Endian.big t0 [(7, ack_1_3)]).fragments.countP (fun f => f.acknowledged) ∧
      0 < count_missing (apply_acks Endian.big t0 [(7, ack_1_3)]).fragments 0 := by
  obtain ⟨t0, h1, h⟩ := acked_counts_acknowledged Endian.big {} {} 1 [{}, {}, {}]
    (by decide) (by decide) (by decide)
  obtain ⟨k1, _, k3⟩ := h (apply_acks Endian.big t0 [(7, ack_1_3)]) (Or.inl ⟨_, rfl⟩)
  have ht : t0 = (generate_message {} {} 1 (some [{}, {}, {}]) []).2.1.outgoing_tracker.getD {} := by
    rw [h1]; rfl
  refine ⟨t0, h1, k1, (k3 ?_).1⟩
  rw [ht]
  decide

/-- Claim C40 (as amended).  For every manager state and every response whose
exchange type differs from `initiating.type`, except an INFORMATIONAL response
that arrives while `initiating.type` is EXCHANGE_TYPE_UNDEFINED,
`process_response` returns DESTROY_ME after raising `ike_updown(FALSE)`; no task
method is called and nothing is sent; the manager differs from the one before
by the statistics and the latched support of the peer only, so `initiating.mid`,
`initiating.type` and the active tasks are as they were. -/
theorem response_of_other_exchange (fuel : Nat) (env : env_t) (this : private_task_manager_t)
    (message : message_t)
    (hne : message.exchange_type ≠ this.initiating_type)
    (hexc : ¬ (message.exchange_type = exchange_type_t.INFORMATIONAL ∧
      this.initiating_type = exchange_type_t.EXCHANGE_TYPE_UNDEFINED)) :
    ∃ r, process_response fuel env this message = some r ∧
      r.status = status_t.DESTROY_ME ∧
      r.effects = { ike_updown := [false] } ∧
      r.this = response_preamble this message ∧
      r.this.initiating_mid = this.initiating_mid ∧
      r.this.initiating_type = this.initiating_type ∧
      r.this.active_tasks = this.active_tasks := by
  obtain ⟨f1, f2, f3⟩ := response_preamble_frame this message
  have hexp : response_expected (response_preamble this message) message = false := by
    unfold response_expected
    rw [f2]
    have h1 : (message.exchange_type == this.initiating_type) = false := by
      simpa using hne
    rw [h1, Bool.false_or]
    cases hx : (message.exchange_type == exchange_type_t.INFORMATIONAL)
    · rfl
    · cases hu : (this.initiating_type == exchange_type_t.EXCHANGE_TYPE_UNDEFINED)
      · rfl
      · exfalso
        apply hexc
        exact ⟨by simpa using hx, by simpa using hu⟩
  have hsteps : process_response_steps env this message =
      step_t.returns status_t.DESTROY_ME (response_preamble this message)
        { ike_updown := [false] } := by
    unfold process_response_steps response_passes
    rw [if_pos hexp]
  refine ⟨{ status := status_t.DESTROY_ME, this := response_preamble this message
            effects := { ike_updown := [false] } }, ?_, rfl, rfl, rfl, f3, f2, f1⟩
  unfold process_response
  rw [hsteps]

/-- Witness of `response_of_other_exchange`: an INFORMATIONAL response arrives
while the IKE_AUTH request 1 is in flight. -/
theorem response_of_other_exchange_witness :
    ∃ r, process_response 0 {} (three_fragments 1) informational_response_1 = some r ∧
      r.status = status_t.DESTROY_ME ∧
      r.this.initiating_mid = 1 := by
  obtain ⟨r, h1, h2, _, _, h5, _⟩ := response_of_other_exchange 0 {} (three_fragments 1)
    informational_response_1 (by decide) (by decide)
  exact ⟨r, h1, h2, h5⟩

/-- Counterexample to C40 as stated: no request is outstanding (`initiating.type`
is EXCHANGE_TYPE_UNDEFINED, `initiating.mid` is 1) and an INFORMATIONAL response
arrives; lines 1285-1292 let it through, `process_response` returns SUCCESS and
`initiating.mid` is 2 afterwards. -/
theorem response_of_other_exchange_counterexample :
    idle_manager.initiating_type = exchange_type_t.EXCHANGE_TYPE_UNDEFINED ∧
    informational_response_1.exchange_type ≠ idle_manager.initiating_type ∧
    idle_manager.initiating_mid = 1 ∧
    ∃ r, process_response 1 {} idle_manager informational_response_1 = some r ∧
      r.status = status_t.SUCCESS ∧
      r.this.initiating_mid = 2 :=
  ⟨rfl, by decide, rfl, _, rfl, rfl, rfl⟩

theorem acked_by_any_eq (e : Endian) (records : List (Nat × fragment_ack_data_t)) (id : Nat) :
    acked_by_any e records id = bit_set_in_some_record e records id := by
  unfold acked_by_any bit_set_in_some_record
  induction records with
  | nil => simp
  | cons r rest ih =>
    rw [List.any_cons, List.any_cons, ih, is_acked_in_current_eq]
    cases decide (0 < id ∧ id ≤ 64) <;> simp

/-- Claim C3.  After any finite sequence of records applied with
`update_fragment_ack_status`, the acknowledged fragment numbers are those
acknowledged initially together with the tracked numbers in 1..64 whose bit is
set in the bitmap of at least one record; `acked_fragments` has grown by the
number of fragments that were not acknowledged and whose bit is set in some
record (as a `uint16_t`, and exactly when the counter has room for them); every
permutation of the sequence and every repetition of one of its records gives
the same fragment states and the same counter. -/
theorem ack_accumulation (e : Endian) (t : fragment_tracker_t)
    (records : List (Nat × fragment_ack_data_t)) (hc : t.acked_fragments < 65536) :
    (∀ id, id ∈ acked_ids (apply_acks e t records) ↔
      (id ∈ acked_ids t ∨ (id ∈ tracked_ids t ∧ 0 < id ∧ id ≤ 64 ∧
        ∃ r, r ∈ records ∧
          (ntohs e (r.2.ack_bitmap.getD ((id - 1) / 16) 0)).testBit ((id - 1) % 16) = true))) ∧
    (apply_acks e t records).acked_fragments =
      (t.acked_fragments + t.fragments.countP
        (fun f => !f.acknowledged && bit_set_in_some_record e records f.fragment_id)) % 65536 ∧
    (t.acked_fragments + t.fragments.countP (fun f => !f.acknowledged) < 65536 →
      (apply_acks e t records).acked_fragments =
        t.acked_fragments + t.fragments.countP
          (fun f => !f.acknowledged && bit_set_in_some_record e records f.fragment_id)) ∧
    (∀ records2, List.Perm records2 records →
      (apply_acks e t records2).fragments = (apply_acks e t records).fragments ∧
      (apply_acks e t records2).acked_fragments = (apply_acks e t records).acked_fragments) ∧
    (∀ r, r ∈ records →
      (apply_acks e t (records ++ [r])).fragments = (apply_acks e t records).fragments ∧
      (apply_acks e t (records ++ [r])).acked_fragments =
        (apply_acks e t records).acked_fragments) := by
  obtain ⟨h1, h2, h3, h4, h5⟩ := apply_acks_accumulates e t records hc
  have hn : newly_by_any e records =
      (fun f => !f.acknowledged && bit_set_in_some_record e records f.fragment_id) := by
    funext f
    simp only [newly_by_any, acked_by_any_eq]
  rw [hn] at h2 h3
  refine ⟨?_, h2, h3, h4, h5⟩
  intro id
  rw [h1 id, acked_by_any_eq]
  unfold bit_set_in_some_record ack_bit
  simp only [Bool.and_eq_true, decide_eq_true_eq, List.any_eq_true]
  constructor
  · rintro (h | ⟨ht, ⟨h0, h64⟩, r, hr, hb⟩)
    · exact Or.inl h
    · exact Or.inr ⟨ht, h0, h64, r, hr, hb⟩
  · rintro (h | ⟨ht, h0, h64, r, hr, hb⟩)
    · exact Or.inl h
    · exact Or.inr ⟨ht, ⟨h0, h64⟩, r, hr, hb⟩

/-- Witness of `ack_accumulation`: a tracker of three fragments receives the
bitmaps 0x0002 and 0x0006, the second one twice: the fragments 2 and 3 are
acknowledged, fragment 1 is not, and the counter is 2. -/
theorem ack_accumulation_witness :
    (fresh_tracker 1 3).acked_fragments < 65536 ∧
    (apply_acks Endian.big (fresh_tracker 1 3)
      [(1, { ack_bitmap := [2, 0, 0, 0, 0, 0, 0, 0] }),
       (2, { ack_bitmap := [6, 0, 0, 0, 0, 0, 0, 0] }),
       (3, { ack_bitmap := [6, 0, 0, 0, 0, 0, 0, 0] })]).acked_fragments = 2 ∧
    acked_ids (apply_acks Endian.big (fresh_tracker 1 3)
      [(1, { ack_bitmap := [2, 0, 0, 0, 0, 0, 0, 0] }),
       (2, { ack_bitmap := [6, 0, 0, 0, 0, 0, 0, 0] }),
       (3, { ack_bitmap := [6, 0, 0, 0, 0, 0, 0, 0] })]) = [2, 3] :=
  ⟨by decide,
   ((ack_accumulation Endian.big (fresh_tracker 1 3)
      [(1, { ack_bitmap := [2, 0, 0, 0, 0, 0, 0, 0] }),
       (2, { ack_bitmap := [6, 0, 0, 0, 0, 0, 0, 0] }),
       (3, { ack_bitmap := [6, 0, 0, 0, 0, 0, 0, 0] })] (by decide)).2.1).trans (by decide),
   by decide⟩

theorem has_fragment_ack_notify_iff (msg : message_t) :
    has_fragment_ack_notify msg = true ↔
      ∃ n, payload_t.PLV2_NOTIFY n ∈ msg.payloads ∧ n.notify_type = notify_type_t.FRAGMENT_ACK := by
  unfold has_fragment_ack_notify message_t.get_notify
  generalize msg.payloads = ps
  induction ps with
  | nil => simp
  | cons p rest ih =>
    rw [List.findSome?_cons]
    cases p with
    | PLV2_NOTIFY m =>
      by_cases hm : m.notify_type = notify_type_t.FRAGMENT_ACK
      · simp only [if_pos hm, Option.isSome_some, true_iff]
        exact ⟨m, List.mem_cons_self _ _, hm⟩
      · simp only [if_neg hm]
        rw [ih]
        constructor
        · rintro ⟨n, hn, h⟩
          exact ⟨n, List.mem_cons_of_mem _ hn, h⟩
        · rintro ⟨n, hn, h⟩
          rcases List.mem_cons.mp hn with h1 | h1
          · cases h1
            exact absurd h hm
          · exact ⟨n, h1, h⟩
    | _ =>
      simp only
      rw [ih]
      constructor
      · rintro ⟨n, hn, h⟩
        exact ⟨n, List.mem_cons_of_mem _ hn, h⟩
      · rintro ⟨n, hn, h⟩
        rcases List.mem_cons.mp hn with h1 | h1
        · cases h1
        · exact ⟨n, h1, h⟩

/-- Claim C21, amended.  As initiator of an IKE_SA in state IKE_CREATED or
IKE_CONNECTING, `reject_request` accepts a request exactly when it is an
INFORMATIONAL request among whose payloads there is a FRAGMENT_ACK notify,
whatever else it carries; every other request is rejected. -/
theorem half_open_initiator_rejection (env : env_t) (this : private_task_manager_t)
    (msg : message_t)
    (hstate : env.state = ike_sa_state_t.IKE_CREATED ∨
      env.state = ike_sa_state_t.IKE_CONNECTING)
    (hinit : env.is_initiator = true) :
    (reject_request env this msg = false ↔
      (msg.exchange_type = exchange_type_t.INFORMATIONAL ∧
        ∃ n, payload_t.PLV2_NOTIFY n ∈ msg.payloads ∧
          n.notify_type = notify_type_t.FRAGMENT_ACK)) ∧
    (reject_request env this msg = true ↔
      ¬ (msg.exchange_type = exchange_type_t.INFORMATIONAL ∧
        ∃ n, payload_t.PLV2_NOTIFY n ∈ msg.payloads ∧
          n.notify_type = notify_type_t.FRAGMENT_ACK)) := by
  rw [← has_fragment_ack_notify_iff, reject_request_half_open_initiator env this msg hstate hinit]
  cases hx : msg.exchange_type <;> cases ha : has_fragment_ack_notify msg <;> simp

/-- Witness of `half_open_initiator_rejection`: the connecting initiator accepts
the INFORMATIONAL request whose only payload is a FRAGMENT_ACK notify and
rejects an INFORMATIONAL request without one. -/
theorem half_open_initiator_rejection_witness :
    (connecting_initiator.state = ike_sa_state_t.IKE_CREATED ∨
      connecting_initiator.state = ike_sa_state_t.IKE_CONNECTING) ∧
    connecting_initiator.is_initiator = true ∧
    reject_request connecting_initiator {} fragment_ack_only = false ∧
    reject_request connecting_initiator {} request_4 = true :=
  ⟨Or.inr rfl, rfl,
   (half_open_initiator_rejection connecting_initiator {} fragment_ack_only (Or.inr rfl) rfl).1.mpr
     ⟨rfl, _, List.mem_cons_self _ _, rfl⟩,
   (half_open_initiator_rejection connecting_initiator {} request_4 (Or.inr rfl) rfl).2.mpr
     (fun h => (by obtain ⟨_, n, hn, _⟩ := h; cases hn))⟩

set_option maxRecDepth 100000 in
/-- Claim C29, counterexample.  A request with message ID 7 that the IKE_SA splits
into 65 fragments: `generate_message` creates a tracker for all 65 fragments,
and the first call of `retransmit` for the message takes the selective path: it
logs the selective transmission, sends the 65 packets and arms the selective
timer of 1800 seconds with `schedule_job`, not the timer of the whole-message
path. -/
theorem generate_message_tracks_beyond_bitmap_counterexample :
    fragments_65.length = 65 ∧
    sixty_five_fragments.selective_retransmission_enabled = true ∧
    sixty_five_fragments.outgoing_tracker.map
      (fun t => (t.message_id, t.total_fragments, t.fragments.length)) = some (7, 65, 65) ∧
    is_selective_retransmit sixty_five_fragments 7 = true ∧
    ∃ r, retransmit 1 {} sixty_five_fragments 7 = some r ∧
      r.status = status_t.SUCCESS ∧
      r.effects.log = [log_t.RETRANSMIT_DEBUG_ENTERED_IF, log_t.RETRANSMIT_DEBUG_NO_MOBIKE_PROBING,
        log_t.III1_SELECTIVE_RETRANSMIT_INITIAL, log_t.III10_SELECTIVE_RETRANSMIT_SHARED_TIMEOUT,
        log_t.RETRANSMIT_JOB_CREATING] ∧
      r.effects.sent.length = 65 ∧
      r.effects.jobs = [sched_call_t.schedule_job { message_id := 7 } 1800] :=
  ⟨by decide, rfl, by decide, by decide, _, rfl, by decide, by decide, by decide⟩

theorem handle_collisions_filter (this : private_task_manager_t) (task : task_t) (h : hook_t)
    (hh : h ≠ hook_t.collide) :
    (handle_collisions this task).2.filter (fun c => c.hook == h) = [] := by
  rw [List.filter_eq_nil_iff]
  intro c hc
  rw [handle_collisions_calls this task c hc]
  simp only [beq_iff_eq]
  exact fun k => hh k.symm

/-- The build pass of `build_response`, task by task: `build` is called on the
visited tasks in order, a visited task is kept exactly when it is not adopted
and did not answer SUCCESS, `destroy` is called exactly on the visited tasks
that answered SUCCESS and are not adopted, and the tasks behind the visited ones
are kept. -/
theorem response_build_pass_exact (this : private_task_manager_t) (tasks : List task_t) :
    ∀ (message : message_t) (mid_sync : Bool),
      (response_build_pass this tasks message mid_sync).tasks =
        (build_visited tasks).filter (fun task =>
          !(handle_collisions this task).1 && task.build != status_t.SUCCESS) ++
          tasks.drop (build_visited tasks).length ∧
      ((response_build_pass this tasks message mid_sync).hooks.filter
          (fun c => c.hook == hook_t.build)).map (fun c => c.task) = build_visited tasks ∧
      ((response_build_pass this tasks message mid_sync).hooks.filter
          (fun c => c.hook == hook_t.destroy)).map (fun c => c.task) =
        (build_visited tasks).filter (fun task =>
          !(handle_collisions this task).1 && task.build == status_t.SUCCESS) := by
  induction tasks with
  | nil =>
    intro message mid_sync
    exact ⟨rfl, rfl, rfl⟩
  | cons task rest ih =>
    intro message mid_sync
    have hb := handle_collisions_filter this task hook_t.build (by decide)
    have hd := handle_collisions_filter this task hook_t.destroy (by decide)
    cases hbuild : task.build with
    | SUCCESS =>
      obtain ⟨h1, h2, h3⟩ := ih (built_by task message)
        (mid_sync || task.type == task_type_t.TASK_IKE_MID_SYNC)
      unfold response_build_pass build_visited
      simp only [hbuild, true_or, if_true]
      refine ⟨?_, ?_, ?_⟩
      · rw [h1]
        simp [List.filter_cons, hbuild]
      · simp only [List.filter_append, hb, List.map_append, h2]
        cases (handle_collisions this task).1 <;> simp [List.filter_cons]
      · simp only [List.filter_append, hd, List.map_append, h3]
        cases hc : (handle_collisions this task).1 <;> simp [List.filter_cons, hc, hbuild]
    | NEED_MORE =>
      obtain ⟨h1, h2, h3⟩ := ih (built_by task message)
        (mid_sync || task.type == task_type_t.TASK_IKE_MID_SYNC)
      unfold response_build_pass build_visited
      simp only [hbuild, or_true, if_true]
      refine ⟨?_, ?_, ?_⟩
      · rw [h1]
        cases hc : (handle_collisions this task).1 <;> simp [List.filter_cons, hc, hbuild]
      · simp only [List.filter_append, hb, List.map_append, h2]
        simp [List.filter_cons]
      · simp only [List.filter_append, hd, List.map_append, h3]
        simp [List.filter_cons, hbuild]
    | DESTROY_ME =>
      unfold response_build_pass build_visited
      simp only [hbuild]
      refine ⟨?_, ?_, ?_⟩
      · cases hc : (handle_collisions this task).1 <;> simp [List.filter_cons, hc, hbuild]
      · simp only [List.filter_append, hb]
        simp [List.filter_cons]
      · simp only [List.filter_append, hd]
        simp [List.filter_cons, hbuild]
    | _ =>
      unfold response_build_pass build_visited
      simp only [hbuild]
      refine ⟨?_, ?_, ?_⟩
      · cases hc : (handle_collisions this task).1 <;> simp [List.filter_cons, hc, hbuild]
      · simp only [List.filter_append, hb]
        simp [List.filter_cons]
      · simp only [List.filter_append, hd]
        simp [List.filter_cons, hbuild]

theorem post_build_pass_tasks (tasks : List task_t) :
    List.Sublist (post_build_pass tasks).2.1 tasks ∧
    ∀ call ∈ (post_build_pass tasks).2.2, call.task ∈ tasks := by
  induction tasks with
  | nil => exact ⟨List.Sublist.slnil, fun call h => (by cases h)⟩
  | cons t rest ih =>
    obtain ⟨h1, h2⟩ := ih
    have h2' : ∀ call ∈ (post_build_pass rest).2.2, call.task ∈ t :: rest :=
      fun call h => List.mem_cons_of_mem _ (h2 call h)
    unfold post_build_pass
    dsimp only
    cases hp : t.post_build with
    | none => exact ⟨h1.cons₂ t, h2'⟩
    | some s =>
      cases s <;>
        first
          | refine ⟨h1.cons₂ t, ?_⟩
            intro call hc
            rcases List.mem_cons.mp hc with k | k
            · rw [k]; exact List.mem_cons_self _ _
            · exact h2' call k
          | refine ⟨h1.cons t, ?_⟩
            intro call hc
            simp only [List.cons_append, List.nil_append, List.mem_cons] at hc
            rcases hc with k | k | k
            · rw [k]; exact List.mem_cons_self _ _
            · rw [k]; exact List.mem_cons_self _ _
            · exact h2' call k

theorem generate_message_passive (env : env_t) (this : private_task_manager_t) (message_id : Nat)
    (generated : Option (List packet_t)) (packets : List packet_t) :
    (generate_message env this message_id generated packets).2.1.passive_tasks =
      this.passive_tasks := by
  unfold generate_message
  cases generated with
  | none => rfl
  | some fragments =>
    dsimp only
    split_ifs <;> rfl

/-- What `build_response` does to the passive tasks after its build pass: the
tasks it leaves in `passive_tasks` are among those the build pass kept, in
order, and every later call of a method of a task is on a task the build pass
kept. -/
theorem build_response_passive (env : env_t) (this : private_task_manager_t)
    (request : message_t) :
    List.Sublist (build_response env this request).this.passive_tasks
      (response_build_pass this this.passive_tasks (response_message this request) false).tasks ∧
    ∃ later, (build_response env this request).effects.hooks =
        (response_build_pass this this.passive_tasks (response_message this request) false).hooks
          ++ later ∧
      ∀ call ∈ later, call.task ∈
        (response_build_pass this this.passive_tasks (response_message this request) false).tasks := by
  unfold build_response
  dsimp only
  generalize response_build_pass this this.passive_tasks (response_message this request) false = b
  generalize (if this.selective_retransmission_enabled = true ∧
      request.exchange_type = exchange_type_t.IKE_SA_INIT then
      add_notify b.message notify_type_t.SELECTIVE_FRAGMENT_RETRANSMISSION_SUPPORTED []
    else b.message) = message
  have hg := generate_message_passive env { this with passive_tasks := b.tasks }
    message.message_id (env.generate_message_fragmented message)
    (clear_packets this.responding_packets)
  generalize generate_message env { this with passive_tasks := b.tasks }
    message.message_id (env.generate_message_fragmented message)
    (clear_packets this.responding_packets) = g at hg
  dsimp only at hg
  have hp := post_build_pass_tasks b.tasks
  have hs := send_packets_this env
  by_cases hc : g.1 = true ∧ b.delete = false
  · simp only [if_pos hc, hg]
    split_ifs <;> (try rw [hs]) <;> dsimp only [effects_t.append] <;>
      exact ⟨hp.1, (post_build_pass b.tasks).2.2, by simp, hp.2⟩
  · simp only [if_neg hc, hg]
    split_ifs <;> (try rw [hs]) <;> dsimp only [effects_t.append] <;>
      exact ⟨List.Sublist.refl _, [], by simp, fun call h => (by cases h)⟩

/-- Claim C26.  `handle_collisions(task)` returns TRUE exactly when the passive
task is of type IKE_REKEY or IKE_DELETE and the first active task of type
IKE_REKEY answers TRUE to `collide`, or the passive task is of type CHILD_REKEY
and the first active task of type CHILD_REKEY answers TRUE; it calls no method
but `collide`.  The build pass of `build_response` calls `build` on the passive
tasks up to and including the first one that asks for the IKE_SA to be destroyed
(`build_visited`), in order; of these it keeps in `passive_tasks` exactly those
for which `handle_collisions` returns FALSE and `build` did not answer SUCCESS,
and it calls `destroy` exactly on those for which `handle_collisions` returns
FALSE and `build` answered SUCCESS: a task for which it returns TRUE is removed
and not destroyed.  What `build_response` does afterwards only concerns the
tasks the build pass kept. -/
theorem handle_collisions_adoption (this : private_task_manager_t) (task : task_t) :
    ((handle_collisions this task).1 = true ↔
      ((task.type = task_type_t.TASK_IKE_REKEY ∨ task.type = task_type_t.TASK_IKE_DELETE) ∧
        ∃ active, this.active_tasks.find? (fun a => a.type == task_type_t.TASK_IKE_REKEY) =
            some active ∧ active.collide = true) ∨
      (task.type = task_type_t.TASK_CHILD_REKEY ∧
        ∃ active, this.active_tasks.find? (fun a => a.type == task_type_t.TASK_CHILD_REKEY) =
            some active ∧ active.collide = true)) ∧
    (∀ call ∈ (handle_collisions this task).2, call.hook = hook_t.collide) ∧
    (∀ (tasks : List task_t) (message : message_t) (mid_sync : Bool),
      (response_build_pass this tasks message mid_sync).tasks =
        (build_visited tasks).filter (fun task =>
          !(handle_collisions this task).1 && task.build != status_t.SUCCESS) ++
          tasks.drop (build_visited tasks).length ∧
      ((response_build_pass this tasks message mid_sync).hooks.filter
          (fun c => c.hook == hook_t.build)).map (fun c => c.task) = build_visited tasks ∧
      ((response_build_pass this tasks message mid_sync).hooks.filter
          (fun c => c.hook == hook_t.destroy)).map (fun c => c.task) =
        (build_visited tasks).filter (fun task =>
          !(handle_collisions this task).1 && task.build == status_t.SUCCESS)) ∧
    (∀ (env : env_t) (request : message_t),
      List.Sublist (build_response env this request).this.passive_tasks
        (response_build_pass this this.passive_tasks (response_message this request) false).tasks ∧
      ∃ later, (build_response env this request).effects.hooks =
          (response_build_pass this this.passive_tasks (response_message this request)
            false).hooks ++ later ∧
        ∀ call ∈ later, call.task ∈
          (response_build_pass this this.passive_tasks (response_message this request)
            false).tasks) := by
  refine ⟨?_, handle_collisions_calls this task,
    fun tasks message mid_sync => response_build_pass_exact this tasks message mid_sync,
    fun env request => build_response_passive env this request⟩
  unfold handle_collisions
  by_cases h1 : task.type = task_type_t.TASK_IKE_REKEY ∨ task.type = task_type_t.TASK_IKE_DELETE
  · have hn : ¬ task.type = task_type_t.TASK_CHILD_REKEY := by
      rcases h1 with h | h <;> rw [h] <;> decide
    rw [if_pos (by rcases h1 with h | h; exact Or.inl h; exact Or.inr (Or.inl h))]
    rw [collide_loop_ike task.type task h1]
    constructor
    · intro h; exact Or.inl ⟨h1, h⟩
    · rintro (h | h)
      · exact h.2
      · exact absurd h.1 hn
  · by_cases h2 : task.type = task_type_t.TASK_CHILD_REKEY
    · rw [if_pos (Or.inr (Or.inr h2)), h2, collide_loop_child]
      constructor
      · intro h; exact Or.inr ⟨rfl, h⟩
      · rintro (h | h)
        · rcases h.1 with k | k <;> cases k
        · exact h.2
    · rw [if_neg (by rintro (h | h | h); exact h1 (Or.inl h); exact h1 (Or.inr h); exact h2 h)]
      constructor
      · intro h; cases h
      · rintro (h | h)
        · exact absurd h.1 h1
        · exact absurd h.1 h2

/-- Witness of `handle_collisions_adoption`: an active ike-rekey task that adopts
what collides with it, and the passive tasks ike-rekey (needs another exchange),
ike-delete (finished), dpd (needs another exchange) and dpd (finished).  The two
adopted tasks leave `passive_tasks` and are not destroyed; the first dpd task is
kept, the second one is destroyed. -/
theorem handle_collisions_adoption_witness :
    (handle_collisions rekeying_manager
      { type := task_type_t.TASK_IKE_DELETE, ident := 3, build := status_t.SUCCESS }).1 = true ∧
    (response_build_pass rekeying_manager rekeying_manager.passive_tasks {} false).tasks =
      [{ type := task_type_t.TASK_IKE_DPD, ident := 4, build := status_t.NEED_MORE }] ∧
    ((response_build_pass rekeying_manager rekeying_manager.passive_tasks {} false).hooks.filter
        (fun c => c.hook == hook_t.destroy)).map (fun c => c.task) =
      [{ type := task_type_t.TASK_IKE_DPD, ident := 5, build := status_t.SUCCESS }] ∧
    (build_response {} rekeying_manager {}).this.passive_tasks =
      [{ type := task_type_t.TASK_IKE_DPD, ident := 4, build := status_t.NEED_MORE }] :=
  ⟨(handle_collisions_adoption rekeying_manager
      { type := task_type_t.TASK_IKE_DELETE, ident := 3, build := status_t.SUCCESS }).1.mpr
      (Or.inl ⟨Or.inr rfl, _, rfl, rfl⟩),
   ((handle_collisions_adoption rekeying_manager {}).2.2.1
      rekeying_manager.passive_tasks {} false).1.trans (by decide),
   ((handle_collisions_adoption rekeying_manager {}).2.2.1
      rekeying_manager.passive_tasks {} false).2.2.trans (by decide),
   by decide⟩

theorem send_packets_queue (env : env_t) (this : private_task_manager_t) (ps : List packet_t)
    (src dst : Option Nat) :
    (send_packets env this ps src dst).1.queued_tasks = this.queued_tasks := by
  rw [send_packets_this]

theorem retransmit_missing_fragments_simple_queue (env : env_t)
    (this : private_task_manager_t) :
    (retransmit_missing_fragments_simple env this).this.queued_tasks = this.queued_tasks ∧
    (retransmit_missing_fragments_simple env this).effects.hooks = [] ∧
    (retransmit_missing_fragments_simple env this).effects.generated = [] := by
  unfold retransmit_missing_fragments_simple
  cases this.outgoing_tracker with
  | none => exact ⟨rfl, rfl, rfl⟩
  | some tracker =>
    dsimp only
    split_ifs
    · exact ⟨rfl, rfl, rfl⟩
    · exact ⟨send_packets_queue env _ _ _ _, rfl, rfl⟩
    · exact ⟨rfl, rfl, rfl⟩

theorem selective_step_queue (env : env_t) (this : private_task_manager_t)
    (tracker : fragment_tracker_t) (log0 : List log_t) :
    (selective_step env this tracker log0).1.queued_tasks = this.queued_tasks ∧
    (selective_step env this tracker log0).2.hooks = [] ∧
    (selective_step env this tracker log0).2.generated = [] := by
  unfold selective_step
  split_ifs with h1
  · dsimp only
    split_ifs
    · exact ⟨(retransmit_missing_fragments_simple_queue env this).1, rfl, rfl⟩
    · exact ⟨rfl, rfl, rfl⟩
  · exact ⟨send_packets_queue env this _ _ _, rfl, rfl⟩

theorem retransmit_selective_queue (env : env_t) (this : private_task_manager_t)
    (tracker : fragment_tracker_t) (log0 : List log_t) (r : result_t)
    (h : retransmit_selective env this tracker log0 = some r) :
    r.this.queued_tasks = this.queued_tasks ∧ r.effects.hooks = [] ∧
      r.effects.generated = [] := by
  obtain ⟨h1, h2, h3⟩ := selective_step_queue env this tracker log0
  unfold retransmit_selective at h
  split_ifs at h
  · cases h; exact ⟨rfl, rfl, rfl⟩
  · dsimp only at h
    split at h
    · cases h
    · split_ifs at h <;> cases h <;>
        exact ⟨h1, by simp [effects_t.append, h2], by simp [effects_t.append, h3]⟩

theorem retransmit_traditional_queue (env : env_t) (this : private_task_manager_t)
    (message_id : Nat) (mobike : Option task_t) (log0 : List log_t) :
    (retransmit_traditional env this message_id mobike log0).this.queued_tasks =
      this.queued_tasks ∧
    (retransmit_traditional env this message_id mobike log0).effects.hooks = [] ∧
    (retransmit_traditional env this message_id mobike log0).effects.generated = [] := by
  unfold retransmit_traditional
  cases mobike with
  | none =>
    dsimp only
    unfold retransmit_reschedule
    dsimp only
    rw [send_packets_queue]
    refine ⟨?_, by simp [effects_t.append], by simp [effects_t.append]⟩
    split_ifs <;> rfl
  | some m =>
    dsimp only
    unfold retransmit_reschedule
    split_ifs <;> exact ⟨rfl, by simp [effects_t.append], by simp [effects_t.append]⟩

theorem retransmit_probing_queue (env : env_t) (this : private_task_manager_t)
    (message_id : Nat) (m : task_t) (log0 : List log_t) :
    (retransmit_probing env this message_id m log0).this.queued_tasks = this.queued_tasks ∧
    (retransmit_probing env this message_id m log0).effects.hooks = [] ∧
    (retransmit_probing env this message_id m log0).effects.generated = [] := by
  unfold retransmit_probing retransmit_reschedule
  split_ifs <;> exact ⟨rfl, by simp [effects_t.append], by simp [effects_t.append]⟩

theorem retransmit_main_queue (env : env_t) (this : private_task_manager_t) (message_id : Nat)
    (r : result_t) (h : retransmit_main env this message_id = some r) :
    r.this.queued_tasks = this.queued_tasks ∧ r.effects.hooks = [] ∧
      r.effects.generated = [] := by
  unfold retransmit_main at h
  dsimp only at h
  split_ifs at h
  · cases h; exact ⟨rfl, rfl, rfl⟩
  · split at h
    · split_ifs at h
      · exact retransmit_selective_queue env this _ _ r h
      · cases h; exact retransmit_traditional_queue env this _ _ _
    · cases h; exact retransmit_traditional_queue env this _ _ _
  · split at h
    · cases h; exact retransmit_probing_queue env this _ _ _
    · cases h

/-- The method `retransmit` leaves the queue as it is, calls no method of a task
and generates no message. -/
theorem retransmit_queue (fuel : Nat) (env : env_t) :
    ∀ (this : private_task_manager_t) (message_id : Nat) (r : result_t),
      retransmit fuel env this message_id = some r →
        r.this.queued_tasks = this.queued_tasks ∧ r.effects.hooks = [] ∧
          r.effects.generated = [] := by
  induction fuel with
  | zero =>
    intro this message_id r h
    simp [retransmit] at h
  | succ fuel ih =>
    intro this message_id r h
    unfold retransmit at h
    dsimp only at h
    split_ifs at h
    · cases h; exact ⟨rfl, rfl, rfl⟩
    · exact retransmit_main_queue env { this with current_retransmit_job := none } _ r h
    · rw [Option.map_eq_some'] at h
      obtain ⟨r0, h0, h1⟩ := h
      subst h1
      obtain ⟨k1, k2, k3⟩ := ih _ _ r0 h0
      exact ⟨k1, by simp [effects_t.append, k2], by simp [effects_t.append, k3]⟩
    · cases h; exact ⟨rfl, rfl, rfl⟩
    · cases h; exact ⟨rfl, rfl, rfl⟩

/-- With a recursion depth of two or more `retransmit` gives a result. -/
theorem retransmit_returns (fuel : Nat) (env : env_t) (this : private_task_manager_t)
    (message_id : Nat) : ∃ r, retransmit (fuel + 2) env this message_id = some r := by
  unfold retransmit
  dsimp only
  split_ifs with h1 h2 h3 h4
  · exact ⟨_, rfl⟩
  · exact retransmit_main_some env _ _
  · have hm := retransmit_pending_enters_main fuel env (job_cleared this) h4
    have hj : retransmit (fuel + 1) env { this with current_retransmit_job := none }
        this.initiating_mid = retransmit_main env (job_cleared this) this.initiating_mid := hm
    rw [hj]
    obtain ⟨r, hr⟩ := retransmit_main_some env (job_cleared this) this.initiating_mid
    rw [hr]
    exact ⟨_, rfl⟩
  · exact ⟨_, rfl⟩
  · exact ⟨_, rfl⟩

theorem select_exchange_idle (env : env_t) (this : private_task_manager_t)
    (hactive : this.active_tasks = []) :
    select_exchange env this =
      { exchange := (select_exchange env this).exchange, this := (select_exchange env this).this } := by
  unfold select_exchange
  rw [if_pos (by rw [hactive]; rfl)]

/-- With nothing due, `initiate` on an idle established IKE_SA returns SUCCESS and
only records the start time. -/
theorem initiate_nothing_due (fuel : Nat) (env : env_t) (this : private_task_manager_t)
    (hstate : env.state = ike_sa_state_t.IKE_ESTABLISHED)
    (hactive : this.active_tasks = [])
    (hidle : this.initiating_type = exchange_type_t.EXCHANGE_TYPE_UNDEFINED)
    (h : ∀ type ∈ spec_activation_priority, ∀ q ∈ this.queued_tasks,
      is_due env.now type q = false) :
    initiate (fuel + 1) env this =
      some { status := status_t.SUCCESS, this := { this with start_time := env.now } } := by
  obtain ⟨h1, h2⟩ := (select_exchange_established env { this with start_time := env.now }
    hstate hactive).1 h
  have hs := select_exchange_idle env { this with start_time := env.now } hactive
  rw [h1, h2] at hs
  unfold initiate
  dsimp only
  rw [if_neg (by rw [hidle]; exact fun k => k rfl), hs]
  rfl

theorem select_exchange_first_due (env : env_t) (this : private_task_manager_t)
    (hstate : env.state = ike_sa_state_t.IKE_ESTABLISHED)
    (hactive : this.active_tasks = [])
    (before : List task_type_t) (type : task_type_t) (after : List task_type_t)
    (hsplit : spec_activation_priority = before ++ type :: after)
    (hbefore : ∀ t ∈ before, ∀ q ∈ this.queued_tasks, is_due env.now t q = false)
    (pre : List queued_task_t) (q : queued_task_t) (post : List queued_task_t)
    (hq : this.queued_tasks = pre ++ q :: post)
    (hdue : is_due env.now type q = true)
    (hpre : ∀ x ∈ pre, is_due env.now type x = false) :
    select_exchange env { this with start_time := env.now } =
      { exchange := some (spec_activation_exchange type)
        this := { this with
          start_time := env.now, queued_tasks := pre ++ post, active_tasks := [q.task] } } := by
  obtain ⟨h1, h2⟩ := (select_exchange_established env { this with start_time := env.now }
    hstate hactive).2.1 before type after hsplit hbefore pre q post hq hdue hpre
  have hs := select_exchange_idle env { this with start_time := env.now } hactive
  rw [h1, h2] at hs
  exact hs

/-- When the `build` of the activated task sets the exchange type of the request
to EXCHANGE_TYPE_UNDEFINED, `initiate` starts over (line 1158). -/
theorem initiate_restart (fuel : Nat) (env : env_t) (this : private_task_manager_t)
    (hstate : env.state = ike_sa_state_t.IKE_ESTABLISHED)
    (hactive : this.active_tasks = [])
    (hidle : this.initiating_type = exchange_type_t.EXCHANGE_TYPE_UNDEFINED)
    (before : List task_type_t) (type : task_type_t) (after : List task_type_t)
    (hsplit : spec_activation_priority = before ++ type :: after)
    (hbefore : ∀ t ∈ before, ∀ q ∈ this.queued_tasks, is_due env.now t q = false)
    (pre : List queued_task_t) (q : queued_task_t) (post : List queued_task_t)
    (hq : this.queued_tasks = pre ++ q :: post)
    (hdue : is_due env.now type q = true)
    (hpre : ∀ x ∈ pre, is_due env.now type x = false)
    (hb : q.task.build = status_t.SUCCESS ∨ q.task.build = status_t.NEED_MORE)
    (hu : (built_by q.task (initiate_message env this (spec_activation_exchange type))).exchange_type
      = exchange_type_t.EXCHANGE_TYPE_UNDEFINED) :
    initiate (fuel + 1) env this =
      (initiate fuel env { this with
        start_time := env.now
        queued_tasks := pre ++ post
        active_tasks := if q.task.build = status_t.NEED_MORE then [q.task] else []
        initiating_type := exchange_type_t.EXCHANGE_TYPE_UNDEFINED
        initiating_retransmitted := 0
        initiating_retransmit_sent := false
        initiating_deferred := false }).map
        (result_t.after { hooks :=
          if q.task.build = status_t.NEED_MORE then [{ hook := hook_t.build, task := q.task }]
          else [{ hook := hook_t.build, task := q.task },
                { hook := hook_t.destroy, task := q.task }] }) := by
  have hs := select_exchange_first_due env this hstate hactive before type after hsplit hbefore
    pre q post hq hdue hpre
  have hm : initiate_message env { this with
      start_time := env.now, queued_tasks := pre ++ post, active_tasks := [q.task] }
      (spec_activation_exchange type) =
      initiate_message env this (spec_activation_exchange type) := rfl
  generalize hR : initiate fuel env _ = R
  unfold initiate
  dsimp only
  rw [if_neg (by rw [hidle]; exact fun k => k rfl), hs]
  dsimp only
  rw [hm]
  rcases hb with hb | hb <;> simp [build_pass, hb, hu] <;> rw [← hR] <;> simp [hb]

theorem build_calls_append (a b : effects_t) :
    build_calls (a.append b) = build_calls a ++ build_calls b := by
  simp [build_calls, effects_t.append]

theorem build_calls_after (eff : effects_t) (r : result_t) :
    build_calls (result_t.after eff r).effects = build_calls eff ++ build_calls r.effects :=
  build_calls_append eff r.effects

theorem build_calls_nil (eff : effects_t) (h : ∀ c ∈ eff.hooks, c.hook ≠ hook_t.build) :
    build_calls eff = [] := by
  unfold build_calls
  rw [List.map_eq_nil_iff, List.filter_eq_nil_iff]
  intro c hc
  simpa using h c hc

theorem flush_queues (this : private_task_manager_t) :
    (flush this).1.queued_tasks = [] ∧ (flush this).1.active_tasks = [] ∧
      ∀ c ∈ (flush this).2.hooks, c.hook ≠ hook_t.build := by
  refine ⟨rfl, rfl, ?_⟩
  intro c hc
  simp only [flush, flush_queue, effects_t.append, destroy_calls, List.mem_append,
    List.mem_map] at hc
  rcases hc with (⟨_, _, rfl⟩ | ⟨_, _, rfl⟩) | ⟨_, _, rfl⟩ <;> exact fun k => (by cases k)

theorem post_build_pass_hooks (tasks : List task_t) :
    ∀ c ∈ (post_build_pass tasks).2.2, c.hook ≠ hook_t.build := by
  induction tasks with
  | nil => intro c h; cases h
  | cons t rest ih =>
    intro c hc
    unfold post_build_pass at hc
    dsimp only at hc
    cases hp : t.post_build with
    | none => rw [hp] at hc; exact ih c hc
    | some s =>
      rw [hp] at hc
      cases s <;> simp only [List.cons_append, List.nil_append, List.mem_cons] at hc <;>
        first
          | (rcases hc with k | k | k
             · rw [k]; exact fun k => (by cases k)
             · rw [k]; exact fun k => (by cases k)
             · exact ih c k)
          | (rcases hc with k | k
             · rw [k]; exact fun k => (by cases k)
             · exact ih c k)

theorem generate_message_queue (env : env_t) (this : private_task_manager_t) (message_id : Nat)
    (generated : Option (List packet_t)) (packets : List packet_t) :
    (generate_message env this message_id generated packets).2.1.queued_tasks =
      this.queued_tasks := by
  unfold generate_message
  cases generated with
  | none => rfl
  | some fragments =>
    dsimp only
    split_ifs <;> rfl

/-- The first activation of `initiate` on an idle established IKE_SA when the
`build` of the activated task does not make it start over: `build` is called on
the activated task and on no other task, the request handed to the generation
service is the one that task built, and the other queued tasks stay queued
unless the manager is flushed. -/
theorem initiate_first_due (fuel : Nat) (env : env_t) (this : private_task_manager_t)
    (hstate : env.state = ike_sa_state_t.IKE_ESTABLISHED)
    (hactive : this.active_tasks = [])
    (hidle : this.initiating_type = exchange_type_t.EXCHANGE_TYPE_UNDEFINED)
    (before : List task_type_t) (type : task_type_t) (after : List task_type_t)
    (hsplit : spec_activation_priority = before ++ type :: after)
    (hbefore : ∀ t ∈ before, ∀ q ∈ this.queued_tasks, is_due env.now t q = false)
    (pre : List queued_task_t) (q : queued_task_t) (post : List queued_task_t)
    (hq : this.queued_tasks = pre ++ q :: post)
    (hdue : is_due env.now type q = true)
    (hpre : ∀ x ∈ pre, is_due env.now type x = false)
    (hno : ¬ ((q.task.build = status_t.SUCCESS ∨ q.task.build = status_t.NEED_MORE) ∧
      (built_by q.task (initiate_message env this (spec_activation_exchange type))).exchange_type
        = exchange_type_t.EXCHANGE_TYPE_UNDEFINED)) :
    ∃ r, initiate (fuel + 1) env this = some r ∧
      build_calls r.effects = [q.task] ∧
      (r.this.queued_tasks = pre ++ post ∨
        (r.status = status_t.DESTROY_ME ∧ r.this.queued_tasks = [])) ∧
      ((q.task.build = status_t.SUCCESS ∨ q.task.build = status_t.NEED_MORE) →
        r.effects.generated =
          [built_by q.task (initiate_message env this (spec_activation_exchange type))]) ∧
      (¬ (q.task.build = status_t.SUCCESS ∨ q.task.build = status_t.NEED_MORE) →
        r.status = status_t.DESTROY_ME ∧ r.effects.generated = []) := by
  have hs := select_exchange_first_due env this hstate hactive before type after hsplit hbefore
    pre q post hq hdue hpre
  have hm : initiate_message env { this with
      start_time := env.now, queued_tasks := pre ++ post, active_tasks := [q.task] }
      (spec_activation_exchange type) =
      initiate_message env this (spec_activation_exchange type) := rfl
  unfold initiate
  dsimp only
  rw [if_neg (by rw [hidle]; exact fun k => k rfl), hs]
  dsimp only
  rw [hm]
  generalize hmsg : built_by q.task (initiate_message env this (spec_activation_exchange type))
    = message at hno
  have hfl := flush_queues
  have hbc : ∀ tail : List hook_call_t, (∀ c ∈ tail, c.hook ≠ hook_t.build) →
      build_calls { hooks := { hook := hook_t.build, task := q.task } :: tail } = [q.task] := by
    intro tail ht
    unfold build_calls
    rw [List.filter_cons_of_pos (by rfl), List.map_cons, List.cons.injEq]
    refine ⟨rfl, ?_⟩
    rw [List.map_eq_nil_iff, List.filter_eq_nil_iff]
    intro c hc
    simpa using ht c hc
  have hret : ∀ (a : private_task_manager_t) (m : Nat) (X : Option result_t),
      retransmit (fuel + 2) env a m = X → ∃ r0, X = some r0 ∧
        r0.this.queued_tasks = a.queued_tasks ∧ r0.effects.hooks = [] ∧
          r0.effects.generated = [] := by
    intro a m X hX
    obtain ⟨r0, hr0⟩ := retransmit_returns fuel env a m
    exact ⟨r0, by rw [← hX, hr0], retransmit_queue _ env a m r0 hr0⟩
  cases hb : q.task.build with
  | SUCCESS =>
    have hne : ¬ message.exchange_type = exchange_type_t.EXCHANGE_TYPE_UNDEFINED :=
      fun k => hno ⟨Or.inl hb, k⟩
    simp only [build_pass, hb, hmsg]
    rw [if_neg hne]
    have hgq := generate_message_queue env { this with
      start_time := env.now, queued_tasks := pre ++ post, active_tasks := []
      initiating_type := message.exchange_type, initiating_retransmitted := 0
      initiating_retransmit_sent := false, initiating_deferred := false }
      message.message_id (env.generate_message_fragmented message) this.initiating_packets
    generalize generate_message env _ message.message_id (env.generate_message_fragmented message)
      this.initiating_packets = g at hgq ⊢
    dsimp only at hgq
    by_cases h1 : g.1 = false
    · rw [if_pos h1]
      refine ⟨_, rfl, ?_, Or.inr ⟨rfl, (hfl _).1⟩, fun _ => ?_,
        fun h => absurd (Or.inl trivial) h⟩
      · rw [build_calls_append, build_calls_append, build_calls_append,
          build_calls_nil _ (hfl _).2.2]
        simp [build_calls]
      · simp [effects_t.append, flush, flush_queue]
    · rw [if_neg h1]
      have hph := post_build_pass_hooks g.2.1.active_tasks
      by_cases h2 : (post_build_pass g.2.1.active_tasks).1 = false
      · rw [if_pos h2]
        refine ⟨_, rfl, ?_, Or.inr ⟨rfl, (hfl _).1⟩, fun _ => ?_,
          fun h => absurd (Or.inl trivial) h⟩
        · rw [build_calls_append, build_calls_append, build_calls_append, build_calls_append,
            build_calls_nil _ (hfl _).2.2, build_calls_nil { hooks := _ } hph]
          simp [build_calls]
        · simp [effects_t.append, flush, flush_queue]
      · rw [if_neg h2]
        obtain ⟨r0, hr0, k1, k2, k3⟩ := hret _ _ _ rfl
        rw [hr0]
        refine ⟨_, rfl, ?_, Or.inl (k1.trans hgq), fun _ => ?_,
          fun h => absurd (Or.inl trivial) h⟩
        · rw [build_calls_after, build_calls_append, build_calls_append,
            build_calls_nil { hooks := _ } hph, build_calls_nil r0.effects (by rw [k2]; simp)]
          simp [build_calls]
        · simp [result_t.after, effects_t.append, k3]
  | NEED_MORE =>
    have hne : ¬ message.exchange_type = exchange_type_t.EXCHANGE_TYPE_UNDEFINED :=
      fun k => hno ⟨Or.inr hb, k⟩
    simp only [build_pass, hb, hmsg]
    rw [if_neg hne]
    have hgq := generate_message_queue env { this with
      start_time := env.now, queued_tasks := pre ++ post, active_tasks := [q.task]
      initiating_type := message.exchange_type, initiating_retransmitted := 0
      initiating_retransmit_sent := false, initiating_deferred := false }
      message.message_id (env.generate_message_fragmented message) this.initiating_packets
    generalize generate_message env _ message.message_id (env.generate_message_fragmented message)
      this.initiating_packets = g at hgq ⊢
    dsimp only at hgq
    by_cases h1 : g.1 = false
    · rw [if_pos h1]
      refine ⟨_, rfl, ?_, Or.inr ⟨rfl, (hfl _).1⟩, fun _ => ?_,
        fun h => absurd (Or.inr trivial) h⟩
      · rw [build_calls_append, build_calls_append, build_calls_append,
          build_calls_nil _ (hfl _).2.2]
        simp [build_calls]
      · simp [effects_t.append, flush, flush_queue]
    · rw [if_neg h1]
      have hph := post_build_pass_hooks g.2.1.active_tasks
      by_cases h2 : (post_build_pass g.2.1.active_tasks).1 = false
      · rw [if_pos h2]
        refine ⟨_, rfl, ?_, Or.inr ⟨rfl, (hfl _).1⟩, fun _ => ?_,
          fun h => absurd (Or.inr trivial) h⟩
        · rw [build_calls_append, build_calls_append, build_calls_append, build_calls_append,
            build_calls_nil _ (hfl _).2.2, build_calls_nil { hooks := _ } hph]
          simp [build_calls]
        · simp [effects_t.append, flush, flush_queue]
      · rw [if_neg h2]
        obtain ⟨r0, hr0, k1, k2, k3⟩ := hret _ _ _ rfl
        rw [hr0]
        refine ⟨_, rfl, ?_, Or.inl (k1.trans hgq), fun _ => ?_,
          fun h => absurd (Or.inr trivial) h⟩
        · rw [build_calls_after, build_calls_append, build_calls_append,
            build_calls_nil { hooks := _ } hph, build_calls_nil r0.effects (by rw [k2]; simp)]
          simp [build_calls]
        · simp [result_t.after, effects_t.append, k3]
  | DESTROY_ME =>
    simp only [build_pass, hb, hmsg]
    refine ⟨_, rfl, ?_, Or.inr ⟨rfl, (hfl _).1⟩,
      fun h => (by rcases h with h | h <;> cases h), fun _ => ⟨rfl, ?_⟩⟩
    · rw [build_calls_append, build_calls_nil _ (hfl _).2.2, List.append_nil]
      exact hbc [] (fun c h => (by cases h))
    · simp [effects_t.append, flush, flush_queue]
  | _ =>
    simp only [build_pass, hb, hmsg]
    refine ⟨_, rfl, ?_, Or.inr ⟨rfl, (hfl _).1⟩,
      fun h => (by rcases h with h | h <;> cases h), fun _ => ⟨rfl, ?_⟩⟩
    · rw [build_calls_append, build_calls_append, build_calls_nil _ (hfl _).2.2]
      simp [build_calls]
    · simp [effects_t.append, flush, flush_queue]

theorem activate_loop_sub (now : Nat) (type : task_type_t) (queued : List queued_task_t) :
    ∀ r, activate_loop now type queued = some r →
      due_task now queued r.1 ∧ ∀ x ∈ r.2, x ∈ queued := by
  induction queued with
  | nil => intro r h; cases h
  | cons a rest ih =>
    intro r h
    unfold activate_loop at h
    by_cases ha : a.task.type = type ∧ ¬ (now < a.time)
    · rw [if_pos ha] at h
      cases h
      exact ⟨⟨a, List.mem_cons_self _ _, rfl, by omega⟩, fun x hx => List.mem_cons_of_mem _ hx⟩
    · rw [if_neg ha, Option.map_eq_some'] at h
      obtain ⟨r0, h0, rfl⟩ := h
      obtain ⟨⟨q, hq, k1, k2⟩, k3⟩ := ih r0 h0
      refine ⟨⟨q, List.mem_cons_of_mem _ hq, k1, k2⟩, ?_⟩
      intro x hx
      rcases List.mem_cons.mp hx with k | k
      · rw [k]; exact List.mem_cons_self _ _
      · exact List.mem_cons_of_mem _ (k3 x k)

theorem activate_task_inv (env : env_t) (queue : List queued_task_t)
    (this : private_task_manager_t) (type : task_type_t) (h : due_inv env.now queue this) :
    due_inv env.now queue (activate_task env this type).2 := by
  unfold activate_task
  cases hl : activate_loop env.now type this.queued_tasks with
  | none => exact h
  | some r =>
    obtain ⟨⟨q, hq, k1, k2⟩, k3⟩ := activate_loop_sub env.now type this.queued_tasks r hl
    refine ⟨?_, fun x hx => h.2 x (k3 x hx)⟩
    intro task ht
    rcases List.mem_append.mp ht with k | k
    · exact h.1 task k
    · rw [List.mem_singleton] at k
      exact ⟨q, h.2 q hq, by rw [k]; exact k1, k2⟩

theorem activate_first_inv (env : env_t) (queue : List queued_task_t)
    (chain : List (task_type_t × exchange_type_t)) :
    ∀ this, due_inv env.now queue this → due_inv env.now queue (activate_first env this chain).2 := by
  induction chain with
  | nil => intro this h; exact h
  | cons c rest ih =>
    intro this h
    obtain ⟨type, exchange⟩ := c
    have ha := activate_task_inv env queue this type h
    rw [activate_first]
    split_ifs
    · exact ha
    · exact ih _ ha

theorem activate_fold_inv (env : env_t) (queue : List queued_task_t) (types : List task_type_t) :
    ∀ this, due_inv env.now queue this →
      due_inv env.now queue (types.foldl (fun th type => (activate_task env th type).2) this) := by
  induction types with
  | nil => intro this h; exact h
  | cons t rest ih =>
    intro this h
    exact ih _ (activate_task_inv env queue this t h)

theorem activate_new_tasks_inv (env : env_t) (queue : List queued_task_t)
    (this : private_task_manager_t) (h : due_inv env.now queue this) :
    due_inv env.now queue (activate_new_tasks env this).2 := by
  have h1 := activate_task_inv env queue _ task_type_t.TASK_IKE_INIT
    (activate_task_inv env queue this task_type_t.TASK_IKE_VENDOR h)
  have h4 : due_inv env.now queue
      { (activate_task env (activate_task env this task_type_t.TASK_IKE_VENDOR).2
          task_type_t.TASK_IKE_INIT).2 with initiating_mid := 0 } := ⟨h1.1, h1.2⟩
  have h2 := activate_fold_inv env queue initial_tasks _ h4
  have h3 := activate_first_inv env queue
  unfold activate_new_tasks
  split
  · by_cases hi : (activate_task env (activate_task env this task_type_t.TASK_IKE_VENDOR).2
        task_type_t.TASK_IKE_INIT).1 = true
    · simp only [hi, if_true]
      exact h2
    · simp only [hi]
      exact h1
  · exact h3 _ this h
  · exact h3 _ this h
  · exact h3 _ this h
  · exact h

theorem derive_keys_hooks (tasks : List task_t) :
    ∀ c ∈ (derive_keys tasks).2.2, c.hook ≠ hook_t.build := by
  induction tasks with
  | nil => intro c h; cases h
  | cons t rest ih =>
    intro c hc
    unfold derive_keys at hc
    by_cases ht : t.type = task_type_t.TASK_IKE_INIT
    · rw [if_pos ht] at hc
      cases hd : t.derive_keys <;> simp only [hd, List.mem_cons, List.mem_singleton] at hc <;>
        first
          | (rcases hc with k | k | k
             · rw [k]; exact fun k => (by cases k)
             · rw [k]; exact fun k => (by cases k)
             · cases k)
          | (rcases hc with k | k
             · rw [k]; exact fun k => (by cases k)
             · cases k)
    · rw [if_neg ht] at hc
      exact ih c hc

theorem select_exchange_inv (env : env_t) (queue : List queued_task_t)
    (this : private_task_manager_t) (h : due_inv env.now queue this) :
    due_inv env.now queue (select_exchange env this).this ∧
      ∀ c ∈ (select_exchange env this).hooks, c.hook ≠ hook_t.build := by
  unfold select_exchange
  split_ifs
  · exact ⟨activate_new_tasks_inv env queue this h, fun c hc => (by cases hc)⟩
  · dsimp only
    split_ifs <;>
      exact ⟨⟨fun task ht => h.1 task (derive_keys_sub _ task ht), h.2⟩,
        derive_keys_hooks this.active_tasks⟩

theorem build_calls_mem (eff : effects_t) (t : task_t) (h : t ∈ build_calls eff) :
    ∃ c ∈ eff.hooks, c.hook = hook_t.build ∧ c.task = t := by
  unfold build_calls at h
  rw [List.mem_map] at h
  obtain ⟨c, hc, rfl⟩ := h
  rw [List.mem_filter] at hc
  exact ⟨c, hc.1, by simpa using hc.2, rfl⟩

theorem build_pass_sub (tasks : List task_t) :
    ∀ message, (∀ t ∈ (build_pass tasks message).tasks, t ∈ tasks) ∧
      ∀ c ∈ (build_pass tasks message).hooks, c.task ∈ tasks := by
  induction tasks with
  | nil =>
    intro message
    exact ⟨fun t h => (by cases h), fun t h => (by cases h)⟩
  | cons a rest ih =>
    intro message
    obtain ⟨h1, h2⟩ := ih (built_by a message)
    unfold build_pass
    cases hb : a.build <;> simp only [hb] <;> refine ⟨?_, ?_⟩ <;> intro t ht
    all_goals
      first
        | exact List.mem_cons_of_mem _ (h1 t ht)
        | exact ht
        | (rcases List.mem_cons.mp ht with k | k
           · rw [k]; exact List.mem_cons_self _ _
           · exact List.mem_cons_of_mem _ (h1 t k))
        | (rcases List.mem_cons.mp ht with k | k
           · rw [k]; exact List.mem_cons_self _ _
           · exact List.mem_cons_of_mem _ (h2 t k))
        | (simp only [List.cons_append, List.nil_append, List.mem_cons] at ht
           rcases ht with k | k | k
           · rw [k]; exact List.mem_cons_self _ _
           · rw [k]; exact List.mem_cons_self _ _
           · exact List.mem_cons_of_mem _ (h2 t k))
        | (rw [List.mem_singleton] at ht
           rw [ht]; exact List.mem_cons_self _ _)

theorem builds_due_append (now : Nat) (queue : List queued_task_t) (l1 l2 : List hook_call_t)
    (h1 : builds_due now queue l1) (h2 : builds_due now queue l2) :
    builds_due now queue (l1 ++ l2) := by
  intro c hc hb
  rcases List.mem_append.mp hc with k | k
  · exact h1 c k hb
  · exact h2 c k hb

theorem builds_due_of_none (now : Nat) (queue : List queued_task_t) (l : List hook_call_t)
    (h : ∀ c ∈ l, c.hook ≠ hook_t.build) : builds_due now queue l :=
  fun c hc hb => absurd hb (h c hc)

/-- Whatever `initiate` activates is a queued task whose start time has come:
when every active task is a due task of `queue` and every queued task is in
`queue`, `build` is only called on due tasks of `queue`, and the tasks active
afterwards are due tasks of `queue`. -/
theorem initiate_activates_due (fuel : Nat) (env : env_t) (queue : List queued_task_t) :
    ∀ (this : private_task_manager_t) (r : result_t), initiate fuel env this = some r →
      due_inv env.now queue this →
      builds_due env.now queue r.effects.hooks ∧
      ∀ task ∈ r.this.active_tasks, due_task env.now queue task := by
  induction fuel with
  | zero =>
    intro this r h
    simp [initiate] at h
  | succ fuel ih =>
    intro this r h hinv
    have hstart : due_inv env.now queue { this with start_time := env.now } := hinv
    obtain ⟨hsi, hsh⟩ := select_exchange_inv env queue _ hstart
    have hsh' := builds_due_of_none env.now queue _ hsh
    have hnil : builds_due env.now queue [] := fun c hc => (by cases hc)
    have hfl := flush_queues
    have hflush : ∀ a, builds_due env.now queue (flush a).2.hooks :=
      fun a => builds_due_of_none _ _ _ (hfl a).2.2
    have hpost : ∀ tasks, builds_due env.now queue (post_build_pass tasks).2.2 :=
      fun tasks => builds_due_of_none _ _ _ (post_build_pass_hooks tasks)
    have hempty : ∀ a, ∀ task ∈ (flush a).1.active_tasks, due_task env.now queue task := by
      intro a task ht
      rw [(hfl a).2.1] at ht
      cases ht
    unfold initiate at h
    dsimp only at h
    split_ifs at h with h1 h2 h3
    · obtain ⟨_, k2, _⟩ := retransmit_queue _ env _ _ r h
      have k := retransmit_same _ env _ _ r h
      refine ⟨by rw [k2]; exact hnil, ?_⟩
      rw [k.1]
      exact hinv.1
    · cases h
      exact ⟨hnil, hinv.1⟩
    · cases h
      exact ⟨hsh', hsi.1⟩
    · split at h
      · cases h
        exact ⟨hsh', hsi.1⟩
      · obtain ⟨hb1, hb2⟩ := build_pass_sub (select_exchange env
          { this with start_time := env.now }).this.active_tasks
          (initiate_message env (select_exchange env { this with start_time := env.now }).this
            (by assumption))
        have hbd : builds_due env.now queue (build_pass (select_exchange env
            { this with start_time := env.now }).this.active_tasks
            (initiate_message env (select_exchange env { this with start_time := env.now }).this
              (by assumption))).hooks :=
          fun c hc _ => hsi.1 _ (hb2 c hc)
        have heff1 := builds_due_append _ _ _ _ hsh' hbd
        split at h
        · cases h
          exact ⟨builds_due_append _ _ _ _ heff1 (hflush _), hempty _⟩
        · cases h
          refine ⟨builds_due_append _ _ _ _ (builds_due_append _ _ _ _ heff1 hnil) (hflush _),
            hempty _⟩
        · split_ifs at h with h4 h5 h6
          · rw [Option.map_eq_some'] at h
            obtain ⟨r0, h0, rfl⟩ := h
            obtain ⟨k1, k2⟩ := ih _ r0 h0 ⟨fun task ht => hsi.1 task (hb1 task ht), hsi.2⟩
            exact ⟨builds_due_append _ _ _ _ heff1 k1, k2⟩
          · cases h
            exact ⟨builds_due_append _ _ _ _ (builds_due_append _ _ _ _
              (builds_due_append _ _ _ _ heff1 hnil) (hflush _)) hnil, hempty _⟩
          · cases h
            exact ⟨builds_due_append _ _ _ _ (builds_due_append _ _ _ _
              (builds_due_append _ _ _ _ (builds_due_append _ _ _ _ heff1 hnil) (hpost _))
                (hflush _)) hnil, hempty _⟩
          · rw [Option.map_eq_some'] at h
            obtain ⟨r0, h0, rfl⟩ := h
            obtain ⟨_, k2, _⟩ := retransmit_queue _ env _ _ r0 h0
            have k := retransmit_same _ env _ _ r0 h0
            have hg := generate_message_same env
            have hps := post_build_pass_tasks
            refine ⟨builds_due_append _ _ _ _ (builds_due_append _ _ _ _
              (builds_due_append _ _ _ _ heff1 hnil) (hpost _)) (by rw [k2]; exact hnil), ?_⟩
            intro task ht
            have ht2 : task ∈ r0.this.active_tasks := ht
            rw [k.1] at ht2
            dsimp only at ht2
            have ht3 := (hps _).1.subset ht2
            rw [(hg _ _ _ _).1] at ht3
            exact hsi.1 task (hb1 task ht3)

/-- Claim C27, amended.  The IKE_SA is in state IKE_ESTABLISHED, no task is active
and no exchange is in flight (`initiating.type` is EXCHANGE_TYPE_UNDEFINED).
When no queued task of a type of the priority list (mobike, ike-delete,
redirect, child-delete, reauth, child-create, child-rekey, ike-rekey, dpd,
auth-lifetime, reauth-complete, verify-peer-cert) is due, `initiate` returns
SUCCESS and only records the start time.  Otherwise let `q` be the first due
task of the first type of the list for which a due task is queued.  When the
`build` of `q` sets the exchange type of the request to EXCHANGE_TYPE_UNDEFINED,
`initiate` starts over with `q` taken from the queue (line 1158).  In every
other case `initiate` returns, `build` was called on `q` and on no other task,
the request it built was created with the exchange type CREATE_CHILD_SA for
child-create, child-rekey and ike-rekey and INFORMATIONAL otherwise and handed
to the generation service as `build` left it, and the other queued tasks are
still queued, in order, unless the manager was flushed on a failure.  Whatever
the depth of the recursion, `build` is only called on queued tasks whose start
time is not after now, and only such tasks are active afterwards. -/
theorem established_activation_priority (env : env_t) (this : private_task_manager_t)
    (hstate : env.state = ike_sa_state_t.IKE_ESTABLISHED)
    (hactive : this.active_tasks = [])
    (hidle : this.initiating_type = exchange_type_t.EXCHANGE_TYPE_UNDEFINED) :
    ((∀ type ∈ spec_activation_priority, ∀ q ∈ this.queued_tasks,
        is_due env.now type q = false) →
      ∀ fuel, initiate (fuel + 1) env this =
        some { status := status_t.SUCCESS, this := { this with start_time := env.now } }) ∧
    (∀ before type after, spec_activation_priority = before ++ type :: after →
      (∀ t ∈ before, ∀ q ∈ this.queued_tasks, is_due env.now t q = false) →
      ∀ pre q post, this.queued_tasks = pre ++ q :: post →
        is_due env.now type q = true →
        (∀ x ∈ pre, is_due env.now type x = false) →
        ((q.task.build = status_t.SUCCESS ∨ q.task.build = status_t.NEED_MORE) →
          (built_by q.task
            (initiate_message env this (spec_activation_exchange type))).exchange_type =
              exchange_type_t.EXCHANGE_TYPE_UNDEFINED →
          ∀ fuel, initiate (fuel + 1) env this =
            (initiate fuel env { this with
              start_time := env.now
              queued_tasks := pre ++ post
              active_tasks := if q.task.build = status_t.NEED_MORE then [q.task] else []
              initiating_type := exchange_type_t.EXCHANGE_TYPE_UNDEFINED
              initiating_retransmitted := 0
              initiating_retransmit_sent := false
              initiating_deferred := false }).map
              (result_t.after { hooks :=
                if q.task.build = status_t.NEED_MORE then
                  [{ hook := hook_t.build, task := q.task }]
                else [{ hook := hook_t.build, task := q.task },
                      { hook := hook_t.destroy, task := q.task }] })) ∧
        (¬ ((q.task.build = status_t.SUCCESS ∨ q.task.build = status_t.NEED_MORE) ∧
            (built_by q.task
              (initiate_message env this (spec_activation_exchange type))).exchange_type =
                exchange_type_t.EXCHANGE_TYPE_UNDEFINED) →
          ∀ fuel, ∃ r, initiate (fuel + 1) env this = some r ∧
            build_calls r.effects = [q.task] ∧
            (r.this.queued_tasks = pre ++ post ∨
              (r.status = status_t.DESTROY_ME ∧ r.this.queued_tasks = [])) ∧
            ((q.task.build = status_t.SUCCESS ∨ q.task.build = status_t.NEED_MORE) →
              r.effects.generated =
                [built_by q.task
                  { exchange_type := spec_activation_exchange type
                    request := true
                    message_id := this.initiating_mid
                    source := env.my_host
                    destination := env.other_host }]) ∧
            (¬ (q.task.build = status_t.SUCCESS ∨ q.task.build = status_t.NEED_MORE) →
              r.status = status_t.DESTROY_ME ∧ r.effects.generated = []))) ∧
    (∀ fuel r, initiate fuel env this = some r →
      (∀ task ∈ build_calls r.effects,
        ∃ q ∈ this.queued_tasks, q.task = task ∧ q.time ≤ env.now) ∧
      (∀ task ∈ r.this.active_tasks,
        ∃ q ∈ this.queued_tasks, q.task = task ∧ q.time ≤ env.now)) := by
  refine ⟨fun h fuel => initiate_nothing_due fuel env this hstate hactive hidle h, ?_, ?_⟩
  · intro before type after hsplit hbefore pre q post hq hdue hpre
    exact ⟨fun hb hu fuel => initiate_restart fuel env this hstate hactive hidle before type
        after hsplit hbefore pre q post hq hdue hpre hb hu,
      fun hno fuel => initiate_first_due fuel env this hstate hactive hidle before type after
        hsplit hbefore pre q post hq hdue hpre hno⟩
  · intro fuel r h
    obtain ⟨k1, k2⟩ := initiate_activates_due fuel env this.queued_tasks this r h
      ⟨fun task ht => (by rw [hactive] at ht; cases ht), fun q hq => hq⟩
    refine ⟨?_, k2⟩
    intro task ht
    obtain ⟨c, hc, hb, rfl⟩ := build_calls_mem r.effects task ht
    exact k1 c hc hb

/-- Witness of `established_activation_priority`: at time 10 the child-create
task for time 100 is skipped, and of the due tasks the first child-rekey task
is activated, before the ike-rekey and DPD tasks queued in front of it: `build`
is called on it alone, the request is a CREATE_CHILD_SA request, and the four
other tasks stay queued. -/
theorem established_activation_priority_witness :
    ({ now := 10 } : env_t).state = ike_sa_state_t.IKE_ESTABLISHED ∧
    five_queued.active_tasks = [] ∧
    five_queued.initiating_type = exchange_type_t.EXCHANGE_TYPE_UNDEFINED ∧
    ∃ r, initiate 1 { now := 10 } five_queued = some r ∧
      build_calls r.effects = [{ type := task_type_t.TASK_CHILD_REKEY, ident := 1 }] ∧
      r.this.queued_tasks =
        [{ task := { type := task_type_t.TASK_IKE_DPD }, time := 0 },
         { task := { type := task_type_t.TASK_CHILD_CREATE }, time := 100 },
         { task := { type := task_type_t.TASK_IKE_REKEY }, time := 10 },
         { task := { type := task_type_t.TASK_CHILD_REKEY, ident := 2 }, time := 2 }] ∧
      r.effects.generated =
        [{ exchange_type := exchange_type_t.CREATE_CHILD_SA, request := true, message_id := 0
           source := some 1, destination := some 2 }] := by
  obtain ⟨r, h1, h2, h3, h4, _⟩ :=
    ((established_activation_priority { now := 10 } five_queued rfl rfl rfl).2.1
      [task_type_t.TASK_IKE_MOBIKE, task_type_t.TASK_IKE_DELETE, task_type_t.TASK_IKE_REDIRECT,
       task_type_t.TASK_CHILD_DELETE, task_type_t.TASK_IKE_REAUTH, task_type_t.TASK_CHILD_CREATE]
      task_type_t.TASK_CHILD_REKEY
      [task_type_t.TASK_IKE_REKEY, task_type_t.TASK_IKE_DPD,
       task_type_t.TASK_IKE_AUTH_LIFETIME, task_type_t.TASK_IKE_REAUTH_COMPLETE,
       task_type_t.TASK_IKE_VERIFY_PEER_CERT]
      rfl (by decide)
      [{ task := { type := task_type_t.TASK_IKE_DPD }, time := 0 },
       { task := { type := task_type_t.TASK_CHILD_CREATE }, time := 100 },
       { task := { type := task_type_t.TASK_IKE_REKEY }, time := 10 }]
      { task := { type := task_type_t.TASK_CHILD_REKEY, ident := 1 }, time := 3 }
      [{ task := { type := task_type_t.TASK_CHILD_REKEY, ident := 2 }, time := 2 }]
      rfl (by decide) (by decide)).2 (by decide) 0
  have hv : (initiate 1 { now := 10 } five_queued).map (fun r => r.this.queued_tasks) =
      some [{ task := { type := task_type_t.TASK_IKE_DPD }, time := 0 },
         { task := { type := task_type_t.TASK_CHILD_CREATE }, time := 100 },
         { task := { type := task_type_t.TASK_IKE_REKEY }, time := 10 },
         { task := { type := task_type_t.TASK_CHILD_REKEY, ident := 2 }, time := 2 }] := by
    rfl
  rw [h1] at hv
  exact ⟨rfl, rfl, rfl, r, h1, h2, Option.some.inj hv, (h4 (Or.inr rfl)).trans (by decide)⟩

set_option maxRecDepth 100000 in
/-- Claim C27, counterexample.  Both managers are in state IKE_ESTABLISHED with no
active task.  With request 4 in flight, `initiate` activates nothing although a
DPD task is queued and due (lines 945-956).  With no exchange in flight and a
child-delete task whose `build` sets the exchange type to
EXCHANGE_TYPE_UNDEFINED, one call of `initiate` activates two queued tasks, the
child-delete task and then the DPD task (line 1158). -/
theorem established_activation_priority_counterexample :
    ({} : env_t).state = ike_sa_state_t.IKE_ESTABLISHED ∧
    in_flight_no_active.active_tasks = [] ∧
    (∃ r, initiate 1 {} in_flight_no_active = some r ∧
      r.status = status_t.SUCCESS ∧
      build_calls r.effects = [] ∧
      r.this.active_tasks = [] ∧
      r.this.queued_tasks = [{ task := { type := task_type_t.TASK_IKE_DPD }, time := 0 }]) ∧
    delete_then_dpd.active_tasks = [] ∧
    delete_then_dpd.initiating_type = exchange_type_t.EXCHANGE_TYPE_UNDEFINED ∧
    (∃ r, initiate 2 {} delete_then_dpd = some r ∧
      r.status = status_t.SUCCESS ∧
      build_calls r.effects =
        [{ type := task_type_t.TASK_CHILD_DELETE, ident := 1, build := status_t.SUCCESS
           build_exchange_type := some exchange_type_t.EXCHANGE_TYPE_UNDEFINED },
         { type := task_type_t.TASK_IKE_DPD, ident := 2 }] ∧
      r.this.active_tasks = [{ type := task_type_t.TASK_IKE_DPD, ident := 2 }] ∧
      r.this.queued_tasks = []) :=
  ⟨rfl, rfl, ⟨_, rfl, rfl, rfl, rfl, rfl⟩, rfl, rfl, ⟨_, rfl, rfl, rfl, rfl, rfl⟩⟩

end TaskManagerV2
